import Mathlib

/-!
# Clean 3d 1.0: rendering and device-lifecycle subsystem

A shallow embedding of `Main.cpp` (the D3D12 renderer, its recovery controller,
the desktop capture pipeline and the render loop), and of the declaration of the
configuration block in `Source.cpp`.

Conventions of the embedding.

* A COM pointer member is a `Bool`: `true` when the pointer is non-null.
  A creation call that fails leaves its out-pointer null.
* Every call into the platform (DXGI, D3D11, D3D12, the file system) gets its
  result from an environment record passed to the operation, so a statement
  quantified over the environment covers every behaviour of the platform.
* `CHECK_HR` and `throw ToolException` become the outcome `Outcome.threw`; the
  state reached when the exception leaves the function is kept.
* Use of a null pointer or of a per-slot array outside its bounds has no defined
  behaviour in the source; the embedding stops such an operation with
  `Outcome.fault`.
* `UINT` arithmetic is reduced modulo `2 ^ 32`, `size_t` and `UINT64`
  arithmetic modulo `2 ^ 64`.  The `int` counter `m_recoveryCount` only ever
  grows by one per `RecoverDevice` call and is kept as a natural number
  (overflowing it would take `2 ^ 31` recovery calls in one session, and the
  source language leaves that increment undefined).
* The calls and log lines an operation makes are appended to `trace`.
-/

namespace Main

/-! ## Constants and the configuration block -/

/-- The source constant `FRAME_COUNT`. -/
def FRAME_COUNT : Nat := 3

/-- The source constant `MAX_RECOVERY_ATTEMPTS`. -/
def MAX_RECOVERY_ATTEMPTS : Nat := 3

/-- Size of the `UINT` range. -/
def UINT_SIZE : Nat := 2 ^ 32

/-- Size of the `size_t` / `UINT64` range (64-bit build). -/
def SIZE_T_SIZE : Nat := 2 ^ 64

/-- The struct `IllusionConfig`, in the declared field order.  A `float` field
holds its binary32 bit pattern, a `uint8_t` its value, `processing_quality`
its `int32_t` value, `padding` the 41 filler bytes. -/
structure IllusionConfig where
  depth_intensity : Nat
  parallax_strength : Nat
  alpha : Nat
  edge_depth_influence : Nat
  color_separation : Nat
  perspective_strength : Nat
  enable_gpu : Nat
  processing_quality : Int
  enable_chromatic : Nat
  enable_parallax : Nat
  enable_dof : Nat
  time : Nat
  occlusion_strength : Nat
  wiggle_frequency : Nat
  fog_density : Nat
  fog_color_r : Nat
  fog_color_g : Nat
  fog_color_b : Nat
  fog_scatter : Nat
  fog_anisotropy : Nat
  fog_height_falloff : Nat
  temporal_blend : Nat
  outline_width : Nat
  outline_intensity : Nat
  enable_parallax_barrier : Nat
  enable_lenticular : Nat
  enable_volumetric_fog : Nat
  padding : List Nat
  deriving DecidableEq, Repr

/-- The constant `defaultConfig`; the comments give the literal of the source
behind each bit pattern. -/
def defaultConfig : IllusionConfig where
  depth_intensity := 0x44960000        -- 1200.0f
  parallax_strength := 0x449d8000      -- 1260.0f
  alpha := 0x3f733333                  -- 0.95f
  edge_depth_influence := 0x447a0000   -- 1000.0f
  color_separation := 0x41400000       -- 12.0f
  perspective_strength := 0x43200000   -- 160.0f
  enable_gpu := 1
  processing_quality := 3
  enable_chromatic := 1
  enable_parallax := 1
  enable_dof := 1
  time := 0x3c83126f                   -- 0.016f
  occlusion_strength := 0x3f400000     -- 0.75f
  wiggle_frequency := 0x41400000       -- 12.0f
  fog_density := 0x42c80a3d            -- 100.02f
  fog_color_r := 0x3f19999a            -- 0.6f
  fog_color_g := 0x3f266666            -- 0.65f
  fog_color_b := 0x3f333333            -- 0.7f
  fog_scatter := 0x3f000000            -- 0.5f
  fog_anisotropy := 0x447a0000         -- 1000.0f
  fog_height_falloff := 0x3f800000     -- 1.0f
  temporal_blend := 0x3f666666         -- 0.9f
  outline_width := 0x4003d70a          -- 2.06f
  outline_intensity := 0x447a3666      -- 1000.85f
  enable_parallax_barrier := 1
  enable_lenticular := 1
  enable_volumetric_fog := 1
  padding := List.replicate 41 0

/-! ## Outcomes and the trace -/

/-- How a call of a renderer operation ends: it returns a `bool`, a
`ToolException` with the given message leaves it, or it runs into undefined
behaviour. -/
inductive Outcome where
  | ret (b : Bool)
  | threw (msg : String)
  | fault
  deriving DecidableEq, Repr

/-- Whether a `ToolException` left the call. -/
def Outcome.isThrew : Outcome → Bool
  | Outcome.threw _ => true
  | _ => false

/-- The message `e.what()` of the exception that left the call. -/
def Outcome.what : Outcome → String
  | Outcome.threw msg => msg
  | _ => ""

/-- The two clear colours of the source: `{0.2, 0.3, 0.4, 1}` of `Render` and
`{0.5, 0, 0, 1}` of `RenderFallback`. -/
inductive ClearColor where
  | effects
  | solidFallback
  deriving DecidableEq, Repr

/-- The pointer members of `D3D12Renderer`, in the order of their declaration;
the per-slot arrays are indexed by the slot. -/
inductive Handle where
  | m_hwnd
  | m_device
  | m_commandQueue
  | m_swapChain
  | m_rtvHeap
  | m_srvHeap
  | m_samplerHeap
  | m_renderTargets (i : Nat)
  | m_commandAllocators (i : Nat)
  | m_commandList
  | m_screenTexture
  | m_depthTexture
  | m_constantBuffers (i : Nat)
  | m_mappedConstantData (i : Nat)
  | m_vertexBuffer
  | m_d3d11Duplication
  | m_d3d11StagingTexture
  | m_d3d12UploadBuffer
  | m_rootSignature
  | m_computePso
  | m_graphicsPso
  | m_disparityTexture
  | m_computeRootSignature
  | m_fence
  | m_fenceEvent
  | m_adapter
  | m_factory
  | m_d3d11Device
  | m_d3d11Context
  deriving DecidableEq, Repr

/-- The resource states named by the transitions of the compute block of
`Render`. -/
inductive ResourceState where
  | COMMON
  | UNORDERED_ACCESS
  | PIXEL_SHADER_RESOURCE
  deriving DecidableEq, Repr

/-- The calls recorded on the trace: calls of `Log` with their message, calls
of the two renderer methods `Cleanup` and `CreateDeviceAndResources`, platform
calls, and the commands the compute block of `Render` records on the command
list (the pointer members they are passed are named by their handles). -/
inductive Event where
  | Log (msg : String)
  | Cleanup (preserveEssentials : Bool)
  | CreateDeviceAndResources
  | WaitForGPU
  | AcquireNextFrame
  | ReleaseFrame
  | CopyResource
  | UpdateSubresources
  | Dispatch (threadsX threadsY : Nat)
  | ClearRenderTargetView (c : ClearColor)
  | DrawInstanced
  | ExecuteCommandLists
  | Present
  | ResourceBarrier (resource : Handle) (before after : ResourceState)
  | SetPipelineState (pso : Handle)
  | SetComputeRootSignature (sig : Handle)
  | SetGraphicsRootSignature (sig : Handle)
  | SetDescriptorHeaps
  | SetComputeRootDescriptorTable (slot : Nat)
  | SetGraphicsRootConstantBufferView (slot : Nat) (buffer : Handle)
  | SetGraphicsRootDescriptorTable (slot : Nat)
  deriving DecidableEq, Repr

/-- The work of the capture and effects pipeline: the upload of a frame into
the capture texture, the compute dispatch, and the effects draw. -/
def Event.isPipelineWork : Event → Bool
  | Event.UpdateSubresources => true
  | Event.Dispatch _ _ => true
  | Event.DrawInstanced => true
  | _ => false

/-- The function `Log` (Main.cpp 51-57) on the lines written so far: the
message goes to the log file and to the debugger only while the global
`enableLogging` is set. -/
def Log (enableLogging : Bool) (written : List String) (msg : String) : List String :=
  if enableLogging then written ++ [msg] else written

/-- The message of a recorded call of `Log`. -/
def Event.message : Event → Option String
  | Event.Log msg => some msg
  | _ => none

/-- The lines written by the calls of `Log` recorded on a trace, after the
lines `written`.  `enableLogging j` is the value the global `enableLogging`
has when the call of `Log` number `j` is made, numbered from `k` for the first
call on the trace: the global starts as true and `ToggleLogging` (Main.cpp
1172-1175), run by the window procedure, flips it while the render thread
logs. -/
def logFile (enableLogging : Nat → Bool) : List Event → Nat → List String → List String
  | [], _, written => written
  | ev :: rest, k, written =>
    match ev.message with
    | some msg => logFile enableLogging rest (k + 1) (Log (enableLogging k) written msg)
    | none => logFile enableLogging rest k written

/-! ## The renderer state -/

/-- Results of the platform calls `WaitForGPU` makes for one fence value:
`m_commandQueue->Signal`, whether `m_fence->GetCompletedValue()` already
reports the value, and `m_fence->SetEventOnCompletion`. -/
structure FenceEnv where
  signal : Bool
  completed : Bool
  setEventOnCompletion : Bool
  deriving DecidableEq, Repr

/-- Whether a call of `WaitForGPU` with these results returns with the fence
value reached: `Signal` succeeded, and either the value was already completed
or `SetEventOnCompletion` succeeded, so that `WaitForSingleObject` was
called. -/
def FenceEnv.reached (r : FenceEnv) : Bool :=
  r.signal && (r.completed || r.setEventOnCompletion)

/-- What a call of `WaitForGPU` that gets to `Signal` records: the log line of
the call that failed, or that the fence value was reached. -/
def FenceEnv.record (r : FenceEnv) : Event :=
  if !r.signal then Event.Log "Signal fence failed\n"
  else if r.completed then Event.WaitForGPU
  else if !r.setEventOnCompletion then Event.Log "SetEventOnCompletion failed\n"
  else Event.WaitForGPU

/-- A queue and fence that accept every call; the signalled value is not yet
completed, so the method waits for it. -/
def gpuResponds : FenceEnv where
  signal := true
  completed := false
  setEventOnCompletion := true

/-- The state of a `D3D12Renderer`: `ptr h` tells whether the pointer member
`h` is non-null; the other members follow, then the process globals the
renderer reads and writes (`config`, `SCREEN_WIDTH`, `SCREEN_HEIGHT`), the
contents of the mapped buffers, the results the platform gives to the fence
calls of `WaitForGPU`, and the trace. -/
structure D3D12Renderer where
  ptr : Handle → Bool
  /-- Enumeration index of the adapter `m_adapter` points to. -/
  selectedAdapter : Nat
  m_constantBufferSize : Nat
  m_frameIndex : Nat
  m_fenceValue : Nat
  m_rtvDescriptorSize : Nat
  m_featureLevel : Nat
  m_time : Nat
  m_recoveryCount : Nat
  m_fallbackMode : Bool
  /-- The global `config`. -/
  config : IllusionConfig
  /-- The global `SCREEN_WIDTH`. -/
  SCREEN_WIDTH : Nat
  /-- The global `SCREEN_HEIGHT`. -/
  SCREEN_HEIGHT : Nat
  /-- Byte width of the upload buffer, as passed to its creation call. -/
  uploadBufferWidth : Nat
  /-- Bytes of the mapped upload buffer. -/
  uploadData : Nat → Nat
  /-- Bytes last uploaded into the capture texture `m_screenTexture`. -/
  screenTextureData : Nat → Nat
  /-- What each slot's persistently mapped constant buffer region holds. -/
  mappedConstants : Nat → IllusionConfig
  /-- Results of the fence calls `WaitForGPU` makes when it signals the fence
  value `v`; the method takes them from here because `Cleanup`, which calls it,
  is passed no platform results. -/
  fenceCalls : Nat → FenceEnv
  trace : List Event

namespace D3D12Renderer

/-- Assignment to `ptr`. -/
@[irreducible]
def put_ptr (s : D3D12Renderer) (v : Handle → Bool) : D3D12Renderer :=
  { s with ptr := v }

/-- Assignment to `selectedAdapter`. -/
@[irreducible]
def put_selectedAdapter (s : D3D12Renderer) (v : Nat) : D3D12Renderer :=
  { s with selectedAdapter := v }

/-- Assignment to `m_constantBufferSize`. -/
@[irreducible]
def put_m_constantBufferSize (s : D3D12Renderer) (v : Nat) : D3D12Renderer :=
  { s with m_constantBufferSize := v }

/-- Assignment to `m_frameIndex`. -/
@[irreducible]
def put_m_frameIndex (s : D3D12Renderer) (v : Nat) : D3D12Renderer :=
  { s with m_frameIndex := v }

/-- Assignment to `m_fenceValue`. -/
@[irreducible]
def put_m_fenceValue (s : D3D12Renderer) (v : Nat) : D3D12Renderer :=
  { s with m_fenceValue := v }

/-- Assignment to `m_rtvDescriptorSize`. -/
@[irreducible]
def put_m_rtvDescriptorSize (s : D3D12Renderer) (v : Nat) : D3D12Renderer :=
  { s with m_rtvDescriptorSize := v }

/-- Assignment to `m_featureLevel`. -/
@[irreducible]
def put_m_featureLevel (s : D3D12Renderer) (v : Nat) : D3D12Renderer :=
  { s with m_featureLevel := v }

/-- Assignment to `m_time`. -/
@[irreducible]
def put_m_time (s : D3D12Renderer) (v : Nat) : D3D12Renderer :=
  { s with m_time := v }

/-- Assignment to `m_recoveryCount`. -/
@[irreducible]
def put_m_recoveryCount (s : D3D12Renderer) (v : Nat) : D3D12Renderer :=
  { s with m_recoveryCount := v }

/-- Assignment to `m_fallbackMode`. -/
@[irreducible]
def put_m_fallbackMode (s : D3D12Renderer) (v : Bool) : D3D12Renderer :=
  { s with m_fallbackMode := v }

/-- Assignment to `config`. -/
@[irreducible]
def put_config (s : D3D12Renderer) (v : IllusionConfig) : D3D12Renderer :=
  { s with config := v }

/-- Assignment to `SCREEN_WIDTH`. -/
@[irreducible]
def put_SCREEN_WIDTH (s : D3D12Renderer) (v : Nat) : D3D12Renderer :=
  { s with SCREEN_WIDTH := v }

/-- Assignment to `SCREEN_HEIGHT`. -/
@[irreducible]
def put_SCREEN_HEIGHT (s : D3D12Renderer) (v : Nat) : D3D12Renderer :=
  { s with SCREEN_HEIGHT := v }

/-- Assignment to `uploadBufferWidth`. -/
@[irreducible]
def put_uploadBufferWidth (s : D3D12Renderer) (v : Nat) : D3D12Renderer :=
  { s with uploadBufferWidth := v }

/-- Assignment to `uploadData`. -/
@[irreducible]
def put_uploadData (s : D3D12Renderer) (v : Nat → Nat) : D3D12Renderer :=
  { s with uploadData := v }

/-- Assignment to `screenTextureData`. -/
@[irreducible]
def put_screenTextureData (s : D3D12Renderer) (v : Nat → Nat) : D3D12Renderer :=
  { s with screenTextureData := v }

/-- Assignment to `mappedConstants`. -/
@[irreducible]
def put_mappedConstants (s : D3D12Renderer) (v : Nat → IllusionConfig) : D3D12Renderer :=
  { s with mappedConstants := v }

/-- The renderer on a platform whose fence calls have the results `v`. -/
@[irreducible]
def put_fenceCalls (s : D3D12Renderer) (v : Nat → FenceEnv) : D3D12Renderer :=
  { s with fenceCalls := v }

/-- Assignment to the pointer member `h`: `b` tells whether the new value is
non-null. -/
@[irreducible]
def set (s : D3D12Renderer) (h : Handle) (b : Bool) : D3D12Renderer :=
  { s with ptr := fun k => if k = h then b else s.ptr k }

/-- Appends a recorded call to the trace. -/
@[irreducible]
def emit (s : D3D12Renderer) (ev : Event) : D3D12Renderer :=
  { s with trace := s.trace ++ [ev] }

/-- The call `Log(msg)`, recorded on the trace.  Whether the call writes the
line is decided inside `Log` by the global `enableLogging`; `logFile` gives the
lines written by the recorded calls. -/
@[irreducible]
def log (s : D3D12Renderer) (msg : String) : D3D12Renderer :=
  s.emit (Event.Log msg)

/-- Appends recorded calls to the trace, in order. -/
@[irreducible]
def emitAll (s : D3D12Renderer) (evs : List Event) : D3D12Renderer :=
  { s with trace := s.trace ++ evs }

/-- The state the constructor leaves.  It initialises every member except
`m_disparityTexture` and `m_computeRootSignature`; each argument tells whether
the indeterminate value of the member happens to be non-null.  Such a value
points to no resource: nothing in the program creates `m_disparityTexture`,
and `m_computeRootSignature` is created only by `createComputePipeline`.  The
operations follow the null tests of the source on these members and do not
flag the use of a non-null indeterminate value, so statements about the
compute pass are made from `ctor false c`.  The globals start at their static
initialisers.  The platform is one whose queue and fence accept every call
(`gpuResponds`); `put_fenceCalls` gives the renderer another one. -/
def ctor (disparityTexture computeRootSignature : Bool) : D3D12Renderer where
  ptr := fun h =>
    match h with
    | Handle.m_disparityTexture => disparityTexture
    | Handle.m_computeRootSignature => computeRootSignature
    | _ => false
  selectedAdapter := 0
  m_constantBufferSize := 0
  m_frameIndex := 0
  m_fenceValue := 0
  m_rtvDescriptorSize := 0
  m_featureLevel := 1
  m_time := 0
  m_recoveryCount := 0
  m_fallbackMode := false
  config := defaultConfig
  SCREEN_WIDTH := 4096
  SCREEN_HEIGHT := 2160
  uploadBufferWidth := 0
  uploadData := fun _ => 0
  screenTextureData := fun _ => 0
  mappedConstants := fun _ => defaultConfig
  fenceCalls := fun _ => gpuResponds
  trace := []

/-- The recovery state (attempt counter and fallback flag) together with the
shared configuration. -/
def control (s : D3D12Renderer) : Nat × Bool × IllusionConfig :=
  (s.m_recoveryCount, s.m_fallbackMode, s.config)

/-- Number of calls of `CreateDeviceAndResources` recorded on the trace. -/
def attempts (s : D3D12Renderer) : Nat :=
  s.trace.count Event.CreateDeviceAndResources

/-- Number of uploads, dispatches and effects draws recorded on the trace. -/
def pipelineWork (s : D3D12Renderer) : Nat :=
  s.trace.countP Event.isPipelineWork

/-- How an operation may move the recovery state from `s` to `t`: the attempt
counter does not decrease, a set fallback flag stays set, a counter above
`MAX_RECOVERY_ATTEMPTS` comes with the flag set, and every recorded call of
`CreateDeviceAndResources` is paid for by one of the `MAX_RECOVERY_ATTEMPTS`
increments the counter has left. -/
def Progress (s t : D3D12Renderer) : Prop :=
  s.m_recoveryCount ≤ t.m_recoveryCount ∧
  (s.m_fallbackMode = true → t.m_fallbackMode = true) ∧
  (s.m_recoveryCount ≤ 3 ∨ s.m_fallbackMode = true →
    t.m_recoveryCount ≤ 3 ∨ t.m_fallbackMode = true) ∧
  t.attempts + (3 - t.m_recoveryCount) ≤ s.attempts + (3 - s.m_recoveryCount)

end D3D12Renderer

/-- The macro `CHECK_HR` on a failed result: the message is logged by the
macro and again by the constructor of the exception it throws. -/
def throwHR (s : D3D12Renderer) (msg : String) : Outcome × D3D12Renderer :=
  (Outcome.threw msg, (s.log msg).log msg)

/-- The statement `throw ToolException(msg)`: the constructor logs the message. -/
def throwTool (s : D3D12Renderer) (msg : String) : Outcome × D3D12Renderer :=
  (Outcome.threw msg, s.log msg)

/-- The method `WaitForGPU`: without queue, fence or event it returns at once;
otherwise it signals the next fence value and returns after logging when
`Signal` fails; when the fence has not yet completed the value it sets the
event, returns after logging when that fails, and waits on the event.
`Event.WaitForGPU` records that the method returns with the fence value
reached: `GetCompletedValue` reported it or `WaitForSingleObject` returned. -/
@[irreducible]
def WaitForGPU (s0 : D3D12Renderer) : D3D12Renderer :=
  if !s0.ptr Handle.m_commandQueue || !s0.ptr Handle.m_fence || !s0.ptr Handle.m_fenceEvent
  then s0
  else
  let s := s0.put_m_fenceValue ((s0.m_fenceValue + 1) % SIZE_T_SIZE)
  if !(s.fenceCalls s.m_fenceValue).signal then s.log "Signal fence failed\n"
  else if (s.fenceCalls s.m_fenceValue).completed then s.emit Event.WaitForGPU
  else if !(s.fenceCalls s.m_fenceValue).setEventOnCompletion then
    s.log "SetEventOnCompletion failed\n"
  else s.emit Event.WaitForGPU

/-- The pointer members after the release sequence of `Cleanup`: the per-slot
loop runs over the `FRAME_COUNT` slots and clears a mapped pointer only where
the constant buffer exists; `m_d3d11Device` and `m_d3d11Context` are not
released; adapter, factory and window handle are released unless
`preserveEssentials` is set. -/
def cleanupPtr (preserveEssentials : Bool) (ptr : Handle → Bool) : Handle → Bool :=
  fun h =>
    match h with
    | Handle.m_renderTargets i => if i < FRAME_COUNT then false else ptr h
    | Handle.m_commandAllocators i => if i < FRAME_COUNT then false else ptr h
    | Handle.m_constantBuffers i => if i < FRAME_COUNT then false else ptr h
    | Handle.m_mappedConstantData i =>
      if i < FRAME_COUNT then (if ptr (Handle.m_constantBuffers i) then false else ptr h)
      else ptr h
    | Handle.m_d3d11Device => ptr h
    | Handle.m_d3d11Context => ptr h
    | Handle.m_adapter => if preserveEssentials then ptr h else false
    | Handle.m_factory => if preserveEssentials then ptr h else false
    | Handle.m_hwnd => if preserveEssentials then ptr h else false
    | _ => false

/-- The method `Cleanup(preserveEssentials)`. -/
@[irreducible]
def Cleanup (preserveEssentials : Bool) (s0 : D3D12Renderer) : D3D12Renderer :=
  let s := s0.emit (Event.Cleanup preserveEssentials)
  let s := if s.ptr Handle.m_commandQueue && s.ptr Handle.m_fence then WaitForGPU s else s
  let s := s.put_ptr (cleanupPtr preserveEssentials s.ptr)
  s.log "Cleanup completed\n"

/-- The method `ValidateResources`. -/
def ValidateResources (s : D3D12Renderer) : Bool :=
  s.ptr Handle.m_device && s.ptr Handle.m_swapChain && s.ptr Handle.m_commandQueue &&
    s.ptr Handle.m_commandList && s.ptr Handle.m_graphicsPso && s.ptr Handle.m_srvHeap &&
    s.ptr Handle.m_samplerHeap && s.ptr Handle.m_vertexBuffer && s.ptr Handle.m_rtvHeap &&
    s.ptr Handle.m_screenTexture && s.ptr (Handle.m_constantBuffers 0)

/-- The state after `ValidateResources`, which logs when validation fails. -/
@[irreducible]
def afterValidate (s : D3D12Renderer) : D3D12Renderer :=
  if ValidateResources s then s else s.log "Resource validation failed\n"

/-! ## Device and resource creation -/

/-- Results of the platform calls of `CreateResources`, in the order of the
source.  `duplWidth` and `duplHeight` are the mode size reported by the
duplication interface. -/
structure ResourcesEnv where
  createScreenTexture : Bool
  d3d11CreateDevice : Bool
  createDXGIFactory1 : Bool
  /-- `EnumAdapters(0, &adapter)` stored an adapter. -/
  enumAdapters : Bool
  /-- `EnumOutputs(0, &output)` stored an output. -/
  enumOutputs : Bool
  /-- `QueryInterface` succeeded and stored an `IDXGIOutput1`. -/
  queryOutput1 : Bool
  createUploadBuffer : Bool
  mapUploadBuffer : Bool
  resetCommandList : Bool
  closeCommandList : Bool
  duplicateOutput : Bool
  duplWidth : Nat
  duplHeight : Nat
  createStagingTexture : Bool
  createConstantBuffer : Nat → Bool
  mapConstantBuffer : Nat → Bool
  createVertexBuffer : Bool
  mapVertexBuffer : Bool

/-- Results of the platform calls of `CreatePipelines`, in the order of the
source. -/
structure PipelinesEnv where
  serializeRootSignature : Bool
  createRootSignature : Bool
  serializeComputeRootSignature : Bool
  createComputeRootSignature : Bool
  readFogCompute : Bool
  compileFogCompute : Bool
  createComputePipelineState : Bool
  readVertexShader : Bool
  readPixelShader : Bool
  compileVertexShader : Bool
  compilePixelShader : Bool
  createGraphicsPipelineState : Bool

/-- Results of the platform calls of `CreateDeviceAndResources`.
`createDevice` lists the result of `D3D12CreateDevice` at the four candidate
feature levels 12_1, 12_0, 11_1, 11_0. -/
structure CreateEnv where
  createDevice : List Bool
  createCommandQueue : Bool
  createSwapChainForHwnd : Bool
  swapChainQueryInterface : Bool
  createRtvHeap : Bool
  createSrvHeap : Bool
  createSamplerHeap : Bool
  rtvDescriptorSize : Nat
  getBuffer : Nat → Bool
  createCommandAllocator : Nat → Bool
  createCommandList : Bool
  closeCommandList : Bool
  createFence : Bool
  createEvent : Bool
  resources : ResourcesEnv
  pipelines : PipelinesEnv

/-- Stores the 32-bit value `v` at index `k` of a `uint32_t` array laid over
the byte memory `data` (little endian). -/
def writeU32 (data : Nat → Nat) (k v : Nat) : Nat → Nat :=
  fun a => if 4 * k ≤ a ∧ a < 4 * k + 4 then (v / 256 ^ (a - 4 * k)) % 256 else data a

/-- The method `CreateCheckerboardPattern` on the mapped upload buffer. -/
@[irreducible]
def CreateCheckerboardPattern (width height : Nat) (data : Nat → Nat) : Nat → Nat :=
  (List.range height).foldl
    (fun d y => (List.range width).foldl
      (fun d x =>
        let isWhiteSquare := decide ((x / 32 + y / 32) % UINT_SIZE % 2 = 0)
        writeU32 d ((y * width + x) % UINT_SIZE)
          (if isWhiteSquare then 0xFFFFFFFF else 0xFF808080))
      d)
    data

/-- The loop of `CreateDeviceAndResources` that fetches the swap chain
buffers; `n` iterations are left and `i` is the loop variable. -/
@[irreducible]
def getSwapChainBuffers (e : CreateEnv) : (n i : Nat) → D3D12Renderer → Outcome × D3D12Renderer
  | 0, _, s => (Outcome.ret true, s)
  | n + 1, i, s =>
    let s := s.set (Handle.m_renderTargets i) (e.getBuffer i)
    if !e.getBuffer i then throwHR s "GetSwapChainBuffer failed"
    else getSwapChainBuffers e n (i + 1) s

/-- The loop of `CreateDeviceAndResources` that creates the command
allocators. -/
@[irreducible]
def createCommandAllocators (e : CreateEnv) : (n i : Nat) → D3D12Renderer → Outcome × D3D12Renderer
  | 0, _, s => (Outcome.ret true, s)
  | n + 1, i, s =>
    let s := s.set (Handle.m_commandAllocators i) (e.createCommandAllocator i)
    if !e.createCommandAllocator i then throwHR s "CreateCommandAllocator failed"
    else createCommandAllocators e n (i + 1) s

/-- The loop of `CreateResources` that creates, maps and fills the per-frame
constant buffers. -/
@[irreducible]
def createConstantBuffers (e : ResourcesEnv) : (n i : Nat) → D3D12Renderer → Outcome × D3D12Renderer
  | 0, _, s => (Outcome.ret true, s)
  | n + 1, i, s =>
    let s := s.set (Handle.m_constantBuffers i) (e.createConstantBuffer i)
    if !e.createConstantBuffer i then throwHR s "Create constant buffer failed"
    else
      let s := s.set (Handle.m_mappedConstantData i) (e.mapConstantBuffer i)
      if !e.mapConstantBuffer i then throwHR s "Map constant buffer failed"
      else
        let s := s.put_mappedConstants fun k => if k = i then s.config else s.mappedConstants k
        createConstantBuffers e n (i + 1) s

/-- The expression `(n + 255) & ~255ULL` in 64-bit unsigned arithmetic; the
mask `~255ULL` has every bit set except the low eight. -/
def alignUp256 (n : Nat) : Nat :=
  ((n + 255) % SIZE_T_SIZE) &&& (SIZE_T_SIZE - 1 - 255)

/-- The tail of `CreateResources` shared by both capture branches: views,
sampler, constant buffers and the vertex buffer.  `sizeof(IllusionConfig)` is
written as its value 128, which `packedSize_fields` derives from the
declaration of the structure. -/
@[irreducible]
def createResourcesTail (e : ResourcesEnv) (s : D3D12Renderer) : Outcome × D3D12Renderer :=
  let s := s.put_m_constantBufferSize (alignUp256 128)
  let r := createConstantBuffers e FRAME_COUNT 0 s
  if r.1 ≠ Outcome.ret true then r else
  let s := r.2.set Handle.m_vertexBuffer e.createVertexBuffer
  if !e.createVertexBuffer then throwHR s "Create vertex buffer failed"
  else if !e.mapVertexBuffer then throwHR s "Map vertex buffer failed"
  else (Outcome.ret true, s.log "Resources created successfully\n")

/-- The method `CreateResources`. -/
@[irreducible]
def CreateResources (e : ResourcesEnv) (s : D3D12Renderer) : Outcome × D3D12Renderer :=
  if !s.ptr Handle.m_device then (Outcome.ret false, s) else
  let s := s.log "Creating resources...\n"
  let s := s.set Handle.m_screenTexture e.createScreenTexture
  if !e.createScreenTexture then throwHR s "Create screen texture failed" else
  let s := s.set Handle.m_d3d11Device e.d3d11CreateDevice
  let s := s.set Handle.m_d3d11Context e.d3d11CreateDevice
  if !e.d3d11CreateDevice then
    (Outcome.ret false, s.log "Failed to create D3D11 device for desktop duplication\n") else
  if !e.createDXGIFactory1 then throwHR s "CreateDXGIFactory1 failed for D3D11" else
  -- `adapter->EnumOutputs` and `output->QueryInterface` are not guarded
  if !e.enumAdapters then (Outcome.fault, s) else
  if !e.enumOutputs then (Outcome.fault, s) else
  if !e.queryOutput1 then
    let s := s.log "Failed to get IDXGIOutput1, using fallback checkerboard\n"
    let s := s.set Handle.m_d3d12UploadBuffer e.createUploadBuffer
    let s := s.put_uploadBufferWidth
      (if e.createUploadBuffer then s.SCREEN_WIDTH * s.SCREEN_HEIGHT * 4 % UINT_SIZE
        else s.uploadBufferWidth)
    if !e.createUploadBuffer then throwHR s "Create upload buffer failed" else
    if !e.mapUploadBuffer then throwHR s "Map upload buffer failed" else
    let s := s.put_uploadData
      (CreateCheckerboardPattern s.SCREEN_WIDTH s.SCREEN_HEIGHT s.uploadData)
    if !e.resetCommandList then throwHR s "Reset command list failed" else
    let s := (s.emit Event.UpdateSubresources).put_screenTextureData s.uploadData
    if !e.closeCommandList then throwHR s "Close command list failed" else
    let s := WaitForGPU (s.emit Event.ExecuteCommandLists)
    createResourcesTail e s
  else
    let s := s.set Handle.m_d3d11Duplication e.duplicateOutput
    let s := if !e.duplicateOutput then
        s.log "DuplicateOutput failed, falling back to checkerboard\n"
      else (s.put_SCREEN_WIDTH (e.duplWidth % UINT_SIZE)).put_SCREEN_HEIGHT
        (e.duplHeight % UINT_SIZE)
    let s := s.set Handle.m_d3d11StagingTexture e.createStagingTexture
    if !e.createStagingTexture then throwHR s "Create D3D11 staging texture failed" else
    let s := s.set Handle.m_d3d12UploadBuffer e.createUploadBuffer
    let s := s.put_uploadBufferWidth
      (if e.createUploadBuffer then s.SCREEN_WIDTH * s.SCREEN_HEIGHT * 4 % UINT_SIZE
        else s.uploadBufferWidth)
    if !e.createUploadBuffer then throwHR s "Create D3D12 upload buffer failed" else
    createResourcesTail e s

/-- The block of `CreatePipelines` that loads and compiles the optional compute
kernel `FogCompute.hlsl` and creates the compute pipeline. -/
@[irreducible]
def createComputePipeline (e : PipelinesEnv) (s : D3D12Renderer) : Outcome × D3D12Renderer :=
  let s := s.log "Loading FogCompute.hlsl...\n"
  if !e.readFogCompute then
    (Outcome.ret true, s.log "Failed to load FogCompute.hlsl, compute fog disabled\n")
  else if !e.compileFogCompute then (Outcome.ret true, s)
  else
    let s := s.set Handle.m_computePso e.createComputePipelineState
    if !e.createComputePipelineState then throwHR s "CreateComputePipelineState failed"
    else (Outcome.ret true, s)

/-- The method `CreatePipelines`.  Log lines that print the text of a compiler
error blob are left out. -/
@[irreducible]
def CreatePipelines (e : PipelinesEnv) (s : D3D12Renderer) : Outcome × D3D12Renderer :=
  if !s.ptr Handle.m_device then (Outcome.ret false, s) else
  let s := s.log "Creating pipelines...\n"
  if !e.serializeRootSignature then (Outcome.ret false, s) else
  let s := s.set Handle.m_rootSignature e.createRootSignature
  if !e.createRootSignature then throwHR s "CreateRootSignature failed" else
  if !e.serializeComputeRootSignature then (Outcome.ret false, s) else
  let s := s.set Handle.m_computeRootSignature e.createComputeRootSignature
  if !e.createComputeRootSignature then throwHR s "Create compute root signature failed" else
  let r := createComputePipeline e s
  if r.1 ≠ Outcome.ret true then r else
  let s := r.2.log "Loading VertexShader.hlsl...\n"
  if !e.readVertexShader then
    (Outcome.ret false, s.log "Failed to load VertexShader.hlsl (HR: 0x%08X)\n") else
  let s := s.log "VertexShader.hlsl loaded successfully\n"
  let s := s.log "Loading PixelShader.hlsl...\n"
  if !e.readPixelShader then
    (Outcome.ret false, s.log "Failed to load PixelShader.hlsl (HR: 0x%08X)\n") else
  let s := s.log "PixelShader.hlsl loaded successfully\n"
  if !e.compileVertexShader then (Outcome.ret false, s) else
  if !e.compilePixelShader then (Outcome.ret false, s) else
  let s := s.log "PSO Descriptor Values:\n"
  let s := s.log "Creating Graphics PSO...\n"
  let s := s.set Handle.m_graphicsPso e.createGraphicsPipelineState
  if !e.createGraphicsPipelineState then throwHR s "CreateGraphicsPipelineState failed" else
  (Outcome.ret true, s.log "Pipelines created successfully\n")

/-- The method `CreateDeviceAndResources`. -/
@[irreducible]
def CreateDeviceAndResources (e : CreateEnv) (s0 : D3D12Renderer) : Outcome × D3D12Renderer :=
  let s := s0.emit Event.CreateDeviceAndResources
  let level := (e.createDevice.take 4).indexOf true
  let s := if level < (e.createDevice.take 4).length then
      ((s.put_m_featureLevel level).set Handle.m_device true).log
        "Created device with feature level %d.%d\n"
    else s.set Handle.m_device false
  if !s.ptr Handle.m_device then throwTool s "Failed to create D3D12 device" else
  let s := s.set Handle.m_commandQueue e.createCommandQueue
  if !e.createCommandQueue then throwHR s "CreateCommandQueue failed" else
  if !e.createSwapChainForHwnd then throwHR s "CreateSwapChainForHwnd failed" else
  let s := s.set Handle.m_swapChain e.swapChainQueryInterface
  if !e.swapChainQueryInterface then throwHR s "SwapChain QueryInterface failed" else
  let s := s.set Handle.m_rtvHeap e.createRtvHeap
  if !e.createRtvHeap then throwHR s "Create RTV Heap failed" else
  let s := s.set Handle.m_srvHeap e.createSrvHeap
  if !e.createSrvHeap then throwHR s "Create SRV Heap failed" else
  let s := s.set Handle.m_samplerHeap e.createSamplerHeap
  if !e.createSamplerHeap then throwHR s "Create Sampler Heap failed" else
  let s := s.put_m_rtvDescriptorSize (e.rtvDescriptorSize % UINT_SIZE)
  let r := getSwapChainBuffers e FRAME_COUNT 0 s
  if r.1 ≠ Outcome.ret true then r else
  let r := createCommandAllocators e FRAME_COUNT 0 r.2
  if r.1 ≠ Outcome.ret true then r else
  let s := r.2.set Handle.m_commandList e.createCommandList
  if !e.createCommandList then throwHR s "CreateCommandList failed" else
  if !e.closeCommandList then throwHR s "Close initial CommandList failed" else
  let s := s.set Handle.m_fence e.createFence
  if !e.createFence then throwHR s "CreateFence failed" else
  let s := s.set Handle.m_fenceEvent e.createEvent
  if !e.createEvent then throwTool s "Fence event creation failed" else
  let r := CreateResources e.resources s
  if r.1 = Outcome.ret false then
    (Outcome.ret false, r.2.log "Resource or pipeline creation failed\n")
  else if r.1 ≠ Outcome.ret true then r else
  let r := CreatePipelines e.pipelines r.2
  if r.1 = Outcome.ret false then
    (Outcome.ret false, r.2.log "Resource or pipeline creation failed\n")
  else if r.1 ≠ Outcome.ret true then r else
  (Outcome.ret true, r.2.log "Device and resources created successfully\n")

/-! ## Recovery controller -/

/-- The method `RecoverDevice`. -/
@[irreducible]
def RecoverDevice (e : CreateEnv) (s0 : D3D12Renderer) : Outcome × D3D12Renderer :=
  let s := s0.put_m_recoveryCount (s0.m_recoveryCount + 1)
  let s := s.log "Attempting device recovery (count: %d)\n"
  if s.m_recoveryCount > MAX_RECOVERY_ATTEMPTS then
    let s := s.log "Exceeded maximum recovery attempts, switching to fallback mode\n"
    (Outcome.ret false, s.put_m_fallbackMode true)
  else
    let tempFactory := s.ptr Handle.m_factory
    let tempAdapter := s.ptr Handle.m_adapter
    let tempHwnd := s.ptr Handle.m_hwnd
    let s := (s.set Handle.m_factory false).set Handle.m_adapter false
    let s := Cleanup true s
    let s := ((s.set Handle.m_factory tempFactory).set Handle.m_adapter tempAdapter).set
      Handle.m_hwnd tempHwnd
    if !s.ptr Handle.m_factory || !s.ptr Handle.m_adapter || !s.ptr Handle.m_hwnd then
      let s := ((s.set Handle.m_factory false).set Handle.m_adapter false).set Handle.m_hwnd false
      (Outcome.ret false, s.log "Device recovery failed: Essential components missing\n")
    else
      let r := CreateDeviceAndResources e s
      if r.1 = Outcome.fault then r
      else if r.1.isThrew then
        (Outcome.ret false, r.2.log ("Recovery failed: " ++ r.1.what ++ "\n"))
      else if r.1 = Outcome.ret true then
        let s := (r.2.put_config defaultConfig).log "Device recovered, restored default config\n"
        (Outcome.ret true, s.log "Device recovered successfully\n")
      else (Outcome.ret false, r.2.log "Device recovery failed\n")

/-! ## Desktop capture -/

/-- The library function `memcpy(dst + d, src + s, n)` on byte memories. -/
def memcpy (dst : Nat → Nat) (d : Nat) (src : Nat → Nat) (s n : Nat) : Nat → Nat :=
  fun a => if d ≤ a ∧ a < d + n then src (s + (a - d)) else dst a

/-- The library function `memset(dst + d, v, n)` on a byte memory. -/
def memset (dst : Nat → Nat) (d v n : Nat) : Nat → Nat :=
  fun a => if d ≤ a ∧ a < d + n then v else dst a

/-- Offsets from `src` of the bytes a call `memcpy(dst + d, src + s, n)` reads. -/
def memcpyReads (s n : Nat) : List Nat :=
  (List.range n).map fun k => s + k

/-- Offsets from `dst` of the bytes a call `memcpy(dst + d, src + s, n)` or
`memset(dst + d, v, n)` writes. -/
def memWrites (d n : Nat) : List Nat :=
  (List.range n).map fun k => d + k

/-- The local `rowBytes = SCREEN_WIDTH * 4` of `CaptureDesktop`: the product is
formed in `UINT` and then widened. -/
def rowBytes (SCREEN_WIDTH : Nat) : Nat := SCREEN_WIDTH * 4 % UINT_SIZE

/-- Offset of the local `src` of row `y` from `mappedResource.pData`. -/
def rowSrcOffset (RowPitch y : Nat) : Nat := y * RowPitch % SIZE_T_SIZE

/-- Offset of the local `dst` of row `y` from `uploadData`. -/
def rowDstOffset (SCREEN_WIDTH y : Nat) : Nat := y * rowBytes SCREEN_WIDTH % SIZE_T_SIZE

/-- The local `copyBytes`. -/
def copyBytes (SCREEN_WIDTH RowPitch : Nat) : Nat :=
  if RowPitch < rowBytes SCREEN_WIDTH % UINT_SIZE then RowPitch else rowBytes SCREEN_WIDTH

/-- Body of the row loop of `CaptureDesktop` for row `y`: `memcpy` of
`copyBytes` bytes, then `memset` of the rest of the destination row. -/
def copyRow (SCREEN_WIDTH RowPitch : Nat) (pData : Nat → Nat) (uploadData : Nat → Nat)
    (y : Nat) : Nat → Nat :=
  let dst := memcpy uploadData (rowDstOffset SCREEN_WIDTH y) pData (rowSrcOffset RowPitch y)
    (copyBytes SCREEN_WIDTH RowPitch)
  if copyBytes SCREEN_WIDTH RowPitch < rowBytes SCREEN_WIDTH then
    memset dst (rowDstOffset SCREEN_WIDTH y + copyBytes SCREEN_WIDTH RowPitch) 0
      (rowBytes SCREEN_WIDTH - copyBytes SCREEN_WIDTH RowPitch)
  else dst

/-- Offsets from `mappedResource.pData` of the bytes the loop body reads for
row `y`: those of its `memcpy`. -/
def copyRowReads (SCREEN_WIDTH RowPitch y : Nat) : List Nat :=
  memcpyReads (rowSrcOffset RowPitch y) (copyBytes SCREEN_WIDTH RowPitch)

/-- Offsets from `uploadData` of the bytes the loop body writes for row `y`:
those of its `memcpy`, then those of its `memset` when that runs. -/
def copyRowWrites (SCREEN_WIDTH RowPitch y : Nat) : List Nat :=
  memWrites (rowDstOffset SCREEN_WIDTH y) (copyBytes SCREEN_WIDTH RowPitch) ++
    if copyBytes SCREEN_WIDTH RowPitch < rowBytes SCREEN_WIDTH then
      memWrites (rowDstOffset SCREEN_WIDTH y + copyBytes SCREEN_WIDTH RowPitch)
        (rowBytes SCREEN_WIDTH - copyBytes SCREEN_WIDTH RowPitch)
    else []

/-- The row loop of `CaptureDesktop`, `for (UINT y = 0; y < SCREEN_HEIGHT; y++)`. -/
@[irreducible]
def captureRowCopy (SCREEN_WIDTH SCREEN_HEIGHT RowPitch : Nat) (pData : Nat → Nat)
    (uploadData : Nat → Nat) : Nat → Nat :=
  (List.range SCREEN_HEIGHT).foldl (copyRow SCREEN_WIDTH RowPitch pData) uploadData

/-- Result of `AcquireNextFrame`: success, `DXGI_ERROR_WAIT_TIMEOUT`, or
another failure. -/
inductive AcquireResult where
  | ok
  | timeout
  | failed
  deriving DecidableEq, Repr

/-- Results of the platform calls of `CaptureDesktop`.  `RowPitch` and `pData`
are the mapped staging surface. -/
structure CaptureEnv where
  acquire : AcquireResult
  /-- `AcquireNextFrame` stored a desktop resource. -/
  desktopResource : Bool
  queryInterface : Bool
  mapStaging : Bool
  RowPitch : Nat
  pData : Nat → Nat
  mapUpload : Bool
  resetCommandList : Bool
  closeCommandList : Bool

/-- The method `CaptureDesktop`. -/
@[irreducible]
def CaptureDesktop (e : CaptureEnv) (s0 : D3D12Renderer) : Outcome × D3D12Renderer :=
  let s := afterValidate s0
  if !ValidateResources s0 || !s.ptr Handle.m_d3d11Duplication
      || !s.ptr Handle.m_d3d11StagingTexture || !s.ptr Handle.m_d3d12UploadBuffer then
    (Outcome.ret false, s.log "CaptureDesktop skipped due to invalid resources\n")
  else
  let s := s.log "Capturing desktop...\n"
  let s := s.emit Event.AcquireNextFrame
  if e.acquire = AcquireResult.timeout then
    (Outcome.ret false, s.log "AcquireNextFrame timed out (no new frame)\n")
  else if e.acquire ≠ AcquireResult.ok then
    (Outcome.ret false, s.log "AcquireNextFrame failed (HR: 0x%08X)\n")
  else if !e.desktopResource then
    let s := s.log "AcquireNextFrame returned no desktop resource\n"
    (Outcome.ret false, s.emit Event.ReleaseFrame)
  else if !e.queryInterface then
    let s := s.emit Event.ReleaseFrame
    (Outcome.ret false, s.log "Desktop resource QueryInterface failed\n")
  else
  let s := s.emit Event.CopyResource
  if !e.mapStaging then
    let s := s.emit Event.ReleaseFrame
    (Outcome.ret false, s.log "Map staging texture failed\n")
  else if !e.mapUpload then
    let s := s.emit Event.ReleaseFrame
    (Outcome.ret false, s.log "Map upload buffer failed\n")
  else
  let s := s.put_uploadData
    (captureRowCopy s.SCREEN_WIDTH s.SCREEN_HEIGHT (e.RowPitch % UINT_SIZE) e.pData s.uploadData)
  -- `m_commandAllocators[m_frameIndex]` is read without a bounds check
  if s.m_frameIndex ≥ FRAME_COUNT then (Outcome.fault, s)
  else if !e.resetCommandList then throwHR s "Reset command list for capture failed"
  else
  let s := (s.emit Event.UpdateSubresources).put_screenTextureData s.uploadData
  if !e.closeCommandList then throwHR s "Close command list for capture failed"
  else
  let s := WaitForGPU (s.emit Event.ExecuteCommandLists)
  let s := s.emit Event.ReleaseFrame
  (Outcome.ret true, s.log "Desktop captured successfully\n")

/-! ## The time accumulator: binary32 addition -/

/-- The sign bit of a binary32 bit pattern. -/
def f32Sign (x : Nat) : Nat := x / 2 ^ 31 % 2

/-- The biased exponent field of a binary32 bit pattern. -/
def f32Exponent (x : Nat) : Nat := x / 2 ^ 23 % 256

/-- The fraction field of a binary32 bit pattern. -/
def f32Fraction (x : Nat) : Nat := x % 2 ^ 23

/-- Whether the bit pattern is a NaN. -/
def f32IsNaN (x : Nat) : Bool := f32Exponent x == 255 && f32Fraction x != 0

/-- Whether the bit pattern is an infinity. -/
def f32IsInf (x : Nat) : Bool := f32Exponent x == 255 && f32Fraction x == 0

/-- The magnitude of a finite binary32 value, counted in units of `2^-149`
(the smallest subnormal): the fraction itself for a subnormal, the significand
with its hidden bit shifted by the exponent otherwise. -/
def f32Magnitude (x : Nat) : Nat :=
  if f32Exponent x = 0 then f32Fraction x
  else (2 ^ 23 + f32Fraction x) * 2 ^ (f32Exponent x - 1)

/-- Number of halvings that bring `m` below `2^24`, the width of a
significand; `fuel` bounds the count. -/
def f32Shift : Nat → Nat → Nat
  | 0, _ => 0
  | fuel + 1, m => if m < 2 ^ 24 then 0 else f32Shift fuel (m / 2) + 1

/-- The low 31 bits of the binary32 value nearest to the magnitude `m` (in
units of `2^-149`), ties going to the even significand; a magnitude that
rounds past the largest finite value gives infinity.  With `k` the shift that
leaves a 24-bit significand `q`, the exponent field is `k + 1` and the fraction
`q - 2^23`, so the bits are `k * 2^23 + q`, and a carry out of the significand
moves into the exponent by the same sum. -/
def f32Round (m : Nat) : Nat :=
  let k := f32Shift 280 m
  let q := m / 2 ^ k
  let r := m % 2 ^ k
  let bits := k * 2 ^ 23 + q + (if 2 ^ k < 2 * r ∨ (2 * r = 2 ^ k ∧ q % 2 = 1) then 1 else 0)
  if bits ≥ 0x7f800000 then 0x7f800000 else bits

/-- The binary32 sum `a + b` on bit patterns, rounded to nearest, ties to even.
A NaN operand gives that operand with its quiet bit set, infinities of opposite
sign the default NaN, and an exact zero sum of opposite signs `+0`. -/
def f32Add (a b : Nat) : Nat :=
  let a := a % 2 ^ 32
  let b := b % 2 ^ 32
  if f32IsNaN a then a ||| 0x400000
  else if f32IsNaN b then b ||| 0x400000
  else if f32IsInf a then (if f32IsInf b && f32Sign a != f32Sign b then 0xffc00000 else a)
  else if f32IsInf b then b
  else if f32Sign a = f32Sign b then
    f32Sign a * 2 ^ 31 + f32Round (f32Magnitude a + f32Magnitude b)
  else if f32Magnitude a = f32Magnitude b then 0
  else if f32Magnitude b < f32Magnitude a then
    f32Sign a * 2 ^ 31 + f32Round (f32Magnitude a - f32Magnitude b)
  else f32Sign b * 2 ^ 31 + f32Round (f32Magnitude b - f32Magnitude a)

/-- The literal `0.016f` of `m_time += 0.016f`: the binary32 value nearest to
`0.016`. -/
def timeDelta : Nat := 0x3c83126f

/-! ## Frame rendering -/

/-- Results of the platform calls of `RenderFallback`. -/
structure FallbackEnv where
  backBufferIndex : Nat
  resetAllocator : Bool
  resetCommandList : Bool
  closeCommandList : Bool
  present : Bool

/-- The method `RenderFallback`. -/
@[irreducible]
def RenderFallback (e : FallbackEnv) (s0 : D3D12Renderer) : Outcome × D3D12Renderer :=
  let s := s0.log "Rendering in fallback mode...\n"
  if !s.ptr Handle.m_swapChain || !s.ptr Handle.m_commandQueue || !s.ptr Handle.m_commandList
      || !s.ptr Handle.m_rtvHeap then
    (Outcome.ret false, s)
  else
  let s := s.put_m_frameIndex (e.backBufferIndex % UINT_SIZE)
  -- `m_commandAllocators[m_frameIndex]->Reset()` has no bounds or null check
  if s.m_frameIndex ≥ FRAME_COUNT then (Outcome.fault, s)
  else if !s.ptr (Handle.m_commandAllocators s.m_frameIndex) then (Outcome.fault, s)
  else if !e.resetAllocator then throwHR s "Fallback allocator reset failed"
  else if !e.resetCommandList then throwHR s "Fallback command list reset failed"
  else
  let s := s.emit (Event.ClearRenderTargetView ClearColor.solidFallback)
  if !e.closeCommandList then throwHR s "Fallback command list close failed"
  else
  let s := s.emit Event.ExecuteCommandLists
  let s := s.emit Event.Present
  if !e.present then throwHR s "Fallback Present failed"
  else
  let s := WaitForGPU s
  (Outcome.ret true, s.log "Fallback frame rendered\n")

/-- Result of `Present`: success, `DXGI_ERROR_DEVICE_REMOVED`,
`DXGI_ERROR_DEVICE_HUNG`, or another failure code. -/
inductive PresentResult where
  | ok
  | deviceRemoved
  | deviceHung
  | failed
  deriving DecidableEq, Repr

/-- Results of the platform calls of one pass through the body of `Render`:
`recover` serves the `RecoverDevice` call and `fallback` the `RenderFallback`
call the pass may make. -/
structure PassEnv where
  backBufferIndex : Nat
  resetAllocator : Bool
  resetCommandList : Bool
  closeCommandList : Bool
  present : PresentResult
  recover : CreateEnv
  fallback : FallbackEnv

/-- The condition of the compute pass in `Render`:
`m_computePso && config.enable_volumetric_fog && m_disparityTexture`. -/
def computeEnabled (s : D3D12Renderer) : Bool :=
  s.ptr Handle.m_computePso && s.config.enable_volumetric_fog != 0
    && s.ptr Handle.m_disparityTexture

/-- The commands of the compute block of `Render`, in the order in which they
are recorded: the disparity texture is made writable, the compute pipeline and
its two descriptor tables are bound, the dispatch over
`(SCREEN_WIDTH + 15) / 16` by `(SCREEN_HEIGHT + 15) / 16` groups is issued, the
disparity texture is made readable by the pixel shader, and the graphics
pipeline state, root signature, constant buffer of the slot `m_frameIndex`,
descriptor heaps and descriptor tables are bound again. -/
def computeCommands (SCREEN_WIDTH SCREEN_HEIGHT m_frameIndex : Nat) : List Event :=
  [Event.ResourceBarrier Handle.m_disparityTexture ResourceState.COMMON
     ResourceState.UNORDERED_ACCESS,
   Event.SetPipelineState Handle.m_computePso,
   Event.SetComputeRootSignature Handle.m_computeRootSignature,
   Event.SetDescriptorHeaps,
   Event.SetComputeRootDescriptorTable 0,
   Event.SetComputeRootDescriptorTable 1,
   Event.Dispatch ((SCREEN_WIDTH + 15) % UINT_SIZE / 16) ((SCREEN_HEIGHT + 15) % UINT_SIZE / 16),
   Event.ResourceBarrier Handle.m_disparityTexture ResourceState.UNORDERED_ACCESS
     ResourceState.PIXEL_SHADER_RESOURCE,
   Event.SetPipelineState Handle.m_graphicsPso,
   Event.SetGraphicsRootSignature Handle.m_rootSignature,
   Event.SetGraphicsRootConstantBufferView 2 (Handle.m_constantBuffers m_frameIndex),
   Event.SetDescriptorHeaps,
   Event.SetGraphicsRootDescriptorTable 0,
   Event.SetGraphicsRootDescriptorTable 1]

/-- The compute block of `Render`: when enabled, its commands are recorded. -/
@[irreducible]
def dispatchCompute (s : D3D12Renderer) : D3D12Renderer :=
  if computeEnabled s then
    s.emitAll (computeCommands s.SCREEN_WIDTH s.SCREEN_HEIGHT s.m_frameIndex)
  else s

/-- The constant write of `Render`: `frameConfig` is `config` with `time`
replaced by `m_time`, copied into the mapped region of slot `m_frameIndex`. -/
@[irreducible]
def writeConstants (s : D3D12Renderer) : D3D12Renderer :=
  s.put_mappedConstants fun k =>
    if k = s.m_frameIndex then { s.config with time := s.m_time } else s.mappedConstants k

/-- The block of `Render` entered when `Present` reports
`DXGI_ERROR_DEVICE_REMOVED` or `DXGI_ERROR_DEVICE_HUNG`: recovery, then the
re-entry `return Render();` (passed in as `retry`) or the fallback frame. -/
@[irreducible]
def recoverAndRetry (retry : D3D12Renderer → Outcome × D3D12Renderer) (e : PassEnv)
    (s : D3D12Renderer) : Outcome × D3D12Renderer :=
  let r := RecoverDevice e.recover s
  if r.1 = Outcome.ret true then retry (r.2.log "Device recovered, retrying render\n")
  else if r.1 = Outcome.ret false then
    let s := r.2.log "Recovery failed, switching to fallback\n"
    RenderFallback e.fallback (s.put_m_fallbackMode true)
  else r

/-- The method `Render` up to and including its call of `Present`.  The first
component is `some o` when the method ends before `Present` is reached
(returning or throwing `o`), and `none` when `Present` has been called; the
result of `Present` is looked at by `renderPass`. -/
@[irreducible]
def submitFrame (e : PassEnv) (s0 : D3D12Renderer) : Option Outcome × D3D12Renderer :=
  let s := afterValidate s0
  if !ValidateResources s0 then
    let s := s.log "Render failed: Invalid resources\n"
    if s.m_fallbackMode then
      (some (RenderFallback e.fallback s).1, (RenderFallback e.fallback s).2)
    else (some (Outcome.ret false), s)
  else
  let s := s.log "Rendering frame...\n"
  let s := s.put_m_frameIndex (e.backBufferIndex % UINT_SIZE)
  if s.m_frameIndex ≥ FRAME_COUNT || !s.ptr (Handle.m_commandAllocators s.m_frameIndex)
      || !s.ptr (Handle.m_renderTargets s.m_frameIndex) then
    (some (Outcome.ret false), s.log "Invalid frame index or resources\n")
  else if !e.resetAllocator then
    (some (throwHR s "Command allocator reset failed").1,
      (throwHR s "Command allocator reset failed").2)
  else if !e.resetCommandList then
    (some (throwHR s "Command list reset failed").1, (throwHR s "Command list reset failed").2)
  else
  -- the compute pass rebinds `m_constantBuffers[m_frameIndex]->GetGPUVirtualAddress()`
  if computeEnabled s && !s.ptr (Handle.m_constantBuffers s.m_frameIndex) then
    (some Outcome.fault, s)
  else
  let s := dispatchCompute s
  -- `m_time += 0.016f;`
  let s := s.put_m_time (f32Add s.m_time timeDelta)
  -- `memcpy(m_mappedConstantData[m_frameIndex], ...)` and the constant buffer view
  if !s.ptr (Handle.m_mappedConstantData s.m_frameIndex) then (some Outcome.fault, s)
  else
  let s := writeConstants s
  if !s.ptr (Handle.m_constantBuffers s.m_frameIndex) then (some Outcome.fault, s)
  else
  let s := s.emit (Event.ClearRenderTargetView ClearColor.effects)
  let s := s.emit Event.DrawInstanced
  if !e.closeCommandList then
    (some (throwHR s "Command list close failed").1, (throwHR s "Command list close failed").2)
  else
  let s := s.emit Event.ExecuteCommandLists
  (none, s.emit Event.Present)

/-- The body of `Render`, with the recursive call `return Render();` passed in
as `retry`: the frame is recorded and presented by `submitFrame`, then the
result of `Present` decides. -/
@[irreducible]
def renderPass (retry : D3D12Renderer → Outcome × D3D12Renderer) (e : PassEnv)
    (s0 : D3D12Renderer) : Outcome × D3D12Renderer :=
  let r := submitFrame e s0
  if r.1.isSome then (r.1.getD Outcome.fault, r.2)
  else if e.present = PresentResult.ok then
    (Outcome.ret true, (WaitForGPU r.2).log "Frame rendered successfully\n")
  else if e.present = PresentResult.deviceRemoved ∨ e.present = PresentResult.deviceHung then
    recoverAndRetry retry e r.2
  else (Outcome.ret false, r.2.log "Present failed with HRESULT: 0x%08X\n")

/-- Unfolds `Render` along the stream `env` of per-pass results; `n` bounds the
number of re-entries.  With `n = 0` the re-entry is never taken (see
`Render_eq`), so what stands in its place does not matter. -/
def RenderAux : Nat → (Nat → PassEnv) → D3D12Renderer → Outcome × D3D12Renderer
  | 0, env, s => renderPass (fun s1 => (Outcome.fault, s1)) (env 0) s
  | n + 1, env, s => renderPass (RenderAux n fun k => env (k + 1)) (env 0) s

/-- The method `Render`.  Pass `k` of the call (the `k`-th re-entry) takes its
platform results from `env k`.  A re-entry follows a `RecoverDevice` that
returned true, which needs the counter below `MAX_RECOVERY_ATTEMPTS`, so
`MAX_RECOVERY_ATTEMPTS - m_recoveryCount` re-entries are enough; `Render_eq`
proves that this function satisfies the recursive equation of the source. -/
def Render (env : Nat → PassEnv) (s : D3D12Renderer) : Outcome × D3D12Renderer :=
  RenderAux (MAX_RECOVERY_ATTEMPTS - s.m_recoveryCount) env s

/-! ## Adapter selection and initialisation -/

/-- One adapter reported by `EnumAdapters1`: whether its description carries
`DXGI_ADAPTER_FLAG_SOFTWARE`, the result of the trial `D3D12CreateDevice` at
the four candidate feature levels (12_1, 12_0, 11_1, 11_0), and its dedicated
video memory. -/
structure AdapterDesc where
  software : Bool
  trialCreate : List Bool
  DedicatedVideoMemory : Nat

/-- The local `featureRank` of `SelectAdapter`: index of the first candidate
level whose trial creation succeeds; `none` stands for `-1`. -/
def featureRank (a : AdapterDesc) : Option Nat :=
  let levels := a.trialCreate.take 4
  if levels.indexOf true < levels.length then some (levels.indexOf true) else none

/-- The local `better` of `SelectAdapter`; `best` holds `bestAdapter` (as its
enumeration index), `bestFeatureRank` and `bestMemory`, `none` while
`bestAdapter` is null. -/
def better (best : Option (Nat × Nat × Nat)) (rank vram : Nat) : Bool :=
  match best with
  | none => true
  | some (_, bestFeatureRank, bestMemory) =>
    if rank < bestFeatureRank then true
    else if rank = bestFeatureRank ∧ vram > bestMemory then true
    else false

/-- Body of the enumeration loop of `SelectAdapter` for the adapter at
`adapterIndex`. -/
def selectStep (best : Option (Nat × Nat × Nat)) (adapterIndex : Nat) (a : AdapterDesc) :
    Option (Nat × Nat × Nat) :=
  if a.software then best
  else match featureRank a with
    | none => best
    | some rank =>
      if better best rank a.DedicatedVideoMemory then
        some (adapterIndex, rank, a.DedicatedVideoMemory)
      else best

/-- The enumeration loop of `SelectAdapter`, started at `adapterIndex` with the
current `best`. -/
def enumerate : List AdapterDesc → Nat → Option (Nat × Nat × Nat) → Option (Nat × Nat × Nat)
  | [], _, best => best
  | a :: rest, adapterIndex, best => enumerate rest (adapterIndex + 1) (selectStep best adapterIndex a)

/-- Results of the platform calls of `Initialize`: the window handle passed
in, the factory creation, the value of the environment variable
`CLEAN3D_USE_SYSTEM_DEFAULT_ADAPTER` (`none` when `_dupenv_s` fails or the
variable is unset), the adapters `EnumAdapters1` reports, and the results for
`CreateDeviceAndResources`. -/
structure InitEnv where
  hwnd : Bool
  createDXGIFactory2 : Bool
  useDefaultEnv : Option String
  adapters : List AdapterDesc
  create : CreateEnv

/-- The method `SelectAdapter`.  Its only caller, `Initialize`, has created the
factory before the call, so the enumeration through `m_factory` is taken to
be possible. -/
@[irreducible]
def SelectAdapter (e : InitEnv) (s : D3D12Renderer) : Bool × D3D12Renderer :=
  if (e.useDefaultEnv.bind fun v => v.data.head?) = some '1' then
    (true, s.log
      "Adapter selection: using system default adapter (D3D12CreateDevice fallback)\n")
  else
    let s := (e.adapters.filter fun a => !a.software && (featureRank a).isNone).foldl
      (fun s _ => s.log "Adapter skipped: insufficient feature level\n") s
    match enumerate e.adapters 0 none with
    | some (bestAdapter, _, _) =>
      (true, ((s.put_selectedAdapter bestAdapter).set Handle.m_adapter true).log
        "Selected adapter: %ls (VRAM: %llu MB), feature rank: %d\n")
    | none => (false, s.log "No suitable hardware adapter was found during enumeration\n")

/-- The method `Initialize`. -/
@[irreducible]
def Initialize (e : InitEnv) (s0 : D3D12Renderer) : Outcome × D3D12Renderer :=
  let s := s0.set Handle.m_hwnd e.hwnd
  let s := s.log "Initializing D3D12Renderer...\n"
  let s := s.set Handle.m_factory e.createDXGIFactory2
  let r : Outcome × D3D12Renderer :=
    if !e.createDXGIFactory2 then throwHR s "CreateDXGIFactory2 failed"
    else if !(SelectAdapter e s).1 then
      throwTool (SelectAdapter e s).2 "No suitable hardware adapter found"
    else CreateDeviceAndResources e.create (SelectAdapter e s).2
  if r.1.isThrew then (Outcome.ret false, r.2.log r.1.what) else r

/-! ## The render loop -/

/-- The members of `LightWeight3DApp` the render thread uses; `faulted` records
that the process ran into undefined behaviour. -/
structure LightWeight3DApp where
  m_d3dRenderer : D3D12Renderer
  m_isRunning : Bool
  m_isHidden : Bool
  m_frameCount : Nat
  faulted : Bool

/-- Results of the platform calls of one iteration of `RenderLoop`: those of
`CaptureDesktop`, of `Render`, and of the `RecoverDevice` call the loop makes
when `Render` returns false or an exception is caught. -/
structure TickEnv where
  capture : CaptureEnv
  render : Nat → PassEnv
  recover : CreateEnv

/-- The recovery step shared by both branches of the loop body:
`if (!m_d3dRenderer.RecoverDevice()) { ...; m_isRunning = false; break; }`. -/
@[irreducible]
def recoverOrStop (e : CreateEnv) (a : LightWeight3DApp) (r : D3D12Renderer) :
    LightWeight3DApp :=
  let rec0 := RecoverDevice e r
  if rec0.1 = Outcome.ret true then
    { a with m_d3dRenderer := rec0.2, m_frameCount := a.m_frameCount + 1 }
  else if rec0.1 = Outcome.ret false then
    let r := rec0.2.log "Unrecoverable error, stopping render loop\n"
    { a with m_d3dRenderer := r.log "Render loop stopped\n", m_isRunning := false }
  else { a with m_d3dRenderer := rec0.2, m_isRunning := false, faulted := true }

/-- The first statement of the loop body: `CaptureDesktop`, with the log line
of the loop when it returns false.  This is the state `Render` is called on
when `CaptureDesktop` returns. -/
@[irreducible]
def captureStep (e : CaptureEnv) (s : D3D12Renderer) : D3D12Renderer :=
  if (CaptureDesktop e s).1 = Outcome.ret true then (CaptureDesktop e s).2
  else (CaptureDesktop e s).2.log "CaptureDesktop failed, using last frame\n"

/-- One iteration of the `while (m_isRunning)` loop of `RenderLoop`; an
iteration entered with `m_isRunning` false is the loop exit.  The frame timing
line, logged only while `enableLogging` is set, is not recorded. -/
@[irreducible]
def RenderLoopIteration (e : TickEnv) (a : LightWeight3DApp) : LightWeight3DApp :=
  if !a.m_isRunning then
    { a with m_d3dRenderer := a.m_d3dRenderer.log "Render loop stopped\n" }
  else if a.m_isHidden then { a with m_frameCount := a.m_frameCount + 1 }
  else
    let cap := CaptureDesktop e.capture a.m_d3dRenderer
    if cap.1 = Outcome.fault then
      { a with m_d3dRenderer := cap.2, m_isRunning := false, faulted := true }
    else if cap.1.isThrew then
      recoverOrStop e.recover a (cap.2.log ("Render loop exception: " ++ cap.1.what ++ "\n"))
    else
    let ren := Render e.render (captureStep e.capture a.m_d3dRenderer)
    if ren.1 = Outcome.ret true then
      { a with m_d3dRenderer := ren.2, m_frameCount := a.m_frameCount + 1 }
    else if ren.1 = Outcome.ret false then
      recoverOrStop e.recover a (ren.2.log "Render failed\n")
    else if ren.1.isThrew then
      recoverOrStop e.recover a (ren.2.log ("Render loop exception: " ++ ren.1.what ++ "\n"))
    else { a with m_d3dRenderer := ren.2, m_isRunning := false, faulted := true }

/-- The method `RenderLoop` over the given iterations. -/
def RenderLoop (envs : List TickEnv) (a : LightWeight3DApp) : LightWeight3DApp :=
  envs.foldl (fun a e => RenderLoopIteration e a) a

/-! ## Sequences of renderer operations -/

/-- A call of one public operation of the renderer, with the platform results
it meets. -/
inductive Op where
  | Initialize (e : InitEnv)
  | CaptureDesktop (e : CaptureEnv)
  | Render (env : Nat → PassEnv)
  | RenderFallback (e : FallbackEnv)
  | RecoverDevice (e : CreateEnv)
  | Cleanup (preserveEssentials : Bool)

/-- Whether the operation is a call of `Initialize`. -/
def Op.isInitialize : Op → Bool
  | Op.Initialize _ => true
  | _ => false

/-- The state after one operation. -/
def step (s : D3D12Renderer) : Op → D3D12Renderer
  | Op.Initialize e => (Initialize e s).2
  | Op.CaptureDesktop e => (CaptureDesktop e s).2
  | Op.Render env => (Render env s).2
  | Op.RenderFallback e => (RenderFallback e s).2
  | Op.RecoverDevice e => (RecoverDevice e s).2
  | Op.Cleanup preserveEssentials => Cleanup preserveEssentials s

/-- The state after a sequence of operations. -/
def run (ops : List Op) (s : D3D12Renderer) : D3D12Renderer :=
  ops.foldl step s

/-! ## Concrete platform behaviours used in the examples -/

/-- Every call of `CreateResources` succeeds; the duplication reports a
4 by 2 pixel mode. -/
def okResources : ResourcesEnv where
  createScreenTexture := true
  d3d11CreateDevice := true
  createDXGIFactory1 := true
  enumAdapters := true
  enumOutputs := true
  queryOutput1 := true
  createUploadBuffer := true
  mapUploadBuffer := true
  resetCommandList := true
  closeCommandList := true
  duplicateOutput := true
  duplWidth := 4
  duplHeight := 2
  createStagingTexture := true
  createConstantBuffer := fun _ => true
  mapConstantBuffer := fun _ => true
  createVertexBuffer := true
  mapVertexBuffer := true

/-- Every call of `CreatePipelines` succeeds. -/
def okPipelines : PipelinesEnv where
  serializeRootSignature := true
  createRootSignature := true
  serializeComputeRootSignature := true
  createComputeRootSignature := true
  readFogCompute := true
  compileFogCompute := true
  createComputePipelineState := true
  readVertexShader := true
  readPixelShader := true
  compileVertexShader := true
  compilePixelShader := true
  createGraphicsPipelineState := true

/-- Every call of `CreateDeviceAndResources` succeeds. -/
def okCreate : CreateEnv where
  createDevice := [true, true, true, true]
  createCommandQueue := true
  createSwapChainForHwnd := true
  swapChainQueryInterface := true
  createRtvHeap := true
  createSrvHeap := true
  createSamplerHeap := true
  rtvDescriptorSize := 32
  getBuffer := fun _ => true
  createCommandAllocator := fun _ => true
  createCommandList := true
  closeCommandList := true
  createFence := true
  createEvent := true
  resources := okResources
  pipelines := okPipelines

/-- Device creation fails at every feature level. -/
def noDevice : CreateEnv :=
  { okCreate with createDevice := [false, false, false, false] }

/-- One hardware adapter that supports feature level 12_1. -/
def okInit : InitEnv where
  hwnd := true
  createDXGIFactory2 := true
  useDefaultEnv := none
  adapters := [{ software := false, trialCreate := [true, true, true, true],
                 DedicatedVideoMemory := 8192 }]
  create := okCreate

/-- A frame is acquired and every call of `CaptureDesktop` succeeds; the
staging surface has a pitch of 16 bytes and holds the byte `a % 251` at
offset `a`. -/
def okCapture : CaptureEnv where
  acquire := AcquireResult.ok
  desktopResource := true
  queryInterface := true
  mapStaging := true
  RowPitch := 16
  pData := fun a => a % 251
  mapUpload := true
  resetCommandList := true
  closeCommandList := true

/-- A frame is acquired and copied, then `m_commandList->Reset` fails. -/
def resetFails : CaptureEnv :=
  { okCapture with resetCommandList := false }

/-- A frame is acquired, copied and uploaded, then `m_commandList->Close`
fails. -/
def closeFails : CaptureEnv :=
  { okCapture with closeCommandList := false }

/-- Every call of `RenderFallback` succeeds, on back buffer 0. -/
def okFallback : FallbackEnv where
  backBufferIndex := 0
  resetAllocator := true
  resetCommandList := true
  closeCommandList := true
  present := true

/-- A pass of `Render` on back buffer 0 in which every call succeeds except
that `Present` returns `present`; a recovery it starts succeeds. -/
def passWith (present : PresentResult) : PassEnv where
  backBufferIndex := 0
  resetAllocator := true
  resetCommandList := true
  closeCommandList := true
  present := present
  recover := okCreate
  fallback := okFallback

/-- The renderer after construction and a successful `Initialize`. -/
def healthy : D3D12Renderer :=
  (Initialize okInit (D3D12Renderer.ctor false false)).2

/-- The healthy renderer after the user has switched the parallax effect off. -/
def toggled : D3D12Renderer :=
  healthy.put_config { defaultConfig with enable_parallax := 0 }

/-- Platform results of a `Render` call in which `Present` reports
`DXGI_ERROR_DEVICE_REMOVED` in every pass and every recovery succeeds. -/
def alwaysRemoved : Nat → PassEnv :=
  fun _ => passWith PresentResult.deviceRemoved

/-- The renderer after one `Render` call on the healthy renderer with
`alwaysRemoved`: three recoveries succeed, the fourth recovery call finds the
counter at the maximum. -/
def exhausted : D3D12Renderer :=
  (Render alwaysRemoved healthy).2

/-- The platform results of a loop iteration in which every call succeeds. -/
def okTick : TickEnv where
  capture := okCapture
  render := fun _ => passWith PresentResult.ok
  recover := okCreate

/-- A loop iteration in which `Present` fails with a code other than
device-removed or device-hung and the recovery the loop starts succeeds. -/
def presentFailsTick : TickEnv where
  capture := okCapture
  render := fun _ => passWith PresentResult.failed
  recover := okCreate

/-- A loop iteration in which `Present` fails with a code other than
device-removed or device-hung and the recovery the loop starts finds no
device. -/
def presentFailsNoDeviceTick : TickEnv where
  capture := okCapture
  render := fun _ => passWith PresentResult.failed
  recover := noDevice

/-- A loop iteration in which `Present` reports device-removed in every pass
and every recovery succeeds. -/
def removedTick : TickEnv where
  capture := okCapture
  render := alwaysRemoved
  recover := okCreate

/-- A pass in which `Present` reports device-removed and the recovery finds no
device. -/
def removedNoDevice : Nat → PassEnv :=
  fun _ => { passWith PresentResult.deviceRemoved with recover := noDevice }

/-- Every call of `CreateDeviceAndResources` succeeds up to the creation of the
graphics pipeline state, which fails. -/
def noGraphicsPso : CreateEnv :=
  { okCreate with pipelines := { okPipelines with createGraphicsPipelineState := false } }

/-- A loop iteration in which `Present` reports device-removed and the
recovery `Render` starts fails at the graphics pipeline state. -/
def degradingTick : TickEnv where
  capture := okCapture
  render := fun _ => { passWith PresentResult.deviceRemoved with recover := noGraphicsPso }
  recover := okCreate

/-- The application with a healthy renderer, the render thread running and
the overlay shown. -/
def healthyApp : LightWeight3DApp where
  m_d3dRenderer := healthy
  m_isRunning := true
  m_isHidden := false
  m_frameCount := 0
  faulted := false

/-- The application after the iteration `removedTick`: the fourth recovery call
of that iteration has set the fallback flag, the loop is still running. -/
def fallbackApp : LightWeight3DApp :=
  RenderLoopIteration removedTick healthyApp

/-- The application after the iteration `degradingTick`: the fallback flag is
set after one failed recovery, the swap chain exists but the graphics pipeline
state does not, so `ValidateResources` fails; the loop is still running. -/
def degradedApp : LightWeight3DApp :=
  RenderLoopIteration degradingTick healthyApp

/-- Six adapters: a software adapter with the most memory, a hardware adapter
of tier 12_0, a hardware adapter that supports no candidate tier, and three
hardware adapters of tier 12_1 of which the last two have the most memory. -/
def rankedInit : InitEnv where
  hwnd := true
  createDXGIFactory2 := true
  useDefaultEnv := none
  adapters :=
    [{ software := true, trialCreate := [true, true, true, true], DedicatedVideoMemory := 65536 },
     { software := false, trialCreate := [false, true, true, true], DedicatedVideoMemory := 16384 },
     { software := false, trialCreate := [false, false, false, false],
       DedicatedVideoMemory := 32768 },
     { software := false, trialCreate := [true, true, true, true], DedicatedVideoMemory := 2048 },
     { software := false, trialCreate := [true, true, true, true], DedicatedVideoMemory := 8192 },
     { software := false, trialCreate := [true, true, true, true], DedicatedVideoMemory := 8192 }]
  create := okCreate

/-- A software adapter and a hardware adapter on which trial creation fails at
the four candidate tiers. -/
def noAdapterInit : InitEnv :=
  { okInit with
    adapters :=
      [{ software := true, trialCreate := [true, true, true, true], DedicatedVideoMemory := 8192 },
       { software := false, trialCreate := [false, false, false, false, true],
         DedicatedVideoMemory := 8192 }] }

/-- The variable `CLEAN3D_USE_SYSTEM_DEFAULT_ADAPTER` has the value `1`; no
adapter is enumerated. -/
def overrideInit : InitEnv :=
  { okInit with useDefaultEnv := some "1", adapters := [] }

/-- The variable `CLEAN3D_USE_SYSTEM_DEFAULT_ADAPTER` has the value `10`; no
adapter is enumerated. -/
def override10Init : InitEnv :=
  { okInit with useDefaultEnv := some "10", adapters := [] }

/-! ## The packed layout of the configuration block -/

/-- The types of the fields of `IllusionConfig`; `bytes n` is `uint8_t[n]`. -/
inductive FieldType where
  | float
  | uint8_t
  | int32_t
  | bytes (n : Nat)
  deriving DecidableEq, Repr

/-- The operator `sizeof` on a field type. -/
def FieldType.size : FieldType → Nat
  | FieldType.float => 4
  | FieldType.uint8_t => 1
  | FieldType.int32_t => 4
  | FieldType.bytes n => n

/-- The declaration of `IllusionConfig` in `Main.cpp`, field by field. -/
def IllusionConfig.fields : List (String × FieldType) :=
  [("depth_intensity", FieldType.float),
   ("parallax_strength", FieldType.float),
   ("alpha", FieldType.float),
   ("edge_depth_influence", FieldType.float),
   ("color_separation", FieldType.float),
   ("perspective_strength", FieldType.float),
   ("enable_gpu", FieldType.uint8_t),
   ("processing_quality", FieldType.int32_t),
   ("enable_chromatic", FieldType.uint8_t),
   ("enable_parallax", FieldType.uint8_t),
   ("enable_dof", FieldType.uint8_t),
   ("time", FieldType.float),
   ("occlusion_strength", FieldType.float),
   ("wiggle_frequency", FieldType.float),
   ("fog_density", FieldType.float),
   ("fog_color_r", FieldType.float),
   ("fog_color_g", FieldType.float),
   ("fog_color_b", FieldType.float),
   ("fog_scatter", FieldType.float),
   ("fog_anisotropy", FieldType.float),
   ("fog_height_falloff", FieldType.float),
   ("temporal_blend", FieldType.float),
   ("outline_width", FieldType.float),
   ("outline_intensity", FieldType.float),
   ("enable_parallax_barrier", FieldType.uint8_t),
   ("enable_lenticular", FieldType.uint8_t),
   ("enable_volumetric_fog", FieldType.uint8_t),
   ("padding", FieldType.bytes 41)]

/-- The operator `sizeof` on a struct declared under `#pragma pack(push, 1)`:
the fields follow one another in declaration order with no padding between or
after them. -/
def packedSize (fields : List (String × FieldType)) : Nat :=
  (fields.map fun f => f.2.size).sum

/-- The operator `offsetof` on such a struct: the size of the fields declared
before `name`. -/
def packedOffset (fields : List (String × FieldType)) (name : String) : Nat :=
  packedSize (fields.takeWhile fun f => f.1 != name)

/-- The four bytes of a 32-bit pattern in memory order (x86 and x64 are
little-endian). -/
def le32 (v : Nat) : List Nat :=
  [v % 256, v / 256 % 256, v / 65536 % 256, v / 16777216 % 256]

/-- The 32-bit pattern read from four bytes of `mem` at offset `o`. -/
def rd32 (mem : Nat → Nat) (o : Nat) : Nat :=
  mem o + 256 * mem (o + 1) + 65536 * mem (o + 2) + 16777216 * mem (o + 3)

/-- The two's complement pattern of an `int32_t`. -/
def int32Bits (v : Int) : Nat :=
  (v % 4294967296).toNat

/-- The `int32_t` that a 32-bit pattern stands for. -/
def ofInt32Bits (v : Nat) : Int :=
  if v < 2147483648 then (v : Int) else (v : Int) - 4294967296

/-- The object representation of an `IllusionConfig`: the bytes that
`memcpy(dst, &c, sizeof(IllusionConfig))` copies. -/
def IllusionConfig.bytes (c : IllusionConfig) : List Nat :=
  le32 c.depth_intensity ++ le32 c.parallax_strength ++ le32 c.alpha ++
  le32 c.edge_depth_influence ++ le32 c.color_separation ++ le32 c.perspective_strength ++
  [c.enable_gpu % 256] ++ le32 (int32Bits c.processing_quality) ++
  [c.enable_chromatic % 256] ++ [c.enable_parallax % 256] ++ [c.enable_dof % 256] ++
  le32 c.time ++ le32 c.occlusion_strength ++ le32 c.wiggle_frequency ++
  le32 c.fog_density ++ le32 c.fog_color_r ++ le32 c.fog_color_g ++ le32 c.fog_color_b ++
  le32 c.fog_scatter ++ le32 c.fog_anisotropy ++ le32 c.fog_height_falloff ++
  le32 c.temporal_blend ++ le32 c.outline_width ++ le32 c.outline_intensity ++
  [c.enable_parallax_barrier % 256] ++ [c.enable_lenticular % 256] ++
  [c.enable_volumetric_fog % 256] ++ c.padding.map fun b => b % 256

/-- Whether every field holds a value of its declared type: a 32-bit pattern
for a `float`, a byte for a `uint8_t`, an `int32_t` in range, 41 filler
bytes. -/
def IllusionConfig.wellFormed (c : IllusionConfig) : Bool :=
  decide (c.depth_intensity < 4294967296) && decide (c.parallax_strength < 4294967296) &&
  decide (c.alpha < 4294967296) && decide (c.edge_depth_influence < 4294967296) &&
  decide (c.color_separation < 4294967296) && decide (c.perspective_strength < 4294967296) &&
  decide (c.enable_gpu < 256) &&
  decide (-2147483648 ≤ c.processing_quality ∧ c.processing_quality < 2147483648) &&
  decide (c.enable_chromatic < 256) && decide (c.enable_parallax < 256) &&
  decide (c.enable_dof < 256) && decide (c.time < 4294967296) &&
  decide (c.occlusion_strength < 4294967296) && decide (c.wiggle_frequency < 4294967296) &&
  decide (c.fog_density < 4294967296) && decide (c.fog_color_r < 4294967296) &&
  decide (c.fog_color_g < 4294967296) && decide (c.fog_color_b < 4294967296) &&
  decide (c.fog_scatter < 4294967296) && decide (c.fog_anisotropy < 4294967296) &&
  decide (c.fog_height_falloff < 4294967296) && decide (c.temporal_blend < 4294967296) &&
  decide (c.outline_width < 4294967296) && decide (c.outline_intensity < 4294967296) &&
  decide (c.enable_parallax_barrier < 256) && decide (c.enable_lenticular < 256) &&
  decide (c.enable_volumetric_fog < 256) &&
  decide (c.padding.length = 41) && c.padding.all fun b => decide (b < 256)

/-- The `IllusionConfig` whose object representation starts at offset 0 of
`mem`, each field read at its `offsetof` in the packed layout. -/
def IllusionConfig.read (mem : Nat → Nat) : IllusionConfig where
  depth_intensity := rd32 mem (packedOffset IllusionConfig.fields "depth_intensity")
  parallax_strength := rd32 mem (packedOffset IllusionConfig.fields "parallax_strength")
  alpha := rd32 mem (packedOffset IllusionConfig.fields "alpha")
  edge_depth_influence := rd32 mem (packedOffset IllusionConfig.fields "edge_depth_influence")
  color_separation := rd32 mem (packedOffset IllusionConfig.fields "color_separation")
  perspective_strength := rd32 mem (packedOffset IllusionConfig.fields "perspective_strength")
  enable_gpu := mem (packedOffset IllusionConfig.fields "enable_gpu")
  processing_quality :=
    ofInt32Bits (rd32 mem (packedOffset IllusionConfig.fields "processing_quality"))
  enable_chromatic := mem (packedOffset IllusionConfig.fields "enable_chromatic")
  enable_parallax := mem (packedOffset IllusionConfig.fields "enable_parallax")
  enable_dof := mem (packedOffset IllusionConfig.fields "enable_dof")
  time := rd32 mem (packedOffset IllusionConfig.fields "time")
  occlusion_strength := rd32 mem (packedOffset IllusionConfig.fields "occlusion_strength")
  wiggle_frequency := rd32 mem (packedOffset IllusionConfig.fields "wiggle_frequency")
  fog_density := rd32 mem (packedOffset IllusionConfig.fields "fog_density")
  fog_color_r := rd32 mem (packedOffset IllusionConfig.fields "fog_color_r")
  fog_color_g := rd32 mem (packedOffset IllusionConfig.fields "fog_color_g")
  fog_color_b := rd32 mem (packedOffset IllusionConfig.fields "fog_color_b")
  fog_scatter := rd32 mem (packedOffset IllusionConfig.fields "fog_scatter")
  fog_anisotropy := rd32 mem (packedOffset IllusionConfig.fields "fog_anisotropy")
  fog_height_falloff := rd32 mem (packedOffset IllusionConfig.fields "fog_height_falloff")
  temporal_blend := rd32 mem (packedOffset IllusionConfig.fields "temporal_blend")
  outline_width := rd32 mem (packedOffset IllusionConfig.fields "outline_width")
  outline_intensity := rd32 mem (packedOffset IllusionConfig.fields "outline_intensity")
  enable_parallax_barrier := mem (packedOffset IllusionConfig.fields "enable_parallax_barrier")
  enable_lenticular := mem (packedOffset IllusionConfig.fields "enable_lenticular")
  enable_volumetric_fog := mem (packedOffset IllusionConfig.fields "enable_volumetric_fog")
  padding := (List.range 41).map fun i => mem (packedOffset IllusionConfig.fields "padding" + i)

/-- The statement `memcpy(m_mappedConstantData[i], &c, sizeof(IllusionConfig))`
of `CreateResources` and `Render`, on the bytes `region` of the mapped constant
buffer of a slot. -/
def writeMapped (region : Nat → Nat) (c : IllusionConfig) : Nat → Nat :=
  memcpy region 0 (fun i => c.bytes.getD i 0) 0 (packedSize IllusionConfig.fields)

/-- The value the statement
`m_constantBufferSize = (sizeof(IllusionConfig) + 255) & ~255ULL` of
`CreateResources` assigns. -/
def constantBufferSize : Nat :=
  alignUp256 (packedSize IllusionConfig.fields)

end Main

/-! # Source.cpp: the second pipeline variant -/

namespace Source

/-- The declaration of `IllusionConfig` in `Source.cpp`, field by field. -/
def IllusionConfig.fields : List (String × Main.FieldType) :=
  [("depth_intensity", Main.FieldType.float),
   ("parallax_strength", Main.FieldType.float),
   ("alpha", Main.FieldType.float),
   ("edge_depth_influence", Main.FieldType.float),
   ("color_separation", Main.FieldType.float),
   ("perspective_strength", Main.FieldType.float),
   ("enable_gpu", Main.FieldType.uint8_t),
   ("processing_quality", Main.FieldType.int32_t),
   ("enable_chromatic", Main.FieldType.uint8_t),
   ("enable_parallax", Main.FieldType.uint8_t),
   ("enable_dof", Main.FieldType.uint8_t),
   ("padding", Main.FieldType.bytes 96)]

/-- The call `Dispatch((SCREEN_WIDTH + 15) / 16, (SCREEN_HEIGHT + 15) / 16, 1)`
of `ComputeDepth` in `Source.cpp`; both counts are formed in `UINT`. -/
def ComputeDepth_Dispatch (SCREEN_WIDTH SCREEN_HEIGHT : Nat) : Main.Event :=
  Main.Event.Dispatch ((SCREEN_WIDTH + 15) % Main.UINT_SIZE / 16)
    ((SCREEN_HEIGHT + 15) % Main.UINT_SIZE / 16)

/-- Body of the row loop of `CaptureDesktop` in `Source.cpp` for row `y`:
`memcpy(uploadData + y * SCREEN_WIDTH * 4, pData + y * RowPitch, SCREEN_WIDTH * 4)`.
The three products are formed in `UINT` before they are widened. -/
def copyRow (SCREEN_WIDTH RowPitch : Nat) (pData : Nat → Nat) (uploadData : Nat → Nat)
    (y : Nat) : Nat → Nat :=
  Main.memcpy uploadData (y * SCREEN_WIDTH % Main.UINT_SIZE * 4 % Main.UINT_SIZE) pData
    (y * RowPitch % Main.UINT_SIZE) (SCREEN_WIDTH * 4 % Main.UINT_SIZE)

/-- Offsets from `mappedResource.pData` of the bytes the loop body of
`Source.cpp` reads for row `y`. -/
def copyRowReads (SCREEN_WIDTH RowPitch y : Nat) : List Nat :=
  Main.memcpyReads (y * RowPitch % Main.UINT_SIZE) (SCREEN_WIDTH * 4 % Main.UINT_SIZE)

/-- The row loop of `CaptureDesktop` in `Source.cpp`,
`for (UINT y = 0; y < SCREEN_HEIGHT; y++)`. -/
def captureRowCopy (SCREEN_WIDTH SCREEN_HEIGHT RowPitch : Nat) (pData : Nat → Nat)
    (uploadData : Nat → Nat) : Nat → Nat :=
  (List.range SCREEN_HEIGHT).foldl (copyRow SCREEN_WIDTH RowPitch pData) uploadData

end Source

namespace Main

/-- Whether the recorded calls end with a command-list submission that no
`WaitForGPU` has followed: `ExecuteCommandLists` opens a pending submission,
the wait of `WaitForGPU` closes it. -/
def submissionPending (trace : List Event) : Bool :=
  trace.foldl (fun pending ev =>
    if ev = Event.ExecuteCommandLists then true
    else if ev = Event.WaitForGPU then false
    else pending) false

/-- The call `m_commandQueue->Signal` fails. -/
def signalFails : FenceEnv :=
  { gpuResponds with signal := false }

/-- The call `m_fence->SetEventOnCompletion` fails; the signalled value is not
yet completed. -/
def setEventFails : FenceEnv :=
  { gpuResponds with setEventOnCompletion := false }

/-- Every call of `RenderFallback` succeeds except `Present`. -/
def fallbackPresentFails : FallbackEnv :=
  { okFallback with present := false }

/-- The output has no `IDXGIOutput1`, so `CreateResources` uploads the
checkerboard; every call succeeds. -/
def checkerboardResources : ResourcesEnv :=
  { okResources with queryOutput1 := false }

/-- `AcquireNextFrame` returns `DXGI_ERROR_WAIT_TIMEOUT`. -/
def timeoutCapture : CaptureEnv :=
  { okCapture with acquire := AcquireResult.timeout }

/-- A loop iteration in which the capture times out and every call of `Render`
succeeds. -/
def timeoutTick : TickEnv where
  capture := timeoutCapture
  render := fun _ => passWith PresentResult.ok
  recover := noDevice

/-- Every call of `CreatePipelines` succeeds except that `FogCompute.hlsl`
cannot be read. -/
def noFogPipelines : PipelinesEnv :=
  { okPipelines with readFogCompute := false }

/-- The platform results `e` with the reading of `FogCompute.hlsl` failing. -/
def CreateEnv.withoutFogFile (e : CreateEnv) : CreateEnv :=
  { e with pipelines := { e.pipelines with readFogCompute := false } }

/-- The platform results `e` with the compilation of `FogCompute.hlsl`
failing. -/
def CreateEnv.withoutFogCompile (e : CreateEnv) : CreateEnv :=
  { e with pipelines := { e.pipelines with compileFogCompute := false } }

/-- Every call of `Initialize` succeeds up to `CreateCommandQueue`, which
fails: the factory, the adapter and the device have been created. -/
def queueFailsInit : InitEnv :=
  { okInit with create := { okCreate with createCommandQueue := false } }

/-- Every call of `Initialize` succeeds up to the creation of the graphics
pipeline state, which fails. -/
def noGraphicsPsoInit : InitEnv :=
  { okInit with create := noGraphicsPso }

/-- The swap chain reports back buffer 3; every call of `RenderFallback`
succeeds. -/
def fallbackIndex3 : FallbackEnv :=
  { okFallback with backBufferIndex := 3 }

/-- A loop iteration in which the swap chain reports back buffer 3 to `Render`
and the recovery the loop starts succeeds. -/
def badIndexTick : TickEnv where
  capture := okCapture
  render := fun _ => { passWith PresentResult.ok with backBufferIndex := 3 }
  recover := okCreate

/-- Number of re-entries of `Render` recorded on the trace: each re-entry
`return Render();` is preceded by the log line of the recovery block. -/
def D3D12Renderer.reentries (s : D3D12Renderer) : Nat :=
  s.trace.count (Event.Log "Device recovered, retrying render\n")

/-- Every slot below `FRAME_COUNT` has its render target, command allocator,
constant buffer and mapped pointer. -/
def D3D12Renderer.slotsExist (s : D3D12Renderer) : Prop :=
  ∀ j, j < FRAME_COUNT →
    s.ptr (Handle.m_renderTargets j) = true ∧ s.ptr (Handle.m_commandAllocators j) = true ∧
    s.ptr (Handle.m_constantBuffers j) = true ∧ s.ptr (Handle.m_mappedConstantData j) = true

/-- Every call of `Initialize` succeeds up to the creation of the constant
buffer of slot 1, which fails. -/
def slot1BufferFailsInit : InitEnv :=
  { okInit with
    create := { okCreate with
      resources := { okResources with createConstantBuffer := fun i => decide (i ≠ 1) } } }

/-- The renderer after a successful `Initialize` followed by a second
`Initialize` that fails at the constant buffer of slot 1. -/
def reinitialized : D3D12Renderer :=
  run [Op.Initialize okInit, Op.Initialize slot1BufferFailsInit] (D3D12Renderer.ctor false false)

/-- A pass of `Render` on back buffer 1 in which every call succeeds. -/
def passOnSlot1 : Nat → PassEnv :=
  fun _ => { passWith PresentResult.ok with backBufferIndex := 1 }

/-- Number of calls `Cleanup(preserveEssentials)` recorded on the trace. -/
def D3D12Renderer.cleanups (s : D3D12Renderer) (preserveEssentials : Bool) : Nat :=
  s.trace.count (Event.Cleanup preserveEssentials)

/-- The back buffer indices reported during a pass of `Render`, to the pass
itself and to the `RenderFallback` call it may make, are below `FRAME_COUNT`,
as those of a swap chain created with `BufferCount = FRAME_COUNT` are. -/
def PassEnv.indexInRange (e : PassEnv) : Prop :=
  e.backBufferIndex % UINT_SIZE < FRAME_COUNT ∧
    e.fallback.backBufferIndex % UINT_SIZE < FRAME_COUNT

/-- Every back buffer index reported during the operation is below
`FRAME_COUNT`. -/
def Op.indexInRange : Op → Prop
  | Op.Render env => ∀ k, (env k).indexInRange
  | Op.RenderFallback e => e.backBufferIndex % UINT_SIZE < FRAME_COUNT
  | _ => True

/-- The operations of a session on the healthy platform: initialisation, a
capture, a frame on back buffer 1, a fallback frame on back buffer 0 and
another capture. -/
def sessionOps : List Op :=
  [Op.Initialize okInit, Op.CaptureDesktop okCapture, Op.Render passOnSlot1,
    Op.RenderFallback okFallback, Op.CaptureDesktop okCapture]

/-! # Theorems -/

/-! ## Projections of the state updates -/

@[simp] theorem set_proj (s : D3D12Renderer) (h : Handle) (b : Bool) :
    (∀ k, (s.set h b).ptr k = if k = h then b else s.ptr k) ∧
    (s.set h b).selectedAdapter = s.selectedAdapter ∧
    (s.set h b).m_constantBufferSize = s.m_constantBufferSize ∧
    (s.set h b).m_frameIndex = s.m_frameIndex ∧
    (s.set h b).m_fenceValue = s.m_fenceValue ∧
    (s.set h b).m_rtvDescriptorSize = s.m_rtvDescriptorSize ∧
    (s.set h b).m_featureLevel = s.m_featureLevel ∧
    (s.set h b).m_time = s.m_time ∧
    (s.set h b).m_recoveryCount = s.m_recoveryCount ∧
    (s.set h b).m_fallbackMode = s.m_fallbackMode ∧
    (s.set h b).config = s.config ∧
    (s.set h b).SCREEN_WIDTH = s.SCREEN_WIDTH ∧
    (s.set h b).SCREEN_HEIGHT = s.SCREEN_HEIGHT ∧
    (s.set h b).uploadBufferWidth = s.uploadBufferWidth ∧
    (s.set h b).uploadData = s.uploadData ∧
    (s.set h b).screenTextureData = s.screenTextureData ∧
    (s.set h b).mappedConstants = s.mappedConstants ∧
    (s.set h b).trace = s.trace := by
  unfold D3D12Renderer.set
  simp only [and_self, implies_true]

@[simp] theorem emit_proj (s : D3D12Renderer) (ev : Event) :
    (s.emit ev).ptr = s.ptr ∧
    (s.emit ev).selectedAdapter = s.selectedAdapter ∧
    (s.emit ev).m_constantBufferSize = s.m_constantBufferSize ∧
    (s.emit ev).m_frameIndex = s.m_frameIndex ∧
    (s.emit ev).m_fenceValue = s.m_fenceValue ∧
    (s.emit ev).m_rtvDescriptorSize = s.m_rtvDescriptorSize ∧
    (s.emit ev).m_featureLevel = s.m_featureLevel ∧
    (s.emit ev).m_time = s.m_time ∧
    (s.emit ev).m_recoveryCount = s.m_recoveryCount ∧
    (s.emit ev).m_fallbackMode = s.m_fallbackMode ∧
    (s.emit ev).config = s.config ∧
    (s.emit ev).SCREEN_WIDTH = s.SCREEN_WIDTH ∧
    (s.emit ev).SCREEN_HEIGHT = s.SCREEN_HEIGHT ∧
    (s.emit ev).uploadBufferWidth = s.uploadBufferWidth ∧
    (s.emit ev).uploadData = s.uploadData ∧
    (s.emit ev).screenTextureData = s.screenTextureData ∧
    (s.emit ev).mappedConstants = s.mappedConstants ∧
    (s.emit ev).trace = s.trace ++ [ev] := by
  unfold D3D12Renderer.emit
  simp only [and_self]

@[simp] theorem emitAll_proj (s : D3D12Renderer) (evs : List Event) :
    (s.emitAll evs).ptr = s.ptr ∧
    (s.emitAll evs).selectedAdapter = s.selectedAdapter ∧
    (s.emitAll evs).m_constantBufferSize = s.m_constantBufferSize ∧
    (s.emitAll evs).m_frameIndex = s.m_frameIndex ∧
    (s.emitAll evs).m_fenceValue = s.m_fenceValue ∧
    (s.emitAll evs).m_rtvDescriptorSize = s.m_rtvDescriptorSize ∧
    (s.emitAll evs).m_featureLevel = s.m_featureLevel ∧
    (s.emitAll evs).m_time = s.m_time ∧
    (s.emitAll evs).m_recoveryCount = s.m_recoveryCount ∧
    (s.emitAll evs).m_fallbackMode = s.m_fallbackMode ∧
    (s.emitAll evs).config = s.config ∧
    (s.emitAll evs).SCREEN_WIDTH = s.SCREEN_WIDTH ∧
    (s.emitAll evs).SCREEN_HEIGHT = s.SCREEN_HEIGHT ∧
    (s.emitAll evs).uploadBufferWidth = s.uploadBufferWidth ∧
    (s.emitAll evs).uploadData = s.uploadData ∧
    (s.emitAll evs).screenTextureData = s.screenTextureData ∧
    (s.emitAll evs).mappedConstants = s.mappedConstants ∧
    (s.emitAll evs).trace = s.trace ++ evs := by
  unfold D3D12Renderer.emitAll
  simp only [and_self]

@[simp] theorem put_ptr_proj (s : D3D12Renderer) (v : Handle → Bool) :
    (s.put_ptr v).ptr = v ∧
    (s.put_ptr v).selectedAdapter = s.selectedAdapter ∧
    (s.put_ptr v).m_constantBufferSize = s.m_constantBufferSize ∧
    (s.put_ptr v).m_frameIndex = s.m_frameIndex ∧
    (s.put_ptr v).m_fenceValue = s.m_fenceValue ∧
    (s.put_ptr v).m_rtvDescriptorSize = s.m_rtvDescriptorSize ∧
    (s.put_ptr v).m_featureLevel = s.m_featureLevel ∧
    (s.put_ptr v).m_time = s.m_time ∧
    (s.put_ptr v).m_recoveryCount = s.m_recoveryCount ∧
    (s.put_ptr v).m_fallbackMode = s.m_fallbackMode ∧
    (s.put_ptr v).config = s.config ∧
    (s.put_ptr v).SCREEN_WIDTH = s.SCREEN_WIDTH ∧
    (s.put_ptr v).SCREEN_HEIGHT = s.SCREEN_HEIGHT ∧
    (s.put_ptr v).uploadBufferWidth = s.uploadBufferWidth ∧
    (s.put_ptr v).uploadData = s.uploadData ∧
    (s.put_ptr v).screenTextureData = s.screenTextureData ∧
    (s.put_ptr v).mappedConstants = s.mappedConstants ∧
    (s.put_ptr v).trace = s.trace := by
  unfold D3D12Renderer.put_ptr
  simp only [and_self]

@[simp] theorem put_selectedAdapter_proj (s : D3D12Renderer) (v : Nat) :
    (s.put_selectedAdapter v).ptr = s.ptr ∧
    (s.put_selectedAdapter v).selectedAdapter = v ∧
    (s.put_selectedAdapter v).m_constantBufferSize = s.m_constantBufferSize ∧
    (s.put_selectedAdapter v).m_frameIndex = s.m_frameIndex ∧
    (s.put_selectedAdapter v).m_fenceValue = s.m_fenceValue ∧
    (s.put_selectedAdapter v).m_rtvDescriptorSize = s.m_rtvDescriptorSize ∧
    (s.put_selectedAdapter v).m_featureLevel = s.m_featureLevel ∧
    (s.put_selectedAdapter v).m_time = s.m_time ∧
    (s.put_selectedAdapter v).m_recoveryCount = s.m_recoveryCount ∧
    (s.put_selectedAdapter v).m_fallbackMode = s.m_fallbackMode ∧
    (s.put_selectedAdapter v).config = s.config ∧
    (s.put_selectedAdapter v).SCREEN_WIDTH = s.SCREEN_WIDTH ∧
    (s.put_selectedAdapter v).SCREEN_HEIGHT = s.SCREEN_HEIGHT ∧
    (s.put_selectedAdapter v).uploadBufferWidth = s.uploadBufferWidth ∧
    (s.put_selectedAdapter v).uploadData = s.uploadData ∧
    (s.put_selectedAdapter v).screenTextureData = s.screenTextureData ∧
    (s.put_selectedAdapter v).mappedConstants = s.mappedConstants ∧
    (s.put_selectedAdapter v).trace = s.trace := by
  unfold D3D12Renderer.put_selectedAdapter
  simp only [and_self]

@[simp] theorem put_m_constantBufferSize_proj (s : D3D12Renderer) (v : Nat) :
    (s.put_m_constantBufferSize v).ptr = s.ptr ∧
    (s.put_m_constantBufferSize v).selectedAdapter = s.selectedAdapter ∧
    (s.put_m_constantBufferSize v).m_constantBufferSize = v ∧
    (s.put_m_constantBufferSize v).m_frameIndex = s.m_frameIndex ∧
    (s.put_m_constantBufferSize v).m_fenceValue = s.m_fenceValue ∧
    (s.put_m_constantBufferSize v).m_rtvDescriptorSize = s.m_rtvDescriptorSize ∧
    (s.put_m_constantBufferSize v).m_featureLevel = s.m_featureLevel ∧
    (s.put_m_constantBufferSize v).m_time = s.m_time ∧
    (s.put_m_constantBufferSize v).m_recoveryCount = s.m_recoveryCount ∧
    (s.put_m_constantBufferSize v).m_fallbackMode = s.m_fallbackMode ∧
    (s.put_m_constantBufferSize v).config = s.config ∧
    (s.put_m_constantBufferSize v).SCREEN_WIDTH = s.SCREEN_WIDTH ∧
    (s.put_m_constantBufferSize v).SCREEN_HEIGHT = s.SCREEN_HEIGHT ∧
    (s.put_m_constantBufferSize v).uploadBufferWidth = s.uploadBufferWidth ∧
    (s.put_m_constantBufferSize v).uploadData = s.uploadData ∧
    (s.put_m_constantBufferSize v).screenTextureData = s.screenTextureData ∧
    (s.put_m_constantBufferSize v).mappedConstants = s.mappedConstants ∧
    (s.put_m_constantBufferSize v).trace = s.trace := by
  unfold D3D12Renderer.put_m_constantBufferSize
  simp only [and_self]

@[simp] theorem put_m_frameIndex_proj (s : D3D12Renderer) (v : Nat) :
    (s.put_m_frameIndex v).ptr = s.ptr ∧
    (s.put_m_frameIndex v).selectedAdapter = s.selectedAdapter ∧
    (s.put_m_frameIndex v).m_constantBufferSize = s.m_constantBufferSize ∧
    (s.put_m_frameIndex v).m_frameIndex = v ∧
    (s.put_m_frameIndex v).m_fenceValue = s.m_fenceValue ∧
    (s.put_m_frameIndex v).m_rtvDescriptorSize = s.m_rtvDescriptorSize ∧
    (s.put_m_frameIndex v).m_featureLevel = s.m_featureLevel ∧
    (s.put_m_frameIndex v).m_time = s.m_time ∧
    (s.put_m_frameIndex v).m_recoveryCount = s.m_recoveryCount ∧
    (s.put_m_frameIndex v).m_fallbackMode = s.m_fallbackMode ∧
    (s.put_m_frameIndex v).config = s.config ∧
    (s.put_m_frameIndex v).SCREEN_WIDTH = s.SCREEN_WIDTH ∧
    (s.put_m_frameIndex v).SCREEN_HEIGHT = s.SCREEN_HEIGHT ∧
    (s.put_m_frameIndex v).uploadBufferWidth = s.uploadBufferWidth ∧
    (s.put_m_frameIndex v).uploadData = s.uploadData ∧
    (s.put_m_frameIndex v).screenTextureData = s.screenTextureData ∧
    (s.put_m_frameIndex v).mappedConstants = s.mappedConstants ∧
    (s.put_m_frameIndex v).trace = s.trace := by
  unfold D3D12Renderer.put_m_frameIndex
  simp only [and_self]

@[simp] theorem put_m_fenceValue_proj (s : D3D12Renderer) (v : Nat) :
    (s.put_m_fenceValue v).ptr = s.ptr ∧
    (s.put_m_fenceValue v).selectedAdapter = s.selectedAdapter ∧
    (s.put_m_fenceValue v).m_constantBufferSize = s.m_constantBufferSize ∧
    (s.put_m_fenceValue v).m_frameIndex = s.m_frameIndex ∧
    (s.put_m_fenceValue v).m_fenceValue = v ∧
    (s.put_m_fenceValue v).m_rtvDescriptorSize = s.m_rtvDescriptorSize ∧
    (s.put_m_fenceValue v).m_featureLevel = s.m_featureLevel ∧
    (s.put_m_fenceValue v).m_time = s.m_time ∧
    (s.put_m_fenceValue v).m_recoveryCount = s.m_recoveryCount ∧
    (s.put_m_fenceValue v).m_fallbackMode = s.m_fallbackMode ∧
    (s.put_m_fenceValue v).config = s.config ∧
    (s.put_m_fenceValue v).SCREEN_WIDTH = s.SCREEN_WIDTH ∧
    (s.put_m_fenceValue v).SCREEN_HEIGHT = s.SCREEN_HEIGHT ∧
    (s.put_m_fenceValue v).uploadBufferWidth = s.uploadBufferWidth ∧
    (s.put_m_fenceValue v).uploadData = s.uploadData ∧
    (s.put_m_fenceValue v).screenTextureData = s.screenTextureData ∧
    (s.put_m_fenceValue v).mappedConstants = s.mappedConstants ∧
    (s.put_m_fenceValue v).trace = s.trace := by
  unfold D3D12Renderer.put_m_fenceValue
  simp only [and_self]

@[simp] theorem put_m_rtvDescriptorSize_proj (s : D3D12Renderer) (v : Nat) :
    (s.put_m_rtvDescriptorSize v).ptr = s.ptr ∧
    (s.put_m_rtvDescriptorSize v).selectedAdapter = s.selectedAdapter ∧
    (s.put_m_rtvDescriptorSize v).m_constantBufferSize = s.m_constantBufferSize ∧
    (s.put_m_rtvDescriptorSize v).m_frameIndex = s.m_frameIndex ∧
    (s.put_m_rtvDescriptorSize v).m_fenceValue = s.m_fenceValue ∧
    (s.put_m_rtvDescriptorSize v).m_rtvDescriptorSize = v ∧
    (s.put_m_rtvDescriptorSize v).m_featureLevel = s.m_featureLevel ∧
    (s.put_m_rtvDescriptorSize v).m_time = s.m_time ∧
    (s.put_m_rtvDescriptorSize v).m_recoveryCount = s.m_recoveryCount ∧
    (s.put_m_rtvDescriptorSize v).m_fallbackMode = s.m_fallbackMode ∧
    (s.put_m_rtvDescriptorSize v).config = s.config ∧
    (s.put_m_rtvDescriptorSize v).SCREEN_WIDTH = s.SCREEN_WIDTH ∧
    (s.put_m_rtvDescriptorSize v).SCREEN_HEIGHT = s.SCREEN_HEIGHT ∧
    (s.put_m_rtvDescriptorSize v).uploadBufferWidth = s.uploadBufferWidth ∧
    (s.put_m_rtvDescriptorSize v).uploadData = s.uploadData ∧
    (s.put_m_rtvDescriptorSize v).screenTextureData = s.screenTextureData ∧
    (s.put_m_rtvDescriptorSize v).mappedConstants = s.mappedConstants ∧
    (s.put_m_rtvDescriptorSize v).trace = s.trace := by
  unfold D3D12Renderer.put_m_rtvDescriptorSize
  simp only [and_self]

@[simp] theorem put_m_featureLevel_proj (s : D3D12Renderer) (v : Nat) :
    (s.put_m_featureLevel v).ptr = s.ptr ∧
    (s.put_m_featureLevel v).selectedAdapter = s.selectedAdapter ∧
    (s.put_m_featureLevel v).m_constantBufferSize = s.m_constantBufferSize ∧
    (s.put_m_featureLevel v).m_frameIndex = s.m_frameIndex ∧
    (s.put_m_featureLevel v).m_fenceValue = s.m_fenceValue ∧
    (s.put_m_featureLevel v).m_rtvDescriptorSize = s.m_rtvDescriptorSize ∧
    (s.put_m_featureLevel v).m_featureLevel = v ∧
    (s.put_m_featureLevel v).m_time = s.m_time ∧
    (s.put_m_featureLevel v).m_recoveryCount = s.m_recoveryCount ∧
    (s.put_m_featureLevel v).m_fallbackMode = s.m_fallbackMode ∧
    (s.put_m_featureLevel v).config = s.config ∧
    (s.put_m_featureLevel v).SCREEN_WIDTH = s.SCREEN_WIDTH ∧
    (s.put_m_featureLevel v).SCREEN_HEIGHT = s.SCREEN_HEIGHT ∧
    (s.put_m_featureLevel v).uploadBufferWidth = s.uploadBufferWidth ∧
    (s.put_m_featureLevel v).uploadData = s.uploadData ∧
    (s.put_m_featureLevel v).screenTextureData = s.screenTextureData ∧
    (s.put_m_featureLevel v).mappedConstants = s.mappedConstants ∧
    (s.put_m_featureLevel v).trace = s.trace := by
  unfold D3D12Renderer.put_m_featureLevel
  simp only [and_self]

@[simp] theorem put_m_time_proj (s : D3D12Renderer) (v : Nat) :
    (s.put_m_time v).ptr = s.ptr ∧
    (s.put_m_time v).selectedAdapter = s.selectedAdapter ∧
    (s.put_m_time v).m_constantBufferSize = s.m_constantBufferSize ∧
    (s.put_m_time v).m_frameIndex = s.m_frameIndex ∧
    (s.put_m_time v).m_fenceValue = s.m_fenceValue ∧
    (s.put_m_time v).m_rtvDescriptorSize = s.m_rtvDescriptorSize ∧
    (s.put_m_time v).m_featureLevel = s.m_featureLevel ∧
    (s.put_m_time v).m_time = v ∧
    (s.put_m_time v).m_recoveryCount = s.m_recoveryCount ∧
    (s.put_m_time v).m_fallbackMode = s.m_fallbackMode ∧
    (s.put_m_time v).config = s.config ∧
    (s.put_m_time v).SCREEN_WIDTH = s.SCREEN_WIDTH ∧
    (s.put_m_time v).SCREEN_HEIGHT = s.SCREEN_HEIGHT ∧
    (s.put_m_time v).uploadBufferWidth = s.uploadBufferWidth ∧
    (s.put_m_time v).uploadData = s.uploadData ∧
    (s.put_m_time v).screenTextureData = s.screenTextureData ∧
    (s.put_m_time v).mappedConstants = s.mappedConstants ∧
    (s.put_m_time v).trace = s.trace := by
  unfold D3D12Renderer.put_m_time
  simp only [and_self]

@[simp] theorem put_m_recoveryCount_proj (s : D3D12Renderer) (v : Nat) :
    (s.put_m_recoveryCount v).ptr = s.ptr ∧
    (s.put_m_recoveryCount v).selectedAdapter = s.selectedAdapter ∧
    (s.put_m_recoveryCount v).m_constantBufferSize = s.m_constantBufferSize ∧
    (s.put_m_recoveryCount v).m_frameIndex = s.m_frameIndex ∧
    (s.put_m_recoveryCount v).m_fenceValue = s.m_fenceValue ∧
    (s.put_m_recoveryCount v).m_rtvDescriptorSize = s.m_rtvDescriptorSize ∧
    (s.put_m_recoveryCount v).m_featureLevel = s.m_featureLevel ∧
    (s.put_m_recoveryCount v).m_time = s.m_time ∧
    (s.put_m_recoveryCount v).m_recoveryCount = v ∧
    (s.put_m_recoveryCount v).m_fallbackMode = s.m_fallbackMode ∧
    (s.put_m_recoveryCount v).config = s.config ∧
    (s.put_m_recoveryCount v).SCREEN_WIDTH = s.SCREEN_WIDTH ∧
    (s.put_m_recoveryCount v).SCREEN_HEIGHT = s.SCREEN_HEIGHT ∧
    (s.put_m_recoveryCount v).uploadBufferWidth = s.uploadBufferWidth ∧
    (s.put_m_recoveryCount v).uploadData = s.uploadData ∧
    (s.put_m_recoveryCount v).screenTextureData = s.screenTextureData ∧
    (s.put_m_recoveryCount v).mappedConstants = s.mappedConstants ∧
    (s.put_m_recoveryCount v).trace = s.trace := by
  unfold D3D12Renderer.put_m_recoveryCount
  simp only [and_self]

@[simp] theorem put_m_fallbackMode_proj (s : D3D12Renderer) (v : Bool) :
    (s.put_m_fallbackMode v).ptr = s.ptr ∧
    (s.put_m_fallbackMode v).selectedAdapter = s.selectedAdapter ∧
    (s.put_m_fallbackMode v).m_constantBufferSize = s.m_constantBufferSize ∧
    (s.put_m_fallbackMode v).m_frameIndex = s.m_frameIndex ∧
    (s.put_m_fallbackMode v).m_fenceValue = s.m_fenceValue ∧
    (s.put_m_fallbackMode v).m_rtvDescriptorSize = s.m_rtvDescriptorSize ∧
    (s.put_m_fallbackMode v).m_featureLevel = s.m_featureLevel ∧
    (s.put_m_fallbackMode v).m_time = s.m_time ∧
    (s.put_m_fallbackMode v).m_recoveryCount = s.m_recoveryCount ∧
    (s.put_m_fallbackMode v).m_fallbackMode = v ∧
    (s.put_m_fallbackMode v).config = s.config ∧
    (s.put_m_fallbackMode v).SCREEN_WIDTH = s.SCREEN_WIDTH ∧
    (s.put_m_fallbackMode v).SCREEN_HEIGHT = s.SCREEN_HEIGHT ∧
    (s.put_m_fallbackMode v).uploadBufferWidth = s.uploadBufferWidth ∧
    (s.put_m_fallbackMode v).uploadData = s.uploadData ∧
    (s.put_m_fallbackMode v).screenTextureData = s.screenTextureData ∧
    (s.put_m_fallbackMode v).mappedConstants = s.mappedConstants ∧
    (s.put_m_fallbackMode v).trace = s.trace := by
  unfold D3D12Renderer.put_m_fallbackMode
  simp only [and_self]

@[simp] theorem put_config_proj (s : D3D12Renderer) (v : IllusionConfig) :
    (s.put_config v).ptr = s.ptr ∧
    (s.put_config v).selectedAdapter = s.selectedAdapter ∧
    (s.put_config v).m_constantBufferSize = s.m_constantBufferSize ∧
    (s.put_config v).m_frameIndex = s.m_frameIndex ∧
    (s.put_config v).m_fenceValue = s.m_fenceValue ∧
    (s.put_config v).m_rtvDescriptorSize = s.m_rtvDescriptorSize ∧
    (s.put_config v).m_featureLevel = s.m_featureLevel ∧
    (s.put_config v).m_time = s.m_time ∧
    (s.put_config v).m_recoveryCount = s.m_recoveryCount ∧
    (s.put_config v).m_fallbackMode = s.m_fallbackMode ∧
    (s.put_config v).config = v ∧
    (s.put_config v).SCREEN_WIDTH = s.SCREEN_WIDTH ∧
    (s.put_config v).SCREEN_HEIGHT = s.SCREEN_HEIGHT ∧
    (s.put_config v).uploadBufferWidth = s.uploadBufferWidth ∧
    (s.put_config v).uploadData = s.uploadData ∧
    (s.put_config v).screenTextureData = s.screenTextureData ∧
    (s.put_config v).mappedConstants = s.mappedConstants ∧
    (s.put_config v).trace = s.trace := by
  unfold D3D12Renderer.put_config
  simp only [and_self]

@[simp] theorem put_SCREEN_WIDTH_proj (s : D3D12Renderer) (v : Nat) :
    (s.put_SCREEN_WIDTH v).ptr = s.ptr ∧
    (s.put_SCREEN_WIDTH v).selectedAdapter = s.selectedAdapter ∧
    (s.put_SCREEN_WIDTH v).m_constantBufferSize = s.m_constantBufferSize ∧
    (s.put_SCREEN_WIDTH v).m_frameIndex = s.m_frameIndex ∧
    (s.put_SCREEN_WIDTH v).m_fenceValue = s.m_fenceValue ∧
    (s.put_SCREEN_WIDTH v).m_rtvDescriptorSize = s.m_rtvDescriptorSize ∧
    (s.put_SCREEN_WIDTH v).m_featureLevel = s.m_featureLevel ∧
    (s.put_SCREEN_WIDTH v).m_time = s.m_time ∧
    (s.put_SCREEN_WIDTH v).m_recoveryCount = s.m_recoveryCount ∧
    (s.put_SCREEN_WIDTH v).m_fallbackMode = s.m_fallbackMode ∧
    (s.put_SCREEN_WIDTH v).config = s.config ∧
    (s.put_SCREEN_WIDTH v).SCREEN_WIDTH = v ∧
    (s.put_SCREEN_WIDTH v).SCREEN_HEIGHT = s.SCREEN_HEIGHT ∧
    (s.put_SCREEN_WIDTH v).uploadBufferWidth = s.uploadBufferWidth ∧
    (s.put_SCREEN_WIDTH v).uploadData = s.uploadData ∧
    (s.put_SCREEN_WIDTH v).screenTextureData = s.screenTextureData ∧
    (s.put_SCREEN_WIDTH v).mappedConstants = s.mappedConstants ∧
    (s.put_SCREEN_WIDTH v).trace = s.trace := by
  unfold D3D12Renderer.put_SCREEN_WIDTH
  simp only [and_self]

@[simp] theorem put_SCREEN_HEIGHT_proj (s : D3D12Renderer) (v : Nat) :
    (s.put_SCREEN_HEIGHT v).ptr = s.ptr ∧
    (s.put_SCREEN_HEIGHT v).selectedAdapter = s.selectedAdapter ∧
    (s.put_SCREEN_HEIGHT v).m_constantBufferSize = s.m_constantBufferSize ∧
    (s.put_SCREEN_HEIGHT v).m_frameIndex = s.m_frameIndex ∧
    (s.put_SCREEN_HEIGHT v).m_fenceValue = s.m_fenceValue ∧
    (s.put_SCREEN_HEIGHT v).m_rtvDescriptorSize = s.m_rtvDescriptorSize ∧
    (s.put_SCREEN_HEIGHT v).m_featureLevel = s.m_featureLevel ∧
    (s.put_SCREEN_HEIGHT v).m_time = s.m_time ∧
    (s.put_SCREEN_HEIGHT v).m_recoveryCount = s.m_recoveryCount ∧
    (s.put_SCREEN_HEIGHT v).m_fallbackMode = s.m_fallbackMode ∧
    (s.put_SCREEN_HEIGHT v).config = s.config ∧
    (s.put_SCREEN_HEIGHT v).SCREEN_WIDTH = s.SCREEN_WIDTH ∧
    (s.put_SCREEN_HEIGHT v).SCREEN_HEIGHT = v ∧
    (s.put_SCREEN_HEIGHT v).uploadBufferWidth = s.uploadBufferWidth ∧
    (s.put_SCREEN_HEIGHT v).uploadData = s.uploadData ∧
    (s.put_SCREEN_HEIGHT v).screenTextureData = s.screenTextureData ∧
    (s.put_SCREEN_HEIGHT v).mappedConstants = s.mappedConstants ∧
    (s.put_SCREEN_HEIGHT v).trace = s.trace := by
  unfold D3D12Renderer.put_SCREEN_HEIGHT
  simp only [and_self]

@[simp] theorem put_uploadBufferWidth_proj (s : D3D12Renderer) (v : Nat) :
    (s.put_uploadBufferWidth v).ptr = s.ptr ∧
    (s.put_uploadBufferWidth v).selectedAdapter = s.selectedAdapter ∧
    (s.put_uploadBufferWidth v).m_constantBufferSize = s.m_constantBufferSize ∧
    (s.put_uploadBufferWidth v).m_frameIndex = s.m_frameIndex ∧
    (s.put_uploadBufferWidth v).m_fenceValue = s.m_fenceValue ∧
    (s.put_uploadBufferWidth v).m_rtvDescriptorSize = s.m_rtvDescriptorSize ∧
    (s.put_uploadBufferWidth v).m_featureLevel = s.m_featureLevel ∧
    (s.put_uploadBufferWidth v).m_time = s.m_time ∧
    (s.put_uploadBufferWidth v).m_recoveryCount = s.m_recoveryCount ∧
    (s.put_uploadBufferWidth v).m_fallbackMode = s.m_fallbackMode ∧
    (s.put_uploadBufferWidth v).config = s.config ∧
    (s.put_uploadBufferWidth v).SCREEN_WIDTH = s.SCREEN_WIDTH ∧
    (s.put_uploadBufferWidth v).SCREEN_HEIGHT = s.SCREEN_HEIGHT ∧
    (s.put_uploadBufferWidth v).uploadBufferWidth = v ∧
    (s.put_uploadBufferWidth v).uploadData = s.uploadData ∧
    (s.put_uploadBufferWidth v).screenTextureData = s.screenTextureData ∧
    (s.put_uploadBufferWidth v).mappedConstants = s.mappedConstants ∧
    (s.put_uploadBufferWidth v).trace = s.trace := by
  unfold D3D12Renderer.put_uploadBufferWidth
  simp only [and_self]

@[simp] theorem put_uploadData_proj (s : D3D12Renderer) (v : Nat → Nat) :
    (s.put_uploadData v).ptr = s.ptr ∧
    (s.put_uploadData v).selectedAdapter = s.selectedAdapter ∧
    (s.put_uploadData v).m_constantBufferSize = s.m_constantBufferSize ∧
    (s.put_uploadData v).m_frameIndex = s.m_frameIndex ∧
    (s.put_uploadData v).m_fenceValue = s.m_fenceValue ∧
    (s.put_uploadData v).m_rtvDescriptorSize = s.m_rtvDescriptorSize ∧
    (s.put_uploadData v).m_featureLevel = s.m_featureLevel ∧
    (s.put_uploadData v).m_time = s.m_time ∧
    (s.put_uploadData v).m_recoveryCount = s.m_recoveryCount ∧
    (s.put_uploadData v).m_fallbackMode = s.m_fallbackMode ∧
    (s.put_uploadData v).config = s.config ∧
    (s.put_uploadData v).SCREEN_WIDTH = s.SCREEN_WIDTH ∧
    (s.put_uploadData v).SCREEN_HEIGHT = s.SCREEN_HEIGHT ∧
    (s.put_uploadData v).uploadBufferWidth = s.uploadBufferWidth ∧
    (s.put_uploadData v).uploadData = v ∧
    (s.put_uploadData v).screenTextureData = s.screenTextureData ∧
    (s.put_uploadData v).mappedConstants = s.mappedConstants ∧
    (s.put_uploadData v).trace = s.trace := by
  unfold D3D12Renderer.put_uploadData
  simp only [and_self]

@[simp] theorem put_screenTextureData_proj (s : D3D12Renderer) (v : Nat → Nat) :
    (s.put_screenTextureData v).ptr = s.ptr ∧
    (s.put_screenTextureData v).selectedAdapter = s.selectedAdapter ∧
    (s.put_screenTextureData v).m_constantBufferSize = s.m_constantBufferSize ∧
    (s.put_screenTextureData v).m_frameIndex = s.m_frameIndex ∧
    (s.put_screenTextureData v).m_fenceValue = s.m_fenceValue ∧
    (s.put_screenTextureData v).m_rtvDescriptorSize = s.m_rtvDescriptorSize ∧
    (s.put_screenTextureData v).m_featureLevel = s.m_featureLevel ∧
    (s.put_screenTextureData v).m_time = s.m_time ∧
    (s.put_screenTextureData v).m_recoveryCount = s.m_recoveryCount ∧
    (s.put_screenTextureData v).m_fallbackMode = s.m_fallbackMode ∧
    (s.put_screenTextureData v).config = s.config ∧
    (s.put_screenTextureData v).SCREEN_WIDTH = s.SCREEN_WIDTH ∧
    (s.put_screenTextureData v).SCREEN_HEIGHT = s.SCREEN_HEIGHT ∧
    (s.put_screenTextureData v).uploadBufferWidth = s.uploadBufferWidth ∧
    (s.put_screenTextureData v).uploadData = s.uploadData ∧
    (s.put_screenTextureData v).screenTextureData = v ∧
    (s.put_screenTextureData v).mappedConstants = s.mappedConstants ∧
    (s.put_screenTextureData v).trace = s.trace := by
  unfold D3D12Renderer.put_screenTextureData
  simp only [and_self]

@[simp] theorem put_mappedConstants_proj (s : D3D12Renderer) (v : Nat → IllusionConfig) :
    (s.put_mappedConstants v).ptr = s.ptr ∧
    (s.put_mappedConstants v).selectedAdapter = s.selectedAdapter ∧
    (s.put_mappedConstants v).m_constantBufferSize = s.m_constantBufferSize ∧
    (s.put_mappedConstants v).m_frameIndex = s.m_frameIndex ∧
    (s.put_mappedConstants v).m_fenceValue = s.m_fenceValue ∧
    (s.put_mappedConstants v).m_rtvDescriptorSize = s.m_rtvDescriptorSize ∧
    (s.put_mappedConstants v).m_featureLevel = s.m_featureLevel ∧
    (s.put_mappedConstants v).m_time = s.m_time ∧
    (s.put_mappedConstants v).m_recoveryCount = s.m_recoveryCount ∧
    (s.put_mappedConstants v).m_fallbackMode = s.m_fallbackMode ∧
    (s.put_mappedConstants v).config = s.config ∧
    (s.put_mappedConstants v).SCREEN_WIDTH = s.SCREEN_WIDTH ∧
    (s.put_mappedConstants v).SCREEN_HEIGHT = s.SCREEN_HEIGHT ∧
    (s.put_mappedConstants v).uploadBufferWidth = s.uploadBufferWidth ∧
    (s.put_mappedConstants v).uploadData = s.uploadData ∧
    (s.put_mappedConstants v).screenTextureData = s.screenTextureData ∧
    (s.put_mappedConstants v).mappedConstants = v ∧
    (s.put_mappedConstants v).trace = s.trace := by
  unfold D3D12Renderer.put_mappedConstants
  simp only [and_self]

@[simp] theorem log_eq (s : D3D12Renderer) (m : String) : s.log m = s.emit (Event.Log m) := by
  unfold D3D12Renderer.log; rfl

@[simp] theorem throwHR_fst (s : D3D12Renderer) (m : String) :
    (throwHR s m).1 = Outcome.threw m := rfl

@[simp] theorem throwHR_snd (s : D3D12Renderer) (m : String) :
    (throwHR s m).2 = (s.emit (Event.Log m)).emit (Event.Log m) := by
  simp only [throwHR, log_eq]

@[simp] theorem throwTool_fst (s : D3D12Renderer) (m : String) :
    (throwTool s m).1 = Outcome.threw m := rfl

@[simp] theorem throwTool_snd (s : D3D12Renderer) (m : String) :
    (throwTool s m).2 = s.emit (Event.Log m) := by
  simp only [throwTool, log_eq]

@[simp] theorem afterValidate_proj (s : D3D12Renderer) :
    (afterValidate s).ptr = s.ptr ∧
    (afterValidate s).selectedAdapter = s.selectedAdapter ∧
    (afterValidate s).m_constantBufferSize = s.m_constantBufferSize ∧
    (afterValidate s).m_frameIndex = s.m_frameIndex ∧
    (afterValidate s).m_fenceValue = s.m_fenceValue ∧
    (afterValidate s).m_rtvDescriptorSize = s.m_rtvDescriptorSize ∧
    (afterValidate s).m_featureLevel = s.m_featureLevel ∧
    (afterValidate s).m_time = s.m_time ∧
    (afterValidate s).m_recoveryCount = s.m_recoveryCount ∧
    (afterValidate s).m_fallbackMode = s.m_fallbackMode ∧
    (afterValidate s).config = s.config ∧
    (afterValidate s).SCREEN_WIDTH = s.SCREEN_WIDTH ∧
    (afterValidate s).SCREEN_HEIGHT = s.SCREEN_HEIGHT ∧
    (afterValidate s).uploadBufferWidth = s.uploadBufferWidth ∧
    (afterValidate s).uploadData = s.uploadData ∧
    (afterValidate s).screenTextureData = s.screenTextureData ∧
    (afterValidate s).mappedConstants = s.mappedConstants := by
  unfold afterValidate
  split <;> simp only [log_eq, emit_proj, and_self]

@[simp] theorem WaitForGPU_proj (s : D3D12Renderer) :
    (WaitForGPU s).ptr = s.ptr ∧
    (WaitForGPU s).selectedAdapter = s.selectedAdapter ∧
    (WaitForGPU s).m_constantBufferSize = s.m_constantBufferSize ∧
    (WaitForGPU s).m_frameIndex = s.m_frameIndex ∧
    (WaitForGPU s).m_rtvDescriptorSize = s.m_rtvDescriptorSize ∧
    (WaitForGPU s).m_featureLevel = s.m_featureLevel ∧
    (WaitForGPU s).m_time = s.m_time ∧
    (WaitForGPU s).m_recoveryCount = s.m_recoveryCount ∧
    (WaitForGPU s).m_fallbackMode = s.m_fallbackMode ∧
    (WaitForGPU s).config = s.config ∧
    (WaitForGPU s).SCREEN_WIDTH = s.SCREEN_WIDTH ∧
    (WaitForGPU s).SCREEN_HEIGHT = s.SCREEN_HEIGHT ∧
    (WaitForGPU s).uploadBufferWidth = s.uploadBufferWidth ∧
    (WaitForGPU s).uploadData = s.uploadData ∧
    (WaitForGPU s).screenTextureData = s.screenTextureData ∧
    (WaitForGPU s).mappedConstants = s.mappedConstants := by
  unfold WaitForGPU
  simp only []
  split_ifs <;> simp only [log_eq, emit_proj, put_m_fenceValue_proj, and_self]

@[simp] theorem dispatchCompute_proj (s : D3D12Renderer) :
    (dispatchCompute s).ptr = s.ptr ∧
    (dispatchCompute s).selectedAdapter = s.selectedAdapter ∧
    (dispatchCompute s).m_constantBufferSize = s.m_constantBufferSize ∧
    (dispatchCompute s).m_frameIndex = s.m_frameIndex ∧
    (dispatchCompute s).m_fenceValue = s.m_fenceValue ∧
    (dispatchCompute s).m_rtvDescriptorSize = s.m_rtvDescriptorSize ∧
    (dispatchCompute s).m_featureLevel = s.m_featureLevel ∧
    (dispatchCompute s).m_time = s.m_time ∧
    (dispatchCompute s).m_recoveryCount = s.m_recoveryCount ∧
    (dispatchCompute s).m_fallbackMode = s.m_fallbackMode ∧
    (dispatchCompute s).config = s.config ∧
    (dispatchCompute s).SCREEN_WIDTH = s.SCREEN_WIDTH ∧
    (dispatchCompute s).SCREEN_HEIGHT = s.SCREEN_HEIGHT ∧
    (dispatchCompute s).uploadBufferWidth = s.uploadBufferWidth ∧
    (dispatchCompute s).uploadData = s.uploadData ∧
    (dispatchCompute s).screenTextureData = s.screenTextureData ∧
    (dispatchCompute s).mappedConstants = s.mappedConstants := by
  unfold dispatchCompute
  split <;> simp only [emitAll_proj, and_self]

@[simp] theorem writeConstants_proj (s : D3D12Renderer) :
    (writeConstants s).ptr = s.ptr ∧
    (writeConstants s).selectedAdapter = s.selectedAdapter ∧
    (writeConstants s).m_constantBufferSize = s.m_constantBufferSize ∧
    (writeConstants s).m_frameIndex = s.m_frameIndex ∧
    (writeConstants s).m_fenceValue = s.m_fenceValue ∧
    (writeConstants s).m_rtvDescriptorSize = s.m_rtvDescriptorSize ∧
    (writeConstants s).m_featureLevel = s.m_featureLevel ∧
    (writeConstants s).m_time = s.m_time ∧
    (writeConstants s).m_recoveryCount = s.m_recoveryCount ∧
    (writeConstants s).m_fallbackMode = s.m_fallbackMode ∧
    (writeConstants s).config = s.config ∧
    (writeConstants s).SCREEN_WIDTH = s.SCREEN_WIDTH ∧
    (writeConstants s).SCREEN_HEIGHT = s.SCREEN_HEIGHT ∧
    (writeConstants s).uploadBufferWidth = s.uploadBufferWidth ∧
    (writeConstants s).uploadData = s.uploadData ∧
    (writeConstants s).screenTextureData = s.screenTextureData ∧
    (writeConstants s).trace = s.trace := by
  unfold writeConstants
  simp only [put_mappedConstants_proj, and_self]

theorem dispatchCompute_attempts (s : D3D12Renderer) :
    (dispatchCompute s).attempts = s.attempts := by
  unfold dispatchCompute
  split <;> simp [D3D12Renderer.attempts, computeCommands]

/-! ### The fence results of the platform -/

@[simp] theorem set_fenceCalls (s : D3D12Renderer) (h : Handle) (b : Bool) :
    (s.set h b).fenceCalls = s.fenceCalls := by
  unfold D3D12Renderer.set; rfl

@[simp] theorem emit_fenceCalls (s : D3D12Renderer) (ev : Event) :
    (s.emit ev).fenceCalls = s.fenceCalls := by
  unfold D3D12Renderer.emit; rfl

@[simp] theorem emitAll_fenceCalls (s : D3D12Renderer) (evs : List Event) :
    (s.emitAll evs).fenceCalls = s.fenceCalls := by
  unfold D3D12Renderer.emitAll; rfl

@[simp] theorem put_ptr_fenceCalls (s : D3D12Renderer) (v : Handle → Bool) :
    (s.put_ptr v).fenceCalls = s.fenceCalls := by
  unfold D3D12Renderer.put_ptr; rfl

@[simp] theorem put_selectedAdapter_fenceCalls (s : D3D12Renderer) (v : Nat) :
    (s.put_selectedAdapter v).fenceCalls = s.fenceCalls := by
  unfold D3D12Renderer.put_selectedAdapter; rfl

@[simp] theorem put_m_constantBufferSize_fenceCalls (s : D3D12Renderer) (v : Nat) :
    (s.put_m_constantBufferSize v).fenceCalls = s.fenceCalls := by
  unfold D3D12Renderer.put_m_constantBufferSize; rfl

@[simp] theorem put_m_frameIndex_fenceCalls (s : D3D12Renderer) (v : Nat) :
    (s.put_m_frameIndex v).fenceCalls = s.fenceCalls := by
  unfold D3D12Renderer.put_m_frameIndex; rfl

@[simp] theorem put_m_fenceValue_fenceCalls (s : D3D12Renderer) (v : Nat) :
    (s.put_m_fenceValue v).fenceCalls = s.fenceCalls := by
  unfold D3D12Renderer.put_m_fenceValue; rfl

@[simp] theorem put_m_rtvDescriptorSize_fenceCalls (s : D3D12Renderer) (v : Nat) :
    (s.put_m_rtvDescriptorSize v).fenceCalls = s.fenceCalls := by
  unfold D3D12Renderer.put_m_rtvDescriptorSize; rfl

@[simp] theorem put_m_featureLevel_fenceCalls (s : D3D12Renderer) (v : Nat) :
    (s.put_m_featureLevel v).fenceCalls = s.fenceCalls := by
  unfold D3D12Renderer.put_m_featureLevel; rfl

@[simp] theorem put_m_time_fenceCalls (s : D3D12Renderer) (v : Nat) :
    (s.put_m_time v).fenceCalls = s.fenceCalls := by
  unfold D3D12Renderer.put_m_time; rfl

@[simp] theorem put_m_recoveryCount_fenceCalls (s : D3D12Renderer) (v : Nat) :
    (s.put_m_recoveryCount v).fenceCalls = s.fenceCalls := by
  unfold D3D12Renderer.put_m_recoveryCount; rfl

@[simp] theorem put_m_fallbackMode_fenceCalls (s : D3D12Renderer) (v : Bool) :
    (s.put_m_fallbackMode v).fenceCalls = s.fenceCalls := by
  unfold D3D12Renderer.put_m_fallbackMode; rfl

@[simp] theorem put_config_fenceCalls (s : D3D12Renderer) (v : IllusionConfig) :
    (s.put_config v).fenceCalls = s.fenceCalls := by
  unfold D3D12Renderer.put_config; rfl

@[simp] theorem put_SCREEN_WIDTH_fenceCalls (s : D3D12Renderer) (v : Nat) :
    (s.put_SCREEN_WIDTH v).fenceCalls = s.fenceCalls := by
  unfold D3D12Renderer.put_SCREEN_WIDTH; rfl

@[simp] theorem put_SCREEN_HEIGHT_fenceCalls (s : D3D12Renderer) (v : Nat) :
    (s.put_SCREEN_HEIGHT v).fenceCalls = s.fenceCalls := by
  unfold D3D12Renderer.put_SCREEN_HEIGHT; rfl

@[simp] theorem put_uploadBufferWidth_fenceCalls (s : D3D12Renderer) (v : Nat) :
    (s.put_uploadBufferWidth v).fenceCalls = s.fenceCalls := by
  unfold D3D12Renderer.put_uploadBufferWidth; rfl

@[simp] theorem put_uploadData_fenceCalls (s : D3D12Renderer) (v : Nat → Nat) :
    (s.put_uploadData v).fenceCalls = s.fenceCalls := by
  unfold D3D12Renderer.put_uploadData; rfl

@[simp] theorem put_screenTextureData_fenceCalls (s : D3D12Renderer) (v : Nat → Nat) :
    (s.put_screenTextureData v).fenceCalls = s.fenceCalls := by
  unfold D3D12Renderer.put_screenTextureData; rfl

@[simp] theorem put_mappedConstants_fenceCalls (s : D3D12Renderer) (v : Nat → IllusionConfig) :
    (s.put_mappedConstants v).fenceCalls = s.fenceCalls := by
  unfold D3D12Renderer.put_mappedConstants; rfl

@[simp] theorem log_fenceCalls (s : D3D12Renderer) (m : String) :
    (s.log m).fenceCalls = s.fenceCalls := by
  rw [log_eq, emit_fenceCalls]

@[simp] theorem put_fenceCalls_proj (s : D3D12Renderer) (v : Nat → FenceEnv) :
    (s.put_fenceCalls v).ptr = s.ptr ∧
    (s.put_fenceCalls v).selectedAdapter = s.selectedAdapter ∧
    (s.put_fenceCalls v).m_constantBufferSize = s.m_constantBufferSize ∧
    (s.put_fenceCalls v).m_frameIndex = s.m_frameIndex ∧
    (s.put_fenceCalls v).m_fenceValue = s.m_fenceValue ∧
    (s.put_fenceCalls v).m_rtvDescriptorSize = s.m_rtvDescriptorSize ∧
    (s.put_fenceCalls v).m_featureLevel = s.m_featureLevel ∧
    (s.put_fenceCalls v).m_time = s.m_time ∧
    (s.put_fenceCalls v).m_recoveryCount = s.m_recoveryCount ∧
    (s.put_fenceCalls v).m_fallbackMode = s.m_fallbackMode ∧
    (s.put_fenceCalls v).config = s.config ∧
    (s.put_fenceCalls v).SCREEN_WIDTH = s.SCREEN_WIDTH ∧
    (s.put_fenceCalls v).SCREEN_HEIGHT = s.SCREEN_HEIGHT ∧
    (s.put_fenceCalls v).uploadBufferWidth = s.uploadBufferWidth ∧
    (s.put_fenceCalls v).uploadData = s.uploadData ∧
    (s.put_fenceCalls v).screenTextureData = s.screenTextureData ∧
    (s.put_fenceCalls v).mappedConstants = s.mappedConstants ∧
    (s.put_fenceCalls v).trace = s.trace ∧
    (s.put_fenceCalls v).fenceCalls = v := by
  unfold D3D12Renderer.put_fenceCalls
  simp only [and_self]

@[simp] theorem afterValidate_fenceCalls (s : D3D12Renderer) :
    (afterValidate s).fenceCalls = s.fenceCalls := by
  unfold afterValidate
  split <;> simp only [log_fenceCalls]

@[simp] theorem WaitForGPU_fenceCalls (s : D3D12Renderer) :
    (WaitForGPU s).fenceCalls = s.fenceCalls := by
  unfold WaitForGPU
  simp only []
  split_ifs <;> simp only [log_fenceCalls, emit_fenceCalls, put_m_fenceValue_fenceCalls]

@[simp] theorem dispatchCompute_fenceCalls (s : D3D12Renderer) :
    (dispatchCompute s).fenceCalls = s.fenceCalls := by
  unfold dispatchCompute
  split <;> simp only [emitAll_fenceCalls]

@[simp] theorem writeConstants_fenceCalls (s : D3D12Renderer) :
    (writeConstants s).fenceCalls = s.fenceCalls := by
  unfold writeConstants
  simp only [put_mappedConstants_fenceCalls]

/-! ## Operations that leave the recovery state and the configuration alone -/

theorem control_WaitForGPU (s : D3D12Renderer) :
    (WaitForGPU s).control = s.control := by
  unfold WaitForGPU
  simp only [D3D12Renderer.control, log_eq, throwHR_snd, throwTool_snd, apply_ite Prod.snd,
    apply_ite D3D12Renderer.m_recoveryCount, apply_ite D3D12Renderer.m_fallbackMode,
    apply_ite D3D12Renderer.config, set_proj, emit_proj, put_ptr_proj, put_selectedAdapter_proj,
    put_m_constantBufferSize_proj, put_m_frameIndex_proj, put_m_fenceValue_proj,
    put_m_rtvDescriptorSize_proj, put_m_featureLevel_proj, put_m_time_proj,
    put_m_recoveryCount_proj, put_m_fallbackMode_proj, put_config_proj, put_SCREEN_WIDTH_proj,
    put_SCREEN_HEIGHT_proj, put_uploadBufferWidth_proj, put_uploadData_proj,
    put_screenTextureData_proj, put_mappedConstants_proj]
  simp only [ite_self]

@[simp] theorem WaitForGPU_m_recoveryCount (s : D3D12Renderer) :
    (WaitForGPU s).m_recoveryCount = s.m_recoveryCount :=
  congrArg (fun c => c.1) (control_WaitForGPU s)

@[simp] theorem WaitForGPU_m_fallbackMode (s : D3D12Renderer) :
    (WaitForGPU s).m_fallbackMode = s.m_fallbackMode :=
  congrArg (fun c => c.2.1) (control_WaitForGPU s)

@[simp] theorem WaitForGPU_config (s : D3D12Renderer) :
    (WaitForGPU s).config = s.config :=
  congrArg (fun c => c.2.2) (control_WaitForGPU s)

theorem control_Cleanup (p : Bool) (s : D3D12Renderer) :
    (Cleanup p s).control = s.control := by
  unfold Cleanup
  simp only [D3D12Renderer.control, log_eq, throwHR_snd, throwTool_snd, apply_ite Prod.snd,
    apply_ite D3D12Renderer.m_recoveryCount, apply_ite D3D12Renderer.m_fallbackMode,
    apply_ite D3D12Renderer.config, set_proj, emit_proj, put_ptr_proj, put_selectedAdapter_proj,
    put_m_constantBufferSize_proj, put_m_frameIndex_proj, put_m_fenceValue_proj,
    put_m_rtvDescriptorSize_proj, put_m_featureLevel_proj, put_m_time_proj,
    put_m_recoveryCount_proj, put_m_fallbackMode_proj, put_config_proj, put_SCREEN_WIDTH_proj,
    put_SCREEN_HEIGHT_proj, put_uploadBufferWidth_proj, put_uploadData_proj,
    put_screenTextureData_proj, put_mappedConstants_proj, WaitForGPU_m_recoveryCount,
    WaitForGPU_m_fallbackMode, WaitForGPU_config]
  simp only [ite_self]

@[simp] theorem Cleanup_m_recoveryCount (p : Bool) (s : D3D12Renderer) :
    (Cleanup p s).m_recoveryCount = s.m_recoveryCount :=
  congrArg (fun c => c.1) (control_Cleanup p s)

@[simp] theorem Cleanup_m_fallbackMode (p : Bool) (s : D3D12Renderer) :
    (Cleanup p s).m_fallbackMode = s.m_fallbackMode :=
  congrArg (fun c => c.2.1) (control_Cleanup p s)

@[simp] theorem Cleanup_config (p : Bool) (s : D3D12Renderer) :
    (Cleanup p s).config = s.config :=
  congrArg (fun c => c.2.2) (control_Cleanup p s)

theorem control_getSwapChainBuffers (e : CreateEnv) (n i : Nat) (s : D3D12Renderer) :
    ((getSwapChainBuffers e n i s).2).control = s.control := by
  induction n generalizing i s with
  | zero => unfold getSwapChainBuffers; rfl
  | succ n ih =>
    have h1 := fun i s => congrArg (fun c => c.1) (ih i s)
    have h2 := fun i s => congrArg (fun c => c.2.1) (ih i s)
    have h3 := fun i s => congrArg (fun c => c.2.2) (ih i s)
    simp only [D3D12Renderer.control] at h1 h2 h3
    unfold getSwapChainBuffers
    simp only [D3D12Renderer.control, log_eq, throwHR_snd, throwTool_snd, apply_ite Prod.snd,
      apply_ite D3D12Renderer.m_recoveryCount, apply_ite D3D12Renderer.m_fallbackMode,
      apply_ite D3D12Renderer.config, set_proj, emit_proj, put_ptr_proj, put_selectedAdapter_proj,
      put_m_constantBufferSize_proj, put_m_frameIndex_proj, put_m_fenceValue_proj,
      put_m_rtvDescriptorSize_proj, put_m_featureLevel_proj, put_m_time_proj,
      put_m_recoveryCount_proj, put_m_fallbackMode_proj, put_config_proj, put_SCREEN_WIDTH_proj,
      put_SCREEN_HEIGHT_proj, put_uploadBufferWidth_proj, put_uploadData_proj,
      put_screenTextureData_proj, put_mappedConstants_proj, h1, h2, h3]
    simp only [ite_self]

@[simp] theorem getSwapChainBuffers_m_recoveryCount (e : CreateEnv) (n i : Nat) (s : D3D12Renderer) :
    ((getSwapChainBuffers e n i s).2).m_recoveryCount = s.m_recoveryCount :=
  congrArg (fun c => c.1) (control_getSwapChainBuffers e n i s)

@[simp] theorem getSwapChainBuffers_m_fallbackMode (e : CreateEnv) (n i : Nat) (s : D3D12Renderer) :
    ((getSwapChainBuffers e n i s).2).m_fallbackMode = s.m_fallbackMode :=
  congrArg (fun c => c.2.1) (control_getSwapChainBuffers e n i s)

@[simp] theorem getSwapChainBuffers_config (e : CreateEnv) (n i : Nat) (s : D3D12Renderer) :
    ((getSwapChainBuffers e n i s).2).config = s.config :=
  congrArg (fun c => c.2.2) (control_getSwapChainBuffers e n i s)

theorem control_createCommandAllocators (e : CreateEnv) (n i : Nat) (s : D3D12Renderer) :
    ((createCommandAllocators e n i s).2).control = s.control := by
  induction n generalizing i s with
  | zero => unfold createCommandAllocators; rfl
  | succ n ih =>
    have h1 := fun i s => congrArg (fun c => c.1) (ih i s)
    have h2 := fun i s => congrArg (fun c => c.2.1) (ih i s)
    have h3 := fun i s => congrArg (fun c => c.2.2) (ih i s)
    simp only [D3D12Renderer.control] at h1 h2 h3
    unfold createCommandAllocators
    simp only [D3D12Renderer.control, log_eq, throwHR_snd, throwTool_snd, apply_ite Prod.snd,
      apply_ite D3D12Renderer.m_recoveryCount, apply_ite D3D12Renderer.m_fallbackMode,
      apply_ite D3D12Renderer.config, set_proj, emit_proj, put_ptr_proj, put_selectedAdapter_proj,
      put_m_constantBufferSize_proj, put_m_frameIndex_proj, put_m_fenceValue_proj,
      put_m_rtvDescriptorSize_proj, put_m_featureLevel_proj, put_m_time_proj,
      put_m_recoveryCount_proj, put_m_fallbackMode_proj, put_config_proj, put_SCREEN_WIDTH_proj,
      put_SCREEN_HEIGHT_proj, put_uploadBufferWidth_proj, put_uploadData_proj,
      put_screenTextureData_proj, put_mappedConstants_proj, h1, h2, h3]
    simp only [ite_self]

@[simp] theorem createCommandAllocators_m_recoveryCount (e : CreateEnv) (n i : Nat) (s : D3D12Renderer) :
    ((createCommandAllocators e n i s).2).m_recoveryCount = s.m_recoveryCount :=
  congrArg (fun c => c.1) (control_createCommandAllocators e n i s)

@[simp] theorem createCommandAllocators_m_fallbackMode (e : CreateEnv) (n i : Nat) (s : D3D12Renderer) :
    ((createCommandAllocators e n i s).2).m_fallbackMode = s.m_fallbackMode :=
  congrArg (fun c => c.2.1) (control_createCommandAllocators e n i s)

@[simp] theorem createCommandAllocators_config (e : CreateEnv) (n i : Nat) (s : D3D12Renderer) :
    ((createCommandAllocators e n i s).2).config = s.config :=
  congrArg (fun c => c.2.2) (control_createCommandAllocators e n i s)

theorem control_createConstantBuffers (e : ResourcesEnv) (n i : Nat) (s : D3D12Renderer) :
    ((createConstantBuffers e n i s).2).control = s.control := by
  induction n generalizing i s with
  | zero => unfold createConstantBuffers; rfl
  | succ n ih =>
    have h1 := fun i s => congrArg (fun c => c.1) (ih i s)
    have h2 := fun i s => congrArg (fun c => c.2.1) (ih i s)
    have h3 := fun i s => congrArg (fun c => c.2.2) (ih i s)
    simp only [D3D12Renderer.control] at h1 h2 h3
    unfold createConstantBuffers
    simp only [D3D12Renderer.control, log_eq, throwHR_snd, throwTool_snd, apply_ite Prod.snd,
      apply_ite D3D12Renderer.m_recoveryCount, apply_ite D3D12Renderer.m_fallbackMode,
      apply_ite D3D12Renderer.config, set_proj, emit_proj, put_ptr_proj, put_selectedAdapter_proj,
      put_m_constantBufferSize_proj, put_m_frameIndex_proj, put_m_fenceValue_proj,
      put_m_rtvDescriptorSize_proj, put_m_featureLevel_proj, put_m_time_proj,
      put_m_recoveryCount_proj, put_m_fallbackMode_proj, put_config_proj, put_SCREEN_WIDTH_proj,
      put_SCREEN_HEIGHT_proj, put_uploadBufferWidth_proj, put_uploadData_proj,
      put_screenTextureData_proj, put_mappedConstants_proj, h1, h2, h3]
    simp only [ite_self]

@[simp] theorem createConstantBuffers_m_recoveryCount (e : ResourcesEnv) (n i : Nat) (s : D3D12Renderer) :
    ((createConstantBuffers e n i s).2).m_recoveryCount = s.m_recoveryCount :=
  congrArg (fun c => c.1) (control_createConstantBuffers e n i s)

@[simp] theorem createConstantBuffers_m_fallbackMode (e : ResourcesEnv) (n i : Nat) (s : D3D12Renderer) :
    ((createConstantBuffers e n i s).2).m_fallbackMode = s.m_fallbackMode :=
  congrArg (fun c => c.2.1) (control_createConstantBuffers e n i s)

@[simp] theorem createConstantBuffers_config (e : ResourcesEnv) (n i : Nat) (s : D3D12Renderer) :
    ((createConstantBuffers e n i s).2).config = s.config :=
  congrArg (fun c => c.2.2) (control_createConstantBuffers e n i s)

theorem control_createResourcesTail (e : ResourcesEnv) (s : D3D12Renderer) :
    ((createResourcesTail e s).2).control = s.control := by
  unfold createResourcesTail
  simp only [D3D12Renderer.control, log_eq, throwHR_snd, throwTool_snd, apply_ite Prod.snd,
    apply_ite D3D12Renderer.m_recoveryCount, apply_ite D3D12Renderer.m_fallbackMode,
    apply_ite D3D12Renderer.config, set_proj, emit_proj, put_ptr_proj, put_selectedAdapter_proj,
    put_m_constantBufferSize_proj, put_m_frameIndex_proj, put_m_fenceValue_proj,
    put_m_rtvDescriptorSize_proj, put_m_featureLevel_proj, put_m_time_proj,
    put_m_recoveryCount_proj, put_m_fallbackMode_proj, put_config_proj, put_SCREEN_WIDTH_proj,
    put_SCREEN_HEIGHT_proj, put_uploadBufferWidth_proj, put_uploadData_proj,
    put_screenTextureData_proj, put_mappedConstants_proj, createConstantBuffers_m_recoveryCount,
    createConstantBuffers_m_fallbackMode, createConstantBuffers_config]
  simp only [ite_self]

@[simp] theorem createResourcesTail_m_recoveryCount (e : ResourcesEnv) (s : D3D12Renderer) :
    ((createResourcesTail e s).2).m_recoveryCount = s.m_recoveryCount :=
  congrArg (fun c => c.1) (control_createResourcesTail e s)

@[simp] theorem createResourcesTail_m_fallbackMode (e : ResourcesEnv) (s : D3D12Renderer) :
    ((createResourcesTail e s).2).m_fallbackMode = s.m_fallbackMode :=
  congrArg (fun c => c.2.1) (control_createResourcesTail e s)

@[simp] theorem createResourcesTail_config (e : ResourcesEnv) (s : D3D12Renderer) :
    ((createResourcesTail e s).2).config = s.config :=
  congrArg (fun c => c.2.2) (control_createResourcesTail e s)

theorem control_CreateResources (e : ResourcesEnv) (s : D3D12Renderer) :
    ((CreateResources e s).2).control = s.control := by
  unfold CreateResources
  simp only [D3D12Renderer.control, log_eq, throwHR_snd, throwTool_snd, apply_ite Prod.snd,
    apply_ite D3D12Renderer.m_recoveryCount, apply_ite D3D12Renderer.m_fallbackMode,
    apply_ite D3D12Renderer.config, set_proj, emit_proj, put_ptr_proj, put_selectedAdapter_proj,
    put_m_constantBufferSize_proj, put_m_frameIndex_proj, put_m_fenceValue_proj,
    put_m_rtvDescriptorSize_proj, put_m_featureLevel_proj, put_m_time_proj,
    put_m_recoveryCount_proj, put_m_fallbackMode_proj, put_config_proj, put_SCREEN_WIDTH_proj,
    put_SCREEN_HEIGHT_proj, put_uploadBufferWidth_proj, put_uploadData_proj,
    put_screenTextureData_proj, put_mappedConstants_proj, createResourcesTail_m_recoveryCount,
    createResourcesTail_m_fallbackMode, createResourcesTail_config, WaitForGPU_m_recoveryCount,
    WaitForGPU_m_fallbackMode, WaitForGPU_config]
  simp only [ite_self]

@[simp] theorem CreateResources_m_recoveryCount (e : ResourcesEnv) (s : D3D12Renderer) :
    ((CreateResources e s).2).m_recoveryCount = s.m_recoveryCount :=
  congrArg (fun c => c.1) (control_CreateResources e s)

@[simp] theorem CreateResources_m_fallbackMode (e : ResourcesEnv) (s : D3D12Renderer) :
    ((CreateResources e s).2).m_fallbackMode = s.m_fallbackMode :=
  congrArg (fun c => c.2.1) (control_CreateResources e s)

@[simp] theorem CreateResources_config (e : ResourcesEnv) (s : D3D12Renderer) :
    ((CreateResources e s).2).config = s.config :=
  congrArg (fun c => c.2.2) (control_CreateResources e s)

theorem control_createComputePipeline (e : PipelinesEnv) (s : D3D12Renderer) :
    ((createComputePipeline e s).2).control = s.control := by
  unfold createComputePipeline
  simp only [D3D12Renderer.control, log_eq, throwHR_snd, throwTool_snd, apply_ite Prod.snd,
    apply_ite D3D12Renderer.m_recoveryCount, apply_ite D3D12Renderer.m_fallbackMode,
    apply_ite D3D12Renderer.config, set_proj, emit_proj, put_ptr_proj, put_selectedAdapter_proj,
    put_m_constantBufferSize_proj, put_m_frameIndex_proj, put_m_fenceValue_proj,
    put_m_rtvDescriptorSize_proj, put_m_featureLevel_proj, put_m_time_proj,
    put_m_recoveryCount_proj, put_m_fallbackMode_proj, put_config_proj, put_SCREEN_WIDTH_proj,
    put_SCREEN_HEIGHT_proj, put_uploadBufferWidth_proj, put_uploadData_proj,
    put_screenTextureData_proj, put_mappedConstants_proj]
  simp only [ite_self]

@[simp] theorem createComputePipeline_m_recoveryCount (e : PipelinesEnv) (s : D3D12Renderer) :
    ((createComputePipeline e s).2).m_recoveryCount = s.m_recoveryCount :=
  congrArg (fun c => c.1) (control_createComputePipeline e s)

@[simp] theorem createComputePipeline_m_fallbackMode (e : PipelinesEnv) (s : D3D12Renderer) :
    ((createComputePipeline e s).2).m_fallbackMode = s.m_fallbackMode :=
  congrArg (fun c => c.2.1) (control_createComputePipeline e s)

@[simp] theorem createComputePipeline_config (e : PipelinesEnv) (s : D3D12Renderer) :
    ((createComputePipeline e s).2).config = s.config :=
  congrArg (fun c => c.2.2) (control_createComputePipeline e s)

theorem control_CreatePipelines (e : PipelinesEnv) (s : D3D12Renderer) :
    ((CreatePipelines e s).2).control = s.control := by
  unfold CreatePipelines
  simp only [D3D12Renderer.control, log_eq, throwHR_snd, throwTool_snd, apply_ite Prod.snd,
    apply_ite D3D12Renderer.m_recoveryCount, apply_ite D3D12Renderer.m_fallbackMode,
    apply_ite D3D12Renderer.config, set_proj, emit_proj, put_ptr_proj, put_selectedAdapter_proj,
    put_m_constantBufferSize_proj, put_m_frameIndex_proj, put_m_fenceValue_proj,
    put_m_rtvDescriptorSize_proj, put_m_featureLevel_proj, put_m_time_proj,
    put_m_recoveryCount_proj, put_m_fallbackMode_proj, put_config_proj, put_SCREEN_WIDTH_proj,
    put_SCREEN_HEIGHT_proj, put_uploadBufferWidth_proj, put_uploadData_proj,
    put_screenTextureData_proj, put_mappedConstants_proj, createComputePipeline_m_recoveryCount,
    createComputePipeline_m_fallbackMode, createComputePipeline_config]
  simp only [ite_self]

@[simp] theorem CreatePipelines_m_recoveryCount (e : PipelinesEnv) (s : D3D12Renderer) :
    ((CreatePipelines e s).2).m_recoveryCount = s.m_recoveryCount :=
  congrArg (fun c => c.1) (control_CreatePipelines e s)

@[simp] theorem CreatePipelines_m_fallbackMode (e : PipelinesEnv) (s : D3D12Renderer) :
    ((CreatePipelines e s).2).m_fallbackMode = s.m_fallbackMode :=
  congrArg (fun c => c.2.1) (control_CreatePipelines e s)

@[simp] theorem CreatePipelines_config (e : PipelinesEnv) (s : D3D12Renderer) :
    ((CreatePipelines e s).2).config = s.config :=
  congrArg (fun c => c.2.2) (control_CreatePipelines e s)

theorem control_CreateDeviceAndResources (e : CreateEnv) (s : D3D12Renderer) :
    ((CreateDeviceAndResources e s).2).control = s.control := by
  unfold CreateDeviceAndResources
  simp only [D3D12Renderer.control, log_eq, throwHR_snd, throwTool_snd, apply_ite Prod.snd,
    apply_ite D3D12Renderer.m_recoveryCount, apply_ite D3D12Renderer.m_fallbackMode,
    apply_ite D3D12Renderer.config, set_proj, emit_proj, put_ptr_proj, put_selectedAdapter_proj,
    put_m_constantBufferSize_proj, put_m_frameIndex_proj, put_m_fenceValue_proj,
    put_m_rtvDescriptorSize_proj, put_m_featureLevel_proj, put_m_time_proj,
    put_m_recoveryCount_proj, put_m_fallbackMode_proj, put_config_proj, put_SCREEN_WIDTH_proj,
    put_SCREEN_HEIGHT_proj, put_uploadBufferWidth_proj, put_uploadData_proj,
    put_screenTextureData_proj, put_mappedConstants_proj, getSwapChainBuffers_m_recoveryCount,
    getSwapChainBuffers_m_fallbackMode, getSwapChainBuffers_config,
    createCommandAllocators_m_recoveryCount, createCommandAllocators_m_fallbackMode,
    createCommandAllocators_config, CreateResources_m_recoveryCount,
    CreateResources_m_fallbackMode, CreateResources_config, CreatePipelines_m_recoveryCount,
    CreatePipelines_m_fallbackMode, CreatePipelines_config]
  simp only [ite_self]

@[simp] theorem CreateDeviceAndResources_m_recoveryCount (e : CreateEnv) (s : D3D12Renderer) :
    ((CreateDeviceAndResources e s).2).m_recoveryCount = s.m_recoveryCount :=
  congrArg (fun c => c.1) (control_CreateDeviceAndResources e s)

@[simp] theorem CreateDeviceAndResources_m_fallbackMode (e : CreateEnv) (s : D3D12Renderer) :
    ((CreateDeviceAndResources e s).2).m_fallbackMode = s.m_fallbackMode :=
  congrArg (fun c => c.2.1) (control_CreateDeviceAndResources e s)

@[simp] theorem CreateDeviceAndResources_config (e : CreateEnv) (s : D3D12Renderer) :
    ((CreateDeviceAndResources e s).2).config = s.config :=
  congrArg (fun c => c.2.2) (control_CreateDeviceAndResources e s)

theorem control_afterValidate (s : D3D12Renderer) :
    (afterValidate s).control = s.control := by
  unfold afterValidate
  simp only [D3D12Renderer.control, log_eq, throwHR_snd, throwTool_snd, apply_ite Prod.snd,
    apply_ite D3D12Renderer.m_recoveryCount, apply_ite D3D12Renderer.m_fallbackMode,
    apply_ite D3D12Renderer.config, set_proj, emit_proj, put_ptr_proj, put_selectedAdapter_proj,
    put_m_constantBufferSize_proj, put_m_frameIndex_proj, put_m_fenceValue_proj,
    put_m_rtvDescriptorSize_proj, put_m_featureLevel_proj, put_m_time_proj,
    put_m_recoveryCount_proj, put_m_fallbackMode_proj, put_config_proj, put_SCREEN_WIDTH_proj,
    put_SCREEN_HEIGHT_proj, put_uploadBufferWidth_proj, put_uploadData_proj,
    put_screenTextureData_proj, put_mappedConstants_proj]
  simp only [ite_self]

@[simp] theorem afterValidate_m_recoveryCount (s : D3D12Renderer) :
    (afterValidate s).m_recoveryCount = s.m_recoveryCount :=
  congrArg (fun c => c.1) (control_afterValidate s)

@[simp] theorem afterValidate_m_fallbackMode (s : D3D12Renderer) :
    (afterValidate s).m_fallbackMode = s.m_fallbackMode :=
  congrArg (fun c => c.2.1) (control_afterValidate s)

@[simp] theorem afterValidate_config (s : D3D12Renderer) :
    (afterValidate s).config = s.config :=
  congrArg (fun c => c.2.2) (control_afterValidate s)

theorem control_CaptureDesktop (e : CaptureEnv) (s : D3D12Renderer) :
    ((CaptureDesktop e s).2).control = s.control := by
  unfold CaptureDesktop
  simp only [D3D12Renderer.control, log_eq, throwHR_snd, throwTool_snd, apply_ite Prod.snd,
    apply_ite D3D12Renderer.m_recoveryCount, apply_ite D3D12Renderer.m_fallbackMode,
    apply_ite D3D12Renderer.config, set_proj, emit_proj, put_ptr_proj, put_selectedAdapter_proj,
    put_m_constantBufferSize_proj, put_m_frameIndex_proj, put_m_fenceValue_proj,
    put_m_rtvDescriptorSize_proj, put_m_featureLevel_proj, put_m_time_proj,
    put_m_recoveryCount_proj, put_m_fallbackMode_proj, put_config_proj, put_SCREEN_WIDTH_proj,
    put_SCREEN_HEIGHT_proj, put_uploadBufferWidth_proj, put_uploadData_proj,
    put_screenTextureData_proj, put_mappedConstants_proj, afterValidate_m_recoveryCount,
    afterValidate_m_fallbackMode, afterValidate_config, WaitForGPU_m_recoveryCount,
    WaitForGPU_m_fallbackMode, WaitForGPU_config]
  simp only [ite_self]

@[simp] theorem CaptureDesktop_m_recoveryCount (e : CaptureEnv) (s : D3D12Renderer) :
    ((CaptureDesktop e s).2).m_recoveryCount = s.m_recoveryCount :=
  congrArg (fun c => c.1) (control_CaptureDesktop e s)

@[simp] theorem CaptureDesktop_m_fallbackMode (e : CaptureEnv) (s : D3D12Renderer) :
    ((CaptureDesktop e s).2).m_fallbackMode = s.m_fallbackMode :=
  congrArg (fun c => c.2.1) (control_CaptureDesktop e s)

@[simp] theorem CaptureDesktop_config (e : CaptureEnv) (s : D3D12Renderer) :
    ((CaptureDesktop e s).2).config = s.config :=
  congrArg (fun c => c.2.2) (control_CaptureDesktop e s)

theorem control_RenderFallback (e : FallbackEnv) (s : D3D12Renderer) :
    ((RenderFallback e s).2).control = s.control := by
  unfold RenderFallback
  simp only [D3D12Renderer.control, log_eq, throwHR_snd, throwTool_snd, apply_ite Prod.snd,
    apply_ite D3D12Renderer.m_recoveryCount, apply_ite D3D12Renderer.m_fallbackMode,
    apply_ite D3D12Renderer.config, set_proj, emit_proj, put_ptr_proj, put_selectedAdapter_proj,
    put_m_constantBufferSize_proj, put_m_frameIndex_proj, put_m_fenceValue_proj,
    put_m_rtvDescriptorSize_proj, put_m_featureLevel_proj, put_m_time_proj,
    put_m_recoveryCount_proj, put_m_fallbackMode_proj, put_config_proj, put_SCREEN_WIDTH_proj,
    put_SCREEN_HEIGHT_proj, put_uploadBufferWidth_proj, put_uploadData_proj,
    put_screenTextureData_proj, put_mappedConstants_proj, WaitForGPU_m_recoveryCount,
    WaitForGPU_m_fallbackMode, WaitForGPU_config]
  simp only [ite_self]

@[simp] theorem RenderFallback_m_recoveryCount (e : FallbackEnv) (s : D3D12Renderer) :
    ((RenderFallback e s).2).m_recoveryCount = s.m_recoveryCount :=
  congrArg (fun c => c.1) (control_RenderFallback e s)

@[simp] theorem RenderFallback_m_fallbackMode (e : FallbackEnv) (s : D3D12Renderer) :
    ((RenderFallback e s).2).m_fallbackMode = s.m_fallbackMode :=
  congrArg (fun c => c.2.1) (control_RenderFallback e s)

@[simp] theorem RenderFallback_config (e : FallbackEnv) (s : D3D12Renderer) :
    ((RenderFallback e s).2).config = s.config :=
  congrArg (fun c => c.2.2) (control_RenderFallback e s)

theorem control_foldl_emit (ev : Event) (l : List AdapterDesc) (s : D3D12Renderer) :
    (l.foldl (fun s _ => s.emit ev) s).control = s.control := by
  induction l generalizing s with
  | nil => rfl
  | cons a l ih =>
    rw [List.foldl_cons, ih]
    simp only [D3D12Renderer.control, emit_proj]

theorem control_SelectAdapter (e : InitEnv) (s : D3D12Renderer) :
    ((SelectAdapter e s).2).control = s.control := by
  have h := control_foldl_emit (Event.Log "Adapter skipped: insufficient feature level\n")
    (e.adapters.filter fun a => !a.software && (featureRank a).isNone) s
  simp only [D3D12Renderer.control, Prod.mk.injEq] at h
  unfold SelectAdapter
  split
  · simp only [D3D12Renderer.control, log_eq, emit_proj]
  · split <;>
      simp only [D3D12Renderer.control, log_eq, emit_proj, set_proj, put_selectedAdapter_proj, h]

@[simp] theorem SelectAdapter_m_recoveryCount (e : InitEnv) (s : D3D12Renderer) :
    ((SelectAdapter e s).2).m_recoveryCount = s.m_recoveryCount :=
  congrArg (fun c => c.1) (control_SelectAdapter e s)

@[simp] theorem SelectAdapter_m_fallbackMode (e : InitEnv) (s : D3D12Renderer) :
    ((SelectAdapter e s).2).m_fallbackMode = s.m_fallbackMode :=
  congrArg (fun c => c.2.1) (control_SelectAdapter e s)

@[simp] theorem SelectAdapter_config (e : InitEnv) (s : D3D12Renderer) :
    ((SelectAdapter e s).2).config = s.config :=
  congrArg (fun c => c.2.2) (control_SelectAdapter e s)

theorem control_Initialize (e : InitEnv) (s : D3D12Renderer) :
    ((Initialize e s).2).control = s.control := by
  unfold Initialize
  simp only [D3D12Renderer.control, log_eq, throwHR_snd, throwTool_snd, apply_ite Prod.snd,
    apply_ite D3D12Renderer.m_recoveryCount, apply_ite D3D12Renderer.m_fallbackMode,
    apply_ite D3D12Renderer.config, set_proj, emit_proj, put_ptr_proj, put_selectedAdapter_proj,
    put_m_constantBufferSize_proj, put_m_frameIndex_proj, put_m_fenceValue_proj,
    put_m_rtvDescriptorSize_proj, put_m_featureLevel_proj, put_m_time_proj,
    put_m_recoveryCount_proj, put_m_fallbackMode_proj, put_config_proj, put_SCREEN_WIDTH_proj,
    put_SCREEN_HEIGHT_proj, put_uploadBufferWidth_proj, put_uploadData_proj,
    put_screenTextureData_proj, put_mappedConstants_proj, SelectAdapter_m_recoveryCount,
    SelectAdapter_m_fallbackMode, SelectAdapter_config, CreateDeviceAndResources_m_recoveryCount,
    CreateDeviceAndResources_m_fallbackMode, CreateDeviceAndResources_config]
  simp only [ite_self]

@[simp] theorem Initialize_m_recoveryCount (e : InitEnv) (s : D3D12Renderer) :
    ((Initialize e s).2).m_recoveryCount = s.m_recoveryCount :=
  congrArg (fun c => c.1) (control_Initialize e s)

@[simp] theorem Initialize_m_fallbackMode (e : InitEnv) (s : D3D12Renderer) :
    ((Initialize e s).2).m_fallbackMode = s.m_fallbackMode :=
  congrArg (fun c => c.2.1) (control_Initialize e s)

@[simp] theorem Initialize_config (e : InitEnv) (s : D3D12Renderer) :
    ((Initialize e s).2).config = s.config :=
  congrArg (fun c => c.2.2) (control_Initialize e s)

/-! ## Calls of `CreateDeviceAndResources` recorded by each operation -/

theorem WaitForGPU_attempts (s : D3D12Renderer) :
    (WaitForGPU s).attempts = s.attempts := by
  unfold WaitForGPU
  simp only [D3D12Renderer.attempts, log_eq, throwHR_snd, throwTool_snd, apply_ite Prod.snd,
    apply_ite D3D12Renderer.trace, apply_ite (List.count Event.CreateDeviceAndResources),
    List.count_append, set_proj, emit_proj, put_ptr_proj, put_selectedAdapter_proj,
    put_m_constantBufferSize_proj, put_m_frameIndex_proj, put_m_fenceValue_proj,
    put_m_rtvDescriptorSize_proj, put_m_featureLevel_proj, put_m_time_proj,
    put_m_recoveryCount_proj, put_m_fallbackMode_proj, put_config_proj, put_SCREEN_WIDTH_proj,
    put_SCREEN_HEIGHT_proj, put_uploadBufferWidth_proj, put_uploadData_proj,
    put_screenTextureData_proj, put_mappedConstants_proj]
  simp

theorem Cleanup_attempts (p : Bool) (s : D3D12Renderer) :
    (Cleanup p s).attempts = s.attempts := by
  have h0 := @WaitForGPU_attempts
  simp only [D3D12Renderer.attempts] at h0
  unfold Cleanup
  simp only [D3D12Renderer.attempts, log_eq, throwHR_snd, throwTool_snd, apply_ite Prod.snd,
    apply_ite D3D12Renderer.trace, apply_ite (List.count Event.CreateDeviceAndResources),
    List.count_append, set_proj, emit_proj, put_ptr_proj, put_selectedAdapter_proj,
    put_m_constantBufferSize_proj, put_m_frameIndex_proj, put_m_fenceValue_proj,
    put_m_rtvDescriptorSize_proj, put_m_featureLevel_proj, put_m_time_proj,
    put_m_recoveryCount_proj, put_m_fallbackMode_proj, put_config_proj, put_SCREEN_WIDTH_proj,
    put_SCREEN_HEIGHT_proj, put_uploadBufferWidth_proj, put_uploadData_proj,
    put_screenTextureData_proj, put_mappedConstants_proj, h0]
  simp

theorem getSwapChainBuffers_attempts (e : CreateEnv) (n i : Nat) (s : D3D12Renderer) :
    ((getSwapChainBuffers e n i s).2).attempts = s.attempts := by
  induction n generalizing i s with
  | zero => unfold getSwapChainBuffers; rfl
  | succ n ih =>
    simp only [D3D12Renderer.attempts] at ih
    unfold getSwapChainBuffers
    simp only [D3D12Renderer.attempts, log_eq, throwHR_snd, throwTool_snd, apply_ite Prod.snd,
      apply_ite D3D12Renderer.trace, apply_ite (List.count Event.CreateDeviceAndResources),
      List.count_append, set_proj, emit_proj, put_ptr_proj, put_selectedAdapter_proj,
      put_m_constantBufferSize_proj, put_m_frameIndex_proj, put_m_fenceValue_proj,
      put_m_rtvDescriptorSize_proj, put_m_featureLevel_proj, put_m_time_proj,
      put_m_recoveryCount_proj, put_m_fallbackMode_proj, put_config_proj, put_SCREEN_WIDTH_proj,
      put_SCREEN_HEIGHT_proj, put_uploadBufferWidth_proj, put_uploadData_proj,
      put_screenTextureData_proj, put_mappedConstants_proj, ih]
    simp

theorem createCommandAllocators_attempts (e : CreateEnv) (n i : Nat) (s : D3D12Renderer) :
    ((createCommandAllocators e n i s).2).attempts = s.attempts := by
  induction n generalizing i s with
  | zero => unfold createCommandAllocators; rfl
  | succ n ih =>
    simp only [D3D12Renderer.attempts] at ih
    unfold createCommandAllocators
    simp only [D3D12Renderer.attempts, log_eq, throwHR_snd, throwTool_snd, apply_ite Prod.snd,
      apply_ite D3D12Renderer.trace, apply_ite (List.count Event.CreateDeviceAndResources),
      List.count_append, set_proj, emit_proj, put_ptr_proj, put_selectedAdapter_proj,
      put_m_constantBufferSize_proj, put_m_frameIndex_proj, put_m_fenceValue_proj,
      put_m_rtvDescriptorSize_proj, put_m_featureLevel_proj, put_m_time_proj,
      put_m_recoveryCount_proj, put_m_fallbackMode_proj, put_config_proj, put_SCREEN_WIDTH_proj,
      put_SCREEN_HEIGHT_proj, put_uploadBufferWidth_proj, put_uploadData_proj,
      put_screenTextureData_proj, put_mappedConstants_proj, ih]
    simp

theorem createConstantBuffers_attempts (e : ResourcesEnv) (n i : Nat) (s : D3D12Renderer) :
    ((createConstantBuffers e n i s).2).attempts = s.attempts := by
  induction n generalizing i s with
  | zero => unfold createConstantBuffers; rfl
  | succ n ih =>
    simp only [D3D12Renderer.attempts] at ih
    unfold createConstantBuffers
    simp only [D3D12Renderer.attempts, log_eq, throwHR_snd, throwTool_snd, apply_ite Prod.snd,
      apply_ite D3D12Renderer.trace, apply_ite (List.count Event.CreateDeviceAndResources),
      List.count_append, set_proj, emit_proj, put_ptr_proj, put_selectedAdapter_proj,
      put_m_constantBufferSize_proj, put_m_frameIndex_proj, put_m_fenceValue_proj,
      put_m_rtvDescriptorSize_proj, put_m_featureLevel_proj, put_m_time_proj,
      put_m_recoveryCount_proj, put_m_fallbackMode_proj, put_config_proj, put_SCREEN_WIDTH_proj,
      put_SCREEN_HEIGHT_proj, put_uploadBufferWidth_proj, put_uploadData_proj,
      put_screenTextureData_proj, put_mappedConstants_proj, ih]
    simp

theorem createResourcesTail_attempts (e : ResourcesEnv) (s : D3D12Renderer) :
    ((createResourcesTail e s).2).attempts = s.attempts := by
  have h0 := @createConstantBuffers_attempts
  simp only [D3D12Renderer.attempts] at h0
  unfold createResourcesTail
  simp only [D3D12Renderer.attempts, log_eq, throwHR_snd, throwTool_snd, apply_ite Prod.snd,
    apply_ite D3D12Renderer.trace, apply_ite (List.count Event.CreateDeviceAndResources),
    List.count_append, set_proj, emit_proj, put_ptr_proj, put_selectedAdapter_proj,
    put_m_constantBufferSize_proj, put_m_frameIndex_proj, put_m_fenceValue_proj,
    put_m_rtvDescriptorSize_proj, put_m_featureLevel_proj, put_m_time_proj,
    put_m_recoveryCount_proj, put_m_fallbackMode_proj, put_config_proj, put_SCREEN_WIDTH_proj,
    put_SCREEN_HEIGHT_proj, put_uploadBufferWidth_proj, put_uploadData_proj,
    put_screenTextureData_proj, put_mappedConstants_proj, h0]
  simp

theorem CreateResources_attempts (e : ResourcesEnv) (s : D3D12Renderer) :
    ((CreateResources e s).2).attempts = s.attempts := by
  have h0 := @createResourcesTail_attempts
  have h1 := @WaitForGPU_attempts
  simp only [D3D12Renderer.attempts] at h0 h1
  unfold CreateResources
  simp only [D3D12Renderer.attempts, log_eq, throwHR_snd, throwTool_snd, apply_ite Prod.snd,
    apply_ite D3D12Renderer.trace, apply_ite (List.count Event.CreateDeviceAndResources),
    List.count_append, set_proj, emit_proj, put_ptr_proj, put_selectedAdapter_proj,
    put_m_constantBufferSize_proj, put_m_frameIndex_proj, put_m_fenceValue_proj,
    put_m_rtvDescriptorSize_proj, put_m_featureLevel_proj, put_m_time_proj,
    put_m_recoveryCount_proj, put_m_fallbackMode_proj, put_config_proj, put_SCREEN_WIDTH_proj,
    put_SCREEN_HEIGHT_proj, put_uploadBufferWidth_proj, put_uploadData_proj,
    put_screenTextureData_proj, put_mappedConstants_proj, h0, h1]
  simp

theorem createComputePipeline_attempts (e : PipelinesEnv) (s : D3D12Renderer) :
    ((createComputePipeline e s).2).attempts = s.attempts := by
  unfold createComputePipeline
  simp only [D3D12Renderer.attempts, log_eq, throwHR_snd, throwTool_snd, apply_ite Prod.snd,
    apply_ite D3D12Renderer.trace, apply_ite (List.count Event.CreateDeviceAndResources),
    List.count_append, set_proj, emit_proj, put_ptr_proj, put_selectedAdapter_proj,
    put_m_constantBufferSize_proj, put_m_frameIndex_proj, put_m_fenceValue_proj,
    put_m_rtvDescriptorSize_proj, put_m_featureLevel_proj, put_m_time_proj,
    put_m_recoveryCount_proj, put_m_fallbackMode_proj, put_config_proj, put_SCREEN_WIDTH_proj,
    put_SCREEN_HEIGHT_proj, put_uploadBufferWidth_proj, put_uploadData_proj,
    put_screenTextureData_proj, put_mappedConstants_proj]
  simp

theorem CreatePipelines_attempts (e : PipelinesEnv) (s : D3D12Renderer) :
    ((CreatePipelines e s).2).attempts = s.attempts := by
  have h0 := @createComputePipeline_attempts
  simp only [D3D12Renderer.attempts] at h0
  unfold CreatePipelines
  simp only [D3D12Renderer.attempts, log_eq, throwHR_snd, throwTool_snd, apply_ite Prod.snd,
    apply_ite D3D12Renderer.trace, apply_ite (List.count Event.CreateDeviceAndResources),
    List.count_append, set_proj, emit_proj, put_ptr_proj, put_selectedAdapter_proj,
    put_m_constantBufferSize_proj, put_m_frameIndex_proj, put_m_fenceValue_proj,
    put_m_rtvDescriptorSize_proj, put_m_featureLevel_proj, put_m_time_proj,
    put_m_recoveryCount_proj, put_m_fallbackMode_proj, put_config_proj, put_SCREEN_WIDTH_proj,
    put_SCREEN_HEIGHT_proj, put_uploadBufferWidth_proj, put_uploadData_proj,
    put_screenTextureData_proj, put_mappedConstants_proj, h0]
  simp

theorem CreateDeviceAndResources_attempts (e : CreateEnv) (s : D3D12Renderer) :
    ((CreateDeviceAndResources e s).2).attempts = s.attempts + 1 := by
  have h0 := @getSwapChainBuffers_attempts
  have h1 := @createCommandAllocators_attempts
  have h2 := @CreateResources_attempts
  have h3 := @CreatePipelines_attempts
  simp only [D3D12Renderer.attempts] at h0 h1 h2 h3
  unfold CreateDeviceAndResources
  simp only [D3D12Renderer.attempts, log_eq, throwHR_snd, throwTool_snd, apply_ite Prod.snd,
    apply_ite D3D12Renderer.trace, apply_ite (List.count Event.CreateDeviceAndResources),
    List.count_append, set_proj, emit_proj, put_ptr_proj, put_selectedAdapter_proj,
    put_m_constantBufferSize_proj, put_m_frameIndex_proj, put_m_fenceValue_proj,
    put_m_rtvDescriptorSize_proj, put_m_featureLevel_proj, put_m_time_proj,
    put_m_recoveryCount_proj, put_m_fallbackMode_proj, put_config_proj, put_SCREEN_WIDTH_proj,
    put_SCREEN_HEIGHT_proj, put_uploadBufferWidth_proj, put_uploadData_proj,
    put_screenTextureData_proj, put_mappedConstants_proj, h0, h1, h2, h3]
  simp

theorem afterValidate_attempts (s : D3D12Renderer) :
    (afterValidate s).attempts = s.attempts := by
  unfold afterValidate
  simp only [D3D12Renderer.attempts, log_eq, throwHR_snd, throwTool_snd, apply_ite Prod.snd,
    apply_ite D3D12Renderer.trace, apply_ite (List.count Event.CreateDeviceAndResources),
    List.count_append, set_proj, emit_proj, put_ptr_proj, put_selectedAdapter_proj,
    put_m_constantBufferSize_proj, put_m_frameIndex_proj, put_m_fenceValue_proj,
    put_m_rtvDescriptorSize_proj, put_m_featureLevel_proj, put_m_time_proj,
    put_m_recoveryCount_proj, put_m_fallbackMode_proj, put_config_proj, put_SCREEN_WIDTH_proj,
    put_SCREEN_HEIGHT_proj, put_uploadBufferWidth_proj, put_uploadData_proj,
    put_screenTextureData_proj, put_mappedConstants_proj]
  simp

theorem CaptureDesktop_attempts (e : CaptureEnv) (s : D3D12Renderer) :
    ((CaptureDesktop e s).2).attempts = s.attempts := by
  have h0 := @afterValidate_attempts
  have h1 := @WaitForGPU_attempts
  simp only [D3D12Renderer.attempts] at h0 h1
  unfold CaptureDesktop
  simp only [D3D12Renderer.attempts, log_eq, throwHR_snd, throwTool_snd, apply_ite Prod.snd,
    apply_ite D3D12Renderer.trace, apply_ite (List.count Event.CreateDeviceAndResources),
    List.count_append, set_proj, emit_proj, put_ptr_proj, put_selectedAdapter_proj,
    put_m_constantBufferSize_proj, put_m_frameIndex_proj, put_m_fenceValue_proj,
    put_m_rtvDescriptorSize_proj, put_m_featureLevel_proj, put_m_time_proj,
    put_m_recoveryCount_proj, put_m_fallbackMode_proj, put_config_proj, put_SCREEN_WIDTH_proj,
    put_SCREEN_HEIGHT_proj, put_uploadBufferWidth_proj, put_uploadData_proj,
    put_screenTextureData_proj, put_mappedConstants_proj, h0, h1]
  simp

theorem RenderFallback_attempts (e : FallbackEnv) (s : D3D12Renderer) :
    ((RenderFallback e s).2).attempts = s.attempts := by
  have h0 := @WaitForGPU_attempts
  simp only [D3D12Renderer.attempts] at h0
  unfold RenderFallback
  simp only [D3D12Renderer.attempts, log_eq, throwHR_snd, throwTool_snd, apply_ite Prod.snd,
    apply_ite D3D12Renderer.trace, apply_ite (List.count Event.CreateDeviceAndResources),
    List.count_append, set_proj, emit_proj, put_ptr_proj, put_selectedAdapter_proj,
    put_m_constantBufferSize_proj, put_m_frameIndex_proj, put_m_fenceValue_proj,
    put_m_rtvDescriptorSize_proj, put_m_featureLevel_proj, put_m_time_proj,
    put_m_recoveryCount_proj, put_m_fallbackMode_proj, put_config_proj, put_SCREEN_WIDTH_proj,
    put_SCREEN_HEIGHT_proj, put_uploadBufferWidth_proj, put_uploadData_proj,
    put_screenTextureData_proj, put_mappedConstants_proj, h0]
  simp

theorem attempts_foldl_emit_Log (m : String) (l : List AdapterDesc) (s : D3D12Renderer) :
    (l.foldl (fun s _ => s.emit (Event.Log m)) s).attempts = s.attempts := by
  induction l generalizing s with
  | nil => rfl
  | cons a l ih =>
    rw [List.foldl_cons, ih]
    simp [D3D12Renderer.attempts]

theorem SelectAdapter_attempts (e : InitEnv) (s : D3D12Renderer) :
    (SelectAdapter e s).2.attempts = s.attempts := by
  have h := attempts_foldl_emit_Log "Adapter skipped: insufficient feature level\n"
    (e.adapters.filter fun a => !a.software && (featureRank a).isNone) s
  simp only [D3D12Renderer.attempts] at h
  unfold SelectAdapter
  split
  · simp [D3D12Renderer.attempts]
  · split <;> simp [D3D12Renderer.attempts, h]

theorem Initialize_attempts_le (e : InitEnv) (s : D3D12Renderer) :
    (Initialize e s).2.attempts ≤ s.attempts + 1 := by
  have h0 := SelectAdapter_attempts
  have h1 := CreateDeviceAndResources_attempts
  simp only [D3D12Renderer.attempts] at h0 h1
  unfold Initialize
  simp only [D3D12Renderer.attempts, log_eq, throwHR_snd, throwTool_snd, apply_ite Prod.snd,
    apply_ite D3D12Renderer.trace, apply_ite (List.count Event.CreateDeviceAndResources),
    List.count_append, set_proj, emit_proj, put_ptr_proj, put_selectedAdapter_proj,
    put_m_constantBufferSize_proj, put_m_frameIndex_proj, put_m_fenceValue_proj,
    put_m_rtvDescriptorSize_proj, put_m_featureLevel_proj, put_m_time_proj,
    put_m_recoveryCount_proj, put_m_fallbackMode_proj, put_config_proj, put_SCREEN_WIDTH_proj,
    put_SCREEN_HEIGHT_proj, put_uploadBufferWidth_proj, put_uploadData_proj,
    put_screenTextureData_proj, put_mappedConstants_proj, h0, h1]
  simp
  split_ifs <;> omega

/-! ## The recovery controller -/

@[simp] theorem RecoverDevice_m_recoveryCount (e : CreateEnv) (s : D3D12Renderer) :
    (RecoverDevice e s).2.m_recoveryCount = s.m_recoveryCount + 1 := by
  unfold RecoverDevice
  simp only [log_eq, apply_ite Prod.snd, apply_ite D3D12Renderer.m_recoveryCount, set_proj,
    emit_proj, put_m_recoveryCount_proj, put_m_fallbackMode_proj, put_config_proj,
    Cleanup_m_recoveryCount, CreateDeviceAndResources_m_recoveryCount]
  simp only [ite_self]

theorem RecoverDevice_m_fallbackMode (e : CreateEnv) (s : D3D12Renderer) :
    (RecoverDevice e s).2.m_fallbackMode =
      (s.m_fallbackMode || decide (MAX_RECOVERY_ATTEMPTS < s.m_recoveryCount + 1)) := by
  unfold RecoverDevice
  simp only [log_eq, apply_ite Prod.snd, apply_ite D3D12Renderer.m_fallbackMode, set_proj,
    emit_proj, put_m_recoveryCount_proj, put_m_fallbackMode_proj, put_config_proj,
    Cleanup_m_fallbackMode, CreateDeviceAndResources_m_fallbackMode]
  simp only [ite_self]
  split <;> simp [*]

theorem RecoverDevice_capped (e : CreateEnv) (s : D3D12Renderer)
    (h : MAX_RECOVERY_ATTEMPTS ≤ s.m_recoveryCount) :
    RecoverDevice e s =
      (Outcome.ret false,
        (((s.put_m_recoveryCount (s.m_recoveryCount + 1)).log
            "Attempting device recovery (count: %d)\n").log
            "Exceeded maximum recovery attempts, switching to fallback mode\n").put_m_fallbackMode
          true) := by
  unfold RecoverDevice
  have h1 : MAX_RECOVERY_ATTEMPTS < s.m_recoveryCount + 1 := by omega
  simp only [log_eq, emit_proj, put_m_recoveryCount_proj, gt_iff_lt, h1, if_true]

theorem RecoverDevice_true (e : CreateEnv) (s : D3D12Renderer)
    (h : (RecoverDevice e s).1 = Outcome.ret true) :
    s.m_recoveryCount + 1 ≤ MAX_RECOVERY_ATTEMPTS ∧
      (RecoverDevice e s).2.config = defaultConfig := by
  unfold RecoverDevice at h ⊢
  simp only [log_eq, emit_proj, put_m_recoveryCount_proj, gt_iff_lt] at h ⊢
  split_ifs at h ⊢ <;> simp_all [Outcome.isThrew]

theorem RecoverDevice_config_of_ne_true (e : CreateEnv) (s : D3D12Renderer)
    (h : (RecoverDevice e s).1 ≠ Outcome.ret true) :
    (RecoverDevice e s).2.config = s.config := by
  unfold RecoverDevice at h ⊢
  simp only [log_eq, emit_proj, put_m_recoveryCount_proj, gt_iff_lt] at h ⊢
  split_ifs at h ⊢ <;> simp_all

theorem RecoverDevice_isThrew (e : CreateEnv) (s : D3D12Renderer) :
    (RecoverDevice e s).1.isThrew = false := by
  unfold RecoverDevice
  simp only [log_eq, emit_proj, put_m_recoveryCount_proj, gt_iff_lt]
  split_ifs <;> simp_all [Outcome.isThrew]

theorem RecoverDevice_attempts (e : CreateEnv) (s : D3D12Renderer) :
    (RecoverDevice e s).2.attempts + (MAX_RECOVERY_ATTEMPTS - (s.m_recoveryCount + 1)) ≤
      s.attempts + (MAX_RECOVERY_ATTEMPTS - s.m_recoveryCount) := by
  have h0 := Cleanup_attempts
  have h1 := CreateDeviceAndResources_attempts
  simp only [D3D12Renderer.attempts] at h0 h1
  unfold RecoverDevice
  simp only [D3D12Renderer.attempts, log_eq, throwHR_snd, throwTool_snd, apply_ite Prod.snd,
    apply_ite D3D12Renderer.trace, apply_ite (List.count Event.CreateDeviceAndResources),
    List.count_append, set_proj, emit_proj, put_ptr_proj, put_selectedAdapter_proj,
    put_m_constantBufferSize_proj, put_m_frameIndex_proj, put_m_fenceValue_proj,
    put_m_rtvDescriptorSize_proj, put_m_featureLevel_proj, put_m_time_proj,
    put_m_recoveryCount_proj, put_m_fallbackMode_proj, put_config_proj, put_SCREEN_WIDTH_proj,
    put_SCREEN_HEIGHT_proj, put_uploadBufferWidth_proj, put_uploadData_proj,
    put_screenTextureData_proj, put_mappedConstants_proj, h0, h1, gt_iff_lt]
  simp
  split_ifs <;> omega

/-! ## The frame renderer -/

theorem control_dispatchCompute (s : D3D12Renderer) :
    (dispatchCompute s).control = s.control := by
  simp only [D3D12Renderer.control, dispatchCompute_proj]

theorem dispatchCompute_m_recoveryCount (s : D3D12Renderer) :
    (dispatchCompute s).m_recoveryCount = s.m_recoveryCount :=
  congrArg (fun c => c.1) (control_dispatchCompute s)

theorem dispatchCompute_m_fallbackMode (s : D3D12Renderer) :
    (dispatchCompute s).m_fallbackMode = s.m_fallbackMode :=
  congrArg (fun c => c.2.1) (control_dispatchCompute s)

theorem dispatchCompute_config (s : D3D12Renderer) :
    (dispatchCompute s).config = s.config :=
  congrArg (fun c => c.2.2) (control_dispatchCompute s)

theorem control_submitFrame (e : PassEnv) (s : D3D12Renderer) :
    ((submitFrame e s).2).control = s.control := by
  unfold submitFrame
  simp only [D3D12Renderer.control, log_eq, throwHR_snd, throwTool_snd, apply_ite Prod.snd,
    apply_ite D3D12Renderer.m_recoveryCount, apply_ite D3D12Renderer.m_fallbackMode,
    apply_ite D3D12Renderer.config, set_proj, emit_proj, put_ptr_proj, put_selectedAdapter_proj,
    put_m_constantBufferSize_proj, put_m_frameIndex_proj, put_m_fenceValue_proj,
    put_m_rtvDescriptorSize_proj, put_m_featureLevel_proj, put_m_time_proj,
    put_m_recoveryCount_proj, put_m_fallbackMode_proj, put_config_proj, put_SCREEN_WIDTH_proj,
    put_SCREEN_HEIGHT_proj, put_uploadBufferWidth_proj, put_uploadData_proj,
    put_screenTextureData_proj, put_mappedConstants_proj, dispatchCompute_proj, writeConstants_proj, afterValidate_m_recoveryCount,
    afterValidate_m_fallbackMode, afterValidate_config, RenderFallback_m_recoveryCount,
    RenderFallback_m_fallbackMode, RenderFallback_config]
  simp only [ite_self]

@[simp] theorem submitFrame_m_recoveryCount (e : PassEnv) (s : D3D12Renderer) :
    ((submitFrame e s).2).m_recoveryCount = s.m_recoveryCount :=
  congrArg (fun c => c.1) (control_submitFrame e s)

@[simp] theorem submitFrame_m_fallbackMode (e : PassEnv) (s : D3D12Renderer) :
    ((submitFrame e s).2).m_fallbackMode = s.m_fallbackMode :=
  congrArg (fun c => c.2.1) (control_submitFrame e s)

@[simp] theorem submitFrame_config (e : PassEnv) (s : D3D12Renderer) :
    ((submitFrame e s).2).config = s.config :=
  congrArg (fun c => c.2.2) (control_submitFrame e s)

theorem submitFrame_attempts (e : PassEnv) (s : D3D12Renderer) :
    ((submitFrame e s).2).attempts = s.attempts := by
  have h0 := @afterValidate_attempts
  have h1 := @RenderFallback_attempts
  have h2 := @dispatchCompute_attempts
  simp only [D3D12Renderer.attempts] at h0 h1 h2
  unfold submitFrame
  simp only [D3D12Renderer.attempts, log_eq, throwHR_snd, throwTool_snd, apply_ite Prod.snd,
    apply_ite D3D12Renderer.trace, apply_ite (List.count Event.CreateDeviceAndResources),
    List.count_append, set_proj, emit_proj, put_ptr_proj, put_selectedAdapter_proj,
    put_m_constantBufferSize_proj, put_m_frameIndex_proj, put_m_fenceValue_proj,
    put_m_rtvDescriptorSize_proj, put_m_featureLevel_proj, put_m_time_proj,
    put_m_recoveryCount_proj, put_m_fallbackMode_proj, put_config_proj, put_SCREEN_WIDTH_proj,
    put_SCREEN_HEIGHT_proj, put_uploadBufferWidth_proj, put_uploadData_proj,
    put_screenTextureData_proj, put_mappedConstants_proj, dispatchCompute_proj, writeConstants_proj, h0, h1, h2]
  simp

theorem Progress_refl (s : D3D12Renderer) : s.Progress s :=
  ⟨Nat.le_refl _, id, id, Nat.le_refl _⟩

theorem Progress_trans {s t u : D3D12Renderer} (h1 : s.Progress t) (h2 : t.Progress u) :
    s.Progress u :=
  ⟨Nat.le_trans h1.1 h2.1, fun h => h2.2.1 (h1.2.1 h), fun h => h2.2.2.1 (h1.2.2.1 h),
    Nat.le_trans h2.2.2.2 h1.2.2.2⟩

theorem Progress_of_frame {s t : D3D12Renderer} (hc : t.control = s.control)
    (ha : t.attempts = s.attempts) : s.Progress t := by
  simp only [D3D12Renderer.control, Prod.mk.injEq] at hc
  obtain ⟨h1, h2, _⟩ := hc
  simp only [D3D12Renderer.Progress, h1, h2, ha]
  exact ⟨Nat.le_refl _, id, id, Nat.le_refl _⟩

theorem RecoverDevice_progress (e : CreateEnv) (s : D3D12Renderer) :
    s.Progress (RecoverDevice e s).2 := by
  have ha := RecoverDevice_attempts e s
  simp only [MAX_RECOVERY_ATTEMPTS] at ha
  simp only [D3D12Renderer.Progress, RecoverDevice_m_recoveryCount, RecoverDevice_m_fallbackMode,
    MAX_RECOVERY_ATTEMPTS, Bool.or_eq_true, decide_eq_true_eq]
  refine ⟨by omega, Or.inl, fun _ => ?_, ha⟩
  omega

theorem recoverAndRetry_progress (retry : D3D12Renderer → Outcome × D3D12Renderer)
    (hretry : ∀ t : D3D12Renderer, t.Progress (retry t).2) (e : PassEnv) (s : D3D12Renderer) :
    s.Progress (recoverAndRetry retry e s).2 := by
  have hr := RecoverDevice_progress e.recover s
  unfold recoverAndRetry
  simp only []
  split_ifs
  · refine Progress_trans hr (Progress_trans ?_ (hretry _))
    exact Progress_of_frame (by simp [D3D12Renderer.control]) (by simp [D3D12Renderer.attempts])
  · refine Progress_trans hr ?_
    have hf := RenderFallback_attempts e.fallback
      (((RecoverDevice e.recover s).2.log "Recovery failed, switching to fallback\n").put_m_fallbackMode true)
    simp only [D3D12Renderer.Progress, RenderFallback_m_recoveryCount,
      RenderFallback_m_fallbackMode, hf]
    simp [D3D12Renderer.attempts]
  · exact hr

theorem renderPass_progress (retry : D3D12Renderer → Outcome × D3D12Renderer)
    (hretry : ∀ t : D3D12Renderer, t.Progress (retry t).2) (e : PassEnv) (s : D3D12Renderer) :
    s.Progress (renderPass retry e s).2 := by
  have hs : s.Progress (submitFrame e s).2 :=
    Progress_of_frame (control_submitFrame e s) (submitFrame_attempts e s)
  unfold renderPass
  simp only []
  split_ifs
  · exact hs
  · refine Progress_trans hs (Progress_of_frame ?_ ?_)
    · simp [D3D12Renderer.control]
    · have := WaitForGPU_attempts (submitFrame e s).2
      simp only [D3D12Renderer.attempts] at this
      simp [D3D12Renderer.attempts, this]
  · exact Progress_trans hs (recoverAndRetry_progress retry hretry e _)
  · refine Progress_trans hs (Progress_of_frame ?_ ?_)
    · simp [D3D12Renderer.control]
    · simp [D3D12Renderer.attempts]

theorem RenderAux_progress (n : Nat) (env : Nat → PassEnv) (s : D3D12Renderer) :
    s.Progress (RenderAux n env s).2 := by
  induction n generalizing env s with
  | zero =>
    unfold RenderAux
    exact renderPass_progress _ (fun t => Progress_refl t) _ _
  | succ n ih =>
    unfold RenderAux
    exact renderPass_progress _ (fun t => ih _ t) _ _

theorem Render_progress (env : Nat → PassEnv) (s : D3D12Renderer) :
    s.Progress (Render env s).2 := by
  unfold Render
  exact RenderAux_progress _ env s

/-! ### The recursive equation of `Render` -/

theorem recoverAndRetry_congr (retry1 retry2 : D3D12Renderer → Outcome × D3D12Renderer)
    (e : PassEnv) (s : D3D12Renderer)
    (h : ∀ t, t.m_recoveryCount = s.m_recoveryCount + 1 →
      t.m_recoveryCount ≤ MAX_RECOVERY_ATTEMPTS → retry1 t = retry2 t) :
    recoverAndRetry retry1 e s = recoverAndRetry retry2 e s := by
  unfold recoverAndRetry
  simp only []
  split_ifs with h1
  · have h2 := (RecoverDevice_true e.recover s h1).1
    apply h
    · simp
    · simpa using h2
  · rfl
  · rfl

theorem renderPass_congr (retry1 retry2 : D3D12Renderer → Outcome × D3D12Renderer)
    (e : PassEnv) (s : D3D12Renderer)
    (h : ∀ t, t.m_recoveryCount = s.m_recoveryCount + 1 →
      t.m_recoveryCount ≤ MAX_RECOVERY_ATTEMPTS → retry1 t = retry2 t) :
    renderPass retry1 e s = renderPass retry2 e s := by
  unfold renderPass
  simp only []
  split_ifs
  · rfl
  · rfl
  · apply recoverAndRetry_congr
    simpa using h
  · rfl

theorem RenderAux_fuel (n : Nat) (env : Nat → PassEnv) (s : D3D12Renderer)
    (h : MAX_RECOVERY_ATTEMPTS - s.m_recoveryCount ≤ n) :
    RenderAux n env s = RenderAux (MAX_RECOVERY_ATTEMPTS - s.m_recoveryCount) env s := by
  induction n generalizing env s with
  | zero =>
    have h0 : MAX_RECOVERY_ATTEMPTS - s.m_recoveryCount = 0 := by omega
    rw [h0]
  | succ n ih =>
    rcases Nat.lt_or_ge (MAX_RECOVERY_ATTEMPTS - s.m_recoveryCount) (n + 1) with hlt | hge
    · cases hm : MAX_RECOVERY_ATTEMPTS - s.m_recoveryCount with
      | zero =>
        unfold RenderAux
        apply renderPass_congr
        intro t h1 h2
        omega
      | succ k =>
        rw [RenderAux, RenderAux]
        apply renderPass_congr
        intro t h1 h2
        rw [ih _ t (by omega)]
        congr 1
        omega
    · have : MAX_RECOVERY_ATTEMPTS - s.m_recoveryCount = n + 1 := by omega
      rw [this]

/-- The function `Render` satisfies the recursive equation of the source:
a call is one pass through the body whose re-entry is `Render` again, on the
rest of the platform results. -/
theorem Render_eq (env : Nat → PassEnv) (s : D3D12Renderer) :
    Render env s = renderPass (Render fun k => env (k + 1)) (env 0) s := by
  unfold Render
  cases hm : MAX_RECOVERY_ATTEMPTS - s.m_recoveryCount with
  | zero =>
    unfold RenderAux
    apply renderPass_congr
    intro t h1 h2
    omega
  | succ k =>
    rw [RenderAux]
    apply renderPass_congr
    intro t h1 h2
    congr 1
    omega

/-! ## Sequences of operations -/

/-- One operation moves the recovery state forward; only `Initialize` may
record a call of `CreateDeviceAndResources` that no counter increment pays for. -/
theorem step_progress (op : Op) (s : D3D12Renderer) :
    s.m_recoveryCount ≤ (step s op).m_recoveryCount ∧
    (s.m_fallbackMode = true → (step s op).m_fallbackMode = true) ∧
    (s.m_recoveryCount ≤ 3 ∨ s.m_fallbackMode = true →
      (step s op).m_recoveryCount ≤ 3 ∨ (step s op).m_fallbackMode = true) ∧
    (step s op).attempts + (3 - (step s op).m_recoveryCount) ≤
      s.attempts + (3 - s.m_recoveryCount) + (if op.isInitialize then 1 else 0) := by
  cases op with
  | Initialize e =>
    have h := Initialize_attempts_le e s
    simp only [step, Initialize_m_recoveryCount, Initialize_m_fallbackMode, Op.isInitialize,
      if_true]
    exact ⟨Nat.le_refl _, id, id, by omega⟩
  | CaptureDesktop e =>
    exact Progress_of_frame (control_CaptureDesktop e s) (CaptureDesktop_attempts e s)
  | Render env => exact Render_progress env s
  | RenderFallback e =>
    exact Progress_of_frame (control_RenderFallback e s) (RenderFallback_attempts e s)
  | RecoverDevice e => exact RecoverDevice_progress e s
  | Cleanup p => exact Progress_of_frame (control_Cleanup p s) (Cleanup_attempts p s)

theorem run_progress (ops : List Op) (s : D3D12Renderer) :
    s.m_recoveryCount ≤ (run ops s).m_recoveryCount ∧
    (s.m_fallbackMode = true → (run ops s).m_fallbackMode = true) ∧
    (s.m_recoveryCount ≤ 3 ∨ s.m_fallbackMode = true →
      (run ops s).m_recoveryCount ≤ 3 ∨ (run ops s).m_fallbackMode = true) ∧
    (run ops s).attempts + (3 - (run ops s).m_recoveryCount) ≤
      s.attempts + (3 - s.m_recoveryCount) + ops.countP Op.isInitialize := by
  induction ops generalizing s with
  | nil => exact ⟨Nat.le_refl _, id, id, Nat.le_refl _⟩
  | cons op ops ih =>
    obtain ⟨a1, a2, a3, a4⟩ := step_progress op s
    obtain ⟨b1, b2, b3, b4⟩ := ih (step s op)
    have hrun : run (op :: ops) s = run ops (step s op) := rfl
    rw [hrun, List.countP_cons]
    refine ⟨Nat.le_trans a1 b1, fun h => b2 (a2 h), fun h => b3 (a3 h), ?_⟩
    split_ifs at a4 ⊢ <;> omega

/-! ## Single paths through capture, rendering and the loop -/

theorem ValidateResources_congr {s t : D3D12Renderer} (h : t.ptr = s.ptr) :
    ValidateResources t = ValidateResources s := by
  simp only [ValidateResources, h]

theorem afterValidate_trace (s : D3D12Renderer) :
    (afterValidate s).trace =
      if ValidateResources s then s.trace
      else s.trace ++ [Event.Log "Resource validation failed\n"] := by
  unfold afterValidate
  split <;> simp only [log_eq, emit_proj]

theorem WaitForGPU_trace (s : D3D12Renderer) :
    (WaitForGPU s).trace =
      if !s.ptr Handle.m_commandQueue || !s.ptr Handle.m_fence || !s.ptr Handle.m_fenceEvent
      then s.trace
      else s.trace ++ [(s.fenceCalls ((s.m_fenceValue + 1) % SIZE_T_SIZE)).record] := by
  unfold WaitForGPU FenceEnv.record
  simp only [put_m_fenceValue_proj, put_m_fenceValue_fenceCalls]
  split_ifs <;> simp only [log_eq, emit_proj, put_m_fenceValue_proj]

/-- A call of `WaitForGPU` records neither pipeline work nor a call of
`CreateDeviceAndResources`, and no log line other than its own two. -/
theorem FenceEnv.record_cases (r : FenceEnv) :
    r.record = Event.WaitForGPU ∨ r.record = Event.Log "Signal fence failed\n" ∨
      r.record = Event.Log "SetEventOnCompletion failed\n" := by
  unfold FenceEnv.record
  split_ifs <;> simp

theorem FenceEnv.record_of_reached (r : FenceEnv) (h : r.reached = true) :
    r.record = Event.WaitForGPU := by
  unfold FenceEnv.record
  unfold FenceEnv.reached at h
  cases h1 : r.signal <;> cases h2 : r.completed <;> cases h3 : r.setEventOnCompletion <;>
    simp_all

theorem FenceEnv.record_of_not_reached (r : FenceEnv) (h : r.reached = false) :
    r.record ≠ Event.WaitForGPU ∧ r.record ≠ Event.ExecuteCommandLists := by
  unfold FenceEnv.record
  unfold FenceEnv.reached at h
  cases h1 : r.signal <;> cases h2 : r.completed <;> cases h3 : r.setEventOnCompletion <;>
    simp_all

theorem FenceEnv.record_beq (r : FenceEnv) (ev : Event) (hev : ev ≠ Event.WaitForGPU)
    (h1 : ev ≠ Event.Log "Signal fence failed\n")
    (h2 : ev ≠ Event.Log "SetEventOnCompletion failed\n") :
    (r.record == ev) = false := by
  rw [beq_eq_false_iff_ne]
  intro h
  rcases r.record_cases with h3 | h3 | h3 <;> rw [h3] at h
  · exact hev h.symm
  · exact h1 h.symm
  · exact h2 h.symm

theorem FenceEnv.record_ne (r : FenceEnv) (ev : Event) (hev : ev ≠ Event.WaitForGPU)
    (h1 : ev ≠ Event.Log "Signal fence failed\n")
    (h2 : ev ≠ Event.Log "SetEventOnCompletion failed\n") :
    (r.record = ev) = False := by
  have h := FenceEnv.record_beq r ev hev h1 h2
  rw [beq_eq_false_iff_ne] at h
  exact eq_false h

theorem count_record (r : FenceEnv) (ev : Event) (hev : ev ≠ Event.WaitForGPU)
    (h1 : ev ≠ Event.Log "Signal fence failed\n")
    (h2 : ev ≠ Event.Log "SetEventOnCompletion failed\n") :
    List.count ev [r.record] = 0 := by
  rw [List.count_eq_zero]
  intro h
  rw [List.mem_singleton] at h
  rcases r.record_cases with h3 | h3 | h3 <;> rw [h3] at h
  · exact hev h
  · exact h1 h
  · exact h2 h

theorem afterValidate_pipelineWork (s : D3D12Renderer) :
    (afterValidate s).pipelineWork = s.pipelineWork := by
  simp only [D3D12Renderer.pipelineWork, afterValidate_trace]
  split <;> simp [Event.isPipelineWork]

theorem FenceEnv.record_isPipelineWork (r : FenceEnv) : r.record.isPipelineWork = false := by
  rcases r.record_cases with h | h | h <;> rw [h] <;> rfl

theorem WaitForGPU_pipelineWork (s : D3D12Renderer) :
    (WaitForGPU s).pipelineWork = s.pipelineWork := by
  simp only [D3D12Renderer.pipelineWork, WaitForGPU_trace]
  split
  · rfl
  · simp only [List.countP_append, List.countP_cons, List.countP_nil,
      FenceEnv.record_isPipelineWork, Bool.false_eq_true, if_false, Nat.add_zero]

theorem emit_pipelineWork (s : D3D12Renderer) (ev : Event) :
    (s.emit ev).pipelineWork = s.pipelineWork + if ev.isPipelineWork then 1 else 0 := by
  simp only [D3D12Renderer.pipelineWork, emit_proj, List.countP_append, List.countP_cons,
    List.countP_nil, Nat.zero_add]

theorem RenderFallback_ptr (e : FallbackEnv) (s : D3D12Renderer) :
    (RenderFallback e s).2.ptr = s.ptr := by
  unfold RenderFallback
  simp only [log_eq, throwHR_snd, apply_ite Prod.snd, apply_ite D3D12Renderer.ptr, emit_proj,
    put_m_frameIndex_proj, WaitForGPU_proj]
  simp only [ite_self]

theorem RenderFallback_pipelineWork (e : FallbackEnv) (s : D3D12Renderer) :
    (RenderFallback e s).2.pipelineWork = s.pipelineWork := by
  have h0 := WaitForGPU_pipelineWork
  simp only [D3D12Renderer.pipelineWork] at h0
  unfold RenderFallback
  simp only [D3D12Renderer.pipelineWork, log_eq, throwHR_snd, apply_ite Prod.snd,
    apply_ite D3D12Renderer.trace, apply_ite (List.countP Event.isPipelineWork), emit_proj,
    put_m_frameIndex_proj, h0, List.countP_append]
  simp [Event.isPipelineWork]

theorem submitFrame_ptr (e : PassEnv) (s : D3D12Renderer) :
    (submitFrame e s).2.ptr = s.ptr := by
  unfold submitFrame
  simp only [log_eq, throwHR_snd, apply_ite Prod.snd, apply_ite D3D12Renderer.ptr, emit_proj,
    put_m_frameIndex_proj, put_m_time_proj, WaitForGPU_proj, afterValidate_proj,
    dispatchCompute_proj, writeConstants_proj, RenderFallback_ptr]
  simp only [ite_self]


theorem CaptureDesktop_invalid (e : CaptureEnv) (s : D3D12Renderer)
    (h : ValidateResources s = false) :
    CaptureDesktop e s =
      (Outcome.ret false,
        (afterValidate s).log "CaptureDesktop skipped due to invalid resources\n") := by
  unfold CaptureDesktop
  simp only [h, Bool.not_false, Bool.true_or, if_true]

theorem captureStep_invalid (e : CaptureEnv) (s : D3D12Renderer)
    (h : ValidateResources s = false) :
    captureStep e s =
      ((afterValidate s).log "CaptureDesktop skipped due to invalid resources\n").log
        "CaptureDesktop failed, using last frame\n" := by
  unfold captureStep
  rw [CaptureDesktop_invalid e s h]
  simp

theorem control_captureStep (e : CaptureEnv) (s : D3D12Renderer) :
    (captureStep e s).control = s.control := by
  have h := control_CaptureDesktop e s
  unfold captureStep
  split
  · exact h
  · simp [D3D12Renderer.control]

theorem captureStep_m_fallbackMode (e : CaptureEnv) (s : D3D12Renderer) :
    (captureStep e s).m_fallbackMode = s.m_fallbackMode :=
  congrArg (fun c => c.2.1) (control_captureStep e s)

theorem captureStep_m_recoveryCount (e : CaptureEnv) (s : D3D12Renderer) :
    (captureStep e s).m_recoveryCount = s.m_recoveryCount :=
  congrArg (fun c => c.1) (control_captureStep e s)

theorem submitFrame_invalid_fallback (e : PassEnv) (s : D3D12Renderer)
    (h : ValidateResources s = false) (hf : s.m_fallbackMode = true) :
    submitFrame e s =
      (some (RenderFallback e.fallback
          ((afterValidate s).log "Render failed: Invalid resources\n")).1,
        (RenderFallback e.fallback
          ((afterValidate s).log "Render failed: Invalid resources\n")).2) := by
  unfold submitFrame
  simp only [h, Bool.not_false, if_true, log_eq, emit_proj, afterValidate_proj, hf]

theorem renderPass_of_isSome (retry : D3D12Renderer → Outcome × D3D12Renderer) (e : PassEnv)
    (s : D3D12Renderer) (h : (submitFrame e s).1.isSome = true) :
    renderPass retry e s = ((submitFrame e s).1.getD Outcome.fault, (submitFrame e s).2) := by
  unfold renderPass
  simp only [h, if_true]

theorem renderPass_of_failed (retry : D3D12Renderer → Outcome × D3D12Renderer) (e : PassEnv)
    (s : D3D12Renderer) (h : (submitFrame e s).1 = none) (hp : e.present = PresentResult.failed) :
    renderPass retry e s =
      (Outcome.ret false, (submitFrame e s).2.log "Present failed with HRESULT: 0x%08X\n") := by
  unfold renderPass
  simp [h, hp]

theorem renderPass_of_removed (retry : D3D12Renderer → Outcome × D3D12Renderer) (e : PassEnv)
    (s : D3D12Renderer) (h : (submitFrame e s).1 = none)
    (hp : e.present = PresentResult.deviceRemoved ∨ e.present = PresentResult.deviceHung) :
    renderPass retry e s = recoverAndRetry retry e (submitFrame e s).2 := by
  unfold renderPass
  have hne : e.present ≠ PresentResult.ok := by
    rcases hp with hp | hp <;> rw [hp] <;> decide
  simp [h, hp, hne]

theorem recoverAndRetry_of_true (retry : D3D12Renderer → Outcome × D3D12Renderer) (e : PassEnv)
    (s : D3D12Renderer) (h : (RecoverDevice e.recover s).1 = Outcome.ret true) :
    recoverAndRetry retry e s =
      retry ((RecoverDevice e.recover s).2.log "Device recovered, retrying render\n") := by
  unfold recoverAndRetry
  simp only [h, if_true]

theorem recoverAndRetry_of_false (retry : D3D12Renderer → Outcome × D3D12Renderer) (e : PassEnv)
    (s : D3D12Renderer) (h : (RecoverDevice e.recover s).1 = Outcome.ret false) :
    recoverAndRetry retry e s =
      RenderFallback e.fallback
        (((RecoverDevice e.recover s).2.log
          "Recovery failed, switching to fallback\n").put_m_fallbackMode true) := by
  unfold recoverAndRetry
  simp [h]

theorem Render_invalid_fallback (env : Nat → PassEnv) (s : D3D12Renderer)
    (h : ValidateResources s = false) (hf : s.m_fallbackMode = true) :
    Render env s =
      RenderFallback (env 0).fallback
        ((afterValidate s).log "Render failed: Invalid resources\n") := by
  rw [Render_eq, renderPass_of_isSome _ _ _ (by rw [submitFrame_invalid_fallback _ _ h hf]; rfl),
    submitFrame_invalid_fallback _ _ h hf]
  rfl

theorem RenderFallback_true (e : FallbackEnv) (s : D3D12Renderer)
    (h : (RenderFallback e s).1 = Outcome.ret true) :
    (RenderFallback e s).2.trace.count (Event.ClearRenderTargetView ClearColor.solidFallback) =
      s.trace.count (Event.ClearRenderTargetView ClearColor.solidFallback) + 1 ∧
    (RenderFallback e s).2.trace.count Event.Present = s.trace.count Event.Present + 1 := by
  have h0 := WaitForGPU_trace
  unfold RenderFallback at h ⊢
  simp only [log_eq, emit_proj, put_m_frameIndex_proj] at h ⊢
  split_ifs at h ⊢ <;> simp_all [throwHR]
  have b1 := FenceEnv.record_beq (s.fenceCalls ((s.m_fenceValue + 1) % SIZE_T_SIZE))
    (Event.ClearRenderTargetView ClearColor.solidFallback) Event.noConfusion Event.noConfusion
    Event.noConfusion
  have b2 := FenceEnv.record_beq (s.fenceCalls ((s.m_fenceValue + 1) % SIZE_T_SIZE))
    Event.Present Event.noConfusion Event.noConfusion Event.noConfusion
  split_ifs <;> simp [List.count_cons, b1, b2]

theorem recoverOrStop_m_isRunning (e : CreateEnv) (a : LightWeight3DApp) (r : D3D12Renderer) :
    (recoverOrStop e a r).m_isRunning =
      (a.m_isRunning && decide ((RecoverDevice e r).1 = Outcome.ret true)) := by
  unfold recoverOrStop
  simp only []
  split_ifs with h1 h2 <;> simp [h1]

theorem recoverOrStop_m_recoveryCount (e : CreateEnv) (a : LightWeight3DApp)
    (r : D3D12Renderer) :
    (recoverOrStop e a r).m_d3dRenderer.m_recoveryCount = r.m_recoveryCount + 1 := by
  unfold recoverOrStop
  simp only []
  split_ifs <;> simp

theorem recoverOrStop_m_fallbackMode (e : CreateEnv) (a : LightWeight3DApp)
    (r : D3D12Renderer) (h : r.m_fallbackMode = true) :
    (recoverOrStop e a r).m_d3dRenderer.m_fallbackMode = true := by
  unfold recoverOrStop
  simp only []
  split_ifs <;> simp [RecoverDevice_m_fallbackMode, h]

theorem RenderLoopIteration_of_render (e : TickEnv) (a : LightWeight3DApp)
    (hr : a.m_isRunning = true) (hh : a.m_isHidden = false)
    (hc1 : (CaptureDesktop e.capture a.m_d3dRenderer).1 ≠ Outcome.fault)
    (hc2 : (CaptureDesktop e.capture a.m_d3dRenderer).1.isThrew = false) :
    RenderLoopIteration e a =
      if (Render e.render (captureStep e.capture a.m_d3dRenderer)).1 = Outcome.ret true then
        { a with m_d3dRenderer := (Render e.render (captureStep e.capture a.m_d3dRenderer)).2,
                 m_frameCount := a.m_frameCount + 1 }
      else if (Render e.render (captureStep e.capture a.m_d3dRenderer)).1 = Outcome.ret false then
        recoverOrStop e.recover a
          ((Render e.render (captureStep e.capture a.m_d3dRenderer)).2.log "Render failed\n")
      else if (Render e.render (captureStep e.capture a.m_d3dRenderer)).1.isThrew then
        recoverOrStop e.recover a
          ((Render e.render (captureStep e.capture a.m_d3dRenderer)).2.log
            ("Render loop exception: " ++
              (Render e.render (captureStep e.capture a.m_d3dRenderer)).1.what ++ "\n"))
      else { a with m_d3dRenderer := (Render e.render (captureStep e.capture a.m_d3dRenderer)).2,
                    m_isRunning := false, faulted := true } := by
  unfold RenderLoopIteration
  simp only [hr, hh, hc1, hc2, Bool.not_true, if_false, Bool.false_eq_true]

theorem RenderLoopIteration_of_capture_threw (e : TickEnv) (a : LightWeight3DApp)
    (hr : a.m_isRunning = true) (hh : a.m_isHidden = false)
    (hc2 : (CaptureDesktop e.capture a.m_d3dRenderer).1.isThrew = true) :
    RenderLoopIteration e a =
      recoverOrStop e.recover a
        ((CaptureDesktop e.capture a.m_d3dRenderer).2.log
          ("Render loop exception: " ++
            (CaptureDesktop e.capture a.m_d3dRenderer).1.what ++ "\n")) := by
  have hc1 : (CaptureDesktop e.capture a.m_d3dRenderer).1 ≠ Outcome.fault := by
    intro h
    rw [h] at hc2
    cases hc2
  unfold RenderLoopIteration
  simp only [hr, hh, hc1, hc2, Bool.not_true, if_false, Bool.false_eq_true, if_true]

theorem RenderLoopIteration_m_fallbackMode (e : TickEnv) (a : LightWeight3DApp)
    (h : a.m_d3dRenderer.m_fallbackMode = true) :
    (RenderLoopIteration e a).m_d3dRenderer.m_fallbackMode = true := by
  have hcap : (CaptureDesktop e.capture a.m_d3dRenderer).2.m_fallbackMode = true := by
    rw [CaptureDesktop_m_fallbackMode]; exact h
  have hren : (Render e.render (captureStep e.capture a.m_d3dRenderer)).2.m_fallbackMode = true :=
    (Render_progress _ _).2.1 (by rw [captureStep_m_fallbackMode]; exact h)
  unfold RenderLoopIteration
  simp only []
  split_ifs
  · simpa using h
  · exact h
  · exact hcap
  · exact recoverOrStop_m_fallbackMode _ _ _ (by simpa using hcap)
  · exact hren
  · exact recoverOrStop_m_fallbackMode _ _ _ (by simpa using hren)
  · exact recoverOrStop_m_fallbackMode _ _ _ (by simpa using hren)
  · exact hren

theorem RenderLoop_m_fallbackMode (envs : List TickEnv) (a : LightWeight3DApp)
    (h : a.m_d3dRenderer.m_fallbackMode = true) :
    (RenderLoop envs a).m_d3dRenderer.m_fallbackMode = true := by
  induction envs generalizing a with
  | nil => exact h
  | cons e envs ih => exact ih _ (RenderLoopIteration_m_fallbackMode e a h)


theorem afterValidate_count (ev : Event) (hev : ∀ m, ev ≠ Event.Log m) (s : D3D12Renderer) :
    (afterValidate s).trace.count ev = s.trace.count ev := by
  rw [afterValidate_trace]
  split
  · rfl
  · simp [List.count_append, List.count_cons, hev]

theorem invalid_tick_entry_count (ev : Event) (hev : ∀ m, ev ≠ Event.Log m) (e : CaptureEnv)
    (s : D3D12Renderer) (h : ValidateResources s = false) :
    ((afterValidate (captureStep e s)).log "Render failed: Invalid resources\n").trace.count ev =
      s.trace.count ev := by
  rw [captureStep_invalid e s h]
  simp [afterValidate_count ev hev, List.count_append, List.count_cons, hev]

theorem invalid_tick_entry_pipelineWork (e : CaptureEnv) (s : D3D12Renderer)
    (h : ValidateResources s = false) :
    ((afterValidate (captureStep e s)).log
      "Render failed: Invalid resources\n").pipelineWork = s.pipelineWork := by
  rw [captureStep_invalid e s h]
  simp [emit_pipelineWork, afterValidate_pipelineWork, Event.isPipelineWork]

theorem captureStep_ptr_of_invalid (e : CaptureEnv) (s : D3D12Renderer)
    (h : ValidateResources s = false) : (captureStep e s).ptr = s.ptr := by
  rw [captureStep_invalid e s h]
  simp

theorem RenderLoopIteration_of_render_false (e : TickEnv) (a : LightWeight3DApp)
    (hr : a.m_isRunning = true) (hh : a.m_isHidden = false)
    (hc1 : (CaptureDesktop e.capture a.m_d3dRenderer).1 ≠ Outcome.fault)
    (hc2 : (CaptureDesktop e.capture a.m_d3dRenderer).1.isThrew = false)
    (hf : (Render e.render (captureStep e.capture a.m_d3dRenderer)).1 = Outcome.ret false) :
    RenderLoopIteration e a =
      recoverOrStop e.recover a
        ((Render e.render (captureStep e.capture a.m_d3dRenderer)).2.log "Render failed\n") := by
  rw [RenderLoopIteration_of_render e a hr hh hc1 hc2, hf]
  simp

theorem Render_of_present_failed (env : Nat → PassEnv) (s : D3D12Renderer)
    (h : (submitFrame (env 0) s).1 = none) (hp : (env 0).present = PresentResult.failed) :
    Render env s =
      (Outcome.ret false,
        (submitFrame (env 0) s).2.log "Present failed with HRESULT: 0x%08X\n") := by
  rw [Render_eq, renderPass_of_failed _ _ _ h hp]

theorem Render_of_recovered (env : Nat → PassEnv) (s : D3D12Renderer)
    (h : (submitFrame (env 0) s).1 = none)
    (hp : (env 0).present = PresentResult.deviceRemoved ∨
      (env 0).present = PresentResult.deviceHung)
    (hr : (RecoverDevice (env 0).recover (submitFrame (env 0) s).2).1 = Outcome.ret true) :
    Render env s =
      Render (fun k => env (k + 1))
        ((RecoverDevice (env 0).recover (submitFrame (env 0) s).2).2.log
          "Device recovered, retrying render\n") := by
  rw [Render_eq, renderPass_of_removed _ _ _ h hp, recoverAndRetry_of_true _ _ _ hr]

theorem Render_of_recovery_failed (env : Nat → PassEnv) (s : D3D12Renderer)
    (h : (submitFrame (env 0) s).1 = none)
    (hp : (env 0).present = PresentResult.deviceRemoved ∨
      (env 0).present = PresentResult.deviceHung)
    (hr : (RecoverDevice (env 0).recover (submitFrame (env 0) s).2).1 = Outcome.ret false) :
    Render env s =
      RenderFallback (env 0).fallback
        (((RecoverDevice (env 0).recover (submitFrame (env 0) s).2).2.log
          "Recovery failed, switching to fallback\n").put_m_fallbackMode true) := by
  rw [Render_eq, renderPass_of_removed _ _ _ h hp, recoverAndRetry_of_false _ _ _ hr]

/-! ## C1 to C3: the recovery controller -/

/-- C1: a `RecoverDevice` call that finds the attempt counter at
`MAX_RECOVERY_ATTEMPTS` or above returns false with the fallback flag set,
leaves every pointer member as it was and records nothing but its two log
lines, so neither `Cleanup` nor `CreateDeviceAndResources` runs.  In a session
started by the constructor the calls of `CreateDeviceAndResources` number at
most the calls of `Initialize` plus three, and from any state a sequence of
operations without `Initialize` adds at most `3 - m_recoveryCount` of them. -/
theorem C1_recovery_attempts_capped :
    (∀ (e : CreateEnv) (s : D3D12Renderer), MAX_RECOVERY_ATTEMPTS ≤ s.m_recoveryCount →
      (RecoverDevice e s).1 = Outcome.ret false ∧
      (RecoverDevice e s).2.m_fallbackMode = true ∧
      (RecoverDevice e s).2.ptr = s.ptr ∧
      (RecoverDevice e s).2.trace = s.trace ++
        [Event.Log "Attempting device recovery (count: %d)\n",
         Event.Log "Exceeded maximum recovery attempts, switching to fallback mode\n"]) ∧
    (∀ (ops : List Op) (d c : Bool),
      (run ops (D3D12Renderer.ctor d c)).attempts ≤
        ops.countP Op.isInitialize + MAX_RECOVERY_ATTEMPTS) ∧
    (∀ (ops : List Op) (s : D3D12Renderer), ops.countP Op.isInitialize = 0 →
      (run ops s).attempts ≤ s.attempts + (MAX_RECOVERY_ATTEMPTS - s.m_recoveryCount)) := by
  refine ⟨fun e s h => ?_, fun ops d c => ?_, fun ops s h => ?_⟩
  · rw [RecoverDevice_capped e s h]
    simp
  · have h := (run_progress ops (D3D12Renderer.ctor d c)).2.2.2
    have h0 : (D3D12Renderer.ctor d c).attempts = 0 := rfl
    simp only [MAX_RECOVERY_ATTEMPTS]
    omega
  · have h1 := (run_progress ops s).2.2.2
    simp only [MAX_RECOVERY_ATTEMPTS]
    omega

set_option maxRecDepth 100000 in
/-- C1 at work: the renderer that has used up its three recoveries refuses the
next one. -/
theorem C1_recovery_attempts_capped_witness :
    MAX_RECOVERY_ATTEMPTS ≤ exhausted.m_recoveryCount ∧
    (RecoverDevice okCreate exhausted).1 = Outcome.ret false ∧
    (RecoverDevice okCreate exhausted).2.m_fallbackMode = true ∧
    (RecoverDevice okCreate exhausted).2.ptr = exhausted.ptr ∧
    (RecoverDevice okCreate exhausted).2.trace = exhausted.trace ++
      [Event.Log "Attempting device recovery (count: %d)\n",
       Event.Log "Exceeded maximum recovery attempts, switching to fallback mode\n"] ∧
    (List.countP Op.isInitialize [] = 0 ∧
      (run [] exhausted).attempts ≤
        exhausted.attempts + (MAX_RECOVERY_ATTEMPTS - exhausted.m_recoveryCount)) :=
  ⟨by with_unfolding_all decide,
    (C1_recovery_attempts_capped.1 okCreate exhausted (by with_unfolding_all decide)).1,
    (C1_recovery_attempts_capped.1 okCreate exhausted (by with_unfolding_all decide)).2.1,
    (C1_recovery_attempts_capped.1 okCreate exhausted (by with_unfolding_all decide)).2.2.1,
    (C1_recovery_attempts_capped.1 okCreate exhausted (by with_unfolding_all decide)).2.2.2,
    rfl, C1_recovery_attempts_capped.2.2 [] exhausted rfl⟩

/-- C2: over every sequence of renderer operations the attempt counter never
decreases (each `RecoverDevice` call, successful or not, adds exactly one and
nothing resets it), and in every state reachable from the constructor in which
the fallback flag is not set the counter is at most `MAX_RECOVERY_ATTEMPTS`. -/
theorem C2_recovery_invariant :
    (∀ (op : Op) (s : D3D12Renderer), s.m_recoveryCount ≤ (step s op).m_recoveryCount) ∧
    (∀ (ops : List Op) (s : D3D12Renderer), s.m_recoveryCount ≤ (run ops s).m_recoveryCount) ∧
    (∀ (e : CreateEnv) (s : D3D12Renderer),
      (RecoverDevice e s).2.m_recoveryCount = s.m_recoveryCount + 1) ∧
    (∀ (ops : List Op) (d c : Bool),
      (run ops (D3D12Renderer.ctor d c)).m_fallbackMode = false →
        (run ops (D3D12Renderer.ctor d c)).m_recoveryCount ≤ MAX_RECOVERY_ATTEMPTS) := by
  refine ⟨fun op s => (step_progress op s).1, fun ops s => (run_progress ops s).1,
    RecoverDevice_m_recoveryCount, fun ops d c h => ?_⟩
  have h1 := (run_progress ops (D3D12Renderer.ctor d c)).2.2.1
    (Or.inl (Nat.zero_le 3))
  rcases h1 with h1 | h1
  · exact h1
  · rw [h] at h1
    cases h1

/-- C2 at work: after `Initialize` and one successful recovery the flag is
clear and the counter is within the maximum. -/
theorem C2_recovery_invariant_witness :
    (run [Op.Initialize okInit, Op.RecoverDevice okCreate]
        (D3D12Renderer.ctor false false)).m_fallbackMode = false ∧
    (run [Op.Initialize okInit, Op.RecoverDevice okCreate]
        (D3D12Renderer.ctor false false)).m_recoveryCount ≤ MAX_RECOVERY_ATTEMPTS :=
  ⟨by with_unfolding_all decide,
    C2_recovery_invariant.2.2.2 [Op.Initialize okInit, Op.RecoverDevice okCreate] false false
      (by with_unfolding_all decide)⟩

/-- C3: whenever `RecoverDevice` returns true the shared configuration equals
`defaultConfig`, whatever it was before; whenever it returns false the shared
configuration is what it was before the call. -/
theorem C3_recovery_resets_config (e : CreateEnv) (s : D3D12Renderer) :
    ((RecoverDevice e s).1 = Outcome.ret true → (RecoverDevice e s).2.config = defaultConfig) ∧
    ((RecoverDevice e s).1 = Outcome.ret false → (RecoverDevice e s).2.config = s.config) :=
  ⟨fun h => (RecoverDevice_true e s h).2,
    fun h => RecoverDevice_config_of_ne_true e s (by rw [h]; decide)⟩

/-- C3 at work: with the parallax effect switched off by the user, a successful
recovery restores the defaults and a failed one keeps the user's setting. -/
theorem C3_recovery_resets_config_witness :
    ((RecoverDevice okCreate toggled).1 = Outcome.ret true ∧
      (RecoverDevice okCreate toggled).2.config = defaultConfig) ∧
    ((RecoverDevice noDevice toggled).1 = Outcome.ret false ∧
      (RecoverDevice noDevice toggled).2.config = toggled.config) :=
  ⟨⟨by with_unfolding_all decide,
      (C3_recovery_resets_config okCreate toggled).1 (by with_unfolding_all decide)⟩,
    ⟨by with_unfolding_all decide,
      (C3_recovery_resets_config noDevice toggled).2 (by with_unfolding_all decide)⟩⟩

/-! ## C4 to C7: fallback mode, failed recoveries and presentation failures -/

/-- C4, amended: the fallback flag, once set, stays set over every sequence of
renderer operations and every run of the render loop.  In a loop iteration
entered with the flag set and resources that fail `ValidateResources`,
`CaptureDesktop` is skipped and `Render` is exactly the `RenderFallback` call;
when that call returns true the loop keeps running and the iteration has
recorded one solid-colour clear and one present, and no capture upload, compute
dispatch or effects draw. -/
theorem C4_fallback_mode_persists :
    (∀ (ops : List Op) (s : D3D12Renderer), s.m_fallbackMode = true →
      (run ops s).m_fallbackMode = true) ∧
    (∀ (envs : List TickEnv) (a : LightWeight3DApp), a.m_d3dRenderer.m_fallbackMode = true →
      (RenderLoop envs a).m_d3dRenderer.m_fallbackMode = true) ∧
    (∀ (e : TickEnv) (a : LightWeight3DApp), a.m_isRunning = true → a.m_isHidden = false →
      a.m_d3dRenderer.m_fallbackMode = true → ValidateResources a.m_d3dRenderer = false →
      (CaptureDesktop e.capture a.m_d3dRenderer).1 = Outcome.ret false ∧
      Render e.render (captureStep e.capture a.m_d3dRenderer) =
        RenderFallback (e.render 0).fallback
          ((afterValidate (captureStep e.capture a.m_d3dRenderer)).log
            "Render failed: Invalid resources\n") ∧
      ((Render e.render (captureStep e.capture a.m_d3dRenderer)).1 = Outcome.ret true →
        (RenderLoopIteration e a).m_isRunning = true ∧
        (RenderLoopIteration e a).m_d3dRenderer.pipelineWork = a.m_d3dRenderer.pipelineWork ∧
        (RenderLoopIteration e a).m_d3dRenderer.trace.count
            (Event.ClearRenderTargetView ClearColor.solidFallback) =
          a.m_d3dRenderer.trace.count (Event.ClearRenderTargetView ClearColor.solidFallback) + 1 ∧
        (RenderLoopIteration e a).m_d3dRenderer.trace.count Event.Present =
          a.m_d3dRenderer.trace.count Event.Present + 1)) := by
  refine ⟨fun ops s h => (run_progress ops s).2.1 h, RenderLoop_m_fallbackMode,
    fun e a hr hh hf hv => ?_⟩
  have hcap := CaptureDesktop_invalid e.capture a.m_d3dRenderer hv
  have hv2 : ValidateResources (captureStep e.capture a.m_d3dRenderer) = false := by
    rw [ValidateResources_congr (captureStep_ptr_of_invalid e.capture _ hv)]; exact hv
  have hf2 : (captureStep e.capture a.m_d3dRenderer).m_fallbackMode = true := by
    rw [captureStep_m_fallbackMode]; exact hf
  have hren := Render_invalid_fallback e.render _ hv2 hf2
  refine ⟨by rw [hcap], hren, fun ht => ?_⟩
  have hit := RenderLoopIteration_of_render e a hr hh (by rw [hcap]; exact Outcome.noConfusion)
    (by rw [hcap]; rfl)
  rw [if_pos ht] at hit
  rw [hit]
  simp only [hr, true_and]
  rw [hren] at ht ⊢
  obtain ⟨h1, h2⟩ := RenderFallback_true _ _ ht
  refine ⟨?_, ?_, ?_⟩
  · rw [RenderFallback_pipelineWork, invalid_tick_entry_pipelineWork _ _ hv]
  · rw [h1, invalid_tick_entry_count _ (by intro m; exact Event.noConfusion) _ _ hv]
  · rw [h2, invalid_tick_entry_count _ (by intro m; exact Event.noConfusion) _ _ hv]

set_option maxRecDepth 100000 in
/-- C4 at work: the iteration after `degradedApp`, with every platform call
succeeding, is a fallback frame and nothing else. -/
theorem C4_fallback_mode_persists_witness :
    (degradedApp.m_isRunning = true ∧ degradedApp.m_isHidden = false ∧
      degradedApp.m_d3dRenderer.m_fallbackMode = true ∧
      ValidateResources degradedApp.m_d3dRenderer = false ∧
      (Render okTick.render (captureStep okTick.capture degradedApp.m_d3dRenderer)).1 =
        Outcome.ret true) ∧
    ((RenderLoopIteration okTick degradedApp).m_isRunning = true ∧
      (RenderLoopIteration okTick degradedApp).m_d3dRenderer.pipelineWork =
        degradedApp.m_d3dRenderer.pipelineWork ∧
      (RenderLoopIteration okTick degradedApp).m_d3dRenderer.trace.count
          (Event.ClearRenderTargetView ClearColor.solidFallback) =
        degradedApp.m_d3dRenderer.trace.count
          (Event.ClearRenderTargetView ClearColor.solidFallback) + 1 ∧
      (RenderLoopIteration okTick degradedApp).m_d3dRenderer.trace.count Event.Present =
        degradedApp.m_d3dRenderer.trace.count Event.Present + 1) :=
  ⟨⟨by with_unfolding_all decide, by with_unfolding_all decide, by with_unfolding_all decide,
      by with_unfolding_all decide, by with_unfolding_all decide⟩,
    (C4_fallback_mode_persists.2.2 okTick degradedApp (by with_unfolding_all decide)
      (by with_unfolding_all decide) (by with_unfolding_all decide)
      (by with_unfolding_all decide)).2.2 (by with_unfolding_all decide)⟩

set_option maxRecDepth 100000 in
/-- C4 as stated does not hold: after the iteration in which the fourth
recovery call set the fallback flag the resources of the third recovery are
still valid, so the next iteration captures, uploads and draws with the effects
pipeline and records no fallback clear; and when `Present` fails in that next
iteration the loop stops, because the recovery the loop starts is refused. -/
theorem C4_fallback_ticks_counterexample :
    (fallbackApp.m_d3dRenderer.m_fallbackMode = true ∧ fallbackApp.m_isRunning = true ∧
      fallbackApp.m_isHidden = false) ∧
    (RenderLoopIteration okTick fallbackApp).m_d3dRenderer.trace.drop
        fallbackApp.m_d3dRenderer.trace.length =
      [Event.Log "Capturing desktop...\n", Event.AcquireNextFrame, Event.CopyResource,
       Event.UpdateSubresources, Event.ExecuteCommandLists, Event.WaitForGPU,
       Event.ReleaseFrame, Event.Log "Desktop captured successfully\n",
       Event.Log "Rendering frame...\n", Event.ClearRenderTargetView ClearColor.effects,
       Event.DrawInstanced, Event.ExecuteCommandLists, Event.Present, Event.WaitForGPU,
       Event.Log "Frame rendered successfully\n"] ∧
    (RenderLoopIteration presentFailsTick fallbackApp).m_isRunning = false := by
  with_unfolding_all decide

/-- C5, amended: a failed recovery is not retried on a later tick.  When the
`RecoverDevice` call of the render loop returns false the loop is stopped in
that iteration, whatever the attempt counter; when the `RecoverDevice` call
inside `Render` (after a device-removed or device-hung `Present`) returns
false, `Render` sets the fallback flag at once and is the `RenderFallback`
call, whatever the attempt counter. -/
theorem C5_failed_recovery_is_final :
    (∀ (e : CreateEnv) (a : LightWeight3DApp) (r : D3D12Renderer),
      (RecoverDevice e r).1 = Outcome.ret false → (recoverOrStop e a r).m_isRunning = false) ∧
    (∀ (e : TickEnv) (a : LightWeight3DApp), a.m_isRunning = true → a.m_isHidden = false →
      (CaptureDesktop e.capture a.m_d3dRenderer).1 ≠ Outcome.fault →
      (CaptureDesktop e.capture a.m_d3dRenderer).1.isThrew = false →
      (Render e.render (captureStep e.capture a.m_d3dRenderer)).1 = Outcome.ret false →
      (RecoverDevice e.recover
        ((Render e.render (captureStep e.capture a.m_d3dRenderer)).2.log "Render failed\n")).1 =
          Outcome.ret false →
      (RenderLoopIteration e a).m_isRunning = false) ∧
    (∀ (env : Nat → PassEnv) (s : D3D12Renderer), (submitFrame (env 0) s).1 = none →
      (env 0).present = PresentResult.deviceRemoved ∨
        (env 0).present = PresentResult.deviceHung →
      (RecoverDevice (env 0).recover (submitFrame (env 0) s).2).1 = Outcome.ret false →
      (Render env s).2.m_fallbackMode = true ∧
      Render env s =
        RenderFallback (env 0).fallback
          (((RecoverDevice (env 0).recover (submitFrame (env 0) s).2).2.log
            "Recovery failed, switching to fallback\n").put_m_fallbackMode true)) := by
  refine ⟨fun e a r h => ?_, fun e a hr hh hc1 hc2 hf hrec => ?_, fun env s h hp hr => ?_⟩
  · rw [recoverOrStop_m_isRunning, h]
    simp
  · rw [RenderLoopIteration_of_render_false e a hr hh hc1 hc2 hf, recoverOrStop_m_isRunning, hrec]
    simp
  · have := Render_of_recovery_failed env s h hp hr
    refine ⟨?_, this⟩
    rw [this, RenderFallback_m_fallbackMode]
    simp

set_option maxRecDepth 100000 in
/-- C5 at work: one failed recovery at counter 1 stops the loop, and one failed
recovery inside `Render` at counter 1 sets the fallback flag. -/
theorem C5_failed_recovery_is_final_witness :
    (RenderLoopIteration presentFailsNoDeviceTick healthyApp).m_isRunning = false ∧
    (Render removedNoDevice healthy).2.m_fallbackMode = true :=
  ⟨C5_failed_recovery_is_final.2.1 presentFailsNoDeviceTick healthyApp
      (by with_unfolding_all decide) (by with_unfolding_all decide)
      (by with_unfolding_all decide) (by with_unfolding_all decide)
      (by with_unfolding_all decide) (by with_unfolding_all decide),
    (C5_failed_recovery_is_final.2.2 removedNoDevice healthy (by with_unfolding_all decide)
      (Or.inl (by with_unfolding_all decide)) (by with_unfolding_all decide)).1⟩

set_option maxRecDepth 100000 in
/-- C5 as stated does not hold: on the healthy renderer `Present` fails, the
loop starts its first recovery (counter 0 becomes 1), the recovery finds no
device, and the loop is stopped with the fallback flag clear; and a first
failed recovery inside `Render` sets the fallback flag with the counter at 1. -/
theorem C5_failed_recovery_counterexample :
    (healthyApp.m_isRunning = true ∧ healthyApp.m_d3dRenderer.m_recoveryCount = 0) ∧
    ((RenderLoopIteration presentFailsNoDeviceTick healthyApp).m_isRunning = false ∧
      (RenderLoopIteration presentFailsNoDeviceTick healthyApp).m_d3dRenderer.m_recoveryCount = 1 ∧
      (RenderLoopIteration presentFailsNoDeviceTick healthyApp).m_d3dRenderer.m_fallbackMode =
        false) ∧
    ((Render removedNoDevice healthy).2.m_recoveryCount = 1 ∧
      (Render removedNoDevice healthy).2.m_fallbackMode = true) := by
  with_unfolding_all decide

/-- C6, amended: when `Present` reports device-removed or device-hung and
`RecoverDevice` then returns true, `Render` is a complete `Render` call on the
recovered state with the rest of the platform results, so a further
device-removed result starts a further recovery and retry inside the same outer
call.  The recovery that precedes a re-entry needs the attempt counter below
`MAX_RECOVERY_ATTEMPTS` and leaves it one higher. -/
theorem C6_recovered_render_reenters (env : Nat → PassEnv) (s : D3D12Renderer)
    (h : (submitFrame (env 0) s).1 = none)
    (hp : (env 0).present = PresentResult.deviceRemoved ∨
      (env 0).present = PresentResult.deviceHung)
    (hr : (RecoverDevice (env 0).recover (submitFrame (env 0) s).2).1 = Outcome.ret true) :
    Render env s =
      Render (fun k => env (k + 1))
        ((RecoverDevice (env 0).recover (submitFrame (env 0) s).2).2.log
          "Device recovered, retrying render\n") ∧
    s.m_recoveryCount + 1 ≤ MAX_RECOVERY_ATTEMPTS ∧
    ((RecoverDevice (env 0).recover (submitFrame (env 0) s).2).2.log
      "Device recovered, retrying render\n").m_recoveryCount = s.m_recoveryCount + 1 := by
  refine ⟨Render_of_recovered env s h hp hr, ?_, by simp⟩
  have := (RecoverDevice_true _ _ hr).1
  simpa using this

set_option maxRecDepth 100000 in
/-- C6 at work on the healthy renderer with a device-removed `Present`. -/
theorem C6_recovered_render_reenters_witness :
    Render alwaysRemoved healthy =
      Render (fun k => alwaysRemoved (k + 1))
        ((RecoverDevice (alwaysRemoved 0).recover (submitFrame (alwaysRemoved 0) healthy).2).2.log
          "Device recovered, retrying render\n") ∧
    healthy.m_recoveryCount + 1 ≤ MAX_RECOVERY_ATTEMPTS ∧
    ((RecoverDevice (alwaysRemoved 0).recover (submitFrame (alwaysRemoved 0) healthy).2).2.log
      "Device recovered, retrying render\n").m_recoveryCount = healthy.m_recoveryCount + 1 :=
  C6_recovered_render_reenters alwaysRemoved healthy (by with_unfolding_all decide)
    (Or.inl (by with_unfolding_all decide)) (by with_unfolding_all decide)

set_option maxRecDepth 100000 in
/-- C6 as stated does not hold: with `Present` reporting device-removed in
every pass, one `Render` call on the healthy renderer records four effects
draws and three calls of `CreateDeviceAndResources`: the render sequence runs
three more times after the first recovery, each device-removed result during a
retry starting the next recovery and retry, until the fourth recovery call is
refused and the fallback frame is presented. -/
theorem C6_retry_once_counterexample :
    (Render alwaysRemoved healthy).1 = Outcome.ret true ∧
    (Render alwaysRemoved healthy).2.trace.count Event.DrawInstanced =
      healthy.trace.count Event.DrawInstanced + 4 ∧
    (Render alwaysRemoved healthy).2.attempts = healthy.attempts + 3 ∧
    (Render alwaysRemoved healthy).2.trace.count
        (Event.Log "Device recovered, retrying render\n") =
      healthy.trace.count (Event.Log "Device recovered, retrying render\n") + 3 ∧
    (Render alwaysRemoved healthy).2.m_recoveryCount = 4 := by
  with_unfolding_all decide

/-- C7, amended: when `Present` fails with a code other than device-removed or
device-hung, `Render` itself does not call `RecoverDevice`: it returns false
with the attempt counter, the fallback flag and every pointer member unchanged
and no call of `CreateDeviceAndResources` recorded.  The render loop then calls
`RecoverDevice` because `Render` returned false, so the counter ends the
iteration one higher, and the loop keeps running exactly when that call
returns true. -/
theorem C7_present_failure_starts_loop_recovery :
    (∀ (env : Nat → PassEnv) (s : D3D12Renderer), (submitFrame (env 0) s).1 = none →
      (env 0).present = PresentResult.failed →
      (Render env s).1 = Outcome.ret false ∧
      (Render env s).2.m_recoveryCount = s.m_recoveryCount ∧
      (Render env s).2.m_fallbackMode = s.m_fallbackMode ∧
      (Render env s).2.ptr = s.ptr ∧
      (Render env s).2.attempts = s.attempts) ∧
    (∀ (e : TickEnv) (a : LightWeight3DApp), a.m_isRunning = true → a.m_isHidden = false →
      (CaptureDesktop e.capture a.m_d3dRenderer).1 ≠ Outcome.fault →
      (CaptureDesktop e.capture a.m_d3dRenderer).1.isThrew = false →
      (submitFrame (e.render 0) (captureStep e.capture a.m_d3dRenderer)).1 = none →
      (e.render 0).present = PresentResult.failed →
      RenderLoopIteration e a =
        recoverOrStop e.recover a
          ((Render e.render (captureStep e.capture a.m_d3dRenderer)).2.log "Render failed\n") ∧
      (RenderLoopIteration e a).m_d3dRenderer.m_recoveryCount =
        a.m_d3dRenderer.m_recoveryCount + 1 ∧
      ((RenderLoopIteration e a).m_isRunning = true ↔
        (RecoverDevice e.recover
          ((Render e.render (captureStep e.capture a.m_d3dRenderer)).2.log
            "Render failed\n")).1 = Outcome.ret true)) := by
  refine ⟨fun env s h hp => ?_, fun e a hr hh hc1 hc2 h hp => ?_⟩
  · rw [Render_of_present_failed env s h hp]
    refine ⟨rfl, by simp, by simp, by simp [submitFrame_ptr], ?_⟩
    have := submitFrame_attempts (env 0) s
    simp only [D3D12Renderer.attempts] at this ⊢
    simp [this]
  · have hf := Render_of_present_failed e.render _ h hp
    have hit := RenderLoopIteration_of_render_false e a hr hh hc1 hc2 (by rw [hf])
    refine ⟨hit, ?_, ?_⟩
    · rw [hit, recoverOrStop_m_recoveryCount, hf]
      simp [captureStep_m_recoveryCount]
    · rw [hit, recoverOrStop_m_isRunning, hr]
      simp

set_option maxRecDepth 100000 in
/-- C7 at work on the healthy application with a failing `Present`. -/
theorem C7_present_failure_starts_loop_recovery_witness :
    ((Render presentFailsTick.render healthy).1 = Outcome.ret false ∧
      (Render presentFailsTick.render healthy).2.m_recoveryCount = healthy.m_recoveryCount ∧
      (Render presentFailsTick.render healthy).2.m_fallbackMode = healthy.m_fallbackMode ∧
      (Render presentFailsTick.render healthy).2.ptr = healthy.ptr ∧
      (Render presentFailsTick.render healthy).2.attempts = healthy.attempts) ∧
    (RenderLoopIteration presentFailsTick healthyApp).m_d3dRenderer.m_recoveryCount =
      healthyApp.m_d3dRenderer.m_recoveryCount + 1 :=
  ⟨C7_present_failure_starts_loop_recovery.1 presentFailsTick.render healthy
      (by with_unfolding_all decide) (by with_unfolding_all decide),
    (C7_present_failure_starts_loop_recovery.2 presentFailsTick healthyApp
      (by with_unfolding_all decide) (by with_unfolding_all decide)
      (by with_unfolding_all decide) (by with_unfolding_all decide)
      (by with_unfolding_all decide) (by with_unfolding_all decide)).2.1⟩

set_option maxRecDepth 100000 in
/-- C7 as stated does not hold: in the iteration in which `Present` fails with
another code the loop calls `RecoverDevice`: the counter goes from 0 to 1, and
`Cleanup` and `CreateDeviceAndResources` run; and when that recovery finds no
device the loop does not continue but stops, with the resources torn down. -/
theorem C7_tick_dropped_counterexample :
    (healthyApp.m_d3dRenderer.m_recoveryCount = 0 ∧
      (RenderLoopIteration presentFailsTick healthyApp).m_d3dRenderer.m_recoveryCount = 1 ∧
      (RenderLoopIteration presentFailsTick healthyApp).m_d3dRenderer.trace.count
          (Event.Cleanup true) = healthy.trace.count (Event.Cleanup true) + 1 ∧
      (RenderLoopIteration presentFailsTick healthyApp).m_d3dRenderer.attempts =
        healthy.attempts + 1) ∧
    (ValidateResources healthyApp.m_d3dRenderer = true ∧
      (RenderLoopIteration presentFailsNoDeviceTick healthyApp).m_isRunning = false ∧
      ValidateResources (RenderLoopIteration presentFailsNoDeviceTick healthyApp).m_d3dRenderer =
        false) := by
  with_unfolding_all decide

/-! ## C8 and C9: the capture row copy -/

theorem rowBytes_lt (W : Nat) : rowBytes W < UINT_SIZE := by
  unfold rowBytes
  exact Nat.mod_lt _ (by decide)

theorem rowBytes_eq {W : Nat} (hW : W * 4 < UINT_SIZE) : rowBytes W = W * 4 := by
  unfold rowBytes
  exact Nat.mod_eq_of_lt hW

theorem copyBytes_eq (W P : Nat) : copyBytes W P = min P (rowBytes W) := by
  unfold copyBytes
  rw [Nat.mod_eq_of_lt (rowBytes_lt W)]
  split <;> omega

theorem copyBytes_le_rowBytes (W P : Nat) : copyBytes W P ≤ rowBytes W := by
  rw [copyBytes_eq]
  omega

theorem copyBytes_le_pitch (W P : Nat) : copyBytes W P ≤ P := by
  rw [copyBytes_eq]
  omega

theorem rowDstOffset_eq (W : Nat) {y : Nat} (hy : y < UINT_SIZE) :
    rowDstOffset W y = y * rowBytes W := by
  unfold rowDstOffset
  apply Nat.mod_eq_of_lt
  have h1 : y * rowBytes W < UINT_SIZE * UINT_SIZE := Nat.mul_lt_mul'' hy (rowBytes_lt W)
  have h2 : UINT_SIZE * UINT_SIZE = SIZE_T_SIZE := by decide
  omega

theorem rowSrcOffset_eq {P y : Nat} (hP : P < UINT_SIZE) (hy : y < UINT_SIZE) :
    rowSrcOffset P y = y * P := by
  unfold rowSrcOffset
  apply Nat.mod_eq_of_lt
  have h1 : y * P < UINT_SIZE * UINT_SIZE := Nat.mul_lt_mul'' hy hP
  have h2 : UINT_SIZE * UINT_SIZE = SIZE_T_SIZE := by decide
  omega

/-- What the body of the row loop leaves at destination offset `a`. -/
theorem copyRow_apply (W : Nat) {P y : Nat} (hP : P < UINT_SIZE) (hy : y < UINT_SIZE)
    (pData u : Nat → Nat) (a : Nat) :
    copyRow W P pData u y a =
      if y * rowBytes W ≤ a ∧ a < y * rowBytes W + rowBytes W then
        (if a - y * rowBytes W < min P (rowBytes W) then pData (y * P + (a - y * rowBytes W))
          else 0)
      else u a := by
  unfold copyRow
  simp only [rowDstOffset_eq W hy, rowSrcOffset_eq hP hy, copyBytes_eq]
  generalize y * rowBytes W = d
  generalize y * P = q
  generalize rowBytes W = rb
  split_ifs <;> simp only [memcpy, memset] <;> split_ifs <;> first | rfl | omega

theorem captureRowCopy_succ (W H P : Nat) (pData u : Nat → Nat) :
    captureRowCopy W (H + 1) P pData u = copyRow W P pData (captureRowCopy W H P pData u) H := by
  unfold captureRowCopy
  rw [List.range_succ, List.foldl_append]
  rfl

theorem captureRowCopy_apply (W : Nat) {P : Nat} (hP : P < UINT_SIZE)
    (pData u : Nat → Nat) (H : Nat) (hH : H ≤ UINT_SIZE) (y i : Nat) (hy : y < H)
    (hi : i < rowBytes W) :
    captureRowCopy W H P pData u (y * rowBytes W + i) =
      if i < min P (rowBytes W) then pData (y * P + i) else 0 := by
  induction H with
  | zero => omega
  | succ n ih =>
    rw [captureRowCopy_succ, copyRow_apply W hP (by omega)]
    rcases Nat.lt_or_ge y n with hlt | hge
    · have h1 : (y + 1) * rowBytes W ≤ n * rowBytes W := Nat.mul_le_mul_right _ hlt
      have h2 : (y + 1) * rowBytes W = y * rowBytes W + rowBytes W := Nat.succ_mul _ _
      rw [if_neg (by omega)]
      exact ih (by omega) hlt
    · have hyn : y = n := by omega
      subst hyn
      rw [if_pos (by omega)]
      simp only [Nat.add_sub_cancel_left]

/-- C8, amended: result of the capture row copy with `width * 4` read as the
32-bit product `rowBytes` the source forms (equal to `width * 4` whenever that
is below `2 ^ 32`).  For every width, every `UINT` height and pitch and all
source contents, after the loop, for every row `y < height` and byte offset
`i < rowBytes`, destination byte `y * rowBytes + i` equals source byte
`y * pitch + i` when `i < min pitch rowBytes`, and 0 otherwise. -/
theorem C8_row_copy_result (W H P : Nat) (pData uploadData : Nat → Nat)
    (hH : H < UINT_SIZE) (hP : P < UINT_SIZE) (y i : Nat) (hy : y < H)
    (hi : i < rowBytes W) :
    (captureRowCopy W H P pData uploadData (y * rowBytes W + i) =
      if i < min P (rowBytes W) then pData (y * P + i) else 0) ∧
    (W * 4 < UINT_SIZE → rowBytes W = W * 4 ∧
      captureRowCopy W H P pData uploadData (y * W * 4 + i) =
        if i < min P (W * 4) then pData (y * P + i) else 0) := by
  have h := captureRowCopy_apply W hP pData uploadData H (Nat.le_of_lt hH) y i hy hi
  refine ⟨h, fun hW => ?_⟩
  rw [rowBytes_eq hW] at h
  rw [Nat.mul_assoc]
  exact ⟨rowBytes_eq hW, h⟩

/-- C8 at work: a 4 by 2 pixel surface with a pitch of 12 bytes, row 1: byte 3
is copied from source offset 15, byte 13 lies past the pitch and is zero. -/
theorem C8_row_copy_result_witness :
    captureRowCopy 4 2 12 okCapture.pData (fun _ => 7) (1 * 4 * 4 + 3) =
        okCapture.pData (1 * 12 + 3) ∧
    captureRowCopy 4 2 12 okCapture.pData (fun _ => 7) (1 * 4 * 4 + 13) = 0 :=
  ⟨((C8_row_copy_result 4 2 12 okCapture.pData (fun _ => 7) (by decide) (by decide)
      1 3 (by decide) (by decide)).2 (by decide)).2,
    ((C8_row_copy_result 4 2 12 okCapture.pData (fun _ => 7) (by decide) (by decide)
      1 13 (by decide) (by decide)).2 (by decide)).2⟩

/-- C8 as stated does not hold for every width: at a width of `2 ^ 30` pixels
the 32-bit product `SCREEN_WIDTH * 4` is 0, so nothing is copied: destination
byte 0 keeps its old value 0 although offset 0 lies below both the pitch and
`width * 4`, and source byte 0 is 1. -/
theorem C8_row_copy_counterexample :
    (0 < 1 ∧ 0 < 2 ^ 30 * 4 ∧ 0 < min 4 (2 ^ 30 * 4)) ∧
    captureRowCopy (2 ^ 30) 1 4 (fun _ => 1) (fun _ => 0) (0 * 2 ^ 30 * 4 + 0) = 0 ∧
    (fun _ : Nat => 1) (0 * 4 + 0) = 1 := by
  refine ⟨by decide, ?_, rfl⟩
  with_unfolding_all decide

theorem mem_memcpyReads {s n a : Nat} : a ∈ memcpyReads s n ↔ s ≤ a ∧ a < s + n := by
  simp only [memcpyReads, List.mem_map, List.mem_range]
  constructor
  · rintro ⟨k, hk, rfl⟩
    omega
  · intro h
    exact ⟨a - s, by omega, by omega⟩

theorem mem_memWrites {d n a : Nat} : a ∈ memWrites d n ↔ d ≤ a ∧ a < d + n := by
  simp only [memWrites, List.mem_map, List.mem_range]
  constructor
  · rintro ⟨k, hk, rfl⟩
    omega
  · intro h
    exact ⟨a - d, by omega, by omega⟩

theorem mem_copyRowWrites {W P y a : Nat} :
    a ∈ copyRowWrites W P y ↔ rowDstOffset W y ≤ a ∧ a < rowDstOffset W y + rowBytes W := by
  have h := copyBytes_le_rowBytes W P
  unfold copyRowWrites
  split <;> simp only [List.mem_append, mem_memWrites, List.not_mem_nil, or_false] <;> omega

/-- With a frame of at least one non-empty row whose byte size fits 32 bits,
`width * 4` and the number of rows fit 32 bits. -/
theorem frame_fits {W H y : Nat} (hWH : W * H * 4 < UINT_SIZE) (hy : y < H)
    (hW0 : 0 < rowBytes W) : W * 4 < UINT_SIZE ∧ H < UINT_SIZE := by
  have hH : 1 ≤ H := by omega
  have h1 : W * 1 ≤ W * H := Nat.mul_le_mul_left _ hH
  have hW4 : W * 4 < UINT_SIZE := by omega
  refine ⟨hW4, ?_⟩
  have hW : 1 ≤ W := by
    rcases Nat.eq_zero_or_pos W with h | h
    · subst h
      simp [rowBytes] at hW0
    · exact h
  have h2 : 1 * H ≤ W * H := Nat.mul_le_mul_right _ hW
  omega

/-- C9: bounds of the capture row copy, for a `UINT` pitch and a frame with
`width * height * 4 < 2 ^ 32`.  Each source offset read while copying row
`y < height` lies in `[y * pitch, (y + 1) * pitch)`, hence below
`height * pitch`; each destination offset written lies below
`width * height * 4`, which is the size `SCREEN_WIDTH * SCREEN_HEIGHT * 4`
(formed in `UINT`) the upload buffer is created with.  The offsets listed are
the ones the loop body depends on: it reads the source nowhere else and leaves
every other destination byte as it was. -/
theorem C9_row_copy_bounds (W H P y : Nat) (hWH : W * H * 4 < UINT_SIZE) (hP : P < UINT_SIZE)
    (hy : y < H) :
    (∀ a ∈ copyRowReads W P y, y * P ≤ a ∧ a < (y + 1) * P ∧ a < H * P) ∧
    (∀ a ∈ copyRowWrites W P y, a < W * H * 4 ∧ a < W * H * 4 % UINT_SIZE) ∧
    (∀ pData pData1 u : Nat → Nat, (∀ a ∈ copyRowReads W P y, pData a = pData1 a) →
      copyRow W P pData u y = copyRow W P pData1 u y) ∧
    (∀ (pData u : Nat → Nat) (a : Nat), a ∉ copyRowWrites W P y →
      copyRow W P pData u y a = u a) := by
  refine ⟨fun a ha => ?_, fun a ha => ?_, fun pData pData1 u h => ?_, fun pData u a ha => ?_⟩
  · rw [copyRowReads, mem_memcpyReads] at ha
    have hcb := copyBytes_le_pitch W P
    have hrb := copyBytes_le_rowBytes W P
    obtain ⟨hW, hH⟩ := frame_fits hWH hy (by omega)
    rw [rowSrcOffset_eq hP (by omega)] at ha
    have h1 : (y + 1) * P ≤ H * P := Nat.mul_le_mul_right _ hy
    have h2 : (y + 1) * P = y * P + P := Nat.succ_mul _ _
    omega
  · rw [mem_copyRowWrites] at ha
    obtain ⟨hW, hH⟩ := frame_fits hWH hy (by omega)
    rw [rowDstOffset_eq W (by omega), rowBytes_eq hW] at ha
    have h1 : (y + 1) * (W * 4) ≤ H * (W * 4) := Nat.mul_le_mul_right _ hy
    have h2 : (y + 1) * (W * 4) = y * (W * 4) + W * 4 := Nat.succ_mul _ _
    have h3 : H * (W * 4) = W * H * 4 := by ring
    rw [Nat.mod_eq_of_lt hWH]
    omega
  · have hmem : ∀ a, rowDstOffset W y ≤ a ∧ a < rowDstOffset W y + copyBytes W P →
        pData (rowSrcOffset P y + (a - rowDstOffset W y)) =
          pData1 (rowSrcOffset P y + (a - rowDstOffset W y)) := by
      intro a ha
      apply h
      rw [copyRowReads, mem_memcpyReads]
      omega
    funext a
    unfold copyRow
    split_ifs <;> simp only [memcpy, memset] <;> split_ifs <;>
      first | rfl | exact hmem a (by assumption)
  · rw [mem_copyRowWrites] at ha
    have hrb := copyBytes_le_rowBytes W P
    unfold copyRow
    split_ifs <;> simp only [memcpy, memset] <;> split_ifs <;> first | rfl | omega

/-- C9 at work: a 4 by 2 pixel frame with a pitch of 12 bytes, row 1. -/
theorem C9_row_copy_bounds_witness :
    (∀ a ∈ copyRowReads 4 12 1, 1 * 12 ≤ a ∧ a < (1 + 1) * 12 ∧ a < 2 * 12) ∧
    (∀ a ∈ copyRowWrites 4 12 1, a < 4 * 2 * 4 ∧ a < 4 * 2 * 4 % UINT_SIZE) ∧
    copyRowReads 4 12 1 = [12, 13, 14, 15, 16, 17, 18, 19, 20, 21, 22, 23] ∧
    copyRowWrites 4 12 1 = [16, 17, 18, 19, 20, 21, 22, 23, 24, 25, 26, 27, 28, 29, 30, 31] :=
  ⟨(C9_row_copy_bounds 4 2 12 1 (by decide) (by decide) (by decide)).1,
    (C9_row_copy_bounds 4 2 12 1 (by decide) (by decide) (by decide)).2.1,
    by decide, by decide⟩

/-! ## C10: release of the acquired frame -/

theorem WaitForGPU_count (ev : Event) (hev : ev ≠ Event.WaitForGPU)
    (h1 : ev ≠ Event.Log "Signal fence failed\n")
    (h2 : ev ≠ Event.Log "SetEventOnCompletion failed\n") (s : D3D12Renderer) :
    (WaitForGPU s).trace.count ev = s.trace.count ev := by
  rw [WaitForGPU_trace]
  split
  · rfl
  · rw [List.count_append, count_record _ _ hev h1 h2, Nat.add_zero]

/-- Outcome of `CaptureDesktop` and the calls of `AcquireNextFrame` and
`ReleaseFrame` on the trace after it, path by path. -/
theorem CaptureDesktop_frames (e : CaptureEnv) (s : D3D12Renderer) :
    ((CaptureDesktop e s).1,
      (CaptureDesktop e s).2.trace.count Event.AcquireNextFrame,
      (CaptureDesktop e s).2.trace.count Event.ReleaseFrame) =
    if !ValidateResources s || !s.ptr Handle.m_d3d11Duplication
        || !s.ptr Handle.m_d3d11StagingTexture || !s.ptr Handle.m_d3d12UploadBuffer then
      (Outcome.ret false, s.trace.count Event.AcquireNextFrame, s.trace.count Event.ReleaseFrame)
    else if e.acquire ≠ AcquireResult.ok then
      (Outcome.ret false, s.trace.count Event.AcquireNextFrame + 1,
        s.trace.count Event.ReleaseFrame)
    else if !e.desktopResource || !e.queryInterface || !e.mapStaging || !e.mapUpload then
      (Outcome.ret false, s.trace.count Event.AcquireNextFrame + 1,
        s.trace.count Event.ReleaseFrame + 1)
    else if s.m_frameIndex ≥ FRAME_COUNT then
      (Outcome.fault, s.trace.count Event.AcquireNextFrame + 1, s.trace.count Event.ReleaseFrame)
    else if !e.resetCommandList then
      (Outcome.threw "Reset command list for capture failed",
        s.trace.count Event.AcquireNextFrame + 1, s.trace.count Event.ReleaseFrame)
    else if !e.closeCommandList then
      (Outcome.threw "Close command list for capture failed",
        s.trace.count Event.AcquireNextFrame + 1, s.trace.count Event.ReleaseFrame)
    else
      (Outcome.ret true, s.trace.count Event.AcquireNextFrame + 1,
        s.trace.count Event.ReleaseFrame + 1) := by
  have ha1 := afterValidate_count Event.AcquireNextFrame (fun _ => Event.noConfusion) s
  have ha2 := afterValidate_count Event.ReleaseFrame (fun _ => Event.noConfusion) s
  have hw1 := WaitForGPU_count Event.AcquireNextFrame Event.noConfusion Event.noConfusion
    Event.noConfusion
  have hw2 := WaitForGPU_count Event.ReleaseFrame Event.noConfusion Event.noConfusion
    Event.noConfusion
  unfold CaptureDesktop
  simp only [log_eq, throwHR_fst, throwHR_snd, apply_ite Prod.fst, apply_ite Prod.snd,
    apply_ite D3D12Renderer.trace, apply_ite (List.count Event.AcquireNextFrame),
    apply_ite (List.count Event.ReleaseFrame), emit_proj, put_uploadData_proj,
    put_screenTextureData_proj, afterValidate_proj, hw1, hw2, List.count_append, ha1, ha2]
  simp only [List.count_cons, List.count_nil, beq_iff_eq, reduceCtorEq, if_false, if_true,
    Nat.add_zero, Nat.zero_add]
  cases e.acquire <;> cases e.desktopResource <;> cases e.queryInterface <;> cases e.mapStaging <;>
    cases e.mapUpload <;> simp <;> split_ifs <;> simp

/-- C10, as the code has it: on every path of `CaptureDesktop` that returns,
`ReleaseFrame` is called exactly once when `AcquireNextFrame` was called and
succeeded and not at all otherwise; but on every path that leaves by an
exception of `CHECK_HR` a frame has been acquired and `ReleaseFrame` is not
called. -/
theorem C10_release_frame_by_exit_path (e : CaptureEnv) (s : D3D12Renderer) :
    (∀ b : Bool, (CaptureDesktop e s).1 = Outcome.ret b →
      (CaptureDesktop e s).2.trace.count Event.ReleaseFrame =
        s.trace.count Event.ReleaseFrame +
          if (CaptureDesktop e s).2.trace.count Event.AcquireNextFrame =
              s.trace.count Event.AcquireNextFrame + 1 ∧ e.acquire = AcquireResult.ok
          then 1 else 0) ∧
    ((CaptureDesktop e s).1.isThrew = true →
      e.acquire = AcquireResult.ok ∧
      (CaptureDesktop e s).2.trace.count Event.AcquireNextFrame =
        s.trace.count Event.AcquireNextFrame + 1 ∧
      (CaptureDesktop e s).2.trace.count Event.ReleaseFrame =
        s.trace.count Event.ReleaseFrame) := by
  have h := CaptureDesktop_frames e s
  split_ifs at h with h1 h2 h3 h4 h5 h6 <;>
    simp only [Prod.mk.injEq] at h <;> obtain ⟨ho, ha, hr⟩ := h <;>
    simp only [ho, ha, hr, Outcome.isThrew] <;> simp_all

set_option maxRecDepth 100000 in
/-- C10 at work, the failing input: on the healthy renderer a frame is
acquired, the copy is made, `m_commandList->Reset` fails: `CaptureDesktop`
throws, having called `AcquireNextFrame` once and `ReleaseFrame` not at all.
The same happens when `m_commandList->Close` fails. -/
theorem C10_release_frame_by_exit_path_witness :
    ((CaptureDesktop resetFails healthy).1 =
        Outcome.threw "Reset command list for capture failed" ∧
      resetFails.acquire = AcquireResult.ok ∧
      (CaptureDesktop resetFails healthy).2.trace.count Event.AcquireNextFrame =
        healthy.trace.count Event.AcquireNextFrame + 1 ∧
      (CaptureDesktop resetFails healthy).2.trace.count Event.ReleaseFrame =
        healthy.trace.count Event.ReleaseFrame) ∧
    ((CaptureDesktop closeFails healthy).1 =
        Outcome.threw "Close command list for capture failed" ∧
      (CaptureDesktop closeFails healthy).2.trace.count Event.ReleaseFrame =
        healthy.trace.count Event.ReleaseFrame) :=
  ⟨⟨by with_unfolding_all decide,
      (C10_release_frame_by_exit_path resetFails healthy).2 (by with_unfolding_all decide)⟩,
    ⟨by with_unfolding_all decide,
      ((C10_release_frame_by_exit_path closeFails healthy).2
        (by with_unfolding_all decide)).2.2⟩⟩

/-! ## C12 to C15: adapter selection -/



theorem better_some (i rb mb r v : Nat) :
    better (some (i, rb, mb)) r v = true ↔ r < rb ∨ (r = rb ∧ v > mb) := by
  unfold better
  simp only []
  split_ifs <;> simp_all

theorem indexOf_true_le (l : List Bool) (i : Nat) (h : l[i]? = some true) :
    l.indexOf true ≤ i := by
  induction l generalizing i with
  | nil => simp at h
  | cons b t ih =>
    rw [List.indexOf_cons]
    cases b with
    | true => simp
    | false =>
      cases i with
      | zero => simp at h
      | succ n =>
        simp only [List.getElem?_cons_succ] at h
        have := ih n h
        simp
        omega

theorem getElem?_indexOf_true (l : List Bool) (h : l.indexOf true < l.length) :
    l[l.indexOf true]? = some true := by
  induction l with
  | nil => simp at h
  | cons b t ih =>
    rw [List.indexOf_cons] at h ⊢
    cases b with
    | true => simp
    | false =>
      have hb : (false == true) = false := rfl
      simp only [hb, cond_false, List.length_cons, Nat.add_lt_add_iff_right,
        List.getElem?_cons_succ] at h ⊢
      exact ih h

theorem featureRank_eq_none (a : AdapterDesc) :
    featureRank a = none ↔ ∀ i, i < 4 → a.trialCreate[i]? ≠ some true := by
  unfold featureRank
  simp only []
  constructor
  · intro h i hi hget
    split at h
    · cases h
    · rename_i hlt
      apply hlt
      have h1 : (a.trialCreate.take 4)[i]? = some true := by
        rw [List.getElem?_take_of_lt hi]; exact hget
      have h2 := indexOf_true_le _ _ h1
      have h3 : i < (a.trialCreate.take 4).length := by
        rcases Nat.lt_or_ge i (a.trialCreate.take 4).length with h | h
        · exact h
        · rw [List.getElem?_eq_none h] at h1; cases h1
      omega
  · intro h
    rw [if_neg]
    intro hlt
    have h1 := getElem?_indexOf_true _ hlt
    have h4 : List.indexOf true (a.trialCreate.take 4) < 4 := by
      have : (a.trialCreate.take 4).length ≤ 4 := by simp
      omega
    rw [List.getElem?_take_of_lt h4] at h1
    exact h _ h4 h1

/-- The rank of an adapter is the first tier whose trial creation succeeds:
tier `r` is one of the four, succeeds, and every better tier fails. -/
theorem featureRank_eq_some (a : AdapterDesc) (r : Nat) (h : featureRank a = some r) :
    r < 4 ∧ a.trialCreate[r]? = some true ∧ ∀ i, i < r → a.trialCreate[i]? ≠ some true := by
  unfold featureRank at h
  simp only [] at h
  split at h
  · rename_i hlt
    simp only [Option.some.injEq] at h
    have hr4 : r < 4 := by
      have : (a.trialCreate.take 4).length ≤ 4 := by simp
      omega
    have h1 := getElem?_indexOf_true _ hlt
    rw [h, List.getElem?_take_of_lt hr4] at h1
    refine ⟨hr4, h1, fun i hi hget => ?_⟩
    have h2 : (a.trialCreate.take 4)[i]? = some true := by
      rw [List.getElem?_take_of_lt (by omega)]; exact hget
    have := indexOf_true_le _ _ h2
    omega
  · cases h

/-- The adapters the enumeration loop considers: hardware adapters with a
supported tier. -/
theorem selectStep_eq (best : Option (Nat × Nat × Nat)) (k : Nat) (a : AdapterDesc) :
    selectStep best k a =
      if a.software = true ∨ featureRank a = none then best
      else if better best ((featureRank a).getD 0) a.DedicatedVideoMemory then
        some (k, (featureRank a).getD 0, a.DedicatedVideoMemory)
      else best := by
  unfold selectStep
  cases hs : a.software <;> cases hf : featureRank a <;> simp

/-- What the enumeration loop returns, started at index `k` with `best`: the
result is `best` or an adapter of the list with its rank and memory; no
qualifying adapter of the list and not `best` is better than the result. -/
theorem enumerate_spec (l : List AdapterDesc) (k : Nat) (best : Option (Nat × Nat × Nat)) :
    (enumerate l k best = none ↔
      best = none ∧ ∀ a ∈ l, a.software = true ∨ featureRank a = none) ∧
    ∀ i r v, enumerate l k best = some (i, r, v) →
      (best = some (i, r, v) ∨
        ∃ j a, l[j]? = some a ∧ i = k + j ∧ a.software = false ∧ featureRank a = some r ∧
          a.DedicatedVideoMemory = v) ∧
      (∀ a ∈ l, a.software = false → ∀ ra, featureRank a = some ra →
        r ≤ ra ∧ (ra = r → a.DedicatedVideoMemory ≤ v)) ∧
      (∀ ib rb vb, best = some (ib, rb, vb) → r ≤ rb ∧ (rb = r → vb ≤ v)) := by
  induction l generalizing k best with
  | nil =>
    simp only [enumerate, List.not_mem_nil, false_implies, implies_true, and_true, true_and]
    intro i r v h
    refine ⟨Or.inl h, ?_⟩
    intro ib rb vb hb
    rw [hb] at h
    simp only [Option.some.injEq, Prod.mk.injEq] at h
    omega
  | cons a t ih =>
    obtain ⟨ih1, ih2⟩ := ih (k + 1) (selectStep best k a)
    simp only [enumerate]
    refine ⟨?_, fun i r v h => ?_⟩
    · rw [ih1, selectStep_eq]
      simp only [List.mem_cons, forall_eq_or_imp]
      by_cases hq : a.software = true ∨ featureRank a = none
      · simp only [hq, if_true]
        tauto
      · simp only [hq, if_false]
        split_ifs with hb
        · simp
        · cases best with
          | none => simp [better] at hb
          | some b => simp
    · obtain ⟨h1, h2, h3⟩ := ih2 i r v h
      rw [selectStep_eq] at h1 h3
      by_cases hq : a.software = true ∨ featureRank a = none
      · simp only [hq, if_true] at h1 h3
        refine ⟨?_, ?_, h3⟩
        · rcases h1 with h1 | ⟨j, b, hj, hi, hb⟩
          · exact Or.inl h1
          · exact Or.inr ⟨j + 1, b, by simpa using hj, by omega, hb⟩
        · intro b hb hsw rb hrb
          rcases List.mem_cons.mp hb with rfl | hb
          · rcases hq with hq | hq
            · rw [hq] at hsw; cases hsw
            · rw [hq] at hrb; cases hrb
          · exact h2 b hb hsw rb hrb
      · simp only [hq, if_false] at h1 h3
        have hsw : a.software = false := by
          cases hs : a.software
          · rfl
          · exact absurd (Or.inl hs) hq
        obtain ⟨ra, hra⟩ : ∃ ra, featureRank a = some ra := by
          cases hf : featureRank a
          · exact absurd (Or.inr hf) hq
          · exact ⟨_, rfl⟩
        simp only [hra, Option.getD_some] at h1 h3
        by_cases hb : better best ra a.DedicatedVideoMemory = true
        · simp only [hb, if_true] at h1 h3
          have h3a := h3 _ _ _ rfl
          refine ⟨?_, ?_, ?_⟩
          · rcases h1 with h1 | ⟨j, b, hj, hi, hb2⟩
            · simp only [Option.some.injEq, Prod.mk.injEq] at h1
              obtain ⟨e1, e2, e3⟩ := h1
              exact Or.inr ⟨0, a, by simp, by omega, hsw, by rw [hra, e2], e3⟩
            · exact Or.inr ⟨j + 1, b, by simpa using hj, by omega, hb2⟩
          · intro b hb2 hsw2 rb hrb
            rcases List.mem_cons.mp hb2 with rfl | hb2
            · rw [hra] at hrb
              simp only [Option.some.injEq] at hrb
              subst hrb
              exact h3a
            · exact h2 b hb2 hsw2 rb hrb
          · intro ib rb vb hbest
            rw [hbest, better_some] at hb
            obtain ⟨h5, h6⟩ := h3a
            constructor
            · omega
            · intro heq
              have := h6
              omega
        · simp only [hb, if_false] at h1 h3
          refine ⟨?_, ?_, h3⟩
          · rcases h1 with h1 | ⟨j, b, hj, hi, hb2⟩
            · exact Or.inl h1
            · exact Or.inr ⟨j + 1, b, by simpa using hj, by omega, hb2⟩
          · intro b hb2 hsw2 rb hrb
            rcases List.mem_cons.mp hb2 with rfl | hb2
            · rw [hra] at hrb
              simp only [Option.some.injEq] at hrb
              subst hrb
              cases best with
              | none => simp [better] at hb
              | some bb =>
                obtain ⟨ib, rb0, vb⟩ := bb
                rw [better_some] at hb
                obtain ⟨h5, h6⟩ := h3 ib rb0 vb rfl
                constructor
                · omega
                · intro heq
                  have := h6
                  omega
            · exact h2 b hb2 hsw2 rb hrb

theorem SelectAdapter_override (e : InitEnv) (s : D3D12Renderer)
    (h : (e.useDefaultEnv.bind fun v => v.data.head?) = some '1') :
    SelectAdapter e s =
      (true, s.log
        "Adapter selection: using system default adapter (D3D12CreateDevice fallback)\n") := by
  unfold SelectAdapter
  rw [if_pos h]

theorem SelectAdapter_fst (e : InitEnv) (s : D3D12Renderer)
    (h : (e.useDefaultEnv.bind fun v => v.data.head?) ≠ some '1') :
    (SelectAdapter e s).1 = (enumerate e.adapters 0 none).isSome := by
  unfold SelectAdapter
  rw [if_neg h]
  simp only []
  split <;> simp [*]

theorem SelectAdapter_fst_state (e : InitEnv) (s t : D3D12Renderer) :
    (SelectAdapter e s).1 = (SelectAdapter e t).1 := by
  by_cases h : (e.useDefaultEnv.bind fun v => v.data.head?) = some '1'
  · rw [SelectAdapter_override e s h, SelectAdapter_override e t h]
  · rw [SelectAdapter_fst e s h, SelectAdapter_fst e t h]

theorem foldl_emit_ptr (ev : Event) (l : List AdapterDesc) (s : D3D12Renderer) :
    (l.foldl (fun s _ => s.emit ev) s).ptr = s.ptr ∧
    (l.foldl (fun s _ => s.emit ev) s).selectedAdapter = s.selectedAdapter := by
  induction l generalizing s with
  | nil => exact ⟨rfl, rfl⟩
  | cons a t ih =>
    simp only [List.foldl_cons]
    rw [(ih _).1, (ih _).2]
    simp only [emit_proj, and_self]

theorem SelectAdapter_some (e : InitEnv) (s : D3D12Renderer)
    (h : (e.useDefaultEnv.bind fun v => v.data.head?) ≠ some '1') (i r v : Nat)
    (hsel : enumerate e.adapters 0 none = some (i, r, v)) :
    (SelectAdapter e s).2.selectedAdapter = i ∧
    (SelectAdapter e s).2.ptr Handle.m_adapter = true := by
  have hf := foldl_emit_ptr (Event.Log "Adapter skipped: insufficient feature level\n")
    (e.adapters.filter fun a => !a.software && (featureRank a).isNone) s
  unfold SelectAdapter
  rw [if_neg h]
  simp only [hsel, log_eq, emit_proj, set_proj, put_selectedAdapter_proj, if_true, and_self]

theorem SelectAdapter_none (e : InitEnv) (s : D3D12Renderer)
    (h : (e.useDefaultEnv.bind fun v => v.data.head?) ≠ some '1')
    (hsel : enumerate e.adapters 0 none = none) :
    (SelectAdapter e s).2.selectedAdapter = s.selectedAdapter ∧
    (SelectAdapter e s).2.ptr = s.ptr := by
  have hf := foldl_emit_ptr (Event.Log "Adapter skipped: insufficient feature level\n")
    (e.adapters.filter fun a => !a.software && (featureRank a).isNone) s
  unfold SelectAdapter
  rw [if_neg h]
  simp only [hsel, log_eq, emit_proj, hf, and_self]

theorem Initialize_of_no_adapter (e : InitEnv) (s : D3D12Renderer)
    (h : ∀ t, (SelectAdapter e t).1 = false) : (Initialize e s).1 = Outcome.ret false := by
  unfold Initialize
  simp only [h, Bool.not_false, if_true]
  cases e.createDXGIFactory2 <;> simp [Outcome.isThrew, throwHR, throwTool]

/-- C12: when `SelectAdapter`, without the environment override, selects an
adapter, it is an adapter of the enumeration that is not a software adapter;
its tier is the first of the four candidate tiers whose trial creation
succeeds; no hardware adapter with a supported tier has a better tier, and
none of the same tier has more dedicated memory. -/
theorem C12_selected_adapter_is_best (e : InitEnv) (s : D3D12Renderer)
    (hov : (e.useDefaultEnv.bind fun v => v.data.head?) ≠ some '1')
    (hsel : (SelectAdapter e s).1 = true) :
    (SelectAdapter e s).2.ptr Handle.m_adapter = true ∧
    ∃ a r, e.adapters[(SelectAdapter e s).2.selectedAdapter]? = some a ∧
      a.software = false ∧ featureRank a = some r ∧
      (r < 4 ∧ a.trialCreate[r]? = some true ∧ ∀ i, i < r → a.trialCreate[i]? ≠ some true) ∧
      ∀ b ∈ e.adapters, b.software = false → ∀ rb, featureRank b = some rb →
        r ≤ rb ∧ (rb = r → b.DedicatedVideoMemory ≤ a.DedicatedVideoMemory) := by
  rw [SelectAdapter_fst e s hov] at hsel
  obtain ⟨⟨i, r, v⟩, hen⟩ := Option.isSome_iff_exists.mp hsel
  obtain ⟨h1, h2⟩ := SelectAdapter_some e s hov i r v hen
  obtain ⟨hfrom, hbest, _⟩ := (enumerate_spec e.adapters 0 none).2 i r v hen
  rcases hfrom with hfrom | ⟨j, a, hj, hi, hsw, hr, hv⟩
  · cases hfrom
  · refine ⟨h2, a, r, ?_, hsw, hr, featureRank_eq_some a r hr, ?_⟩
    · rw [h1, hi, Nat.zero_add]; exact hj
    · intro b hb hbsw rb hrb
      rw [hv]
      exact hbest b hb hbsw rb hrb

/-- C12 at work: of six adapters the software one (most memory) and the one
without a supported tier are passed over, tier 12_1 beats tier 12_0 with more
memory, and of the 12_1 adapters the first with the most memory, at index 4,
is selected. -/
theorem C12_selected_adapter_is_best_witness :
    (SelectAdapter rankedInit (D3D12Renderer.ctor false false)).2.selectedAdapter = 4 ∧
    (SelectAdapter rankedInit (D3D12Renderer.ctor false false)).2.ptr Handle.m_adapter = true ∧
    ∃ a r,
      rankedInit.adapters[(SelectAdapter rankedInit
        (D3D12Renderer.ctor false false)).2.selectedAdapter]? = some a ∧
      a.software = false ∧ featureRank a = some r ∧
      (r < 4 ∧ a.trialCreate[r]? = some true ∧ ∀ i, i < r → a.trialCreate[i]? ≠ some true) ∧
      ∀ b ∈ rankedInit.adapters, b.software = false → ∀ rb, featureRank b = some rb →
        r ≤ rb ∧ (rb = r → b.DedicatedVideoMemory ≤ a.DedicatedVideoMemory) :=
  ⟨by with_unfolding_all decide,
    C12_selected_adapter_is_best rankedInit (D3D12Renderer.ctor false false)
      (by decide) (by with_unfolding_all decide)⟩

/-- C13: the relation `better` of `SelectAdapter`, taken on a candidate's
(rank, memory) pair against the pair of the current best, holds exactly when
the rank is lower or the ranks are equal and the memory is greater.  It is
irreflexive and transitive, any two different pairs are comparable, and a
better tier (lower rank) wins whatever the two memory sizes. -/
theorem C13_better_is_strict_total_order :
    (∀ i rb mb r v : Nat, better (some (i, rb, mb)) r v = true ↔ r < rb ∨ (r = rb ∧ v > mb)) ∧
    (∀ i r v : Nat, better (some (i, r, v)) r v = false) ∧
    (∀ i j r1 v1 r2 v2 r3 v3 : Nat, better (some (i, r2, v2)) r1 v1 = true →
      better (some (j, r3, v3)) r2 v2 = true → better (some (j, r3, v3)) r1 v1 = true) ∧
    (∀ i j r1 v1 r2 v2 : Nat, (r1, v1) ≠ (r2, v2) →
      better (some (i, r2, v2)) r1 v1 = true ∨ better (some (j, r1, v1)) r2 v2 = true) ∧
    (∀ i r1 v1 r2 v2 : Nat, r1 < r2 → better (some (i, r2, v2)) r1 v1 = true) := by
  refine ⟨better_some, fun i r v => ?_, fun i j r1 v1 r2 v2 r3 v3 h1 h2 => ?_,
    fun i j r1 v1 r2 v2 hne => ?_, fun i r1 v1 r2 v2 h => ?_⟩
  · rw [Bool.eq_false_iff, Ne, better_some]
    omega
  · rw [better_some] at h1 h2 ⊢
    omega
  · rw [better_some, better_some]
    have : r1 ≠ r2 ∨ v1 ≠ v2 := by
      by_contra hc
      apply hne
      have h1 : r1 = r2 := by omega
      have h2 : v1 = v2 := by omega
      rw [h1, h2]
    omega
  · rw [better_some]
    exact Or.inl h

/-- C13 at work: tier 12_1 with 1 MB replaces a best of tier 12_0 with 8192 MB,
and with that replacement and a further one the chain closes. -/
theorem C13_better_is_strict_total_order_witness :
    better (some (0, 1, 8192)) 0 1 = true ∧
    better (some (7, 2, 4096)) 0 1 = true :=
  ⟨C13_better_is_strict_total_order.2.2.2.2 0 0 1 1 8192 (by decide),
    C13_better_is_strict_total_order.2.2.1 0 7 0 1 1 8192 2 4096 (by decide) (by decide)⟩

/-- C14: without the environment override, `SelectAdapter` returns false
exactly when every enumerated adapter is a software adapter or fails trial
device creation at all four candidate tiers (so also for the empty
enumeration).  It then assigns no pointer member and no adapter index, so
`m_adapter` stays null when it was, and `Initialize` returns false. -/
theorem C14_no_adapter_qualifies (e : InitEnv) (s : D3D12Renderer)
    (hov : (e.useDefaultEnv.bind fun v => v.data.head?) ≠ some '1') :
    ((SelectAdapter e s).1 = false ↔
      ∀ a ∈ e.adapters, a.software = true ∨ ∀ i, i < 4 → a.trialCreate[i]? ≠ some true) ∧
    ((SelectAdapter e s).1 = false →
      (SelectAdapter e s).2.ptr = s.ptr ∧
      (SelectAdapter e s).2.selectedAdapter = s.selectedAdapter ∧
      (s.ptr Handle.m_adapter = false → (SelectAdapter e s).2.ptr Handle.m_adapter = false) ∧
      (Initialize e s).1 = Outcome.ret false) := by
  have hiff : (SelectAdapter e s).1 = false ↔ enumerate e.adapters 0 none = none := by
    rw [SelectAdapter_fst e s hov]
    cases enumerate e.adapters 0 none <;> simp
  refine ⟨?_, fun h => ?_⟩
  · rw [hiff, (enumerate_spec e.adapters 0 none).1]
    simp only [true_and, featureRank_eq_none]
  · obtain ⟨h1, h2⟩ := SelectAdapter_none e s hov (hiff.mp h)
    refine ⟨h2, h1, fun hn => by rw [h2]; exact hn, ?_⟩
    exact Initialize_of_no_adapter e s fun t => by rw [SelectAdapter_fst_state e t s]; exact h

/-- C14 at work: a software adapter and a hardware adapter that fails at all
four tiers (a fifth, lower tier is never tried); and the empty enumeration. -/
theorem C14_no_adapter_qualifies_witness :
    ((SelectAdapter noAdapterInit (D3D12Renderer.ctor false false)).1 = false ∧
      (Initialize noAdapterInit (D3D12Renderer.ctor false false)).1 = Outcome.ret false) ∧
    (SelectAdapter { okInit with adapters := [] } (D3D12Renderer.ctor false false)).1 = false :=
  ⟨⟨by with_unfolding_all decide,
      ((C14_no_adapter_qualifies noAdapterInit (D3D12Renderer.ctor false false) (by decide)).2
        (by with_unfolding_all decide)).2.2.2⟩,
    (C14_no_adapter_qualifies { okInit with adapters := [] } (D3D12Renderer.ctor false false)
      (by decide)).1.mpr (by simp)⟩

/-- C15, amended: the override is taken when the value of
`CLEAN3D_USE_SYSTEM_DEFAULT_ADAPTER` begins with the character `1`:
`SelectAdapter` then returns true, only logs, assigns no pointer member (so
`m_adapter` stays null when it was) and does not depend on the enumerated
adapters.  For every value that does not begin with `1`, the empty value
included, and when the variable is unset, the result is that of the
enumeration. -/
theorem C15_override_by_first_character :
    (∀ (e : InitEnv) (s : D3D12Renderer) (v : String), e.useDefaultEnv = some v →
      v.data.head? = some '1' →
      (SelectAdapter e s).1 = true ∧
      (SelectAdapter e s).2.ptr = s.ptr ∧
      (SelectAdapter e s).2.selectedAdapter = s.selectedAdapter ∧
      (s.ptr Handle.m_adapter = false → (SelectAdapter e s).2.ptr Handle.m_adapter = false) ∧
      ∀ l : List AdapterDesc, SelectAdapter { e with adapters := l } s = SelectAdapter e s) ∧
    (∀ (e : InitEnv) (s : D3D12Renderer),
      (e.useDefaultEnv = none ∨ ∃ v, e.useDefaultEnv = some v ∧ v.data.head? ≠ some '1') →
      (SelectAdapter e s).1 = (enumerate e.adapters 0 none).isSome) := by
  refine ⟨fun e s v hv h1 => ?_, fun e s h => ?_⟩
  · have hov : (e.useDefaultEnv.bind fun v => v.data.head?) = some '1' := by
      rw [hv]; exact h1
    rw [SelectAdapter_override e s hov]
    refine ⟨rfl, by simp, by simp, fun hn => by simpa using hn, fun l => ?_⟩
    rw [SelectAdapter_override _ s (by exact hov)]
  · apply SelectAdapter_fst
    rcases h with h | ⟨v, hv, h⟩
    · rw [h]; simp
    · rw [hv]; exact h

/-- C15 at work: with the value `1` and no adapter enumerated the result is
true and `m_adapter` stays null; with the variable unset and the same empty
enumeration the result is false. -/
theorem C15_override_by_first_character_witness :
    ((SelectAdapter overrideInit (D3D12Renderer.ctor false false)).1 = true ∧
      (SelectAdapter overrideInit (D3D12Renderer.ctor false false)).2.ptr Handle.m_adapter =
        false) ∧
    (SelectAdapter { okInit with adapters := [] } (D3D12Renderer.ctor false false)).1 =
      (enumerate ({ okInit with adapters := [] } : InitEnv).adapters 0 none).isSome :=
  ⟨⟨(C15_override_by_first_character.1 overrideInit (D3D12Renderer.ctor false false) "1" rfl
        (by decide)).1,
      (C15_override_by_first_character.1 overrideInit (D3D12Renderer.ctor false false) "1" rfl
        (by decide)).2.2.2.1 (by decide)⟩,
    C15_override_by_first_character.2 { okInit with adapters := [] }
      (D3D12Renderer.ctor false false) (Or.inl rfl)⟩

/-- C15 as stated does not hold for every other value: the value `10` is not
`1`, yet the override is taken: `SelectAdapter` returns true with no adapter
selected, although the enumeration, which finds no adapter, would return
false. -/
theorem C15_other_value_counterexample :
    override10Init.useDefaultEnv = some "10" ∧ "10" ≠ "1" ∧
    (SelectAdapter override10Init (D3D12Renderer.ctor false false)).1 = true ∧
    (SelectAdapter override10Init (D3D12Renderer.ctor false false)).2.ptr Handle.m_adapter =
      false ∧
    (enumerate override10Init.adapters 0 none).isSome = false := by
  with_unfolding_all decide

/-! ## C16 and C17: the packed configuration block -/

theorem rd32_le32 (v : Nat) (h : v < 4294967296) (mem : Nat → Nat) (o : Nat)
    (h0 : mem o = v % 256) (h1 : mem (o + 1) = v / 256 % 256)
    (h2 : mem (o + 2) = v / 65536 % 256) (h3 : mem (o + 3) = v / 16777216 % 256) :
    rd32 mem o = v := by
  unfold rd32
  rw [h0, h1, h2, h3]
  omega

theorem ofInt32Bits_int32Bits (v : Int) (h1 : -2147483648 ≤ v) (h2 : v < 2147483648) :
    ofInt32Bits (int32Bits v) = v := by
  unfold ofInt32Bits int32Bits
  split <;> omega

theorem int32Bits_lt (v : Int) : int32Bits v < 4294967296 := by
  unfold int32Bits
  omega

set_option maxRecDepth 100000 in
theorem packedSize_fields : packedSize IllusionConfig.fields = 128 := by decide

/-- Below `sizeof(IllusionConfig)` the mapped region holds the bytes written. -/
theorem writeMapped_apply (region : Nat → Nat) (c : IllusionConfig) (i : Nat) (h : i < 128) :
    writeMapped region c i = c.bytes.getD i 0 := by
  unfold writeMapped memcpy
  rw [packedSize_fields]
  simp [h]

/-- From `sizeof(IllusionConfig)` on the mapped region is left as it was. -/
theorem writeMapped_above (region : Nat → Nat) (c : IllusionConfig) (i : Nat) (h : 128 ≤ i) :
    writeMapped region c i = region i := by
  unfold writeMapped memcpy
  rw [packedSize_fields]
  rw [if_neg (by omega)]

set_option maxRecDepth 100000 in
theorem packedOffset_fields :
    packedOffset IllusionConfig.fields "depth_intensity" = 0 ∧
    packedOffset IllusionConfig.fields "parallax_strength" = 4 ∧
    packedOffset IllusionConfig.fields "alpha" = 8 ∧
    packedOffset IllusionConfig.fields "edge_depth_influence" = 12 ∧
    packedOffset IllusionConfig.fields "color_separation" = 16 ∧
    packedOffset IllusionConfig.fields "perspective_strength" = 20 ∧
    packedOffset IllusionConfig.fields "enable_gpu" = 24 ∧
    packedOffset IllusionConfig.fields "processing_quality" = 25 ∧
    packedOffset IllusionConfig.fields "enable_chromatic" = 29 ∧
    packedOffset IllusionConfig.fields "enable_parallax" = 30 ∧
    packedOffset IllusionConfig.fields "enable_dof" = 31 ∧
    packedOffset IllusionConfig.fields "time" = 32 ∧
    packedOffset IllusionConfig.fields "occlusion_strength" = 36 ∧
    packedOffset IllusionConfig.fields "wiggle_frequency" = 40 ∧
    packedOffset IllusionConfig.fields "fog_density" = 44 ∧
    packedOffset IllusionConfig.fields "fog_color_r" = 48 ∧
    packedOffset IllusionConfig.fields "fog_color_g" = 52 ∧
    packedOffset IllusionConfig.fields "fog_color_b" = 56 ∧
    packedOffset IllusionConfig.fields "fog_scatter" = 60 ∧
    packedOffset IllusionConfig.fields "fog_anisotropy" = 64 ∧
    packedOffset IllusionConfig.fields "fog_height_falloff" = 68 ∧
    packedOffset IllusionConfig.fields "temporal_blend" = 72 ∧
    packedOffset IllusionConfig.fields "outline_width" = 76 ∧
    packedOffset IllusionConfig.fields "outline_intensity" = 80 ∧
    packedOffset IllusionConfig.fields "enable_parallax_barrier" = 84 ∧
    packedOffset IllusionConfig.fields "enable_lenticular" = 85 ∧
    packedOffset IllusionConfig.fields "enable_volumetric_fog" = 86 ∧
    packedOffset IllusionConfig.fields "padding" = 87 := by
  decide

/-- The object representation, byte by byte. -/
theorem bytes_flat (c : IllusionConfig) :
    c.bytes =
      c.depth_intensity % 256 :: c.depth_intensity / 256 % 256 ::
      c.depth_intensity / 65536 % 256 :: c.depth_intensity / 16777216 % 256 ::
      c.parallax_strength % 256 :: c.parallax_strength / 256 % 256 ::
      c.parallax_strength / 65536 % 256 :: c.parallax_strength / 16777216 % 256 ::
      c.alpha % 256 :: c.alpha / 256 % 256 :: c.alpha / 65536 % 256 ::
      c.alpha / 16777216 % 256 :: c.edge_depth_influence % 256 ::
      c.edge_depth_influence / 256 % 256 :: c.edge_depth_influence / 65536 % 256 ::
      c.edge_depth_influence / 16777216 % 256 :: c.color_separation % 256 ::
      c.color_separation / 256 % 256 :: c.color_separation / 65536 % 256 ::
      c.color_separation / 16777216 % 256 :: c.perspective_strength % 256 ::
      c.perspective_strength / 256 % 256 :: c.perspective_strength / 65536 % 256 ::
      c.perspective_strength / 16777216 % 256 :: c.enable_gpu % 256 ::
      int32Bits c.processing_quality % 256 :: int32Bits c.processing_quality / 256 % 256 ::
      int32Bits c.processing_quality / 65536 % 256 ::
      int32Bits c.processing_quality / 16777216 % 256 :: c.enable_chromatic % 256 ::
      c.enable_parallax % 256 :: c.enable_dof % 256 :: c.time % 256 :: c.time / 256 % 256 ::
      c.time / 65536 % 256 :: c.time / 16777216 % 256 :: c.occlusion_strength % 256 ::
      c.occlusion_strength / 256 % 256 :: c.occlusion_strength / 65536 % 256 ::
      c.occlusion_strength / 16777216 % 256 :: c.wiggle_frequency % 256 ::
      c.wiggle_frequency / 256 % 256 :: c.wiggle_frequency / 65536 % 256 ::
      c.wiggle_frequency / 16777216 % 256 :: c.fog_density % 256 :: c.fog_density / 256 % 256 ::
      c.fog_density / 65536 % 256 :: c.fog_density / 16777216 % 256 :: c.fog_color_r % 256 ::
      c.fog_color_r / 256 % 256 :: c.fog_color_r / 65536 % 256 ::
      c.fog_color_r / 16777216 % 256 :: c.fog_color_g % 256 :: c.fog_color_g / 256 % 256 ::
      c.fog_color_g / 65536 % 256 :: c.fog_color_g / 16777216 % 256 :: c.fog_color_b % 256 ::
      c.fog_color_b / 256 % 256 :: c.fog_color_b / 65536 % 256 ::
      c.fog_color_b / 16777216 % 256 :: c.fog_scatter % 256 :: c.fog_scatter / 256 % 256 ::
      c.fog_scatter / 65536 % 256 :: c.fog_scatter / 16777216 % 256 :: c.fog_anisotropy % 256 ::
      c.fog_anisotropy / 256 % 256 :: c.fog_anisotropy / 65536 % 256 ::
      c.fog_anisotropy / 16777216 % 256 :: c.fog_height_falloff % 256 ::
      c.fog_height_falloff / 256 % 256 :: c.fog_height_falloff / 65536 % 256 ::
      c.fog_height_falloff / 16777216 % 256 :: c.temporal_blend % 256 ::
      c.temporal_blend / 256 % 256 :: c.temporal_blend / 65536 % 256 ::
      c.temporal_blend / 16777216 % 256 :: c.outline_width % 256 ::
      c.outline_width / 256 % 256 :: c.outline_width / 65536 % 256 ::
      c.outline_width / 16777216 % 256 :: c.outline_intensity % 256 ::
      c.outline_intensity / 256 % 256 :: c.outline_intensity / 65536 % 256 ::
      c.outline_intensity / 16777216 % 256 :: c.enable_parallax_barrier % 256 ::
      c.enable_lenticular % 256 :: c.enable_volumetric_fog % 256 :: c.padding.map fun b => b % 256 := by
  simp [IllusionConfig.bytes, le32]

theorem bytes_getD_padding (c : IllusionConfig) (i : Nat) :
    c.bytes.getD (87 + i) 0 = (c.padding.map fun b => b % 256).getD i 0 := by
  rw [bytes_flat, Nat.add_comm]
  simp only [List.getD_cons_succ]

theorem le32_sum (v : Nat) (h : v < 4294967296) :
    v % 256 + 256 * (v / 256 % 256) + 65536 * (v / 65536 % 256) +
      16777216 * (v / 16777216 % 256) = v := by
  omega

theorem writeMapped_eq (region : Nat → Nat) (c : IllusionConfig) (i : Nat) :
    writeMapped region c i = if i < 128 then c.bytes.getD i 0 else region i := by
  split
  · exact writeMapped_apply region c i (by assumption)
  · exact writeMapped_above region c i (by omega)

theorem read_writeMapped (region : Nat → Nat) (c : IllusionConfig)
    (h : c.wellFormed = true) : IllusionConfig.read (writeMapped region c) = c := by
  simp only [IllusionConfig.wellFormed, Bool.and_eq_true, decide_eq_true_eq,
    List.all_eq_true] at h
  have hi := int32Bits_lt c.processing_quality
  have hpad : ((List.range 41).map fun i => writeMapped region c (87 + i)) = c.padding := by
    apply List.ext_getElem
    · simp only [List.length_map, List.length_range]
      omega
    · intro n h1 h2
      simp only [List.length_map, List.length_range] at h1
      simp only [List.getElem_map, List.getElem_range]
      rw [writeMapped_apply _ _ _ (by omega), bytes_getD_padding,
        List.getD_eq_getElem _ _ (by simpa using h2)]
      simp only [List.getElem_map]
      exact Nat.mod_eq_of_lt (h.2 _ (List.getElem_mem h2))
  obtain ⟨o0, o1, o2, o3, o4, o5, o6, o7, o8, o9, o10, o11, o12, o13, o14, o15, o16, o17, o18,
    o19, o20, o21, o22, o23, o24, o25, o26, o27⟩ := packedOffset_fields
  have hq := ofInt32Bits_int32Bits c.processing_quality (by omega) (by omega)
  have hsum := le32_sum (int32Bits c.processing_quality) hi
  have hflat := bytes_flat c
  have hw := writeMapped_eq region c
  rcases c with ⟨a0, a1, a2, a3, a4, a5, a6, a7, a8, a9, a10, a11, a12, a13, a14, a15, a16, a17,
    a18, a19, a20, a21, a22, a23, a24, a25, a26, pad⟩
  simp only [] at h hi hpad hq hsum hflat hw
  unfold IllusionConfig.read
  simp only [IllusionConfig.mk.injEq, o0, o1, o2, o3, o4, o5, o6, o7, o8, o9, o10, o11, o12,
    o13, o14, o15, o16, o17, o18, o19, o20, o21, o22, o23, o24, o25, o26, o27]
  rw [hpad]
  unfold rd32
  simp only [hw, hflat, Nat.reduceAdd, Nat.reduceLT, if_true, List.getD_cons_succ,
    List.getD_cons_zero, hsum, hq]
  and_intros <;> first | exact True.intro | omega

/-- C17: round trip through the constant buffer.  For every configuration
whose fields hold values of their declared types (a 32-bit pattern for a
`float`, a byte for a `uint8_t`, an `int32_t`, 41 filler bytes) and every
previous contents of a slot's mapped region, after the `memcpy` of the 128
bytes of the configuration the region read back field by field in the packed
layout is that configuration, and the region beyond the 128 bytes is as it
was. -/
theorem C17_constant_buffer_round_trip (c : IllusionConfig) (region : Nat → Nat)
    (h : c.wellFormed = true) :
    IllusionConfig.read (writeMapped region c) = c ∧
    (∀ i, packedSize IllusionConfig.fields ≤ i → writeMapped region c i = region i) :=
  ⟨read_writeMapped region c h, fun i hi =>
    writeMapped_above region c i (by rw [← packedSize_fields]; exact hi)⟩

set_option maxRecDepth 100000 in
/-- C17 at work: the default configuration written over a region filled with
the byte 255. -/
theorem C17_constant_buffer_round_trip_witness :
    defaultConfig.wellFormed = true ∧
    IllusionConfig.read (writeMapped (fun _ => 255) defaultConfig) = defaultConfig ∧
    writeMapped (fun _ => 255) defaultConfig 33 = 0x12 :=
  ⟨by decide, (C17_constant_buffer_round_trip defaultConfig (fun _ => 255) (by decide)).1,
    by decide⟩

set_option maxRecDepth 100000 in
/-- C16: under `#pragma pack(push, 1)` the size of `IllusionConfig` is the sum
of the sizes of its declared fields, and that sum is exactly 128 bytes in both
variants: in `Main.cpp` 19 floats, 7 single bytes, one `int32_t` and the 41
filler bytes; in `Source.cpp` 6 floats, 4 single bytes, one `int32_t` and the
96 filler bytes.  The object representation written to the constant buffer has
that many bytes. -/
theorem C16_config_block_is_128_bytes :
    packedSize IllusionConfig.fields = 128 ∧
    packedSize Source.IllusionConfig.fields = 128 ∧
    (IllusionConfig.fields.map fun f => f.2) =
      List.replicate 6 FieldType.float ++ [FieldType.uint8_t, FieldType.int32_t] ++
        List.replicate 3 FieldType.uint8_t ++ List.replicate 13 FieldType.float ++
        List.replicate 3 FieldType.uint8_t ++ [FieldType.bytes 41] ∧
    19 * FieldType.float.size + 7 * FieldType.uint8_t.size + FieldType.int32_t.size +
      (FieldType.bytes 41).size = 128 ∧
    (Source.IllusionConfig.fields.map fun f => f.2) =
      List.replicate 6 FieldType.float ++ [FieldType.uint8_t, FieldType.int32_t] ++
        List.replicate 3 FieldType.uint8_t ++ [FieldType.bytes 96] ∧
    6 * FieldType.float.size + 4 * FieldType.uint8_t.size + FieldType.int32_t.size +
      (FieldType.bytes 96).size = 128 ∧
    (∀ c : IllusionConfig, c.padding.length = 41 →
      c.bytes.length = packedSize IllusionConfig.fields) := by
  refine ⟨by decide, by decide, by decide, by decide, by decide, by decide, fun c h => ?_⟩
  have h128 : packedSize IllusionConfig.fields = 128 := by decide
  simp [IllusionConfig.bytes, le32, h, h128]

set_option maxRecDepth 100000 in
/-- C16 at work: the default configuration has 128 bytes, the filler starts at
offset 87 and the time field at offset 32. -/
theorem C16_config_block_is_128_bytes_witness :
    defaultConfig.bytes.length = packedSize IllusionConfig.fields ∧
    packedOffset IllusionConfig.fields "padding" = 87 ∧
    packedOffset IllusionConfig.fields "time" = 32 :=
  ⟨C16_config_block_is_128_bytes.2.2.2.2.2.2 defaultConfig (by decide), by decide, by decide⟩

/-! ## C18: one pass of Render -/

theorem afterValidate_of_valid (s : D3D12Renderer) (h : ValidateResources s = true) :
    afterValidate s = s := by
  unfold afterValidate
  rw [if_pos h]

theorem dispatchCompute_trace (s : D3D12Renderer) :
    (dispatchCompute s).trace =
      s.trace ++ if computeEnabled s then
        computeCommands s.SCREEN_WIDTH s.SCREEN_HEIGHT s.m_frameIndex else [] := by
  unfold dispatchCompute
  split <;> simp only [emitAll_proj, List.append_nil]

theorem writeConstants_mappedConstants (s : D3D12Renderer) :
    (writeConstants s).mappedConstants =
      fun k => if k = s.m_frameIndex then { s.config with time := s.m_time }
        else s.mappedConstants k := by
  unfold writeConstants
  simp only [put_mappedConstants_proj]

/-- The state a pass of `Render` reaches at `Present` when every guard and
every platform call before it succeeds. -/
theorem submitFrame_recorded (e : PassEnv) (s : D3D12Renderer)
    (hv : ValidateResources s = true)
    (hi : e.backBufferIndex % UINT_SIZE < FRAME_COUNT)
    (ha : s.ptr (Handle.m_commandAllocators (e.backBufferIndex % UINT_SIZE)) = true)
    (ht : s.ptr (Handle.m_renderTargets (e.backBufferIndex % UINT_SIZE)) = true)
    (hra : e.resetAllocator = true) (hrc : e.resetCommandList = true)
    (hm : s.ptr (Handle.m_mappedConstantData (e.backBufferIndex % UINT_SIZE)) = true)
    (hcb : s.ptr (Handle.m_constantBuffers (e.backBufferIndex % UINT_SIZE)) = true)
    (hcl : e.closeCommandList = true) :
    submitFrame e s =
      (none,
        (((((writeConstants
          ((dispatchCompute
            ((s.log "Rendering frame...\n").put_m_frameIndex
              (e.backBufferIndex % UINT_SIZE))).put_m_time (f32Add s.m_time timeDelta))).emit
          (Event.ClearRenderTargetView ClearColor.effects)).emit Event.DrawInstanced).emit
          Event.ExecuteCommandLists).emit Event.Present)) := by
  have hi2 : ¬ e.backBufferIndex % UINT_SIZE ≥ FRAME_COUNT := by omega
  unfold submitFrame
  simp only [afterValidate_of_valid s hv, hv, log_eq, emit_proj, put_m_frameIndex_proj,
    put_m_time_proj, dispatchCompute_proj, writeConstants_proj, hi2, ha, ht, hra, hrc, hm, hcb,
    hcl, Bool.not_true, Bool.or_false, Bool.and_false, decide_False, if_false,
    Bool.false_eq_true]

/-- The literal `0.016f` is the binary32 value nearest to `0.016`: its
magnitude, in units of `2^-149`, lies within half a unit in the last place
(`2^120` of these units) of `16/1000`. -/
theorem timeDelta_nearest :
    f32Sign timeDelta = 0 ∧ f32Exponent timeDelta = 121 ∧
    16 * 2 ^ 149 ≤ 1000 * f32Magnitude timeDelta ∧
    2 * (1000 * f32Magnitude timeDelta - 16 * 2 ^ 149) ≤ 1000 * 2 ^ 120 := by
  decide

set_option maxRecDepth 100000 in
/-- Sums computed by `f32Add`: `0 + 0.016f`, `0.016f + 0.016f`,
`0.032f + 0.016f` (a tie, rounded to the even significand), `1 + 1`,
`2^24 + 1` and `(2^24 + 2) + 1` (ties), `1 + (-1)`, the overflow of the largest
finite value, and `2^19 + 0.016f`, where the accumulator stops advancing. -/
theorem f32Add_examples :
    f32Add 0 timeDelta = 0x3c83126f ∧
    f32Add 0x3c83126f timeDelta = 0x3d03126f ∧
    f32Add 0x3d03126f timeDelta = 0x3d449ba6 ∧
    f32Add 0x3f800000 0x3f800000 = 0x40000000 ∧
    f32Add 0x4b800000 0x3f800000 = 0x4b800000 ∧
    f32Add 0x4b800001 0x3f800000 = 0x4b800002 ∧
    f32Add 0x3f800000 0xbf800000 = 0 ∧
    f32Add 0x7f7fffff 0x7f7fffff = 0x7f800000 ∧
    f32Add 0x49000000 timeDelta = 0x49000000 := by
  decide

/-- The shift chosen by `f32Shift` leaves a significand below `2^24`, and a
normalised one (at least `2^23`) when the shift is not zero. -/
theorem f32Shift_spec (fuel m : Nat) (h : m < 2 ^ 24 * 2 ^ fuel) :
    m / 2 ^ f32Shift fuel m < 2 ^ 24 ∧
      (f32Shift fuel m ≠ 0 → 2 ^ 23 ≤ m / 2 ^ f32Shift fuel m) := by
  induction fuel generalizing m with
  | zero =>
    unfold f32Shift
    simpa using h
  | succ n ih =>
    unfold f32Shift
    by_cases hm : m < 2 ^ 24
    · rw [if_pos hm]
      simpa using hm
    · rw [if_neg hm]
      have h2 : m / 2 < 2 ^ 24 * 2 ^ n := by
        have : 2 ^ 24 * 2 ^ (n + 1) = 2 * (2 ^ 24 * 2 ^ n) := by
          rw [Nat.pow_succ 2 n, ← Nat.mul_assoc, Nat.mul_comm]
        rw [this] at h
        generalize 2 ^ 24 * 2 ^ n = P at h
        omega
      have e : m / 2 ^ (f32Shift n (m / 2) + 1) = m / 2 / 2 ^ f32Shift n (m / 2) := by
        rw [Nat.pow_succ, Nat.mul_comm, Nat.div_div_eq_div_mul]
      rw [e]
      refine ⟨(ih _ h2).1, fun _ => ?_⟩
      by_cases hk : f32Shift n (m / 2) = 0
      · rw [hk]
        have : (2 : Nat) ^ 24 = 2 * 2 ^ 23 := by decide
        simp only [Nat.pow_zero, Nat.div_one]
        omega
      · exact (ih _ h2).2 hk

/-- The magnitude of the pattern with exponent field `x + 1` and significand
`q`. -/
theorem f32Magnitude_normal (x q : Nat) (hx : x + 1 < 256) (hq1 : 2 ^ 23 ≤ q)
    (hq2 : q < 2 ^ 24) : f32Magnitude (x * 2 ^ 23 + q) = q * 2 ^ x := by
  have he : f32Exponent (x * 2 ^ 23 + q) = x + 1 := by
    unfold f32Exponent
    have : (x * 2 ^ 23 + q) / 2 ^ 23 = x + 1 := by omega
    rw [this]
    omega
  have hf : f32Fraction (x * 2 ^ 23 + q) = q - 2 ^ 23 := by
    unfold f32Fraction
    omega
  unfold f32Magnitude
  rw [he, hf, if_neg (Nat.succ_ne_zero x)]
  have : 2 ^ 23 + (q - 2 ^ 23) = q := by omega
  rw [this]
  rfl

/-- The magnitude of a pattern below `2^24` (a subnormal or a value of the
lowest binade) is the pattern itself. -/
theorem f32Magnitude_small (m : Nat) (h : m < 2 ^ 24) : f32Magnitude m = m := by
  unfold f32Magnitude f32Exponent f32Fraction
  by_cases h1 : m < 2 ^ 23
  · have : m / 2 ^ 23 % 256 = 0 := by omega
    rw [if_pos this]
    omega
  · have : m / 2 ^ 23 % 256 = 1 := by omega
    rw [if_neg (by omega), this]
    simp only [Nat.sub_self, Nat.pow_zero, Nat.mul_one]
    omega

/-- The value `f32Round` returns for a magnitude that does not overflow lies
within half a unit in the last place of it: the unit is `2^k` for the shift
`k`, and the value has a significand of 24 bits at that scale. -/
theorem f32Round_nearest (m : Nat) (hm : m < 2 ^ 24 * 2 ^ 280)
    (hfin : f32Round m < 0x7f800000) :
    2 * m ≤ 2 * f32Magnitude (f32Round m) + 2 ^ f32Shift 280 m ∧
    2 * f32Magnitude (f32Round m) ≤ 2 * m + 2 ^ f32Shift 280 m ∧
    f32Magnitude (f32Round m) % 2 ^ f32Shift 280 m = 0 := by
  have hs := f32Shift_spec 280 m hm
  unfold f32Round at hfin ⊢
  simp only [] at hfin ⊢
  generalize hk : f32Shift 280 m = k at hs hfin ⊢
  have hdm := Nat.div_add_mod m (2 ^ k)
  have hr := Nat.mod_lt m (Nat.two_pow_pos k)
  generalize hq : m / 2 ^ k = q at hs hfin hdm ⊢
  generalize hrr : m % 2 ^ k = r at hfin hdm hr ⊢
  generalize hc : (if 2 ^ k < 2 * r ∨ (2 * r = 2 ^ k ∧ q % 2 = 1) then 1 else 0) = c at hfin ⊢
  have hbits : ¬ (k * 2 ^ 23 + q + c ≥ 0x7f800000) := by
    intro hb
    rw [if_pos hb] at hfin
    exact Nat.lt_irrefl _ hfin
  rw [if_neg hbits]
  have hc1 : c ≤ 1 := by rw [← hc]; split_ifs <;> omega
  by_cases hk0 : k = 0
  · subst hk0
    have hr0 : r = 0 := by simpa using hr
    have hc0 : c = 0 := by
      rw [← hc, hr0]
      simp
    subst hr0 hc0
    simp only [Nat.pow_zero, Nat.one_mul, Nat.add_zero, Nat.zero_mul, Nat.zero_add] at hdm ⊢
    rw [f32Magnitude_small q hs.1, hdm]
    simp [Nat.mod_one]
  · have hq1 := hs.2 hk0
    obtain ⟨x, rfl⟩ : ∃ x, k = x + 1 := ⟨k - 1, by omega⟩
    have hmag : f32Magnitude ((x + 1) * 2 ^ 23 + q + c) = (q + c) * 2 ^ (x + 1) := by
      by_cases hcar : q + c < 2 ^ 24
      · rw [Nat.add_assoc]
        exact f32Magnitude_normal (x + 1) (q + c) (by omega) (by omega) hcar
      · have hqc : q + c = 2 ^ 24 := by omega
        have e1 : (x + 1) * 2 ^ 23 + q + c = (x + 2) * 2 ^ 23 + 2 ^ 23 := by omega
        rw [e1, f32Magnitude_normal (x + 2) (2 ^ 23) (by omega) (Nat.le_refl _) (by decide), hqc]
        rw [Nat.pow_succ 2 (x + 1)]
        have : (2 : Nat) ^ 24 = 2 ^ 23 * 2 := by decide
        rw [this, Nat.mul_assoc, Nat.mul_comm 2 (2 ^ (x + 1)) ]
    rw [hmag]
    generalize 2 ^ (x + 1) = P at hdm hr hc ⊢
    refine ⟨?_, ?_, Nat.mul_mod_left _ _⟩
    · rw [Nat.add_mul, ← hdm, Nat.mul_comm P q]
      rw [← hc]
      split_ifs with h1
      · omega
      · have : 2 * r ≤ P := by
          by_contra hh
          exact h1 (Or.inl (by omega))
        omega
    · rw [Nat.add_mul, ← hdm, Nat.mul_comm P q]
      rw [← hc]
      split_ifs with h1
      · rcases h1 with h1 | h1 <;> omega
      · omega


/-- Powers of two grow with the exponent. -/
theorem two_pow_le_two_pow (i j : Nat) (h : i ≤ j) : 2 ^ i ≤ 2 ^ j :=
  Nat.pow_le_pow_right (Nat.succ_pos 1) h

/-- The magnitude of a finite value is below `2^24 * 2^253`. -/
theorem f32Magnitude_lt (x : Nat) (he : f32Exponent x < 255) :
    f32Magnitude x < 2 ^ 24 * 2 ^ 253 := by
  have hf : f32Fraction x < 2 ^ 23 := Nat.mod_lt _ (by decide)
  have hp : 0 < 2 ^ 253 := Nat.two_pow_pos 253
  unfold f32Magnitude
  split_ifs with h0
  · calc f32Fraction x < 2 ^ 24 * 1 := by omega
      _ ≤ 2 ^ 24 * 2 ^ 253 := Nat.mul_le_mul_left _ hp
  · have h1 : 2 ^ (f32Exponent x - 1) ≤ 2 ^ 253 :=
      Nat.pow_le_pow_right (by decide) (by omega)
    calc (2 ^ 23 + f32Fraction x) * 2 ^ (f32Exponent x - 1)
        ≤ (2 ^ 23 + f32Fraction x) * 2 ^ 253 := Nat.mul_le_mul_left _ h1
      _ < 2 ^ 24 * 2 ^ 253 := Nat.mul_lt_mul_of_pos_right (by omega) hp

/-- The sum of two finite values of positive sign is the rounding of the exact
sum of their magnitudes. -/
theorem f32Add_of_nonneg (a b : Nat) (ha : a < 2 ^ 31) (hb : b < 2 ^ 31)
    (hea : f32Exponent a < 255) (heb : f32Exponent b < 255) :
    f32Add a b = f32Round (f32Magnitude a + f32Magnitude b) := by
  have ha2 : a % 2 ^ 32 = a := Nat.mod_eq_of_lt (by omega)
  have hb2 : b % 2 ^ 32 = b := Nat.mod_eq_of_lt (by omega)
  have hsa : f32Sign a = 0 := by unfold f32Sign; omega
  have hsb : f32Sign b = 0 := by unfold f32Sign; omega
  have hna : f32IsNaN a = false := by
    unfold f32IsNaN
    have : (f32Exponent a == 255) = false := by simpa using Nat.ne_of_lt hea
    rw [this]; rfl
  have hnb : f32IsNaN b = false := by
    unfold f32IsNaN
    have : (f32Exponent b == 255) = false := by simpa using Nat.ne_of_lt heb
    rw [this]; rfl
  have hia : f32IsInf a = false := by
    unfold f32IsInf
    have : (f32Exponent a == 255) = false := by simpa using Nat.ne_of_lt hea
    rw [this]; rfl
  have hib : f32IsInf b = false := by
    unfold f32IsInf
    have : (f32Exponent b == 255) = false := by simpa using Nat.ne_of_lt heb
    rw [this]; rfl
  unfold f32Add
  simp only [ha2, hb2, hna, hnb, hia, hib, hsa, hsb, Bool.false_eq_true, if_false, if_true,
    Nat.zero_mul, Nat.zero_add]

/-- The accumulator's addition is correctly rounded: for finite operands of
positive sign whose sum does not overflow, the value of `f32Add a b` differs
from the exact sum of the operands by at most half a unit in the last place
(the unit being `2^k` for the shift `k` of the sum), and is a multiple of that
unit. -/
theorem f32Add_nearest (a b : Nat) (ha : a < 2 ^ 31) (hb : b < 2 ^ 31)
    (hea : f32Exponent a < 255) (heb : f32Exponent b < 255)
    (hfin : f32Add a b < 0x7f800000) :
    2 * (f32Magnitude a + f32Magnitude b) ≤
      2 * f32Magnitude (f32Add a b) + 2 ^ f32Shift 280 (f32Magnitude a + f32Magnitude b) ∧
    2 * f32Magnitude (f32Add a b) ≤
      2 * (f32Magnitude a + f32Magnitude b) +
        2 ^ f32Shift 280 (f32Magnitude a + f32Magnitude b) ∧
    f32Magnitude (f32Add a b) % 2 ^ f32Shift 280 (f32Magnitude a + f32Magnitude b) = 0 := by
  rw [f32Add_of_nonneg a b ha hb hea heb] at hfin ⊢
  have h1 := f32Magnitude_lt a hea
  have h2 := f32Magnitude_lt b heb
  have h254 : 2 ^ 254 ≤ 2 ^ 280 := two_pow_le_two_pow 254 280 (by decide)
  have h253 : 2 ^ 253 * 2 ≤ 2 ^ 280 := Nat.le_trans (Nat.le_of_eq (Nat.pow_succ 2 253).symm) h254
  have h3 : 2 ^ 24 * 2 ^ 253 + 2 ^ 24 * 2 ^ 253 ≤ 2 ^ 24 * 2 ^ 280 :=
    calc 2 ^ 24 * 2 ^ 253 + 2 ^ 24 * 2 ^ 253
        = 2 ^ 24 * 2 ^ 253 * 2 := (Nat.mul_two _).symm
      _ = 2 ^ 24 * (2 ^ 253 * 2) := Nat.mul_assoc _ _ _
      _ ≤ 2 ^ 24 * 2 ^ 280 := Nat.mul_le_mul_left _ h253
  exact f32Round_nearest _ (Nat.lt_of_lt_of_le (Nat.add_lt_add h1 h2) h3) hfin

set_option maxRecDepth 100000 in
/-- The bound at work on a tie: `0.032f + 0.016f` lies half a unit from its
two neighbours and is rounded to the even one. -/
theorem f32Add_tie_example :
    (0x3d03126f < 2 ^ 31 ∧ f32Exponent 0x3d03126f < 255) ∧
    f32Add 0x3d03126f 0x3c83126f = 0x3d449ba6 ∧
    f32Shift 280 (f32Magnitude 0x3d03126f + f32Magnitude 0x3c83126f) = 121 ∧
    2 * (f32Magnitude 0x3d03126f + f32Magnitude 0x3c83126f) =
      2 * f32Magnitude (f32Add 0x3d03126f 0x3c83126f) +
        2 ^ f32Shift 280 (f32Magnitude 0x3d03126f + f32Magnitude 0x3c83126f) :=
  ⟨by decide, by decide, by decide, by decide⟩

/-- The calls a pass of `Render` records up to `Present` when every guard and
platform call before it succeeds. -/
theorem submitFrame_trace (e : PassEnv) (s : D3D12Renderer)
    (hv : ValidateResources s = true)
    (hi : e.backBufferIndex % UINT_SIZE < FRAME_COUNT)
    (ha : s.ptr (Handle.m_commandAllocators (e.backBufferIndex % UINT_SIZE)) = true)
    (ht : s.ptr (Handle.m_renderTargets (e.backBufferIndex % UINT_SIZE)) = true)
    (hra : e.resetAllocator = true) (hrc : e.resetCommandList = true)
    (hm : s.ptr (Handle.m_mappedConstantData (e.backBufferIndex % UINT_SIZE)) = true)
    (hcb : s.ptr (Handle.m_constantBuffers (e.backBufferIndex % UINT_SIZE)) = true)
    (hcl : e.closeCommandList = true) :
    (submitFrame e s).1 = none ∧
    (submitFrame e s).2.trace =
      s.trace ++ [Event.Log "Rendering frame...\n"] ++
        (if computeEnabled s then
          computeCommands s.SCREEN_WIDTH s.SCREEN_HEIGHT (e.backBufferIndex % UINT_SIZE)
        else []) ++
        [Event.ClearRenderTargetView ClearColor.effects, Event.DrawInstanced,
          Event.ExecuteCommandLists, Event.Present] ∧
    (submitFrame e s).2.ptr = s.ptr := by
  have hce : computeEnabled ((s.emit (Event.Log "Rendering frame...\n")).put_m_frameIndex
      (e.backBufferIndex % UINT_SIZE)) = computeEnabled s := by
    simp only [computeEnabled, put_m_frameIndex_proj, emit_proj]
  rw [submitFrame_recorded e s hv hi ha ht hra hrc hm hcb hcl]
  simp only [log_eq, emit_proj, writeConstants_proj, put_m_time_proj, dispatchCompute_trace,
    dispatchCompute_proj, put_m_frameIndex_proj, hce, List.append_assoc, List.cons_append,
    List.nil_append, true_and, and_true]

/-! ## C19: submissions and the GPU wait -/

theorem submissionPending_append (t evs : List Event) :
    submissionPending (t ++ evs) =
      evs.foldl (fun pending ev =>
        if ev = Event.ExecuteCommandLists then true
        else if ev = Event.WaitForGPU then false
        else pending) (submissionPending t) := by
  unfold submissionPending
  rw [List.foldl_append]

theorem submissionPending_afterValidate (s : D3D12Renderer) :
    submissionPending (afterValidate s).trace = submissionPending s.trace := by
  rw [afterValidate_trace]
  split
  · rfl
  · simp [submissionPending_append]

theorem submissionPending_WaitForGPU (s : D3D12Renderer) :
    submissionPending (WaitForGPU s).trace =
      if !s.ptr Handle.m_commandQueue || !s.ptr Handle.m_fence || !s.ptr Handle.m_fenceEvent
      then submissionPending s.trace
      else if (s.fenceCalls ((s.m_fenceValue + 1) % SIZE_T_SIZE)).reached then false
      else submissionPending s.trace := by
  rw [WaitForGPU_trace]
  split
  · rfl
  · rw [submissionPending_append]
    cases hr : (s.fenceCalls ((s.m_fenceValue + 1) % SIZE_T_SIZE)).reached
    · have h := FenceEnv.record_of_not_reached _ hr
      simp only [List.foldl_cons, List.foldl_nil, h.1, h.2, if_false, Bool.false_eq_true]
    · rw [FenceEnv.record_of_reached _ hr]
      simp

theorem ValidateResources_commandQueue (s : D3D12Renderer)
    (h : ValidateResources s = true) : s.ptr Handle.m_commandQueue = true := by
  simp only [ValidateResources, Bool.and_eq_true] at h
  exact h.1.1.1.1.1.1.1.1.2

/-- `CaptureDesktop` leaves no submission without its wait when the fence
calls of its `WaitForGPU` succeed. -/
theorem submissionPending_CaptureDesktop (e : CaptureEnv) (s : D3D12Renderer)
    (hf : s.ptr Handle.m_fence = true) (hfe : s.ptr Handle.m_fenceEvent = true)
    (hw : (s.fenceCalls ((s.m_fenceValue + 1) % SIZE_T_SIZE)).reached = true)
    (hp : submissionPending s.trace = false) :
    submissionPending (CaptureDesktop e s).2.trace = false := by
  have hav := submissionPending_afterValidate s
  by_cases hv : ValidateResources s = true
  · have hq := ValidateResources_commandQueue s hv
    unfold CaptureDesktop
    simp only [log_eq, throwHR_snd, apply_ite Prod.snd, apply_ite D3D12Renderer.trace,
      apply_ite submissionPending, emit_proj, put_uploadData_proj, put_screenTextureData_proj,
      afterValidate_proj, emit_fenceCalls, put_uploadData_fenceCalls,
      put_screenTextureData_fenceCalls, afterValidate_fenceCalls,
      submissionPending_WaitForGPU, submissionPending_append, hav, hp, hq,
      hf, hfe, hw, List.foldl_cons, List.foldl_nil, reduceCtorEq, if_false, if_true,
      Bool.not_true, Bool.or_false, Bool.false_eq_true]
    simp only [ite_self]
  · have hv2 : ValidateResources s = false := by simpa using hv
    rw [CaptureDesktop_invalid e s hv2]
    simp [submissionPending_append, hav, hp]

/-- `RenderFallback` leaves no submission without its wait when `Present`
and the fence calls of its `WaitForGPU` succeed. -/
theorem submissionPending_RenderFallback (e : FallbackEnv) (s : D3D12Renderer)
    (hpr : e.present = true)
    (hf : s.ptr Handle.m_fence = true) (hfe : s.ptr Handle.m_fenceEvent = true)
    (hw : (s.fenceCalls ((s.m_fenceValue + 1) % SIZE_T_SIZE)).reached = true)
    (hp : submissionPending s.trace = false) :
    submissionPending (RenderFallback e s).2.trace = false := by
  cases hq : s.ptr Handle.m_commandQueue <;>
  · unfold RenderFallback
    simp only [log_eq, throwHR_snd, apply_ite Prod.snd, apply_ite D3D12Renderer.trace,
      apply_ite submissionPending, emit_proj, put_m_frameIndex_proj, emit_fenceCalls,
      put_m_frameIndex_fenceCalls,
      submissionPending_WaitForGPU, submissionPending_append, hp, hq, hpr,
      hf, hfe, hw, List.foldl_cons, List.foldl_nil, reduceCtorEq, if_false, if_true,
      Bool.not_true, Bool.not_false, Bool.or_false, Bool.or_true, Bool.true_or,
      Bool.false_eq_true]
    try simp only [ite_self]

theorem submissionPending_createConstantBuffers (e : ResourcesEnv) (n i : Nat)
    (s : D3D12Renderer) :
    submissionPending (createConstantBuffers e n i s).2.trace = submissionPending s.trace := by
  induction n generalizing i s with
  | zero => unfold createConstantBuffers; rfl
  | succ n ih =>
    unfold createConstantBuffers
    simp only [log_eq, throwHR_snd, apply_ite Prod.snd, apply_ite D3D12Renderer.trace,
      apply_ite submissionPending, set_proj, emit_proj, put_mappedConstants_proj, ih,
      submissionPending_append, List.foldl_cons, List.foldl_nil, reduceCtorEq, if_false]
    simp only [ite_self]

theorem submissionPending_createResourcesTail (e : ResourcesEnv) (s : D3D12Renderer) :
    submissionPending (createResourcesTail e s).2.trace = submissionPending s.trace := by
  unfold createResourcesTail
  simp only [log_eq, throwHR_snd, apply_ite Prod.snd, apply_ite D3D12Renderer.trace,
    apply_ite submissionPending, set_proj, emit_proj, put_m_constantBufferSize_proj,
    submissionPending_createConstantBuffers, submissionPending_append, List.foldl_cons,
    List.foldl_nil, reduceCtorEq, if_false]
  simp only [ite_self]

/-- `CreateResources`, whose only submission is the checkerboard upload, leaves
no submission without its wait when the fence calls of its `WaitForGPU`
succeed. -/
theorem submissionPending_CreateResources (e : ResourcesEnv) (s : D3D12Renderer)
    (hq : s.ptr Handle.m_commandQueue = true)
    (hf : s.ptr Handle.m_fence = true) (hfe : s.ptr Handle.m_fenceEvent = true)
    (hw : (s.fenceCalls ((s.m_fenceValue + 1) % SIZE_T_SIZE)).reached = true)
    (hp : submissionPending s.trace = false) :
    submissionPending (CreateResources e s).2.trace = false := by
  unfold CreateResources
  simp only [log_eq, throwHR_snd, apply_ite Prod.snd, apply_ite D3D12Renderer.trace,
    apply_ite submissionPending, apply_ite D3D12Renderer.ptr, set_proj, emit_proj,
    put_uploadBufferWidth_proj, put_uploadData_proj, put_screenTextureData_proj,
    put_SCREEN_WIDTH_proj, put_SCREEN_HEIGHT_proj, set_fenceCalls, emit_fenceCalls,
    put_uploadBufferWidth_fenceCalls, put_uploadData_fenceCalls,
    put_screenTextureData_fenceCalls,
    submissionPending_createResourcesTail, submissionPending_WaitForGPU,
    submissionPending_append, hp, hq, hf, hfe, hw, List.foldl_cons, List.foldl_nil,
    reduceCtorEq, if_false, if_true, Bool.not_true, Bool.or_false, Bool.false_eq_true]
  simp only [ite_self]

theorem renderPass_of_ok (retry : D3D12Renderer → Outcome × D3D12Renderer) (e : PassEnv)
    (s : D3D12Renderer) (h : (submitFrame e s).1 = none) (hp : e.present = PresentResult.ok) :
    renderPass retry e s =
      (Outcome.ret true, (WaitForGPU (submitFrame e s).2).log "Frame rendered successfully\n") := by
  unfold renderPass
  simp [h, hp]

theorem Render_of_present_ok (env : Nat → PassEnv) (s : D3D12Renderer)
    (h : (submitFrame (env 0) s).1 = none) (hp : (env 0).present = PresentResult.ok) :
    Render env s =
      (Outcome.ret true,
        (WaitForGPU (submitFrame (env 0) s).2).log "Frame rendered successfully\n") := by
  rw [Render_eq, renderPass_of_ok _ _ _ h hp]

/-- A pass of `Render` that reaches `Present` leaves the fence value and the
results of the fence calls as they were. -/
theorem submitFrame_fence (e : PassEnv) (s : D3D12Renderer)
    (hv : ValidateResources s = true)
    (hi : e.backBufferIndex % UINT_SIZE < FRAME_COUNT)
    (ha : s.ptr (Handle.m_commandAllocators (e.backBufferIndex % UINT_SIZE)) = true)
    (ht : s.ptr (Handle.m_renderTargets (e.backBufferIndex % UINT_SIZE)) = true)
    (hra : e.resetAllocator = true) (hrc : e.resetCommandList = true)
    (hm : s.ptr (Handle.m_mappedConstantData (e.backBufferIndex % UINT_SIZE)) = true)
    (hcb : s.ptr (Handle.m_constantBuffers (e.backBufferIndex % UINT_SIZE)) = true)
    (hcl : e.closeCommandList = true) :
    (submitFrame e s).2.m_fenceValue = s.m_fenceValue ∧
    (submitFrame e s).2.fenceCalls = s.fenceCalls := by
  rw [submitFrame_recorded e s hv hi ha ht hra hrc hm hcb hcl]
  simp only [log_eq, emit_proj, writeConstants_proj, put_m_time_proj, dispatchCompute_proj,
    put_m_frameIndex_proj, emit_fenceCalls, writeConstants_fenceCalls, put_m_time_fenceCalls,
    dispatchCompute_fenceCalls, put_m_frameIndex_fenceCalls, and_self]

/-- `CaptureDesktop` when `AcquireNextFrame` times out. -/
theorem CaptureDesktop_timeout (e : CaptureEnv) (s : D3D12Renderer)
    (hv : ValidateResources s = true) (hd : s.ptr Handle.m_d3d11Duplication = true)
    (hs : s.ptr Handle.m_d3d11StagingTexture = true)
    (hu : s.ptr Handle.m_d3d12UploadBuffer = true)
    (ht : e.acquire = AcquireResult.timeout) :
    CaptureDesktop e s =
      (Outcome.ret false,
        ((s.log "Capturing desktop...\n").emit Event.AcquireNextFrame).log
          "AcquireNextFrame timed out (no new frame)\n") := by
  unfold CaptureDesktop
  simp only [afterValidate_of_valid s hv, hv, hd, hs, hu, ht, Bool.not_true, Bool.or_false,
    Bool.false_eq_true, if_false, if_true]

theorem captureStep_timeout (e : CaptureEnv) (s : D3D12Renderer)
    (hv : ValidateResources s = true) (hd : s.ptr Handle.m_d3d11Duplication = true)
    (hs : s.ptr Handle.m_d3d11StagingTexture = true)
    (hu : s.ptr Handle.m_d3d12UploadBuffer = true)
    (ht : e.acquire = AcquireResult.timeout) :
    captureStep e s =
      (((s.log "Capturing desktop...\n").emit Event.AcquireNextFrame).log
        "AcquireNextFrame timed out (no new frame)\n").log
        "CaptureDesktop failed, using last frame\n" := by
  unfold captureStep
  rw [CaptureDesktop_timeout e s hv hd hs hu ht]
  simp

/-- One iteration of the loop in which the capture times out and every call
of the pass of `Render` succeeds. -/
theorem RenderLoopIteration_timeout (e : TickEnv) (a : LightWeight3DApp)
    (hr : a.m_isRunning = true) (hh : a.m_isHidden = false)
    (hv : ValidateResources a.m_d3dRenderer = true)
    (hd : a.m_d3dRenderer.ptr Handle.m_d3d11Duplication = true)
    (hs : a.m_d3dRenderer.ptr Handle.m_d3d11StagingTexture = true)
    (hu : a.m_d3dRenderer.ptr Handle.m_d3d12UploadBuffer = true)
    (hslots : ∀ i, i < FRAME_COUNT →
      a.m_d3dRenderer.ptr (Handle.m_commandAllocators i) = true ∧
      a.m_d3dRenderer.ptr (Handle.m_renderTargets i) = true ∧
      a.m_d3dRenderer.ptr (Handle.m_constantBuffers i) = true ∧
      a.m_d3dRenderer.ptr (Handle.m_mappedConstantData i) = true)
    (ht : e.capture.acquire = AcquireResult.timeout)
    (hi : (e.render 0).backBufferIndex % UINT_SIZE < FRAME_COUNT)
    (hra : (e.render 0).resetAllocator = true) (hrc : (e.render 0).resetCommandList = true)
    (hcl : (e.render 0).closeCommandList = true)
    (hpr : (e.render 0).present = PresentResult.ok) :
    (RenderLoopIteration e a).m_isRunning = true ∧
    (RenderLoopIteration e a).m_isHidden = false ∧
    (RenderLoopIteration e a).m_d3dRenderer.ptr = a.m_d3dRenderer.ptr ∧
    (RenderLoopIteration e a).m_d3dRenderer.screenTextureData =
      a.m_d3dRenderer.screenTextureData ∧
    (RenderLoopIteration e a).m_d3dRenderer.uploadData = a.m_d3dRenderer.uploadData ∧
    (RenderLoopIteration e a).m_d3dRenderer.m_recoveryCount =
      a.m_d3dRenderer.m_recoveryCount ∧
    (RenderLoopIteration e a).m_d3dRenderer.trace.count
        (Event.Log "AcquireNextFrame timed out (no new frame)\n") =
      a.m_d3dRenderer.trace.count (Event.Log "AcquireNextFrame timed out (no new frame)\n") + 1 ∧
    (RenderLoopIteration e a).m_d3dRenderer.trace.count (Event.Log "Rendering frame...\n") =
      a.m_d3dRenderer.trace.count (Event.Log "Rendering frame...\n") + 1 ∧
    (RenderLoopIteration e a).m_d3dRenderer.trace.count Event.Present =
      a.m_d3dRenderer.trace.count Event.Present + 1 ∧
    (RenderLoopIteration e a).m_d3dRenderer.trace.count Event.UpdateSubresources =
      a.m_d3dRenderer.trace.count Event.UpdateSubresources := by
  have n1 := fun r : FenceEnv => FenceEnv.record_ne r
    (Event.Log "AcquireNextFrame timed out (no new frame)\n") Event.noConfusion (by decide)
    (by decide)
  have n2 := fun r : FenceEnv => FenceEnv.record_ne r (Event.Log "Rendering frame...\n")
    Event.noConfusion (by decide) (by decide)
  have n3 := fun r : FenceEnv => FenceEnv.record_ne r Event.Present Event.noConfusion
    Event.noConfusion Event.noConfusion
  have n4 := fun r : FenceEnv => FenceEnv.record_ne r Event.UpdateSubresources Event.noConfusion
    Event.noConfusion Event.noConfusion
  have hcap := CaptureDesktop_timeout e.capture a.m_d3dRenderer hv hd hs hu ht
  have hcs := captureStep_timeout e.capture a.m_d3dRenderer hv hd hs hu ht
  have hptr : (captureStep e.capture a.m_d3dRenderer).ptr = a.m_d3dRenderer.ptr := by
    rw [hcs]; simp
  have hv2 : ValidateResources (captureStep e.capture a.m_d3dRenderer) = true := by
    rw [ValidateResources_congr hptr]; exact hv
  obtain ⟨h1, h2, h3, h4⟩ := hslots _ hi
  obtain ⟨hn, htr, hp2⟩ := submitFrame_trace (e.render 0) (captureStep e.capture a.m_d3dRenderer)
    hv2 hi (by rw [hptr]; exact h1) (by rw [hptr]; exact h2) hra hrc (by rw [hptr]; exact h4)
    (by rw [hptr]; exact h3) hcl
  have hrec := submitFrame_recorded (e.render 0) (captureStep e.capture a.m_d3dRenderer)
    hv2 hi (by rw [hptr]; exact h1) (by rw [hptr]; exact h2) hra hrc (by rw [hptr]; exact h4)
    (by rw [hptr]; exact h3) hcl
  have hren := Render_of_present_ok e.render _ hn hpr
  have hit := RenderLoopIteration_of_render e a hr hh (by rw [hcap]; exact Outcome.noConfusion)
    (by rw [hcap]; rfl)
  rw [hren] at hit
  simp only [if_true] at hit
  rw [hit]
  simp only [hr, hh, true_and, log_eq, emit_proj, WaitForGPU_proj, WaitForGPU_trace, hp2, hptr,
    htr]
  refine ⟨?_, ?_, ?_, ?_, ?_, ?_, ?_⟩
  · rw [hrec, hcs]
    simp only [log_eq, emit_proj, writeConstants_proj, put_m_time_proj, dispatchCompute_proj,
      put_m_frameIndex_proj]
  · rw [hrec, hcs]
    simp only [log_eq, emit_proj, writeConstants_proj, put_m_time_proj, dispatchCompute_proj,
      put_m_frameIndex_proj]
  · rw [submitFrame_m_recoveryCount, captureStep_m_recoveryCount]
  all_goals
    rw [hcs]
    simp only [log_eq, emit_proj, List.count_append]
    generalize computeEnabled _ = ce
    generalize (!a.m_d3dRenderer.ptr Handle.m_commandQueue || !a.m_d3dRenderer.ptr Handle.m_fence ||
      !a.m_d3dRenderer.ptr Handle.m_fenceEvent) = g
    generalize a.m_d3dRenderer.trace = tr
    cases ce <;> cases g <;>
      simp only [computeCommands, List.count_append, List.count_cons, List.count_nil,
        beq_iff_eq, reduceCtorEq, Event.Log.injEq, String.reduceEq, if_false, if_true,
        Bool.false_eq_true, List.append_nil, Nat.add_zero, Nat.zero_add, n1, n2, n3, n4]

/-- Any number of consecutive iterations in which the capture times out and
every call of the pass of `Render` succeeds. -/
theorem RenderLoop_timeouts (envs : List TickEnv) (a : LightWeight3DApp)
    (hr : a.m_isRunning = true) (hh : a.m_isHidden = false)
    (hv : ValidateResources a.m_d3dRenderer = true)
    (hd : a.m_d3dRenderer.ptr Handle.m_d3d11Duplication = true)
    (hs : a.m_d3dRenderer.ptr Handle.m_d3d11StagingTexture = true)
    (hu : a.m_d3dRenderer.ptr Handle.m_d3d12UploadBuffer = true)
    (hslots : ∀ i, i < FRAME_COUNT →
      a.m_d3dRenderer.ptr (Handle.m_commandAllocators i) = true ∧
      a.m_d3dRenderer.ptr (Handle.m_renderTargets i) = true ∧
      a.m_d3dRenderer.ptr (Handle.m_constantBuffers i) = true ∧
      a.m_d3dRenderer.ptr (Handle.m_mappedConstantData i) = true)
    (henvs : ∀ e ∈ envs, e.capture.acquire = AcquireResult.timeout ∧
      (e.render 0).backBufferIndex % UINT_SIZE < FRAME_COUNT ∧
      (e.render 0).resetAllocator = true ∧ (e.render 0).resetCommandList = true ∧
      (e.render 0).closeCommandList = true ∧ (e.render 0).present = PresentResult.ok) :
    (RenderLoop envs a).m_isRunning = true ∧
    (RenderLoop envs a).m_d3dRenderer.screenTextureData = a.m_d3dRenderer.screenTextureData ∧
    (RenderLoop envs a).m_d3dRenderer.uploadData = a.m_d3dRenderer.uploadData ∧
    (RenderLoop envs a).m_d3dRenderer.m_recoveryCount = a.m_d3dRenderer.m_recoveryCount ∧
    (RenderLoop envs a).m_d3dRenderer.trace.count
        (Event.Log "AcquireNextFrame timed out (no new frame)\n") =
      a.m_d3dRenderer.trace.count (Event.Log "AcquireNextFrame timed out (no new frame)\n") +
        envs.length ∧
    (RenderLoop envs a).m_d3dRenderer.trace.count (Event.Log "Rendering frame...\n") =
      a.m_d3dRenderer.trace.count (Event.Log "Rendering frame...\n") + envs.length ∧
    (RenderLoop envs a).m_d3dRenderer.trace.count Event.Present =
      a.m_d3dRenderer.trace.count Event.Present + envs.length ∧
    (RenderLoop envs a).m_d3dRenderer.trace.count Event.UpdateSubresources =
      a.m_d3dRenderer.trace.count Event.UpdateSubresources := by
  induction envs generalizing a with
  | nil => exact ⟨hr, rfl, rfl, rfl, rfl, rfl, rfl, rfl⟩
  | cons e envs ih =>
    obtain ⟨ht, hi, hra, hrc, hcl, hpr⟩ := henvs e (List.mem_cons_self _ _)
    obtain ⟨t1, t2, t3, t4, t5, t6, t7, t8, t9, t10⟩ :=
      RenderLoopIteration_timeout e a hr hh hv hd hs hu hslots ht hi hra hrc hcl hpr
    have hstep : RenderLoop (e :: envs) a = RenderLoop envs (RenderLoopIteration e a) := rfl
    obtain ⟨u1, u2, u3, u4, u5, u6, u7, u8⟩ := ih (RenderLoopIteration e a) t1 t2
      (by rw [ValidateResources_congr t3]; exact hv) (by rw [t3]; exact hd)
      (by rw [t3]; exact hs) (by rw [t3]; exact hu) (by rw [t3]; exact hslots)
      (fun e1 h1 => henvs e1 (List.mem_cons_of_mem _ h1))
    rw [hstep]
    refine ⟨u1, by rw [u2, t4], by rw [u3, t5], by rw [u4, t6], ?_, ?_, ?_, by rw [u8, t10]⟩
    · rw [u5, t7, List.length_cons]; omega
    · rw [u6, t8, List.length_cons]; omega
    · rw [u7, t9, List.length_cons]; omega

theorem Event.message_eq_some (ev : Event) (msg : String) :
    ev.message = some msg ↔ ev = Event.Log msg := by
  cases ev <;> simp [Event.message]

theorem count_filterMap_message (t : List Event) (m : String) :
    (t.filterMap Event.message).count m = t.count (Event.Log m) := by
  induction t with
  | nil => rfl
  | cons ev t ih =>
    cases ev <;> simp [List.filterMap_cons, Event.message, List.count_cons, ih]

/-- With `enableLogging` at the same value `b` for every call, the calls of
`Log` on the trace write all their messages, in order, or none. -/
theorem logFile_const (b : Bool) (t : List Event) (k : Nat) (w : List String) :
    logFile (fun _ => b) t k w = w ++ if b then t.filterMap Event.message else [] := by
  induction t generalizing k w with
  | nil => cases b <;> simp [logFile]
  | cons ev t ih =>
    unfold logFile
    cases hm : ev.message with
    | none => simp only [ih, List.filterMap_cons, hm]
    | some msg =>
      simp only [ih, List.filterMap_cons, hm, Log]
      cases b <;> simp

/-- Whatever the value of `enableLogging` at each call, a message is written
at most as often as `Log` is called with it. -/
theorem count_logFile_le (en : Nat → Bool) (t : List Event) (k : Nat) (w : List String)
    (m : String) :
    (logFile en t k w).count m ≤ w.count m + t.count (Event.Log m) := by
  induction t generalizing k w with
  | nil => simp [logFile]
  | cons ev t ih =>
    unfold logFile
    cases hm : ev.message with
    | none =>
      have hne : ev ≠ Event.Log m := fun h => by rw [h] at hm; cases hm
      simp only []
      rw [List.count_cons_of_ne hne.symm]
      exact ih k w
    | some msg =>
      have hev := (Event.message_eq_some ev msg).1 hm
      subst hev
      simp only []
      refine Nat.le_trans (ih _ _) ?_
      unfold Log
      by_cases hmm : msg = m
      · subst hmm
        rw [List.count_cons_self]
        cases en k <;>
          simp only [if_true, if_false, Bool.false_eq_true, List.count_append,
            List.count_cons_self, List.count_nil] <;> omega
      · have hne : Event.Log msg ≠ Event.Log m := fun h => hmm (Event.Log.inj h)
        rw [List.count_cons_of_ne hne.symm]
        cases en k <;> simp [List.count_append, List.count_cons, hmm]

theorem count_logFile_const (b : Bool) (t : List Event) (m : String) :
    (logFile (fun _ => b) t 0 []).count m = if b then t.count (Event.Log m) else 0 := by
  rw [logFile_const]
  cases b <;> simp [count_filterMap_message]

/-- C11, amended: when `AcquireNextFrame` times out, `CaptureDesktop` returns
false, leaves the upload buffer and the capture texture as they were, and
calls `Log` with the capture line and once with the timeout message; the two
lines are written while `enableLogging` is set and not otherwise.  The loop
then calls `Render` on that state, with the attempt counter untouched, and
performs no recovery when `Render` returns true.  Hence over any number of
consecutive timeout ticks in which the calls of `Render` succeed (10 in the
scenario) the loop is still running, `Log` is called with the timeout message
once per tick, as many timeout lines as ticks are written when logging is
enabled throughout and none when it is disabled throughout (and never more
than one per tick), `Render` runs and presents once per tick, the capture
texture holds the last captured frame, nothing is uploaded and no recovery is
counted. -/
theorem C11_capture_timeouts :
    (∀ (e : CaptureEnv) (s : D3D12Renderer), ValidateResources s = true →
      s.ptr Handle.m_d3d11Duplication = true → s.ptr Handle.m_d3d11StagingTexture = true →
      s.ptr Handle.m_d3d12UploadBuffer = true → e.acquire = AcquireResult.timeout →
      (CaptureDesktop e s).1 = Outcome.ret false ∧
      (CaptureDesktop e s).2.uploadData = s.uploadData ∧
      (CaptureDesktop e s).2.screenTextureData = s.screenTextureData ∧
      (CaptureDesktop e s).2.trace =
        s.trace ++ [Event.Log "Capturing desktop...\n", Event.AcquireNextFrame,
          Event.Log "AcquireNextFrame timed out (no new frame)\n"] ∧
      ∀ enableLogging : Bool,
        logFile (fun _ => enableLogging) (CaptureDesktop e s).2.trace 0 [] =
          logFile (fun _ => enableLogging) s.trace 0 [] ++
            if enableLogging then
              ["Capturing desktop...\n", "AcquireNextFrame timed out (no new frame)\n"]
            else []) ∧
    (∀ (e : TickEnv) (a : LightWeight3DApp), a.m_isRunning = true → a.m_isHidden = false →
      ValidateResources a.m_d3dRenderer = true →
      a.m_d3dRenderer.ptr Handle.m_d3d11Duplication = true →
      a.m_d3dRenderer.ptr Handle.m_d3d11StagingTexture = true →
      a.m_d3dRenderer.ptr Handle.m_d3d12UploadBuffer = true →
      e.capture.acquire = AcquireResult.timeout →
      (captureStep e.capture a.m_d3dRenderer).m_recoveryCount =
        a.m_d3dRenderer.m_recoveryCount ∧
      (captureStep e.capture a.m_d3dRenderer).screenTextureData =
        a.m_d3dRenderer.screenTextureData ∧
      ((Render e.render (captureStep e.capture a.m_d3dRenderer)).1 = Outcome.ret true →
        RenderLoopIteration e a =
          { a with
            m_d3dRenderer := (Render e.render (captureStep e.capture a.m_d3dRenderer)).2,
            m_frameCount := a.m_frameCount + 1 })) ∧
    (∀ (envs : List TickEnv) (a : LightWeight3DApp), a.m_isRunning = true →
      a.m_isHidden = false → ValidateResources a.m_d3dRenderer = true →
      a.m_d3dRenderer.ptr Handle.m_d3d11Duplication = true →
      a.m_d3dRenderer.ptr Handle.m_d3d11StagingTexture = true →
      a.m_d3dRenderer.ptr Handle.m_d3d12UploadBuffer = true →
      (∀ i, i < FRAME_COUNT →
        a.m_d3dRenderer.ptr (Handle.m_commandAllocators i) = true ∧
        a.m_d3dRenderer.ptr (Handle.m_renderTargets i) = true ∧
        a.m_d3dRenderer.ptr (Handle.m_constantBuffers i) = true ∧
        a.m_d3dRenderer.ptr (Handle.m_mappedConstantData i) = true) →
      (∀ e ∈ envs, e.capture.acquire = AcquireResult.timeout ∧
        (e.render 0).backBufferIndex % UINT_SIZE < FRAME_COUNT ∧
        (e.render 0).resetAllocator = true ∧ (e.render 0).resetCommandList = true ∧
        (e.render 0).closeCommandList = true ∧ (e.render 0).present = PresentResult.ok) →
      (RenderLoop envs a).m_isRunning = true ∧
      (RenderLoop envs a).m_d3dRenderer.screenTextureData = a.m_d3dRenderer.screenTextureData ∧
      (RenderLoop envs a).m_d3dRenderer.uploadData = a.m_d3dRenderer.uploadData ∧
      (RenderLoop envs a).m_d3dRenderer.m_recoveryCount = a.m_d3dRenderer.m_recoveryCount ∧
      (RenderLoop envs a).m_d3dRenderer.trace.count
          (Event.Log "AcquireNextFrame timed out (no new frame)\n") =
        a.m_d3dRenderer.trace.count
          (Event.Log "AcquireNextFrame timed out (no new frame)\n") + envs.length ∧
      (∀ enableLogging : Bool,
        (logFile (fun _ => enableLogging) (RenderLoop envs a).m_d3dRenderer.trace 0 []).count
            "AcquireNextFrame timed out (no new frame)\n" =
          (logFile (fun _ => enableLogging) a.m_d3dRenderer.trace 0 []).count
            "AcquireNextFrame timed out (no new frame)\n" +
            if enableLogging then envs.length else 0) ∧
      (∀ enableLogging : Nat → Bool,
        (logFile enableLogging (RenderLoop envs a).m_d3dRenderer.trace 0 []).count
            "AcquireNextFrame timed out (no new frame)\n" ≤
          a.m_d3dRenderer.trace.count
            (Event.Log "AcquireNextFrame timed out (no new frame)\n") + envs.length) ∧
      (RenderLoop envs a).m_d3dRenderer.trace.count (Event.Log "Rendering frame...\n") =
        a.m_d3dRenderer.trace.count (Event.Log "Rendering frame...\n") + envs.length ∧
      (RenderLoop envs a).m_d3dRenderer.trace.count Event.Present =
        a.m_d3dRenderer.trace.count Event.Present + envs.length ∧
      (RenderLoop envs a).m_d3dRenderer.trace.count Event.UpdateSubresources =
        a.m_d3dRenderer.trace.count Event.UpdateSubresources) := by
  refine ⟨fun e s hv hd hs hu ht => ?_, fun e a hr hh hv hd hs hu ht => ?_,
    fun envs a hr hh hv hd hs hu hslots henvs => ?_⟩
  · rw [CaptureDesktop_timeout e s hv hd hs hu ht]
    refine ⟨rfl, by simp, by simp, by simp, fun b => ?_⟩
    rw [logFile_const, logFile_const]
    cases b <;> simp [Event.message]
  · have hcap := CaptureDesktop_timeout e.capture a.m_d3dRenderer hv hd hs hu ht
    refine ⟨captureStep_m_recoveryCount _ _, ?_, fun htrue => ?_⟩
    · rw [captureStep_timeout e.capture a.m_d3dRenderer hv hd hs hu ht]
      simp
    · rw [RenderLoopIteration_of_render e a hr hh (by rw [hcap]; exact Outcome.noConfusion)
        (by rw [hcap]; rfl), if_pos htrue]
  · obtain ⟨h1, h2, h3, h4, h5, h6, h7, h8⟩ :=
      RenderLoop_timeouts envs a hr hh hv hd hs hu hslots henvs
    refine ⟨h1, h2, h3, h4, h5, fun b => ?_, fun en => ?_, h6, h7, h8⟩
    · rw [count_logFile_const, count_logFile_const, h5]
      cases b <;> simp
    · have := count_logFile_le en (RenderLoop envs a).m_d3dRenderer.trace 0 []
        "AcquireNextFrame timed out (no new frame)\n"
      rw [h5] at this
      simpa using this

set_option maxRecDepth 100000 in
/-- C11 at work, the scenario: ten consecutive timeout ticks on the healthy
application, whose trace holds no timeout line yet.  The loop is still
running, `Log` has been called ten times with the timeout message, ten timeout
lines are written with logging enabled, `Render` has run and presented ten
times, and the capture texture is unchanged. -/
theorem C11_capture_timeouts_witness :
    (List.replicate 10 timeoutTick).length = 10 ∧
    healthy.trace.count (Event.Log "AcquireNextFrame timed out (no new frame)\n") = 0 ∧
    (RenderLoop (List.replicate 10 timeoutTick) healthyApp).m_isRunning = true ∧
    (RenderLoop (List.replicate 10 timeoutTick) healthyApp).m_d3dRenderer.screenTextureData =
      healthy.screenTextureData ∧
    (RenderLoop (List.replicate 10 timeoutTick) healthyApp).m_d3dRenderer.trace.count
        (Event.Log "AcquireNextFrame timed out (no new frame)\n") = 10 ∧
    (logFile (fun _ => true)
        (RenderLoop (List.replicate 10 timeoutTick) healthyApp).m_d3dRenderer.trace 0 []).count
      "AcquireNextFrame timed out (no new frame)\n" = 10 ∧
    (RenderLoop (List.replicate 10 timeoutTick) healthyApp).m_d3dRenderer.trace.count
        (Event.Log "Rendering frame...\n") =
      healthy.trace.count (Event.Log "Rendering frame...\n") + 10 ∧
    (RenderLoop (List.replicate 10 timeoutTick) healthyApp).m_d3dRenderer.trace.count
        Event.Present = healthy.trace.count Event.Present + 10 :=
  have h0 : healthy.trace.count
      (Event.Log "AcquireNextFrame timed out (no new frame)\n") = 0 := by
    with_unfolding_all decide
  have h := C11_capture_timeouts.2.2 (List.replicate 10 timeoutTick) healthyApp
    (by with_unfolding_all decide) (by with_unfolding_all decide)
    (by with_unfolding_all decide) (by with_unfolding_all decide)
    (by with_unfolding_all decide) (by with_unfolding_all decide)
    (by with_unfolding_all decide) (by with_unfolding_all decide)
  ⟨rfl, h0, h.1, h.2.1,
    h.2.2.2.2.1.trans (by rw [show healthyApp.m_d3dRenderer = healthy from rfl, h0]; rfl),
    (h.2.2.2.2.2.1 true).trans (by
      rw [count_logFile_const, show healthyApp.m_d3dRenderer = healthy from rfl, h0]; rfl),
    h.2.2.2.2.2.2.2.1, h.2.2.2.2.2.2.2.2.1⟩

/-- C11 as stated does not hold once logging is switched off, which
`ToggleLogging` does from the tray menu: over the same ten timeout ticks on the
healthy application the loop keeps running, `Render` presents ten times and
`Log` is called ten times with the timeout message, but with `enableLogging`
false no line is written, so no timeout event is logged. -/
theorem C11_logging_disabled_counterexample :
    (RenderLoop (List.replicate 10 timeoutTick) healthyApp).m_isRunning = true ∧
    (RenderLoop (List.replicate 10 timeoutTick) healthyApp).m_d3dRenderer.trace.count
        Event.Present = healthy.trace.count Event.Present + 10 ∧
    (RenderLoop (List.replicate 10 timeoutTick) healthyApp).m_d3dRenderer.trace.count
        (Event.Log "AcquireNextFrame timed out (no new frame)\n") =
      healthy.trace.count (Event.Log "AcquireNextFrame timed out (no new frame)\n") + 10 ∧
    logFile (fun _ => false)
        (RenderLoop (List.replicate 10 timeoutTick) healthyApp).m_d3dRenderer.trace 0 [] = [] ∧
    (logFile (fun _ => false)
        (RenderLoop (List.replicate 10 timeoutTick) healthyApp).m_d3dRenderer.trace 0 []).count
      "AcquireNextFrame timed out (no new frame)\n" = 0 := by
  have h := RenderLoop_timeouts (List.replicate 10 timeoutTick) healthyApp
    (by with_unfolding_all decide) (by with_unfolding_all decide)
    (by set_option maxRecDepth 100000 in with_unfolding_all decide)
    (by set_option maxRecDepth 100000 in with_unfolding_all decide)
    (by set_option maxRecDepth 100000 in with_unfolding_all decide)
    (by set_option maxRecDepth 100000 in with_unfolding_all decide)
    (by set_option maxRecDepth 100000 in with_unfolding_all decide)
    (by set_option maxRecDepth 100000 in with_unfolding_all decide)
  refine ⟨h.1, h.2.2.2.2.2.2.1, h.2.2.2.2.1, ?_, ?_⟩
  · rw [logFile_const]; rfl
  · rw [logFile_const]; rfl

/-! ## C21 and C22: dispatch counts and the constant buffer size -/

/-- Masking a 64-bit value with `~255ULL` clears its low eight bits. -/
theorem land_mask_eq (x : Nat) (hx : x < SIZE_T_SIZE) :
    x &&& (SIZE_T_SIZE - 1 - 255) = x / 256 * 256 := by
  apply Nat.eq_of_testBit_eq
  intro j
  have hm : SIZE_T_SIZE - 1 - 255 = 2 ^ 8 * (2 ^ 56 - 1) := by decide
  have h256 : x / 256 * 256 = 2 ^ 8 * (x >>> 8) := by
    rw [Nat.shiftRight_eq_div_pow, Nat.mul_comm]
    rfl
  rw [Nat.testBit_land, hm, h256, Nat.testBit_mul_pow_two, Nat.testBit_mul_pow_two,
    Nat.testBit_two_pow_sub_one, Nat.testBit_shiftRight]
  by_cases h8 : 8 ≤ j
  · have e : 8 + (j - 8) = j := by omega
    rw [e]
    by_cases h64 : j < 64
    · simp [h8, show j - 8 < 56 by omega]
    · have hlt : x < 2 ^ j := by
        have : (2:Nat) ^ 64 ≤ 2 ^ j := Nat.pow_le_pow_right (by decide) (by omega)
        have h2 : SIZE_T_SIZE = 2 ^ 64 := rfl
        omega
      simp [Nat.testBit_lt_two_pow hlt]
  · simp [h8]

theorem alignUp256_eq (n : Nat) (hn : n ≤ SIZE_T_SIZE - 256) :
    alignUp256 n = (n + 255) / 256 * 256 := by
  have h2 : SIZE_T_SIZE = 2 ^ 64 := rfl
  have hlt : n + 255 < SIZE_T_SIZE := by
    have : (256 : Nat) ≤ 2 ^ 64 := by decide
    omega
  unfold alignUp256
  rw [Nat.mod_eq_of_lt hlt, land_mask_eq _ hlt]

theorem constantBufferSize_eq : constantBufferSize = 256 := by
  unfold constantBufferSize
  rw [packedSize_fields, alignUp256_eq 128 (by decide)]

theorem createConstantBuffers_m_constantBufferSize (e : ResourcesEnv) (n i : Nat)
    (s : D3D12Renderer) :
    (createConstantBuffers e n i s).2.m_constantBufferSize = s.m_constantBufferSize := by
  induction n generalizing i s with
  | zero => unfold createConstantBuffers; rfl
  | succ n ih =>
    unfold createConstantBuffers
    simp only [log_eq, throwHR_snd, apply_ite Prod.snd,
      apply_ite D3D12Renderer.m_constantBufferSize, set_proj, emit_proj,
      put_mappedConstants_proj, ih]
    simp only [ite_self]

theorem createResourcesTail_m_constantBufferSize (e : ResourcesEnv) (s : D3D12Renderer) :
    (createResourcesTail e s).2.m_constantBufferSize = constantBufferSize := by
  unfold constantBufferSize
  rw [packedSize_fields]
  unfold createResourcesTail
  simp only [log_eq, throwHR_snd, apply_ite Prod.snd,
    apply_ite D3D12Renderer.m_constantBufferSize, set_proj, emit_proj,
    put_m_constantBufferSize_proj, createConstantBuffers_m_constantBufferSize]
  simp only [ite_self]

/-- C22: the statement of `CreateResources` that sizes the per-frame constant
buffers assigns `m_constantBufferSize` the value of
`(sizeof(IllusionConfig) + 255) & ~255ULL`, which is 256, the least multiple
of 256 that is at least the 128 bytes of the configuration block; and for
every 64-bit `n` of at most `2 ^ 64 - 256` the expression `(n + 255) & ~255`
is a multiple of 256, is at least `n`, and is at most every multiple of 256
that is at least `n`. -/
theorem C22_constant_buffer_size (n : Nat) (hn : n ≤ SIZE_T_SIZE - 256) :
    (∀ (e : ResourcesEnv) (s : D3D12Renderer),
      (createResourcesTail e s).2.m_constantBufferSize = constantBufferSize) ∧
    constantBufferSize = alignUp256 (packedSize IllusionConfig.fields) ∧
    packedSize IllusionConfig.fields = 128 ∧
    constantBufferSize = 256 ∧
    256 ∣ alignUp256 n ∧ n ≤ alignUp256 n ∧
    ∀ m, 256 ∣ m → n ≤ m → alignUp256 n ≤ m := by
  refine ⟨createResourcesTail_m_constantBufferSize, rfl, packedSize_fields,
    constantBufferSize_eq, ?_, ?_, ?_⟩
  · rw [alignUp256_eq n hn]
    exact Dvd.intro_left _ rfl
  · rw [alignUp256_eq n hn]
    omega
  · intro m hm hnm
    rw [alignUp256_eq n hn]
    obtain ⟨k, rfl⟩ := hm
    have : (n + 255) / 256 ≤ k := by omega
    omega

/-- C22 at the size of the configuration block: 128 bytes are rounded up to
256. -/
theorem C22_constant_buffer_size_witness :
    128 ≤ SIZE_T_SIZE - 256 ∧ alignUp256 128 = 256 ∧ 256 ∣ alignUp256 128 ∧
      128 ≤ alignUp256 128 :=
  ⟨by decide, by decide, (C22_constant_buffer_size 128 (by decide)).2.2.2.2.1,
    (C22_constant_buffer_size 128 (by decide)).2.2.2.2.2.1⟩

/-- The dispatch of the compute block is the only `Dispatch` among its
commands. -/
theorem mem_computeCommands_Dispatch {W H i x y : Nat}
    (h : Event.Dispatch x y ∈ computeCommands W H i) :
    x = (W + 15) % UINT_SIZE / 16 ∧ y = (H + 15) % UINT_SIZE / 16 := by
  simp only [computeCommands, List.mem_cons, reduceCtorEq, Event.Dispatch.injEq,
    List.mem_nil_iff, or_false, false_or, List.not_mem_nil] at h
  exact h

/-- C21, amended: for every capture width and height of at most `2 ^ 32 - 16`,
the work-group counts of the `Dispatch` that the compute block of `Render`
records, and of the `Dispatch` of `ComputeDepth` in `Source.cpp`, are the
ceilings of `width / 16` and `height / 16`: 16 times the count covers the
dimension, and no smaller count does. -/
theorem C21_dispatch_counts (W H i x y : Nat) (hW : W ≤ UINT_SIZE - 16)
    (hH : H ≤ UINT_SIZE - 16)
    (hd : Event.Dispatch x y ∈ computeCommands W H i ∨
      Event.Dispatch x y = Source.ComputeDepth_Dispatch W H) :
    (W ≤ 16 * x ∧ ∀ n, W ≤ 16 * n → x ≤ n) ∧ (H ≤ 16 * y ∧ ∀ n, H ≤ 16 * n → y ≤ n) := by
  have h2 : UINT_SIZE = 4294967296 := rfl
  have hxy : x = (W + 15) % UINT_SIZE / 16 ∧ y = (H + 15) % UINT_SIZE / 16 := by
    rcases hd with hd | hd
    · exact mem_computeCommands_Dispatch hd
    · simpa [Source.ComputeDepth_Dispatch] using hd
  obtain ⟨rfl, rfl⟩ := hxy
  rw [Nat.mod_eq_of_lt (by omega), Nat.mod_eq_of_lt (by omega)]
  refine ⟨⟨by omega, fun n hn => ?_⟩, ⟨by omega, fun n hn => ?_⟩⟩ <;> omega

/-- C21 at the initial capture size 4096 by 2160: the compute block dispatches
256 by 135 groups. -/
theorem C21_dispatch_counts_witness :
    Event.Dispatch 256 135 ∈ computeCommands 4096 2160 0 ∧
      (4096 ≤ 16 * 256 ∧ ∀ n, 4096 ≤ 16 * n → 256 ≤ n) ∧
      (2160 ≤ 16 * 135 ∧ ∀ n, 2160 ≤ 16 * n → 135 ≤ n) :=
  ⟨by decide, C21_dispatch_counts 4096 2160 0 256 135 (by decide) (by decide)
    (Or.inl (by decide))⟩

/-- C21 as stated fails at the top of the 32-bit range: for the width
`2 ^ 32 - 1` the sum `width + 15` wraps to 14, so both variants dispatch 0
groups across, and 16 times 0 does not cover the width. -/
theorem C21_wide_capture_counterexample :
    Event.Dispatch 0 135 ∈ computeCommands 4294967295 2160 0 ∧
      Source.ComputeDepth_Dispatch 4294967295 2160 = Event.Dispatch 0 135 ∧
      4294967295 < UINT_SIZE ∧ ¬ (4294967295 ≤ 16 * 0) :=
  ⟨by decide, by decide, by decide, by decide⟩

/-! ## C30: the row copies of the two variants -/

theorem Source_captureRowCopy_succ (W H P : Nat) (pData u : Nat → Nat) :
    Source.captureRowCopy W (H + 1) P pData u =
      Source.copyRow W P pData (Source.captureRowCopy W H P pData u) H := by
  unfold Source.captureRowCopy
  rw [List.range_succ, List.foldl_append]
  rfl

/-- With a pitch of at least `W * 4` and `y * P` below `2 ^ 32`, the loop
bodies of the two variants are the same copy. -/
theorem copyRow_eq_Source {W P y : Nat} (hP : W * 4 ≤ P) (hP2 : P < UINT_SIZE)
    (hy : y < UINT_SIZE) (hyP : y * P < UINT_SIZE) (pData u : Nat → Nat) :
    copyRow W P pData u y = Source.copyRow W P pData u y := by
  have hW : W * 4 < UINT_SIZE := by omega
  have h1 : y * (W * 4) ≤ y * P := Nat.mul_le_mul_left _ hP
  have h2 : y * W * 4 = y * (W * 4) := Nat.mul_assoc _ _ _
  have h3 : y * W < UINT_SIZE := by omega
  unfold copyRow Source.copyRow
  rw [rowDstOffset_eq W hy, rowSrcOffset_eq hP2 hy, copyBytes_eq, rowBytes_eq hW,
    Nat.min_eq_right hP, if_neg (Nat.lt_irrefl _), Nat.mod_eq_of_lt h3,
    Nat.mod_eq_of_lt (by omega), Nat.mod_eq_of_lt hyP, Nat.mod_eq_of_lt hW, h2]

theorem captureRowCopy_eq_Source {W P : Nat} (hP : W * 4 ≤ P) (pData u : Nat → Nat) (H : Nat)
    (hH : H < UINT_SIZE) (hHP : H * P < UINT_SIZE) :
    captureRowCopy W H P pData u = Source.captureRowCopy W H P pData u := by
  induction H with
  | zero => unfold captureRowCopy Source.captureRowCopy; rfl
  | succ n ih =>
    have e : (n + 1) * P = n * P + P := Nat.succ_mul _ _
    rw [captureRowCopy_succ, Source_captureRowCopy_succ, ih (by omega) (by omega)]
    exact copyRow_eq_Source hP (by omega) (by omega) (by omega) _ _

/-- C30, amended: for every width, every `UINT` height and every pitch with
`pitch ≥ width * 4` and `height * pitch < 2 ^ 32`, and for all source and
upload-buffer contents, the row loop of `CaptureDesktop` in `Main.cpp` and the
row loop of `CaptureDesktop` in `Source.cpp` leave the same bytes in the upload
buffer; and for `pitch < width * 4 < 2 ^ 32` the copy of `Source.cpp` for row
`y` reads the byte `pitch` bytes after the start of the row, which lies beyond
the `pitch` bytes of the row, whereas every byte the copy of `Main.cpp` reads
for the row lies within them. -/
theorem C30_row_copies_agree (W H P y : Nat) (pData u : Nat → Nat) :
    (W * 4 ≤ P → H < UINT_SIZE → H * P < UINT_SIZE →
      ∀ a, captureRowCopy W H P pData u a = Source.captureRowCopy W H P pData u a) ∧
    (P < W * 4 → W * 4 < UINT_SIZE →
      y * P % UINT_SIZE + P ∈ Source.copyRowReads W P y ∧
      ∀ o ∈ copyRowReads W P y, o < rowSrcOffset P y + P) := by
  refine ⟨fun hP hH hHP a => ?_, fun hP hW => ⟨?_, fun o ho => ?_⟩⟩
  · rw [captureRowCopy_eq_Source hP pData u H hH hHP]
  · unfold Source.copyRowReads
    rw [mem_memcpyReads, Nat.mod_eq_of_lt hW]
    omega
  · unfold copyRowReads at ho
    rw [mem_memcpyReads] at ho
    have := copyBytes_le_pitch W P
    omega

/-- C30 on a capture of 2 by 2 pixels: with a pitch of 12 bytes the two
variants leave the same byte at offset 9 of the upload buffer, and with a
pitch of 4 bytes the copy of `Source.cpp` for row 1 reads offset 8, the start
of the next row. -/
theorem C30_row_copies_agree_witness :
    (2 * 4 ≤ 12 ∧ 2 < UINT_SIZE ∧ 2 * 12 < UINT_SIZE ∧
      captureRowCopy 2 2 12 (fun a => a) (fun _ => 0) 9 =
        Source.captureRowCopy 2 2 12 (fun a => a) (fun _ => 0) 9) ∧
    (4 < 2 * 4 ∧ 2 * 4 < UINT_SIZE ∧ 1 * 4 % UINT_SIZE + 4 ∈ Source.copyRowReads 2 4 1) :=
  ⟨⟨by decide, by decide, by decide,
    (C30_row_copies_agree 2 2 12 0 (fun a => a) (fun _ => 0)).1 (by decide) (by decide)
      (by decide) 9⟩,
   by decide, by decide,
    ((C30_row_copies_agree 2 2 4 1 (fun a => a) (fun _ => 0)).2 (by decide) (by decide)).1⟩

/-- C30 as stated fails where a 32-bit product wraps.  With a width of 1, a
height of 3 and a pitch of `2 ^ 31` (at least `width * 4`), row 2 starts at
source offset `2 ^ 32`: `Main.cpp` forms the offset in `size_t` and copies the
byte found there, `Source.cpp` forms it in `UINT`, where it wraps to 0, and
copies the byte at offset 0; the upload buffers differ at offset 8.  And with
a width of `2 ^ 30` the length `width * 4` wraps to 0, so for a pitch of 16
the copy of `Source.cpp` reads nothing at all. -/
theorem C30_wrapped_offset_counterexample :
    (1 * 4 ≤ 2147483648 ∧
      captureRowCopy 1 3 2147483648 (fun a => if a < 4294967296 then 0 else 1) (fun _ => 0) 8
        = 1 ∧
      Source.captureRowCopy 1 3 2147483648 (fun a => if a < 4294967296 then 0 else 1)
        (fun _ => 0) 8 = 0) ∧
    (16 < 1073741824 * 4 ∧ Source.copyRowReads 1073741824 16 1 = []) := by
  refine ⟨⟨by decide, ?_, ?_⟩, by decide, by decide⟩
  · with_unfolding_all decide
  · with_unfolding_all decide

/-! ## C23: the optional compute kernel -/

theorem getSwapChainBuffers_congr {e e1 : CreateEnv} (h : e1.getBuffer = e.getBuffer)
    (n i : Nat) (s : D3D12Renderer) :
    getSwapChainBuffers e1 n i s = getSwapChainBuffers e n i s := by
  induction n generalizing i s with
  | zero => unfold getSwapChainBuffers; rfl
  | succ n ih =>
    unfold getSwapChainBuffers
    simp only [h, ih]

theorem createCommandAllocators_congr {e e1 : CreateEnv}
    (h : e1.createCommandAllocator = e.createCommandAllocator) (n i : Nat) (s : D3D12Renderer) :
    createCommandAllocators e1 n i s = createCommandAllocators e n i s := by
  induction n generalizing i s with
  | zero => unfold createCommandAllocators; rfl
  | succ n ih =>
    unfold createCommandAllocators
    simp only [h, ih]

/-- If `CreateDeviceAndResources` returns true, it also returns true under
platform results that differ only inside `CreatePipelines` and let
`CreatePipelines` return true wherever it did before. -/
theorem CreateDeviceAndResources_fst_mono (e e1 : CreateEnv) (s : D3D12Renderer)
    (h1 : e1.createDevice = e.createDevice) (h2 : e1.createCommandQueue = e.createCommandQueue)
    (h3 : e1.createSwapChainForHwnd = e.createSwapChainForHwnd)
    (h4 : e1.swapChainQueryInterface = e.swapChainQueryInterface)
    (h5 : e1.createRtvHeap = e.createRtvHeap) (h6 : e1.createSrvHeap = e.createSrvHeap)
    (h7 : e1.createSamplerHeap = e.createSamplerHeap)
    (h8 : e1.rtvDescriptorSize = e.rtvDescriptorSize) (h9 : e1.getBuffer = e.getBuffer)
    (h10 : e1.createCommandAllocator = e.createCommandAllocator)
    (h11 : e1.createCommandList = e.createCommandList)
    (h12 : e1.closeCommandList = e.closeCommandList) (h13 : e1.createFence = e.createFence)
    (h14 : e1.createEvent = e.createEvent) (h15 : e1.resources = e.resources)
    (hp : ∀ t, (CreatePipelines e.pipelines t).1 = Outcome.ret true →
      (CreatePipelines e1.pipelines t).1 = Outcome.ret true)
    (h : (CreateDeviceAndResources e s).1 = Outcome.ret true) :
    (CreateDeviceAndResources e1 s).1 = Outcome.ret true := by
  have key : ∀ r : Outcome, (if r = Outcome.ret false then Outcome.ret false
      else if r ≠ Outcome.ret true then r else Outcome.ret true) = Outcome.ret true →
      r = Outcome.ret true := by
    intro r hr
    split_ifs at hr with a b
    · simp at hr
    · exact absurd hr b
    · exact not_not.mp b
  unfold CreateDeviceAndResources at h ⊢
  simp only [h1, h2, h3, h4, h5, h6, h7, h8, h11, h12, h13, h14, h15,
    getSwapChainBuffers_congr h9, createCommandAllocators_congr h10]
  simp only [apply_ite Prod.fst, throwHR_fst, throwTool_fst] at h ⊢
  generalize getSwapChainBuffers e FRAME_COUNT 0 _ = r1 at h ⊢
  generalize createCommandAllocators e FRAME_COUNT 0 _ = r2 at h ⊢
  generalize CreateResources e.resources _ = r3 at h ⊢
  generalize (ite (List.indexOf true (List.take 4 e.createDevice) <
    (List.take 4 e.createDevice).length) _ _ : D3D12Renderer) = S0 at h ⊢
  have hcp := hp r3.2
  generalize (CreatePipelines e.pipelines r3.2).1 = o at h hcp
  generalize (CreatePipelines e1.pipelines r3.2).1 = o1 at hcp ⊢
  by_cases hc : (!S0.ptr Handle.m_device) = true
  · rw [if_pos hc] at h
    exact Outcome.noConfusion h
  rw [if_neg hc] at h ⊢
  clear hc
  by_cases hc : (!e.createCommandQueue) = true
  · rw [if_pos hc] at h
    exact Outcome.noConfusion h
  rw [if_neg hc] at h ⊢
  clear hc
  by_cases hc : (!e.createSwapChainForHwnd) = true
  · rw [if_pos hc] at h
    exact Outcome.noConfusion h
  rw [if_neg hc] at h ⊢
  clear hc
  by_cases hc : (!e.swapChainQueryInterface) = true
  · rw [if_pos hc] at h
    exact Outcome.noConfusion h
  rw [if_neg hc] at h ⊢
  clear hc
  by_cases hc : (!e.createRtvHeap) = true
  · rw [if_pos hc] at h
    exact Outcome.noConfusion h
  rw [if_neg hc] at h ⊢
  clear hc
  by_cases hc : (!e.createSrvHeap) = true
  · rw [if_pos hc] at h
    exact Outcome.noConfusion h
  rw [if_neg hc] at h ⊢
  clear hc
  by_cases hc : (!e.createSamplerHeap) = true
  · rw [if_pos hc] at h
    exact Outcome.noConfusion h
  rw [if_neg hc] at h ⊢
  clear hc
  by_cases hc : r1.1 ≠ Outcome.ret true
  · rw [if_pos hc] at h
    exact absurd h hc
  rw [if_neg hc] at h ⊢
  clear hc
  by_cases hc : r2.1 ≠ Outcome.ret true
  · rw [if_pos hc] at h
    exact absurd h hc
  rw [if_neg hc] at h ⊢
  clear hc
  by_cases hc : (!e.createCommandList) = true
  · rw [if_pos hc] at h
    exact Outcome.noConfusion h
  rw [if_neg hc] at h ⊢
  clear hc
  by_cases hc : (!e.closeCommandList) = true
  · rw [if_pos hc] at h
    exact Outcome.noConfusion h
  rw [if_neg hc] at h ⊢
  clear hc
  by_cases hc : (!e.createFence) = true
  · rw [if_pos hc] at h
    exact Outcome.noConfusion h
  rw [if_neg hc] at h ⊢
  clear hc
  by_cases hc : (!e.createEvent) = true
  · rw [if_pos hc] at h
    exact Outcome.noConfusion h
  rw [if_neg hc] at h ⊢
  clear hc
  by_cases hc : r3.1 = Outcome.ret false
  · rw [if_pos hc] at h
    exact Bool.noConfusion (Outcome.ret.inj h)
  rw [if_neg hc] at h ⊢
  clear hc
  by_cases hc : r3.1 ≠ Outcome.ret true
  · rw [if_pos hc] at h
    exact absurd h hc
  rw [if_neg hc] at h ⊢
  clear hc
  rw [hcp (key _ h)]
  exact if_neg fun hh => Bool.noConfusion (Outcome.ret.inj hh)

/-- The result and the pipeline handles of `CreatePipelines` when the kernel
cannot be loaded or compiled and every other step succeeds. -/
theorem CreatePipelines_of_no_kernel (e : PipelinesEnv) (s : D3D12Renderer)
    (hdev : s.ptr Handle.m_device = true)
    (hk : e.readFogCompute = false ∨ e.compileFogCompute = false)
    (h1 : e.serializeRootSignature = true) (h2 : e.createRootSignature = true)
    (h3 : e.serializeComputeRootSignature = true) (h4 : e.createComputeRootSignature = true)
    (h5 : e.readVertexShader = true) (h6 : e.readPixelShader = true)
    (h7 : e.compileVertexShader = true) (h8 : e.compilePixelShader = true)
    (h9 : e.createGraphicsPipelineState = true) :
    (CreatePipelines e s).1 = Outcome.ret true ∧
      (CreatePipelines e s).2.ptr Handle.m_computePso = s.ptr Handle.m_computePso ∧
      (CreatePipelines e s).2.ptr Handle.m_graphicsPso = true := by
  have hc : ∀ t : D3D12Renderer, (createComputePipeline e t).1 = Outcome.ret true ∧
      (createComputePipeline e t).2.ptr = t.ptr := by
    intro t
    unfold createComputePipeline
    rcases hk with hk | hk
    · simp only [hk, Bool.not_false, if_true, log_eq, emit_proj, and_self]
    · cases hr : e.readFogCompute <;>
        simp only [hk, Bool.not_false, Bool.not_true, if_true, log_eq, emit_proj, and_self,
          Bool.false_eq_true, if_false]
  unfold CreatePipelines
  simp only [hdev, h1, h2, h3, h4, h5, h6, h7, h8, h9, (hc _).1, (hc _).2, Bool.not_true,
    Bool.false_eq_true, if_false, ne_eq, not_true_eq_false, log_eq, emit_proj, set_proj,
    reduceCtorEq, if_true, and_self]

theorem createComputePipeline_fst (e : PipelinesEnv) (t : D3D12Renderer) :
    (createComputePipeline e t).1 =
      if e.readFogCompute = true ∧ e.compileFogCompute = true ∧
          e.createComputePipelineState = false then
        Outcome.threw "CreateComputePipelineState failed"
      else Outcome.ret true := by
  unfold createComputePipeline
  cases e.readFogCompute <;> cases e.compileFogCompute <;>
    cases e.createComputePipelineState <;> simp [throwHR]

/-- The call `CreatePipelines` returns true exactly when the device exists,
every step outside the kernel block succeeds, and the compute pipeline state
can be created if the kernel was loaded and compiled. -/
theorem CreatePipelines_fst_true (e : PipelinesEnv) (s : D3D12Renderer) :
    (CreatePipelines e s).1 = Outcome.ret true ↔
      s.ptr Handle.m_device = true ∧ e.serializeRootSignature = true ∧
      e.createRootSignature = true ∧ e.serializeComputeRootSignature = true ∧
      e.createComputeRootSignature = true ∧
      ¬ (e.readFogCompute = true ∧ e.compileFogCompute = true ∧
          e.createComputePipelineState = false) ∧
      e.readVertexShader = true ∧ e.readPixelShader = true ∧ e.compileVertexShader = true ∧
      e.compilePixelShader = true ∧ e.createGraphicsPipelineState = true := by
  unfold CreatePipelines
  simp only [apply_ite Prod.fst, throwHR_fst, createComputePipeline_fst]
  cases s.ptr Handle.m_device
  · simp
  cases e.serializeRootSignature
  · simp
  cases e.createRootSignature
  · simp
  cases e.serializeComputeRootSignature
  · simp
  cases e.createComputeRootSignature
  · simp
  by_cases hk : e.readFogCompute = true ∧ e.compileFogCompute = true ∧
      e.createComputePipelineState = false
  · simp [hk]
  rw [if_neg hk]
  cases e.readVertexShader
  · simp
  cases e.readPixelShader
  · simp
  cases e.compileVertexShader
  · simp
  cases e.compilePixelShader
  · simp
  cases e.createGraphicsPipelineState
  · simp
  simpa using hk

/-- C23: in `CreatePipelines`, called with the device created and the compute
pipeline handle null, if `FogCompute.hlsl` cannot be read or cannot be
compiled and every other step (both root signatures, the two shaders of the
graphics pipeline and the graphics pipeline state) succeeds, the call returns
true, the compute pipeline handle is still null and the graphics pipeline
state is non-null; and whenever `CreateDeviceAndResources` returns true, it
also returns true, from the same state, when everything else is as before and
the kernel cannot be read, or cannot be compiled. -/
theorem C23_optional_kernel (e : PipelinesEnv) (s : D3D12Renderer) (c : CreateEnv)
    (t : D3D12Renderer) (hdev : s.ptr Handle.m_device = true)
    (hpso : s.ptr Handle.m_computePso = false)
    (hk : e.readFogCompute = false ∨ e.compileFogCompute = false)
    (h1 : e.serializeRootSignature = true) (h2 : e.createRootSignature = true)
    (h3 : e.serializeComputeRootSignature = true) (h4 : e.createComputeRootSignature = true)
    (h5 : e.readVertexShader = true) (h6 : e.readPixelShader = true)
    (h7 : e.compileVertexShader = true) (h8 : e.compilePixelShader = true)
    (h9 : e.createGraphicsPipelineState = true)
    (hc : (CreateDeviceAndResources c t).1 = Outcome.ret true) :
    ((CreatePipelines e s).1 = Outcome.ret true ∧
      (CreatePipelines e s).2.ptr Handle.m_computePso = false ∧
      (CreatePipelines e s).2.ptr Handle.m_graphicsPso = true) ∧
    (CreateDeviceAndResources c.withoutFogFile t).1 = Outcome.ret true ∧
    (CreateDeviceAndResources c.withoutFogCompile t).1 = Outcome.ret true := by
  have hn := CreatePipelines_of_no_kernel e s hdev hk h1 h2 h3 h4 h5 h6 h7 h8 h9
  refine ⟨⟨hn.1, hn.2.1.trans hpso, hn.2.2⟩, ?_, ?_⟩
  · refine CreateDeviceAndResources_fst_mono c c.withoutFogFile t rfl rfl rfl rfl rfl rfl rfl rfl rfl rfl rfl rfl
      rfl rfl rfl (fun u hu => ?_) hc
    rw [CreatePipelines_fst_true] at hu ⊢
    simp only [CreateEnv.withoutFogFile, Bool.false_eq_true, false_and, not_false_eq_true,
      true_and]
    exact ⟨hu.1, hu.2.1, hu.2.2.1, hu.2.2.2.1, hu.2.2.2.2.1, hu.2.2.2.2.2.2⟩
  · refine CreateDeviceAndResources_fst_mono c c.withoutFogCompile t rfl rfl rfl rfl rfl rfl rfl rfl rfl rfl rfl rfl
      rfl rfl rfl (fun u hu => ?_) hc
    rw [CreatePipelines_fst_true] at hu ⊢
    simp only [CreateEnv.withoutFogCompile, Bool.false_eq_true, false_and, and_false,
      not_false_eq_true, true_and]
    exact ⟨hu.1, hu.2.1, hu.2.2.1, hu.2.2.2.1, hu.2.2.2.2.1, hu.2.2.2.2.2.2⟩

/-- C23 with `FogCompute.hlsl` missing: on a renderer whose device exists
`CreatePipelines` returns true without a compute pipeline, and creation from
the constructed renderer succeeds with and without the kernel. -/
theorem C23_optional_kernel_witness :
    ((D3D12Renderer.ctor false false).set Handle.m_device true).ptr Handle.m_device = true ∧
    (CreateDeviceAndResources okCreate (D3D12Renderer.ctor false false)).1 = Outcome.ret true ∧
    ((CreatePipelines noFogPipelines
        ((D3D12Renderer.ctor false false).set Handle.m_device true)).1 = Outcome.ret true ∧
      (CreatePipelines noFogPipelines
        ((D3D12Renderer.ctor false false).set Handle.m_device true)).2.ptr Handle.m_computePso
        = false ∧
      (CreatePipelines noFogPipelines
        ((D3D12Renderer.ctor false false).set Handle.m_device true)).2.ptr Handle.m_graphicsPso
        = true) ∧
    (CreateDeviceAndResources okCreate.withoutFogFile (D3D12Renderer.ctor false false)).1
      = Outcome.ret true ∧
    (CreateDeviceAndResources okCreate.withoutFogCompile (D3D12Renderer.ctor false false)).1
      = Outcome.ret true := by
  have hdev : ((D3D12Renderer.ctor false false).set Handle.m_device true).ptr Handle.m_device
      = true := by with_unfolding_all decide
  have hpso : ((D3D12Renderer.ctor false false).set Handle.m_device true).ptr
      Handle.m_computePso = false := by with_unfolding_all decide
  have hc : (CreateDeviceAndResources okCreate (D3D12Renderer.ctor false false)).1
      = Outcome.ret true := by
    set_option maxRecDepth 100000 in
    with_unfolding_all decide
  exact ⟨hdev, hc, C23_optional_kernel noFogPipelines _ okCreate _ hdev hpso (Or.inl rfl) rfl rfl
    rfl rfl rfl rfl rfl rfl rfl hc⟩

/-! ## C24 and C25: what a failed `Initialize` and `Cleanup` release -/

theorem Cleanup_ptr (p : Bool) (s : D3D12Renderer) :
    (Cleanup p s).ptr = cleanupPtr p s.ptr := by
  unfold Cleanup
  simp only [log_eq, emit_proj, put_ptr_proj, WaitForGPU_proj, apply_ite D3D12Renderer.ptr,
    ite_self]

/-- C24 as stated does not hold: nothing is released at the point of failure.
On a newly constructed renderer, an `Initialize` in which `CreateCommandQueue`
fails returns false and leaves the factory, the adapter and the device it
created non-null; an `Initialize` in which the creation of the graphics
pipeline state fails returns false and leaves the device, the queue, the swap
chain, the command list, the fence, the capture texture and the constant
buffer of slot 0 non-null.  Neither call records a `Cleanup`. -/
theorem C24_release_at_failure_counterexample :
    ((Initialize queueFailsInit (D3D12Renderer.ctor false false)).1 = Outcome.ret false ∧
      (Initialize queueFailsInit (D3D12Renderer.ctor false false)).2.ptr Handle.m_factory = true ∧
      (Initialize queueFailsInit (D3D12Renderer.ctor false false)).2.ptr Handle.m_adapter = true ∧
      (Initialize queueFailsInit (D3D12Renderer.ctor false false)).2.ptr Handle.m_device = true ∧
      (Initialize queueFailsInit (D3D12Renderer.ctor false false)).2.trace.count
        (Event.Cleanup false) = 0 ∧
      (Initialize queueFailsInit (D3D12Renderer.ctor false false)).2.trace.count
        (Event.Cleanup true) = 0) ∧
    ((Initialize noGraphicsPsoInit (D3D12Renderer.ctor false false)).1 = Outcome.ret false ∧
      (Initialize noGraphicsPsoInit (D3D12Renderer.ctor false false)).2.ptr Handle.m_device = true ∧
      (Initialize noGraphicsPsoInit (D3D12Renderer.ctor false false)).2.ptr Handle.m_commandQueue
        = true ∧
      (Initialize noGraphicsPsoInit (D3D12Renderer.ctor false false)).2.ptr Handle.m_swapChain
        = true ∧
      (Initialize noGraphicsPsoInit (D3D12Renderer.ctor false false)).2.ptr Handle.m_commandList
        = true ∧
      (Initialize noGraphicsPsoInit (D3D12Renderer.ctor false false)).2.ptr Handle.m_fence = true ∧
      (Initialize noGraphicsPsoInit (D3D12Renderer.ctor false false)).2.ptr Handle.m_screenTexture
        = true ∧
      (Initialize noGraphicsPsoInit (D3D12Renderer.ctor false false)).2.ptr
        (Handle.m_constantBuffers 0) = true ∧
      (Initialize noGraphicsPsoInit (D3D12Renderer.ctor false false)).2.trace.count
        (Event.Cleanup false) = 0 ∧
      (Initialize noGraphicsPsoInit (D3D12Renderer.ctor false false)).2.trace.count
        (Event.Cleanup true) = 0) := by
  set_option maxRecDepth 100000 in
  with_unfolding_all decide

/-- C25, what `Cleanup(true)` does: adapter, factory and window handle keep
their values; the device, the queue, the swap chain, the three heaps, the
command list, the textures, the vertex buffer, the duplication, staging and
upload resources, both pipeline states, both root signatures, the fence and
its event are null; for every slot below `FRAME_COUNT` the render target, the
command allocator and the constant buffer are null, and the mapped pointer is
null where the constant buffer existed; but `m_d3d11Device` and
`m_d3d11Context`, which `CreateResources` creates, keep their values: they are
not released. -/
theorem C25_cleanup_keeps_capture_device (s : D3D12Renderer) :
    ((Cleanup true s).ptr Handle.m_adapter = s.ptr Handle.m_adapter ∧
      (Cleanup true s).ptr Handle.m_factory = s.ptr Handle.m_factory ∧
      (Cleanup true s).ptr Handle.m_hwnd = s.ptr Handle.m_hwnd) ∧
    ((Cleanup true s).ptr Handle.m_device = false ∧
      (Cleanup true s).ptr Handle.m_commandQueue = false ∧
      (Cleanup true s).ptr Handle.m_swapChain = false ∧
      (Cleanup true s).ptr Handle.m_rtvHeap = false ∧
      (Cleanup true s).ptr Handle.m_srvHeap = false ∧
      (Cleanup true s).ptr Handle.m_samplerHeap = false ∧
      (Cleanup true s).ptr Handle.m_commandList = false ∧
      (Cleanup true s).ptr Handle.m_screenTexture = false ∧
      (Cleanup true s).ptr Handle.m_depthTexture = false ∧
      (Cleanup true s).ptr Handle.m_vertexBuffer = false ∧
      (Cleanup true s).ptr Handle.m_d3d11Duplication = false ∧
      (Cleanup true s).ptr Handle.m_d3d11StagingTexture = false ∧
      (Cleanup true s).ptr Handle.m_d3d12UploadBuffer = false ∧
      (Cleanup true s).ptr Handle.m_rootSignature = false ∧
      (Cleanup true s).ptr Handle.m_computePso = false ∧
      (Cleanup true s).ptr Handle.m_graphicsPso = false ∧
      (Cleanup true s).ptr Handle.m_disparityTexture = false ∧
      (Cleanup true s).ptr Handle.m_computeRootSignature = false ∧
      (Cleanup true s).ptr Handle.m_fence = false ∧
      (Cleanup true s).ptr Handle.m_fenceEvent = false) ∧
    (∀ i, i < FRAME_COUNT →
      (Cleanup true s).ptr (Handle.m_renderTargets i) = false ∧
      (Cleanup true s).ptr (Handle.m_commandAllocators i) = false ∧
      (Cleanup true s).ptr (Handle.m_constantBuffers i) = false ∧
      (s.ptr (Handle.m_constantBuffers i) = true →
        (Cleanup true s).ptr (Handle.m_mappedConstantData i) = false)) ∧
    (Cleanup true s).ptr Handle.m_d3d11Device = s.ptr Handle.m_d3d11Device ∧
    (Cleanup true s).ptr Handle.m_d3d11Context = s.ptr Handle.m_d3d11Context := by
  rw [Cleanup_ptr]
  refine ⟨⟨rfl, rfl, rfl⟩, ⟨rfl, rfl, rfl, rfl, rfl, rfl, rfl, rfl, rfl, rfl, rfl, rfl, rfl, rfl,
    rfl, rfl, rfl, rfl, rfl, rfl⟩, fun i hi => ?_, rfl, rfl⟩
  simp only [cleanupPtr, hi, if_true, true_and]
  intro h
  rw [if_pos h]

/-- C25 on the renderer a successful `Initialize` leaves: after `Cleanup(true)`
the slot 1 resources are null, and the capture device and its context are
still non-null. -/
theorem C25_cleanup_keeps_capture_device_witness :
    1 < FRAME_COUNT ∧ healthy.ptr (Handle.m_constantBuffers 1) = true ∧
      (Cleanup true healthy).ptr (Handle.m_mappedConstantData 1) = false ∧
      healthy.ptr Handle.m_d3d11Device = true ∧
      (Cleanup true healthy).ptr Handle.m_d3d11Device = true ∧
      healthy.ptr Handle.m_d3d11Context = true ∧
      (Cleanup true healthy).ptr Handle.m_d3d11Context = true := by
  have hcb : healthy.ptr (Handle.m_constantBuffers 1) = true := by
    set_option maxRecDepth 100000 in
    with_unfolding_all decide
  have hdev : healthy.ptr Handle.m_d3d11Device = true := by
    set_option maxRecDepth 100000 in
    with_unfolding_all decide
  have hctx : healthy.ptr Handle.m_d3d11Context = true := by
    set_option maxRecDepth 100000 in
    with_unfolding_all decide
  have h := C25_cleanup_keeps_capture_device healthy
  exact ⟨by decide, hcb, (h.2.2.1 1 (by decide)).2.2.2 hcb, hdev, h.2.2.2.1.trans hdev, hctx,
    h.2.2.2.2.trans hctx⟩

/-! ## C28: the slot index in `RenderFallback` and `CaptureDesktop` -/

/-- C28 as stated, for every 32-bit value the swap chain may report, does not
hold: on the renderer a successful `Initialize` leaves, when the reported back
buffer index is 3, `Render` stores the index, rejects it and returns false;
`RenderFallback` stores it and reads `m_commandAllocators[3]`, past the
`FRAME_COUNT` slots; and after the loop iteration in which `Render` rejected
the index (the recovery the loop starts succeeds), `m_frameIndex` is still 3
and the `CaptureDesktop` call of the next iteration, having acquired and copied
a frame, reads `m_commandAllocators[3]`. -/
theorem C28_unchecked_slot_index_counterexample :
    ((Render badIndexTick.render healthy).1 = Outcome.ret false ∧
      (Render badIndexTick.render healthy).2.m_frameIndex = 3) ∧
    ((RenderFallback fallbackIndex3 healthy).1 = Outcome.fault ∧
      (RenderFallback fallbackIndex3 healthy).2.m_frameIndex = 3 ∧
      ¬ (3 < FRAME_COUNT)) ∧
    ((RenderLoopIteration badIndexTick healthyApp).m_isRunning = true ∧
      (RenderLoopIteration badIndexTick healthyApp).faulted = false ∧
      (RenderLoopIteration badIndexTick healthyApp).m_d3dRenderer.m_frameIndex = 3 ∧
      (CaptureDesktop okCapture (RenderLoopIteration badIndexTick healthyApp).m_d3dRenderer).1
        = Outcome.fault ∧
      (RenderLoop [badIndexTick, okTick] healthyApp).faulted = true) := by
  set_option maxRecDepth 100000 in
  with_unfolding_all decide

/-! ## Pointer members written by the creation steps -/

theorem getSwapChainBuffers_ptr (e : CreateEnv) (n i : Nat) (s : D3D12Renderer) (k : Handle)
    (hk : ∀ j, k ≠ Handle.m_renderTargets j) :
    (getSwapChainBuffers e n i s).2.ptr k = s.ptr k := by
  induction n generalizing i s with
  | zero => unfold getSwapChainBuffers; rfl
  | succ n ih =>
    unfold getSwapChainBuffers
    simp only [log_eq, throwHR_snd, apply_ite Prod.snd, apply_ite D3D12Renderer.ptr,
      ite_apply, set_proj, emit_proj, ih, hk, if_false]
    simp only [ite_self]

/-- When the loop returns true, the render targets of its slots are non-null. -/
theorem getSwapChainBuffers_true (e : CreateEnv) (n i : Nat) (s : D3D12Renderer)
    (h : (getSwapChainBuffers e n i s).1 = Outcome.ret true) (j : Nat) :
    (getSwapChainBuffers e n i s).2.ptr (Handle.m_renderTargets j) =
      if i ≤ j ∧ j < i + n then true else s.ptr (Handle.m_renderTargets j) := by
  induction n generalizing i s with
  | zero =>
    unfold getSwapChainBuffers
    rw [if_neg (by omega)]
  | succ n ih =>
    unfold getSwapChainBuffers at h ⊢
    cases hb : e.getBuffer i
    · simp [hb, throwHR] at h
    · simp only [hb, Bool.not_true, Bool.false_eq_true, if_false] at h ⊢
      rw [ih _ _ h]
      simp only [set_proj, Handle.m_renderTargets.injEq]
      split_ifs <;> first | rfl | omega

theorem createCommandAllocators_ptr (e : CreateEnv) (n i : Nat) (s : D3D12Renderer) (k : Handle)
    (hk : ∀ j, k ≠ Handle.m_commandAllocators j) :
    (createCommandAllocators e n i s).2.ptr k = s.ptr k := by
  induction n generalizing i s with
  | zero => unfold createCommandAllocators; rfl
  | succ n ih =>
    unfold createCommandAllocators
    simp only [log_eq, throwHR_snd, apply_ite Prod.snd, apply_ite D3D12Renderer.ptr,
      ite_apply, set_proj, emit_proj, ih, hk, if_false]
    simp only [ite_self]

theorem createCommandAllocators_true (e : CreateEnv) (n i : Nat) (s : D3D12Renderer)
    (h : (createCommandAllocators e n i s).1 = Outcome.ret true) (j : Nat) :
    (createCommandAllocators e n i s).2.ptr (Handle.m_commandAllocators j) =
      if i ≤ j ∧ j < i + n then true else s.ptr (Handle.m_commandAllocators j) := by
  induction n generalizing i s with
  | zero =>
    unfold createCommandAllocators
    rw [if_neg (by omega)]
  | succ n ih =>
    unfold createCommandAllocators at h ⊢
    cases hb : e.createCommandAllocator i
    · simp [hb, throwHR] at h
    · simp only [hb, Bool.not_true, Bool.false_eq_true, if_false] at h ⊢
      rw [ih _ _ h]
      simp only [set_proj, Handle.m_commandAllocators.injEq]
      split_ifs <;> first | rfl | omega

theorem createConstantBuffers_ptr (e : ResourcesEnv) (n i : Nat) (s : D3D12Renderer) (k : Handle)
    (hk : ∀ j, k ≠ Handle.m_constantBuffers j) (hk2 : ∀ j, k ≠ Handle.m_mappedConstantData j) :
    (createConstantBuffers e n i s).2.ptr k = s.ptr k := by
  induction n generalizing i s with
  | zero => unfold createConstantBuffers; rfl
  | succ n ih =>
    unfold createConstantBuffers
    simp only [log_eq, throwHR_snd, apply_ite Prod.snd, apply_ite D3D12Renderer.ptr,
      ite_apply, set_proj, emit_proj, put_mappedConstants_proj, ih, hk, hk2, if_false]
    simp only [ite_self]

theorem createConstantBuffers_true (e : ResourcesEnv) (n i : Nat) (s : D3D12Renderer)
    (h : (createConstantBuffers e n i s).1 = Outcome.ret true) (j : Nat) :
    (createConstantBuffers e n i s).2.ptr (Handle.m_constantBuffers j) =
      (if i ≤ j ∧ j < i + n then true else s.ptr (Handle.m_constantBuffers j)) ∧
    (createConstantBuffers e n i s).2.ptr (Handle.m_mappedConstantData j) =
      (if i ≤ j ∧ j < i + n then true else s.ptr (Handle.m_mappedConstantData j)) := by
  induction n generalizing i s with
  | zero =>
    unfold createConstantBuffers
    rw [if_neg (by omega), if_neg (by omega)]
    exact ⟨rfl, rfl⟩
  | succ n ih =>
    unfold createConstantBuffers at h ⊢
    cases hb : e.createConstantBuffer i
    · simp [hb, throwHR] at h
    cases hm : e.mapConstantBuffer i
    · simp [hb, hm, throwHR] at h
    simp only [hb, hm, Bool.not_true, Bool.false_eq_true, if_false] at h ⊢
    rw [(ih _ _ h).1, (ih _ _ h).2]
    simp only [set_proj, put_mappedConstants_proj, Handle.m_constantBuffers.injEq,
      Handle.m_mappedConstantData.injEq, reduceCtorEq, if_false]
    constructor <;> split_ifs <;> first | rfl | omega

theorem createResourcesTail_ptr (e : ResourcesEnv) (s : D3D12Renderer) (k : Handle)
    (hk : ∀ j, k ≠ Handle.m_constantBuffers j) (hk2 : ∀ j, k ≠ Handle.m_mappedConstantData j)
    (hk3 : k ≠ Handle.m_vertexBuffer) :
    (createResourcesTail e s).2.ptr k = s.ptr k := by
  unfold createResourcesTail
  simp only [log_eq, throwHR_snd, apply_ite Prod.snd, apply_ite D3D12Renderer.ptr,
    ite_apply, set_proj, emit_proj, put_m_constantBufferSize_proj,
    createConstantBuffers_ptr e _ _ _ k hk hk2, hk3, if_false]
  simp only [ite_self]

/-- When the tail of `CreateResources` returns true, the constant buffer and
the mapped pointer of every slot are non-null. -/
theorem createResourcesTail_true (e : ResourcesEnv) (s : D3D12Renderer)
    (h : (createResourcesTail e s).1 = Outcome.ret true) (j : Nat) (hj : j < FRAME_COUNT) :
    (createResourcesTail e s).2.ptr (Handle.m_constantBuffers j) = true ∧
    (createResourcesTail e s).2.ptr (Handle.m_mappedConstantData j) = true := by
  unfold createResourcesTail at h ⊢
  simp only [] at h ⊢
  by_cases hr : (createConstantBuffers e FRAME_COUNT 0
      (s.put_m_constantBufferSize (alignUp256 128))).1 = Outcome.ret true
  · have hc := createConstantBuffers_true e FRAME_COUNT 0 _ hr j
    rw [if_pos ⟨Nat.zero_le _, by omega⟩, if_pos ⟨Nat.zero_le _, by omega⟩] at hc
    simp only [hr, ne_eq, not_true_eq_false, if_false, log_eq, throwHR_snd, apply_ite Prod.snd,
      apply_ite D3D12Renderer.ptr, ite_apply, set_proj, emit_proj, reduceCtorEq, hc, ite_self,
      and_self]
  · rw [if_pos hr] at h
    exact absurd h hr

theorem CreateResources_ptr (e : ResourcesEnv) (s : D3D12Renderer) (k : Handle)
    (hk : ∀ j, k ≠ Handle.m_constantBuffers j) (hk2 : ∀ j, k ≠ Handle.m_mappedConstantData j)
    (hk3 : k ≠ Handle.m_vertexBuffer) (hk4 : k ≠ Handle.m_screenTexture)
    (hk5 : k ≠ Handle.m_d3d11Device) (hk6 : k ≠ Handle.m_d3d11Context)
    (hk7 : k ≠ Handle.m_d3d12UploadBuffer) (hk8 : k ≠ Handle.m_d3d11Duplication)
    (hk9 : k ≠ Handle.m_d3d11StagingTexture) :
    (CreateResources e s).2.ptr k = s.ptr k := by
  unfold CreateResources
  simp only [log_eq, throwHR_snd, apply_ite Prod.snd, apply_ite D3D12Renderer.ptr,
    ite_apply, set_proj, emit_proj, put_uploadBufferWidth_proj, put_uploadData_proj,
    put_screenTextureData_proj, put_SCREEN_WIDTH_proj, put_SCREEN_HEIGHT_proj, WaitForGPU_proj,
    createResourcesTail_ptr e _ k hk hk2 hk3, hk4, hk5, hk6, hk7, hk8, hk9, if_false]
  simp only [ite_self]

theorem createComputePipeline_ptr (e : PipelinesEnv) (s : D3D12Renderer) (k : Handle)
    (hk : k ≠ Handle.m_computePso) :
    (createComputePipeline e s).2.ptr k = s.ptr k := by
  unfold createComputePipeline
  simp only [log_eq, throwHR_snd, apply_ite Prod.snd, apply_ite D3D12Renderer.ptr,
    ite_apply, set_proj, emit_proj, hk, if_false]
  simp only [ite_self]

theorem CreatePipelines_ptr (e : PipelinesEnv) (s : D3D12Renderer) (k : Handle)
    (hk : k ≠ Handle.m_computePso) (hk2 : k ≠ Handle.m_rootSignature)
    (hk3 : k ≠ Handle.m_computeRootSignature) (hk4 : k ≠ Handle.m_graphicsPso) :
    (CreatePipelines e s).2.ptr k = s.ptr k := by
  unfold CreatePipelines
  simp only [log_eq, throwHR_snd, apply_ite Prod.snd, apply_ite D3D12Renderer.ptr,
    ite_apply, set_proj, emit_proj, createComputePipeline_ptr e _ k hk, hk2, hk3, hk4, if_false]
  simp only [ite_self]

/-- When `CreateResources` returns true, its result is that of its tail, which
creates the constant buffers and the vertex buffer. -/
theorem CreateResources_true_tail (e : ResourcesEnv) (s : D3D12Renderer)
    (h : (CreateResources e s).1 = Outcome.ret true) :
    ∃ t, CreateResources e s = createResourcesTail e t := by
  unfold CreateResources at h ⊢
  simp only [] at h ⊢
  by_cases hc : (!s.ptr Handle.m_device) = true
  · rw [if_pos hc] at h
    exact Bool.noConfusion (Outcome.ret.inj h)
  rw [if_neg hc] at h ⊢
  clear hc
  by_cases hc : (!e.createScreenTexture) = true
  · rw [if_pos hc] at h
    exact Outcome.noConfusion h
  rw [if_neg hc] at h ⊢
  clear hc
  by_cases hc : (!e.d3d11CreateDevice) = true
  · rw [if_pos hc] at h
    exact Bool.noConfusion (Outcome.ret.inj h)
  rw [if_neg hc] at h ⊢
  clear hc
  by_cases hc : (!e.createDXGIFactory1) = true
  · rw [if_pos hc] at h
    exact Outcome.noConfusion h
  rw [if_neg hc] at h ⊢
  clear hc
  by_cases hc : (!e.enumAdapters) = true
  · rw [if_pos hc] at h
    exact Outcome.noConfusion h
  rw [if_neg hc] at h ⊢
  clear hc
  by_cases hc : (!e.enumOutputs) = true
  · rw [if_pos hc] at h
    exact Outcome.noConfusion h
  rw [if_neg hc] at h ⊢
  clear hc
  by_cases hq : (!e.queryOutput1) = true
  · rw [if_pos hq] at h ⊢
    by_cases hc : (!e.createUploadBuffer) = true
    · rw [if_pos hc] at h
      exact Outcome.noConfusion h
    rw [if_neg hc] at h ⊢
    clear hc
    by_cases hc : (!e.mapUploadBuffer) = true
    · rw [if_pos hc] at h
      exact Outcome.noConfusion h
    rw [if_neg hc] at h ⊢
    clear hc
    by_cases hc : (!e.resetCommandList) = true
    · rw [if_pos hc] at h
      exact Outcome.noConfusion h
    rw [if_neg hc] at h ⊢
    clear hc
    by_cases hc : (!e.closeCommandList) = true
    · rw [if_pos hc] at h
      exact Outcome.noConfusion h
    rw [if_neg hc] at h ⊢
    clear hc
    exact ⟨_, rfl⟩
  · rw [if_neg hq] at h ⊢
    by_cases hc : (!e.createStagingTexture) = true
    · rw [if_pos hc] at h
      exact Outcome.noConfusion h
    rw [if_neg hc] at h ⊢
    clear hc
    by_cases hc : (!e.createUploadBuffer) = true
    · rw [if_pos hc] at h
      exact Outcome.noConfusion h
    rw [if_neg hc] at h ⊢
    clear hc
    exact ⟨_, rfl⟩

/-- When `CreateResources` returns true, the constant buffer and the mapped
pointer of every slot are non-null. -/
theorem CreateResources_true (e : ResourcesEnv) (s : D3D12Renderer)
    (h : (CreateResources e s).1 = Outcome.ret true) (j : Nat) (hj : j < FRAME_COUNT) :
    (CreateResources e s).2.ptr (Handle.m_constantBuffers j) = true ∧
    (CreateResources e s).2.ptr (Handle.m_mappedConstantData j) = true := by
  obtain ⟨t, ht⟩ := CreateResources_true_tail e s h
  rw [ht] at h ⊢
  exact createResourcesTail_true e t h j hj

/-- When `CreateDeviceAndResources` returns true, the render target, the
command allocator, the constant buffer and the mapped pointer of every slot
are non-null. -/
theorem CreateDeviceAndResources_true (e : CreateEnv) (s : D3D12Renderer)
    (h : (CreateDeviceAndResources e s).1 = Outcome.ret true) (j : Nat) (hj : j < FRAME_COUNT) :
    (CreateDeviceAndResources e s).2.ptr (Handle.m_renderTargets j) = true ∧
    (CreateDeviceAndResources e s).2.ptr (Handle.m_commandAllocators j) = true ∧
    (CreateDeviceAndResources e s).2.ptr (Handle.m_constantBuffers j) = true ∧
    (CreateDeviceAndResources e s).2.ptr (Handle.m_mappedConstantData j) = true := by
  unfold CreateDeviceAndResources at h ⊢
  simp only [] at h ⊢
  generalize hr1 : getSwapChainBuffers e FRAME_COUNT 0 _ = r1 at h ⊢
  generalize hr2 : createCommandAllocators e FRAME_COUNT 0 _ = r2 at h ⊢
  generalize hr3 : CreateResources e.resources _ = r3 at h ⊢
  generalize hr4 : CreatePipelines e.pipelines _ = r4 at h ⊢
  generalize (ite (List.indexOf true (List.take 4 e.createDevice) <
    (List.take 4 e.createDevice).length) _ _ : D3D12Renderer) = S0 at h ⊢
  by_cases hc : (!S0.ptr Handle.m_device) = true
  · rw [if_pos hc] at h
    exact Outcome.noConfusion h
  rw [if_neg hc] at h ⊢
  clear hc
  by_cases hc : (!e.createCommandQueue) = true
  · rw [if_pos hc] at h
    exact Outcome.noConfusion h
  rw [if_neg hc] at h ⊢
  clear hc
  by_cases hc : (!e.createSwapChainForHwnd) = true
  · rw [if_pos hc] at h
    exact Outcome.noConfusion h
  rw [if_neg hc] at h ⊢
  clear hc
  by_cases hc : (!e.swapChainQueryInterface) = true
  · rw [if_pos hc] at h
    exact Outcome.noConfusion h
  rw [if_neg hc] at h ⊢
  clear hc
  by_cases hc : (!e.createRtvHeap) = true
  · rw [if_pos hc] at h
    exact Outcome.noConfusion h
  rw [if_neg hc] at h ⊢
  clear hc
  by_cases hc : (!e.createSrvHeap) = true
  · rw [if_pos hc] at h
    exact Outcome.noConfusion h
  rw [if_neg hc] at h ⊢
  clear hc
  by_cases hc : (!e.createSamplerHeap) = true
  · rw [if_pos hc] at h
    exact Outcome.noConfusion h
  rw [if_neg hc] at h ⊢
  clear hc
  by_cases c1 : r1.1 ≠ Outcome.ret true
  · rw [if_pos c1] at h
    exact absurd h c1
  rw [if_neg c1] at h ⊢
  by_cases c2 : r2.1 ≠ Outcome.ret true
  · rw [if_pos c2] at h
    exact absurd h c2
  rw [if_neg c2] at h ⊢
  by_cases hc : (!e.createCommandList) = true
  · rw [if_pos hc] at h
    exact Outcome.noConfusion h
  rw [if_neg hc] at h ⊢
  clear hc
  by_cases hc : (!e.closeCommandList) = true
  · rw [if_pos hc] at h
    exact Outcome.noConfusion h
  rw [if_neg hc] at h ⊢
  clear hc
  by_cases hc : (!e.createFence) = true
  · rw [if_pos hc] at h
    exact Outcome.noConfusion h
  rw [if_neg hc] at h ⊢
  clear hc
  by_cases hc : (!e.createEvent) = true
  · rw [if_pos hc] at h
    exact Outcome.noConfusion h
  rw [if_neg hc] at h ⊢
  clear hc
  by_cases hc : r3.1 = Outcome.ret false
  · rw [if_pos hc] at h
    exact Bool.noConfusion (Outcome.ret.inj h)
  rw [if_neg hc] at h ⊢
  clear hc
  by_cases c3 : r3.1 ≠ Outcome.ret true
  · rw [if_pos c3] at h
    exact absurd h c3
  rw [if_neg c3] at h ⊢
  by_cases hc : r4.1 = Outcome.ret false
  · rw [if_pos hc] at h
    exact Bool.noConfusion (Outcome.ret.inj h)
  rw [if_neg hc] at h ⊢
  clear hc
  by_cases c4 : r4.1 ≠ Outcome.ret true
  · rw [if_pos c4] at h
    exact absurd h c4
  rw [if_neg c4] at h ⊢
  have f1 := getSwapChainBuffers_true e FRAME_COUNT 0 _
    ((congrArg Prod.fst hr1).trans (not_not.mp c1)) j
  have f2 := createCommandAllocators_true e FRAME_COUNT 0 _
    ((congrArg Prod.fst hr2).trans (not_not.mp c2)) j
  have f3 := CreateResources_true e.resources _
    ((congrArg Prod.fst hr3).trans (not_not.mp c3)) j hj
  rw [hr1] at f1
  rw [hr2] at f2
  rw [hr3] at f3
  rw [if_pos ⟨Nat.zero_le _, by omega⟩] at f1 f2
  have g2 := createCommandAllocators_ptr e FRAME_COUNT 0 r1.2 (Handle.m_renderTargets j)
    (by simp)
  rw [hr2] at g2
  have g3 := fun k h1 h2 h3 h4 h5 h6 h7 h8 h9 =>
    CreateResources_ptr e.resources (((r2.2.set Handle.m_commandList e.createCommandList).set
      Handle.m_fence e.createFence).set Handle.m_fenceEvent e.createEvent)
      k h1 h2 h3 h4 h5 h6 h7 h8 h9
  rw [hr3] at g3
  have g4 := fun k h1 h2 h3 h4 => CreatePipelines_ptr e.pipelines r3.2 k h1 h2 h3 h4
  rw [hr4] at g4
  have e1 : r4.2.ptr (Handle.m_renderTargets j) = true := by
    rw [g4 (Handle.m_renderTargets j) (by simp) (by simp) (by simp) (by simp),
      g3 (Handle.m_renderTargets j) (by simp) (by simp) (by simp) (by simp) (by simp) (by simp)
        (by simp) (by simp) (by simp)]
    simp only [set_proj, reduceCtorEq, if_false, g2, f1]
  have e2 : r4.2.ptr (Handle.m_commandAllocators j) = true := by
    rw [g4 (Handle.m_commandAllocators j) (by simp) (by simp) (by simp) (by simp),
      g3 (Handle.m_commandAllocators j) (by simp) (by simp) (by simp) (by simp) (by simp)
        (by simp) (by simp) (by simp) (by simp)]
    simp only [set_proj, reduceCtorEq, if_false, f2]
  have e3 : r4.2.ptr (Handle.m_constantBuffers j) = true := by
    rw [g4 (Handle.m_constantBuffers j) (by simp) (by simp) (by simp) (by simp), f3.1]
  have e4 : r4.2.ptr (Handle.m_mappedConstantData j) = true := by
    rw [g4 (Handle.m_mappedConstantData j) (by simp) (by simp) (by simp) (by simp), f3.2]
  simp only [log_eq, emit_proj, e1, e2, e3, e4, and_self]

/-- The graphics pipeline state is the last handle `CreatePipelines` writes:
if it was null before the call and is non-null after it, the call returned
true. -/
theorem CreatePipelines_graphicsPso (e : PipelinesEnv) (s : D3D12Renderer)
    (h0 : s.ptr Handle.m_graphicsPso = false)
    (h : (CreatePipelines e s).2.ptr Handle.m_graphicsPso = true) :
    (CreatePipelines e s).1 = Outcome.ret true := by
  unfold CreatePipelines at h ⊢
  simp only [] at h ⊢
  generalize hr : createComputePipeline e _ = r at h ⊢
  have q : r.2.ptr Handle.m_graphicsPso = false := by
    rw [← hr, createComputePipeline_ptr _ _ _ (by simp)]
    simp only [log_eq, emit_proj, set_proj, reduceCtorEq, if_false, h0]
  by_cases hc : (!s.ptr Handle.m_device) = true
  · rw [if_pos hc] at h
    simp only [throwHR_snd, throwTool_snd, log_eq, emit_proj, set_proj, reduceCtorEq, if_false,
      h0, q, Bool.false_eq_true] at h
  rw [if_neg hc] at h ⊢
  clear hc
  by_cases hc : (!e.serializeRootSignature) = true
  · rw [if_pos hc] at h
    simp only [throwHR_snd, throwTool_snd, log_eq, emit_proj, set_proj, reduceCtorEq, if_false,
      h0, q, Bool.false_eq_true] at h
  rw [if_neg hc] at h ⊢
  clear hc
  by_cases hc : (!e.createRootSignature) = true
  · rw [if_pos hc] at h
    simp only [throwHR_snd, throwTool_snd, log_eq, emit_proj, set_proj, reduceCtorEq, if_false,
      h0, q, Bool.false_eq_true] at h
  rw [if_neg hc] at h ⊢
  clear hc
  by_cases hc : (!e.serializeComputeRootSignature) = true
  · rw [if_pos hc] at h
    simp only [throwHR_snd, throwTool_snd, log_eq, emit_proj, set_proj, reduceCtorEq, if_false,
      h0, q, Bool.false_eq_true] at h
  rw [if_neg hc] at h ⊢
  clear hc
  by_cases hc : (!e.createComputeRootSignature) = true
  · rw [if_pos hc] at h
    simp only [throwHR_snd, throwTool_snd, log_eq, emit_proj, set_proj, reduceCtorEq, if_false,
      h0, q, Bool.false_eq_true] at h
  rw [if_neg hc] at h ⊢
  clear hc
  by_cases hc : r.1 ≠ Outcome.ret true
  · rw [if_pos hc] at h
    simp only [throwHR_snd, throwTool_snd, log_eq, emit_proj, set_proj, reduceCtorEq, if_false,
      h0, q, Bool.false_eq_true] at h
  rw [if_neg hc] at h ⊢
  clear hc
  by_cases hc : (!e.readVertexShader) = true
  · rw [if_pos hc] at h
    simp only [throwHR_snd, throwTool_snd, log_eq, emit_proj, set_proj, reduceCtorEq, if_false,
      h0, q, Bool.false_eq_true] at h
  rw [if_neg hc] at h ⊢
  clear hc
  by_cases hc : (!e.readPixelShader) = true
  · rw [if_pos hc] at h
    simp only [throwHR_snd, throwTool_snd, log_eq, emit_proj, set_proj, reduceCtorEq, if_false,
      h0, q, Bool.false_eq_true] at h
  rw [if_neg hc] at h ⊢
  clear hc
  by_cases hc : (!e.compileVertexShader) = true
  · rw [if_pos hc] at h
    simp only [throwHR_snd, throwTool_snd, log_eq, emit_proj, set_proj, reduceCtorEq, if_false,
      h0, q, Bool.false_eq_true] at h
  rw [if_neg hc] at h ⊢
  clear hc
  by_cases hc : (!e.compilePixelShader) = true
  · rw [if_pos hc] at h
    simp only [throwHR_snd, throwTool_snd, log_eq, emit_proj, set_proj, reduceCtorEq, if_false,
      h0, q, Bool.false_eq_true] at h
  rw [if_neg hc] at h ⊢
  clear hc
  by_cases hc : (!e.createGraphicsPipelineState) = true
  · rw [if_pos hc] at h
    simp only [throwHR_snd, log_eq, emit_proj, set_proj, if_true] at h
    rw [h] at hc
    exact absurd hc (by decide)
  rw [if_neg hc]

/-- The graphics pipeline state is the last handle `CreateDeviceAndResources`
writes: if it was null before the call and is non-null after it, the call
returned true. -/
theorem CreateDeviceAndResources_graphicsPso (e : CreateEnv) (s : D3D12Renderer)
    (h0 : s.ptr Handle.m_graphicsPso = false)
    (h : (CreateDeviceAndResources e s).2.ptr Handle.m_graphicsPso = true) :
    (CreateDeviceAndResources e s).1 = Outcome.ret true := by
  unfold CreateDeviceAndResources at h ⊢
  simp only [] at h ⊢
  generalize hS0 : (ite (List.indexOf true (List.take 4 e.createDevice) <
    (List.take 4 e.createDevice).length) _ _ : D3D12Renderer) = S0 at h ⊢
  have q0 : S0.ptr Handle.m_graphicsPso = false := by
    rw [← hS0]
    split <;> simp only [log_eq, emit_proj, set_proj, put_m_featureLevel_proj, reduceCtorEq,
      if_false, h0]
  generalize hr1 : getSwapChainBuffers e FRAME_COUNT 0 _ = r1 at h ⊢
  have q1 : r1.2.ptr Handle.m_graphicsPso = false := by
    rw [← hr1, getSwapChainBuffers_ptr _ _ _ _ _ (by simp)]
    simp only [set_proj, put_m_rtvDescriptorSize_proj, reduceCtorEq, if_false, q0]
  generalize hr2 : createCommandAllocators e FRAME_COUNT 0 _ = r2 at h ⊢
  have q2 : r2.2.ptr Handle.m_graphicsPso = false := by
    rw [← hr2, createCommandAllocators_ptr _ _ _ _ _ (by simp), q1]
  generalize hr3 : CreateResources e.resources _ = r3 at h ⊢
  have q3 : r3.2.ptr Handle.m_graphicsPso = false := by
    rw [← hr3, CreateResources_ptr _ _ _ (by simp) (by simp) (by simp) (by simp) (by simp)
      (by simp) (by simp) (by simp) (by simp)]
    simp only [set_proj, reduceCtorEq, if_false, q2]
  have q4 := CreatePipelines_graphicsPso e.pipelines r3.2 q3
  generalize CreatePipelines e.pipelines _ = r4 at h q4 ⊢
  by_cases hc : (!S0.ptr Handle.m_device) = true
  · rw [if_pos hc] at h
    simp only [throwHR_snd, throwTool_snd, log_eq, emit_proj, set_proj, reduceCtorEq, if_false,
      h0, q0, put_m_rtvDescriptorSize_proj, q1, q2, q3, Bool.false_eq_true] at h
  rw [if_neg hc] at h ⊢
  clear hc
  by_cases hc : (!e.createCommandQueue) = true
  · rw [if_pos hc] at h
    simp only [throwHR_snd, throwTool_snd, log_eq, emit_proj, set_proj, reduceCtorEq, if_false,
      h0, q0, put_m_rtvDescriptorSize_proj, q1, q2, q3, Bool.false_eq_true] at h
  rw [if_neg hc] at h ⊢
  clear hc
  by_cases hc : (!e.createSwapChainForHwnd) = true
  · rw [if_pos hc] at h
    simp only [throwHR_snd, throwTool_snd, log_eq, emit_proj, set_proj, reduceCtorEq, if_false,
      h0, q0, put_m_rtvDescriptorSize_proj, q1, q2, q3, Bool.false_eq_true] at h
  rw [if_neg hc] at h ⊢
  clear hc
  by_cases hc : (!e.swapChainQueryInterface) = true
  · rw [if_pos hc] at h
    simp only [throwHR_snd, throwTool_snd, log_eq, emit_proj, set_proj, reduceCtorEq, if_false,
      h0, q0, put_m_rtvDescriptorSize_proj, q1, q2, q3, Bool.false_eq_true] at h
  rw [if_neg hc] at h ⊢
  clear hc
  by_cases hc : (!e.createRtvHeap) = true
  · rw [if_pos hc] at h
    simp only [throwHR_snd, throwTool_snd, log_eq, emit_proj, set_proj, reduceCtorEq, if_false,
      h0, q0, put_m_rtvDescriptorSize_proj, q1, q2, q3, Bool.false_eq_true] at h
  rw [if_neg hc] at h ⊢
  clear hc
  by_cases hc : (!e.createSrvHeap) = true
  · rw [if_pos hc] at h
    simp only [throwHR_snd, throwTool_snd, log_eq, emit_proj, set_proj, reduceCtorEq, if_false,
      h0, q0, put_m_rtvDescriptorSize_proj, q1, q2, q3, Bool.false_eq_true] at h
  rw [if_neg hc] at h ⊢
  clear hc
  by_cases hc : (!e.createSamplerHeap) = true
  · rw [if_pos hc] at h
    simp only [throwHR_snd, throwTool_snd, log_eq, emit_proj, set_proj, reduceCtorEq, if_false,
      h0, q0, put_m_rtvDescriptorSize_proj, q1, q2, q3, Bool.false_eq_true] at h
  rw [if_neg hc] at h ⊢
  clear hc
  by_cases hc : r1.1 ≠ Outcome.ret true
  · rw [if_pos hc] at h
    simp only [throwHR_snd, throwTool_snd, log_eq, emit_proj, set_proj, reduceCtorEq, if_false,
      h0, q0, put_m_rtvDescriptorSize_proj, q1, q2, q3, Bool.false_eq_true] at h
  rw [if_neg hc] at h ⊢
  clear hc
  by_cases hc : r2.1 ≠ Outcome.ret true
  · rw [if_pos hc] at h
    simp only [throwHR_snd, throwTool_snd, log_eq, emit_proj, set_proj, reduceCtorEq, if_false,
      h0, q0, put_m_rtvDescriptorSize_proj, q1, q2, q3, Bool.false_eq_true] at h
  rw [if_neg hc] at h ⊢
  clear hc
  by_cases hc : (!e.createCommandList) = true
  · rw [if_pos hc] at h
    simp only [throwHR_snd, throwTool_snd, log_eq, emit_proj, set_proj, reduceCtorEq, if_false,
      h0, q0, put_m_rtvDescriptorSize_proj, q1, q2, q3, Bool.false_eq_true] at h
  rw [if_neg hc] at h ⊢
  clear hc
  by_cases hc : (!e.closeCommandList) = true
  · rw [if_pos hc] at h
    simp only [throwHR_snd, throwTool_snd, log_eq, emit_proj, set_proj, reduceCtorEq, if_false,
      h0, q0, put_m_rtvDescriptorSize_proj, q1, q2, q3, Bool.false_eq_true] at h
  rw [if_neg hc] at h ⊢
  clear hc
  by_cases hc : (!e.createFence) = true
  · rw [if_pos hc] at h
    simp only [throwHR_snd, throwTool_snd, log_eq, emit_proj, set_proj, reduceCtorEq, if_false,
      h0, q0, put_m_rtvDescriptorSize_proj, q1, q2, q3, Bool.false_eq_true] at h
  rw [if_neg hc] at h ⊢
  clear hc
  by_cases hc : (!e.createEvent) = true
  · rw [if_pos hc] at h
    simp only [throwHR_snd, throwTool_snd, log_eq, emit_proj, set_proj, reduceCtorEq, if_false,
      h0, q0, put_m_rtvDescriptorSize_proj, q1, q2, q3, Bool.false_eq_true] at h
  rw [if_neg hc] at h ⊢
  clear hc
  by_cases hc : r3.1 = Outcome.ret false
  · rw [if_pos hc] at h
    simp only [throwHR_snd, throwTool_snd, log_eq, emit_proj, set_proj, reduceCtorEq, if_false,
      h0, q0, put_m_rtvDescriptorSize_proj, q1, q2, q3, Bool.false_eq_true] at h
  rw [if_neg hc] at h ⊢
  clear hc
  by_cases hc : r3.1 ≠ Outcome.ret true
  · rw [if_pos hc] at h
    simp only [throwHR_snd, throwTool_snd, log_eq, emit_proj, set_proj, reduceCtorEq, if_false,
      h0, q0, put_m_rtvDescriptorSize_proj, q1, q2, q3, Bool.false_eq_true] at h
  rw [if_neg hc] at h ⊢
  clear hc
  have h4 : r4.2.ptr Handle.m_graphicsPso = true := by
    by_cases hc : r4.1 = Outcome.ret false
    · rw [if_pos hc] at h
      simpa only [log_eq, emit_proj] using h
    rw [if_neg hc] at h
    by_cases hc2 : r4.1 ≠ Outcome.ret true
    · rw [if_pos hc2] at h
      exact h
    rw [if_neg hc2] at h
    simpa only [log_eq, emit_proj] using h
  have h5 := q4 h4
  rw [h5]
  rfl

/-! ## Properties kept by every pass of `Render` and by sequences of operations -/

/-- A property of the renderer state that every step of a `Render` pass keeps
is kept by `recoverAndRetry`. -/
theorem recoverAndRetry_invariant (I : D3D12Renderer → Prop)
    (retry : D3D12Renderer → Outcome × D3D12Renderer) (hretry : ∀ t, I t → I (retry t).2)
    (hRec : ∀ e s, I s → I (RecoverDevice e s).2)
    (hRetry : ∀ e s, I s → (RecoverDevice e s).1 = Outcome.ret true →
      I ((RecoverDevice e s).2.log "Device recovered, retrying render\n"))
    (hFb : ∀ e f s, I s → (RecoverDevice e s).1 = Outcome.ret false →
      I (RenderFallback f (((RecoverDevice e s).2.log
        "Recovery failed, switching to fallback\n").put_m_fallbackMode true)).2)
    (e : PassEnv) (s : D3D12Renderer) (hs : I s) : I (recoverAndRetry retry e s).2 := by
  unfold recoverAndRetry
  simp only []
  split_ifs with h1 h2
  · exact hretry _ (hRetry _ _ hs h1)
  · exact hFb _ _ _ hs h2
  · exact hRec _ _ hs

theorem renderPass_invariant (I : D3D12Renderer → Prop)
    (retry : D3D12Renderer → Outcome × D3D12Renderer) (hretry : ∀ t, I t → I (retry t).2)
    (hSub : ∀ e s, I s → I (submitFrame e s).2)
    (hOk : ∀ s, I s → I ((WaitForGPU s).log "Frame rendered successfully\n"))
    (hFail : ∀ s, I s → I (s.log "Present failed with HRESULT: 0x%08X\n"))
    (hRec : ∀ e s, I s → I (RecoverDevice e s).2)
    (hRetry : ∀ e s, I s → (RecoverDevice e s).1 = Outcome.ret true →
      I ((RecoverDevice e s).2.log "Device recovered, retrying render\n"))
    (hFb : ∀ e f s, I s → (RecoverDevice e s).1 = Outcome.ret false →
      I (RenderFallback f (((RecoverDevice e s).2.log
        "Recovery failed, switching to fallback\n").put_m_fallbackMode true)).2)
    (e : PassEnv) (s : D3D12Renderer) (hs : I s) : I (renderPass retry e s).2 := by
  unfold renderPass
  simp only []
  split_ifs
  · exact hSub _ _ hs
  · exact hOk _ (hSub _ _ hs)
  · exact recoverAndRetry_invariant I retry hretry hRec hRetry hFb e _ (hSub _ _ hs)
  · exact hFail _ (hSub _ _ hs)

/-- A property of the renderer state that every step of a `Render` pass keeps
is kept by `Render`. -/
theorem Render_invariant (I : D3D12Renderer → Prop)
    (hSub : ∀ e s, I s → I (submitFrame e s).2)
    (hOk : ∀ s, I s → I ((WaitForGPU s).log "Frame rendered successfully\n"))
    (hFail : ∀ s, I s → I (s.log "Present failed with HRESULT: 0x%08X\n"))
    (hRec : ∀ e s, I s → I (RecoverDevice e s).2)
    (hRetry : ∀ e s, I s → (RecoverDevice e s).1 = Outcome.ret true →
      I ((RecoverDevice e s).2.log "Device recovered, retrying render\n"))
    (hFb : ∀ e f s, I s → (RecoverDevice e s).1 = Outcome.ret false →
      I (RenderFallback f (((RecoverDevice e s).2.log
        "Recovery failed, switching to fallback\n").put_m_fallbackMode true)).2)
    (env : Nat → PassEnv) (s : D3D12Renderer) (hs : I s) : I (Render env s).2 := by
  have aux : ∀ (n : Nat) (env : Nat → PassEnv) (s : D3D12Renderer), I s →
      I (RenderAux n env s).2 := by
    intro n
    induction n with
    | zero =>
      intro env s hs
      unfold RenderAux
      exact renderPass_invariant I _ (fun t ht => ht) hSub hOk hFail hRec hRetry hFb _ _ hs
    | succ n ih =>
      intro env s hs
      unfold RenderAux
      exact renderPass_invariant I _ (fun t ht => ih _ t ht) hSub hOk hFail hRec hRetry hFb _ _ hs
  unfold Render
  exact aux _ env s hs

/-- A property of the renderer state kept by every operation other than
`Initialize` is kept by every sequence of such operations. -/
theorem run_invariant (I : D3D12Renderer → Prop)
    (hCap : ∀ e s, I s → I (CaptureDesktop e s).2)
    (hRen : ∀ env s, I s → I (Render env s).2)
    (hFb : ∀ e s, I s → I (RenderFallback e s).2)
    (hRec : ∀ e s, I s → I (RecoverDevice e s).2)
    (hCl : ∀ p s, I s → I (Cleanup p s))
    (ops : List Op) (hops : ∀ o ∈ ops, o.isInitialize = false) (s : D3D12Renderer) (hs : I s) :
    I (run ops s) := by
  induction ops generalizing s with
  | nil => exact hs
  | cons o ops ih =>
    have ho := hops o (List.mem_cons_self _ _)
    have hrest : ∀ o1 ∈ ops, o1.isInitialize = false :=
      fun o1 h1 => hops o1 (List.mem_cons_of_mem _ h1)
    show I (run ops (step s o))
    apply ih hrest
    cases o with
    | Initialize e => exact absurd ho (by simp [Op.isInitialize])
    | CaptureDesktop e => exact hCap _ _ hs
    | Render env => exact hRen _ _ hs
    | RenderFallback e => exact hFb _ _ hs
    | RecoverDevice e => exact hRec _ _ hs
    | Cleanup p => exact hCl _ _ hs

theorem CaptureDesktop_ptr (e : CaptureEnv) (s : D3D12Renderer) :
    (CaptureDesktop e s).2.ptr = s.ptr := by
  unfold CaptureDesktop
  simp only [log_eq, throwHR_snd, apply_ite Prod.snd, apply_ite D3D12Renderer.ptr, emit_proj,
    put_uploadData_proj, put_screenTextureData_proj, WaitForGPU_proj, afterValidate_proj]
  simp only [ite_self]

/-! ## C29: recovery after the system-default override -/

theorem cleanupPtr_congr (b : Bool) (p q : Handle → Bool) (k : Handle)
    (hpq : ∀ h, h ≠ Handle.m_factory → h ≠ Handle.m_adapter → p h = q h)
    (h1 : k ≠ Handle.m_factory) (h2 : k ≠ Handle.m_adapter) :
    cleanupPtr b p k = cleanupPtr b q k := by
  cases k <;> simp only [cleanupPtr] <;>
    first
      | rfl
      | exact absurd rfl h1
      | exact absurd rfl h2
      | (rw [hpq (Handle.m_mappedConstantData _) (by simp) (by simp),
          hpq (Handle.m_constantBuffers _) (by simp) (by simp)])
      | rw [hpq _ (by simp) (by simp)]

theorem mem_Cleanup_trace (p : Bool) (s : D3D12Renderer) :
    Event.Cleanup p ∈ (Cleanup p s).trace := by
  unfold Cleanup
  simp only [log_eq, emit_proj, put_ptr_proj, WaitForGPU_trace, apply_ite D3D12Renderer.trace]
  split_ifs <;> simp

/-- Without an adapter `RecoverDevice` returns false and records no call of
`CreateDeviceAndResources`; below the attempt limit it runs `Cleanup(true)`
and then clears the factory and the window handle as well. -/
theorem RecoverDevice_of_no_adapter (e : CreateEnv) (s : D3D12Renderer)
    (h : s.ptr Handle.m_adapter = false) :
    (RecoverDevice e s).1 = Outcome.ret false ∧
    (RecoverDevice e s).2.ptr Handle.m_adapter = false ∧
    (RecoverDevice e s).2.attempts = s.attempts ∧
    (s.m_recoveryCount < MAX_RECOVERY_ATTEMPTS →
      (∀ k, (RecoverDevice e s).2.ptr k =
        if k = Handle.m_hwnd ∨ k = Handle.m_adapter ∨ k = Handle.m_factory then false
        else cleanupPtr true s.ptr k) ∧
      Event.Cleanup true ∈ (RecoverDevice e s).2.trace) := by
  have ha := Cleanup_attempts
  simp only [D3D12Renderer.attempts] at ha
  rcases Nat.lt_or_ge s.m_recoveryCount MAX_RECOVERY_ATTEMPTS with hlt | hge
  · have hn : ¬ (s.m_recoveryCount + 1 > MAX_RECOVERY_ATTEMPTS) := by omega
    unfold RecoverDevice
    simp only [log_eq, emit_proj, put_m_recoveryCount_proj, set_proj, hn, if_false, h,
      reduceCtorEq, if_true, Bool.not_false, Bool.or_true, Bool.true_or, D3D12Renderer.attempts,
      List.count_append, ha, Cleanup_ptr]
    refine ⟨trivial, trivial, by simp, fun _ => ⟨fun k => ?_, ?_⟩⟩
    · by_cases k1 : k = Handle.m_hwnd
      · simp only [k1, if_true, true_or]
      by_cases k2 : k = Handle.m_adapter
      · simp only [k2, if_true, true_or, or_true, reduceCtorEq, if_false]
      by_cases k3 : k = Handle.m_factory
      · simp only [k3, if_true, true_or, or_true, reduceCtorEq, if_false]
      simp only [k1, k2, k3, if_false, or_self]
      apply cleanupPtr_congr _ _ _ _ _ k3 k2
      intro h h3 h2
      simp only [set_proj, emit_proj, put_m_recoveryCount_proj, h2, h3, if_false]
    · exact List.mem_append_left _ (mem_Cleanup_trace _ _)
  · rw [RecoverDevice_capped e s hge]
    refine ⟨rfl, ?_, ?_, fun hlt => absurd hlt (by omega)⟩
    · simp only [log_eq, emit_proj, put_m_recoveryCount_proj, put_m_fallbackMode_proj, h]
    · simp [D3D12Renderer.attempts]

/-- The call `CreateDeviceAndResources` does not write the adapter, the factory
or the window handle. -/
theorem CreateDeviceAndResources_ptr_essential (e : CreateEnv) (s : D3D12Renderer) (k : Handle)
    (hk : k = Handle.m_adapter ∨ k = Handle.m_factory ∨ k = Handle.m_hwnd) :
    (CreateDeviceAndResources e s).2.ptr k = s.ptr k := by
  have h1 : ∀ j, k ≠ Handle.m_renderTargets j := by
    rcases hk with rfl | rfl | rfl <;> simp
  have h2 : ∀ j, k ≠ Handle.m_commandAllocators j := by
    rcases hk with rfl | rfl | rfl <;> simp
  have h3 := fun t => CreateResources_ptr e.resources t k
    (by rcases hk with rfl | rfl | rfl <;> simp) (by rcases hk with rfl | rfl | rfl <;> simp)
    (by rcases hk with rfl | rfl | rfl <;> simp) (by rcases hk with rfl | rfl | rfl <;> simp)
    (by rcases hk with rfl | rfl | rfl <;> simp) (by rcases hk with rfl | rfl | rfl <;> simp)
    (by rcases hk with rfl | rfl | rfl <;> simp) (by rcases hk with rfl | rfl | rfl <;> simp)
    (by rcases hk with rfl | rfl | rfl <;> simp)
  have h4 := fun t => CreatePipelines_ptr e.pipelines t k
    (by rcases hk with rfl | rfl | rfl <;> simp) (by rcases hk with rfl | rfl | rfl <;> simp)
    (by rcases hk with rfl | rfl | rfl <;> simp) (by rcases hk with rfl | rfl | rfl <;> simp)
  have d1 : k ≠ Handle.m_device := by rcases hk with rfl | rfl | rfl <;> simp
  have d2 : k ≠ Handle.m_commandQueue := by rcases hk with rfl | rfl | rfl <;> simp
  have d3 : k ≠ Handle.m_swapChain := by rcases hk with rfl | rfl | rfl <;> simp
  have d4 : k ≠ Handle.m_rtvHeap := by rcases hk with rfl | rfl | rfl <;> simp
  have d5 : k ≠ Handle.m_srvHeap := by rcases hk with rfl | rfl | rfl <;> simp
  have d6 : k ≠ Handle.m_samplerHeap := by rcases hk with rfl | rfl | rfl <;> simp
  have d7 : k ≠ Handle.m_commandList := by rcases hk with rfl | rfl | rfl <;> simp
  have d8 : k ≠ Handle.m_fence := by rcases hk with rfl | rfl | rfl <;> simp
  have d9 : k ≠ Handle.m_fenceEvent := by rcases hk with rfl | rfl | rfl <;> simp
  unfold CreateDeviceAndResources
  simp only [log_eq, throwHR_snd, throwTool_snd, apply_ite Prod.snd,
    apply_ite D3D12Renderer.ptr, ite_apply, set_proj, emit_proj, put_m_featureLevel_proj,
    put_m_rtvDescriptorSize_proj, getSwapChainBuffers_ptr e _ _ _ k h1,
    createCommandAllocators_ptr e _ _ _ k h2, h3, h4, d1, d2, d3, d4, d5, d6, d7, d8, d9,
    if_false]
  simp only [ite_self]

/-- Under the override `Initialize` does not write `m_adapter`. -/
theorem Initialize_override_adapter (e : InitEnv) (s : D3D12Renderer)
    (h : (e.useDefaultEnv.bind fun v => v.data.head?) = some '1') :
    (Initialize e s).2.ptr Handle.m_adapter = s.ptr Handle.m_adapter := by
  unfold Initialize
  simp only [SelectAdapter_override e _ h, log_eq, throwHR_snd, throwTool_snd,
    apply_ite Prod.snd, apply_ite D3D12Renderer.ptr, ite_apply, set_proj, emit_proj,
    CreateDeviceAndResources_ptr_essential e.create _ Handle.m_adapter (Or.inl rfl),
    reduceCtorEq, if_false]
  simp only [ite_self]

theorem log_attempts (s : D3D12Renderer) (m : String) : (s.log m).attempts = s.attempts := by
  simp [D3D12Renderer.attempts]

/-- Without an adapter no operation other than `Initialize` creates one or
calls `CreateDeviceAndResources`. -/
theorem run_of_no_adapter (ops : List Op) (hops : ∀ o ∈ ops, o.isInitialize = false)
    (s : D3D12Renderer) (h : s.ptr Handle.m_adapter = false) :
    (run ops s).ptr Handle.m_adapter = false ∧ (run ops s).attempts = s.attempts := by
  have hFb : ∀ (e : FallbackEnv) (t : D3D12Renderer),
      (t.ptr Handle.m_adapter = false ∧ t.attempts = s.attempts) →
      ((RenderFallback e t).2.ptr Handle.m_adapter = false ∧
        (RenderFallback e t).2.attempts = s.attempts) := by
    intro e t ht
    rw [RenderFallback_ptr, RenderFallback_attempts]
    exact ht
  have hRec : ∀ (e : CreateEnv) (t : D3D12Renderer),
      (t.ptr Handle.m_adapter = false ∧ t.attempts = s.attempts) →
      ((RecoverDevice e t).2.ptr Handle.m_adapter = false ∧
        (RecoverDevice e t).2.attempts = s.attempts) := by
    intro e t ht
    have hr := RecoverDevice_of_no_adapter e t ht.1
    exact ⟨hr.2.1, hr.2.2.1.trans ht.2⟩
  refine run_invariant
    (fun t => t.ptr Handle.m_adapter = false ∧ t.attempts = s.attempts) ?_ ?_ hFb hRec ?_ ops
    hops s ⟨h, rfl⟩
  · intro e t ht
    rw [CaptureDesktop_ptr, CaptureDesktop_attempts]
    exact ht
  · intro env t ht
    refine Render_invariant
      (fun t => t.ptr Handle.m_adapter = false ∧ t.attempts = s.attempts) ?_ ?_ ?_ hRec ?_ ?_
      env t ht
    · intro e u hu
      rw [submitFrame_ptr, submitFrame_attempts]
      exact hu
    · intro u hu
      rw [log_attempts, WaitForGPU_attempts]
      simp only [log_eq, emit_proj, WaitForGPU_proj]
      exact hu
    · intro u hu
      rw [log_attempts]
      simp only [log_eq, emit_proj]
      exact hu
    · intro e u hu hr
      rw [(RecoverDevice_of_no_adapter e u hu.1).1] at hr
      exact absurd hr (by simp)
    · intro e f u hu _
      have hr := RecoverDevice_of_no_adapter e u hu.1
      rw [RenderFallback_ptr, RenderFallback_attempts]
      simp only [log_eq, emit_proj, put_m_fallbackMode_proj, D3D12Renderer.attempts,
        List.count_append, List.count_cons, List.count_nil, beq_iff_eq, reduceCtorEq, if_false,
        Nat.add_zero]
      exact ⟨hr.2.1, hr.2.2.1.trans hu.2⟩
  · intro p t ht
    rw [Cleanup_ptr, Cleanup_attempts]
    refine ⟨?_, ht.2⟩
    simp only [cleanupPtr, ht.1, ite_self]

/-- C29: after an `Initialize` of a newly constructed renderer in which adapter
selection took the system-default override, `m_adapter` is null; every
sequence of later operations other than `Initialize` records no call of
`CreateDeviceAndResources`, and a `RecoverDevice` call after it returns false
and records none either.  The first `RecoverDevice` call after `Initialize`
runs `Cleanup(true)`, which leaves the device, the queue, the swap chain and
the command list null so that `ValidateResources` fails, and then clears the
factory and the window handle as well. -/
theorem C29_override_disables_recovery (e0 : InitEnv) (d c : Bool) (ops : List Op)
    (e : CreateEnv) (hov : (e0.useDefaultEnv.bind fun v => v.data.head?) = some '1')
    (hops : ∀ o ∈ ops, o.isInitialize = false) :
    (Initialize e0 (D3D12Renderer.ctor d c)).2.ptr Handle.m_adapter = false ∧
    (run ops (Initialize e0 (D3D12Renderer.ctor d c)).2).attempts =
      (Initialize e0 (D3D12Renderer.ctor d c)).2.attempts ∧
    (RecoverDevice e (run ops (Initialize e0 (D3D12Renderer.ctor d c)).2)).1
      = Outcome.ret false ∧
    (RecoverDevice e (run ops (Initialize e0 (D3D12Renderer.ctor d c)).2)).2.attempts =
      (Initialize e0 (D3D12Renderer.ctor d c)).2.attempts ∧
    (Event.Cleanup true ∈ (RecoverDevice e (Initialize e0 (D3D12Renderer.ctor d c)).2).2.trace ∧
      (RecoverDevice e (Initialize e0 (D3D12Renderer.ctor d c)).2).2.ptr Handle.m_device
        = false ∧
      (RecoverDevice e (Initialize e0 (D3D12Renderer.ctor d c)).2).2.ptr Handle.m_commandQueue
        = false ∧
      (RecoverDevice e (Initialize e0 (D3D12Renderer.ctor d c)).2).2.ptr Handle.m_swapChain
        = false ∧
      (RecoverDevice e (Initialize e0 (D3D12Renderer.ctor d c)).2).2.ptr Handle.m_commandList
        = false ∧
      ValidateResources (RecoverDevice e (Initialize e0 (D3D12Renderer.ctor d c)).2).2 = false ∧
      (RecoverDevice e (Initialize e0 (D3D12Renderer.ctor d c)).2).2.ptr Handle.m_adapter
        = false ∧
      (RecoverDevice e (Initialize e0 (D3D12Renderer.ctor d c)).2).2.ptr Handle.m_factory
        = false ∧
      (RecoverDevice e (Initialize e0 (D3D12Renderer.ctor d c)).2).2.ptr Handle.m_hwnd
        = false) := by
  have h1 : (Initialize e0 (D3D12Renderer.ctor d c)).2.ptr Handle.m_adapter = false := by
    rw [Initialize_override_adapter e0 _ hov]
    rfl
  have hrun := run_of_no_adapter ops hops _ h1
  have hrec := RecoverDevice_of_no_adapter e _ hrun.1
  have hcount : (Initialize e0 (D3D12Renderer.ctor d c)).2.m_recoveryCount
      < MAX_RECOVERY_ATTEMPTS := by
    have := congrArg (fun x => x.1) (control_Initialize e0 (D3D12Renderer.ctor d c))
    simp only [D3D12Renderer.control] at this
    rw [this]
    exact Nat.succ_pos 2
  have hfirst := (RecoverDevice_of_no_adapter e _ h1).2.2.2 hcount
  refine ⟨h1, hrun.2, hrec.1, hrec.2.2.1.trans hrun.2, hfirst.2, ?_, ?_, ?_, ?_, ?_, ?_, ?_, ?_⟩
  · rw [hfirst.1]; rfl
  · rw [hfirst.1]; rfl
  · rw [hfirst.1]; rfl
  · rw [hfirst.1]; rfl
  · simp only [ValidateResources, hfirst.1]
    rfl
  · rw [hfirst.1]; rfl
  · rw [hfirst.1]; rfl
  · rw [hfirst.1]; rfl

/-- C29 with the variable set to `1`: `Initialize` succeeds on the device of
the system default adapter; after a tick in which `Present` reports the device
removed, only the `CreateDeviceAndResources` call of `Initialize` is on
record, and a further `RecoverDevice` returns false. -/
theorem C29_override_disables_recovery_witness :
    (overrideInit.useDefaultEnv.bind fun v => v.data.head?) = some '1' ∧
    (Initialize overrideInit (D3D12Renderer.ctor false false)).1 = Outcome.ret true ∧
    (∀ o ∈ [Op.CaptureDesktop okCapture, Op.Render alwaysRemoved], o.isInitialize = false) ∧
    (run [Op.CaptureDesktop okCapture, Op.Render alwaysRemoved]
      (Initialize overrideInit (D3D12Renderer.ctor false false)).2).attempts =
      (Initialize overrideInit (D3D12Renderer.ctor false false)).2.attempts ∧
    (Initialize overrideInit (D3D12Renderer.ctor false false)).2.attempts = 1 ∧
    (RecoverDevice okCreate (run [Op.CaptureDesktop okCapture, Op.Render alwaysRemoved]
      (Initialize overrideInit (D3D12Renderer.ctor false false)).2)).1 = Outcome.ret false := by
  have hov : (overrideInit.useDefaultEnv.bind fun v => v.data.head?) = some '1' := by decide
  have hops : ∀ o ∈ [Op.CaptureDesktop okCapture, Op.Render alwaysRemoved],
      o.isInitialize = false := by
    intro o ho
    simp only [List.mem_cons, List.mem_singleton, List.mem_nil_iff, or_false] at ho
    rcases ho with rfl | rfl <;> rfl
  have h := C29_override_disables_recovery overrideInit false false
    [Op.CaptureDesktop okCapture, Op.Render alwaysRemoved] okCreate hov hops
  refine ⟨hov, ?_, hops, h.2.1, ?_, h.2.2.1⟩
  · set_option maxRecDepth 100000 in
    with_unfolding_all decide
  · set_option maxRecDepth 100000 in
    with_unfolding_all decide

/-! ## Re-entries of `Render` recorded by each operation -/

theorem dispatchCompute_reentries (s : D3D12Renderer) :
    (dispatchCompute s).reentries = s.reentries := by
  unfold dispatchCompute
  split <;> simp [D3D12Renderer.reentries, computeCommands]

theorem WaitForGPU_reentries (s : D3D12Renderer) :
    (WaitForGPU s).reentries = s.reentries := by
  unfold WaitForGPU
  simp only [D3D12Renderer.reentries, log_eq, throwHR_snd, throwTool_snd, apply_ite Prod.snd,
    apply_ite D3D12Renderer.trace,
    apply_ite (List.count (Event.Log "Device recovered, retrying render\n")),
    List.count_append, set_proj, emit_proj, put_ptr_proj, put_selectedAdapter_proj,
    put_m_constantBufferSize_proj, put_m_frameIndex_proj, put_m_fenceValue_proj,
    put_m_rtvDescriptorSize_proj, put_m_featureLevel_proj, put_m_time_proj,
    put_m_recoveryCount_proj, put_m_fallbackMode_proj, put_config_proj, put_SCREEN_WIDTH_proj,
    put_SCREEN_HEIGHT_proj, put_uploadBufferWidth_proj, put_uploadData_proj,
    put_screenTextureData_proj, put_mappedConstants_proj]
  simp

theorem Cleanup_reentries (p : Bool) (s : D3D12Renderer) :
    (Cleanup p s).reentries = s.reentries := by
  have h0 := @WaitForGPU_reentries
  simp only [D3D12Renderer.reentries] at h0
  unfold Cleanup
  simp only [D3D12Renderer.reentries, log_eq, throwHR_snd, throwTool_snd, apply_ite Prod.snd,
    apply_ite D3D12Renderer.trace,
    apply_ite (List.count (Event.Log "Device recovered, retrying render\n")),
    List.count_append, set_proj, emit_proj, put_ptr_proj, put_selectedAdapter_proj,
    put_m_constantBufferSize_proj, put_m_frameIndex_proj, put_m_fenceValue_proj,
    put_m_rtvDescriptorSize_proj, put_m_featureLevel_proj, put_m_time_proj,
    put_m_recoveryCount_proj, put_m_fallbackMode_proj, put_config_proj, put_SCREEN_WIDTH_proj,
    put_SCREEN_HEIGHT_proj, put_uploadBufferWidth_proj, put_uploadData_proj,
    put_screenTextureData_proj, put_mappedConstants_proj, h0]
  simp

theorem getSwapChainBuffers_reentries (e : CreateEnv) (n i : Nat) (s : D3D12Renderer) :
    ((getSwapChainBuffers e n i s).2).reentries = s.reentries := by
  induction n generalizing i s with
  | zero => unfold getSwapChainBuffers; rfl
  | succ n ih =>
    simp only [D3D12Renderer.reentries] at ih
    unfold getSwapChainBuffers
    simp only [D3D12Renderer.reentries, log_eq, throwHR_snd, throwTool_snd, apply_ite Prod.snd,
      apply_ite D3D12Renderer.trace,
      apply_ite (List.count (Event.Log "Device recovered, retrying render\n")),
      List.count_append, set_proj, emit_proj, put_ptr_proj, put_selectedAdapter_proj,
      put_m_constantBufferSize_proj, put_m_frameIndex_proj, put_m_fenceValue_proj,
      put_m_rtvDescriptorSize_proj, put_m_featureLevel_proj, put_m_time_proj,
      put_m_recoveryCount_proj, put_m_fallbackMode_proj, put_config_proj, put_SCREEN_WIDTH_proj,
      put_SCREEN_HEIGHT_proj, put_uploadBufferWidth_proj, put_uploadData_proj,
      put_screenTextureData_proj, put_mappedConstants_proj, ih]
    simp

theorem createCommandAllocators_reentries (e : CreateEnv) (n i : Nat) (s : D3D12Renderer) :
    ((createCommandAllocators e n i s).2).reentries = s.reentries := by
  induction n generalizing i s with
  | zero => unfold createCommandAllocators; rfl
  | succ n ih =>
    simp only [D3D12Renderer.reentries] at ih
    unfold createCommandAllocators
    simp only [D3D12Renderer.reentries, log_eq, throwHR_snd, throwTool_snd, apply_ite Prod.snd,
      apply_ite D3D12Renderer.trace,
      apply_ite (List.count (Event.Log "Device recovered, retrying render\n")),
      List.count_append, set_proj, emit_proj, put_ptr_proj, put_selectedAdapter_proj,
      put_m_constantBufferSize_proj, put_m_frameIndex_proj, put_m_fenceValue_proj,
      put_m_rtvDescriptorSize_proj, put_m_featureLevel_proj, put_m_time_proj,
      put_m_recoveryCount_proj, put_m_fallbackMode_proj, put_config_proj, put_SCREEN_WIDTH_proj,
      put_SCREEN_HEIGHT_proj, put_uploadBufferWidth_proj, put_uploadData_proj,
      put_screenTextureData_proj, put_mappedConstants_proj, ih]
    simp

theorem createConstantBuffers_reentries (e : ResourcesEnv) (n i : Nat) (s : D3D12Renderer) :
    ((createConstantBuffers e n i s).2).reentries = s.reentries := by
  induction n generalizing i s with
  | zero => unfold createConstantBuffers; rfl
  | succ n ih =>
    simp only [D3D12Renderer.reentries] at ih
    unfold createConstantBuffers
    simp only [D3D12Renderer.reentries, log_eq, throwHR_snd, throwTool_snd, apply_ite Prod.snd,
      apply_ite D3D12Renderer.trace,
      apply_ite (List.count (Event.Log "Device recovered, retrying render\n")),
      List.count_append, set_proj, emit_proj, put_ptr_proj, put_selectedAdapter_proj,
      put_m_constantBufferSize_proj, put_m_frameIndex_proj, put_m_fenceValue_proj,
      put_m_rtvDescriptorSize_proj, put_m_featureLevel_proj, put_m_time_proj,
      put_m_recoveryCount_proj, put_m_fallbackMode_proj, put_config_proj, put_SCREEN_WIDTH_proj,
      put_SCREEN_HEIGHT_proj, put_uploadBufferWidth_proj, put_uploadData_proj,
      put_screenTextureData_proj, put_mappedConstants_proj, ih]
    simp

theorem createResourcesTail_reentries (e : ResourcesEnv) (s : D3D12Renderer) :
    ((createResourcesTail e s).2).reentries = s.reentries := by
  have h0 := @createConstantBuffers_reentries
  simp only [D3D12Renderer.reentries] at h0
  unfold createResourcesTail
  simp only [D3D12Renderer.reentries, log_eq, throwHR_snd, throwTool_snd, apply_ite Prod.snd,
    apply_ite D3D12Renderer.trace,
    apply_ite (List.count (Event.Log "Device recovered, retrying render\n")),
    List.count_append, set_proj, emit_proj, put_ptr_proj, put_selectedAdapter_proj,
    put_m_constantBufferSize_proj, put_m_frameIndex_proj, put_m_fenceValue_proj,
    put_m_rtvDescriptorSize_proj, put_m_featureLevel_proj, put_m_time_proj,
    put_m_recoveryCount_proj, put_m_fallbackMode_proj, put_config_proj, put_SCREEN_WIDTH_proj,
    put_SCREEN_HEIGHT_proj, put_uploadBufferWidth_proj, put_uploadData_proj,
    put_screenTextureData_proj, put_mappedConstants_proj, h0]
  simp

theorem CreateResources_reentries (e : ResourcesEnv) (s : D3D12Renderer) :
    ((CreateResources e s).2).reentries = s.reentries := by
  have h0 := @createResourcesTail_reentries
  have h1 := @WaitForGPU_reentries
  simp only [D3D12Renderer.reentries] at h0 h1
  unfold CreateResources
  simp only [D3D12Renderer.reentries, log_eq, throwHR_snd, throwTool_snd, apply_ite Prod.snd,
    apply_ite D3D12Renderer.trace,
    apply_ite (List.count (Event.Log "Device recovered, retrying render\n")),
    List.count_append, set_proj, emit_proj, put_ptr_proj, put_selectedAdapter_proj,
    put_m_constantBufferSize_proj, put_m_frameIndex_proj, put_m_fenceValue_proj,
    put_m_rtvDescriptorSize_proj, put_m_featureLevel_proj, put_m_time_proj,
    put_m_recoveryCount_proj, put_m_fallbackMode_proj, put_config_proj, put_SCREEN_WIDTH_proj,
    put_SCREEN_HEIGHT_proj, put_uploadBufferWidth_proj, put_uploadData_proj,
    put_screenTextureData_proj, put_mappedConstants_proj, h0, h1]
  simp

theorem createComputePipeline_reentries (e : PipelinesEnv) (s : D3D12Renderer) :
    ((createComputePipeline e s).2).reentries = s.reentries := by
  unfold createComputePipeline
  simp only [D3D12Renderer.reentries, log_eq, throwHR_snd, throwTool_snd, apply_ite Prod.snd,
    apply_ite D3D12Renderer.trace,
    apply_ite (List.count (Event.Log "Device recovered, retrying render\n")),
    List.count_append, set_proj, emit_proj, put_ptr_proj, put_selectedAdapter_proj,
    put_m_constantBufferSize_proj, put_m_frameIndex_proj, put_m_fenceValue_proj,
    put_m_rtvDescriptorSize_proj, put_m_featureLevel_proj, put_m_time_proj,
    put_m_recoveryCount_proj, put_m_fallbackMode_proj, put_config_proj, put_SCREEN_WIDTH_proj,
    put_SCREEN_HEIGHT_proj, put_uploadBufferWidth_proj, put_uploadData_proj,
    put_screenTextureData_proj, put_mappedConstants_proj]
  simp

theorem CreatePipelines_reentries (e : PipelinesEnv) (s : D3D12Renderer) :
    ((CreatePipelines e s).2).reentries = s.reentries := by
  have h0 := @createComputePipeline_reentries
  simp only [D3D12Renderer.reentries] at h0
  unfold CreatePipelines
  simp only [D3D12Renderer.reentries, log_eq, throwHR_snd, throwTool_snd, apply_ite Prod.snd,
    apply_ite D3D12Renderer.trace,
    apply_ite (List.count (Event.Log "Device recovered, retrying render\n")),
    List.count_append, set_proj, emit_proj, put_ptr_proj, put_selectedAdapter_proj,
    put_m_constantBufferSize_proj, put_m_frameIndex_proj, put_m_fenceValue_proj,
    put_m_rtvDescriptorSize_proj, put_m_featureLevel_proj, put_m_time_proj,
    put_m_recoveryCount_proj, put_m_fallbackMode_proj, put_config_proj, put_SCREEN_WIDTH_proj,
    put_SCREEN_HEIGHT_proj, put_uploadBufferWidth_proj, put_uploadData_proj,
    put_screenTextureData_proj, put_mappedConstants_proj, h0]
  simp

theorem CreateDeviceAndResources_reentries (e : CreateEnv) (s : D3D12Renderer) :
    ((CreateDeviceAndResources e s).2).reentries = s.reentries := by
  have h0 := @getSwapChainBuffers_reentries
  have h1 := @createCommandAllocators_reentries
  have h2 := @CreateResources_reentries
  have h3 := @CreatePipelines_reentries
  simp only [D3D12Renderer.reentries] at h0 h1 h2 h3
  unfold CreateDeviceAndResources
  simp only [D3D12Renderer.reentries, log_eq, throwHR_snd, throwTool_snd, apply_ite Prod.snd,
    apply_ite D3D12Renderer.trace,
    apply_ite (List.count (Event.Log "Device recovered, retrying render\n")),
    List.count_append, set_proj, emit_proj, put_ptr_proj, put_selectedAdapter_proj,
    put_m_constantBufferSize_proj, put_m_frameIndex_proj, put_m_fenceValue_proj,
    put_m_rtvDescriptorSize_proj, put_m_featureLevel_proj, put_m_time_proj,
    put_m_recoveryCount_proj, put_m_fallbackMode_proj, put_config_proj, put_SCREEN_WIDTH_proj,
    put_SCREEN_HEIGHT_proj, put_uploadBufferWidth_proj, put_uploadData_proj,
    put_screenTextureData_proj, put_mappedConstants_proj, h0, h1, h2, h3]
  simp

theorem afterValidate_reentries (s : D3D12Renderer) :
    (afterValidate s).reentries = s.reentries := by
  unfold afterValidate
  simp only [D3D12Renderer.reentries, log_eq, throwHR_snd, throwTool_snd, apply_ite Prod.snd,
    apply_ite D3D12Renderer.trace,
    apply_ite (List.count (Event.Log "Device recovered, retrying render\n")),
    List.count_append, set_proj, emit_proj, put_ptr_proj, put_selectedAdapter_proj,
    put_m_constantBufferSize_proj, put_m_frameIndex_proj, put_m_fenceValue_proj,
    put_m_rtvDescriptorSize_proj, put_m_featureLevel_proj, put_m_time_proj,
    put_m_recoveryCount_proj, put_m_fallbackMode_proj, put_config_proj, put_SCREEN_WIDTH_proj,
    put_SCREEN_HEIGHT_proj, put_uploadBufferWidth_proj, put_uploadData_proj,
    put_screenTextureData_proj, put_mappedConstants_proj]
  simp

theorem CaptureDesktop_reentries (e : CaptureEnv) (s : D3D12Renderer) :
    ((CaptureDesktop e s).2).reentries = s.reentries := by
  have h0 := @afterValidate_reentries
  have h1 := @WaitForGPU_reentries
  simp only [D3D12Renderer.reentries] at h0 h1
  unfold CaptureDesktop
  simp only [D3D12Renderer.reentries, log_eq, throwHR_snd, throwTool_snd, apply_ite Prod.snd,
    apply_ite D3D12Renderer.trace,
    apply_ite (List.count (Event.Log "Device recovered, retrying render\n")),
    List.count_append, set_proj, emit_proj, put_ptr_proj, put_selectedAdapter_proj,
    put_m_constantBufferSize_proj, put_m_frameIndex_proj, put_m_fenceValue_proj,
    put_m_rtvDescriptorSize_proj, put_m_featureLevel_proj, put_m_time_proj,
    put_m_recoveryCount_proj, put_m_fallbackMode_proj, put_config_proj, put_SCREEN_WIDTH_proj,
    put_SCREEN_HEIGHT_proj, put_uploadBufferWidth_proj, put_uploadData_proj,
    put_screenTextureData_proj, put_mappedConstants_proj, h0, h1]
  simp

theorem RenderFallback_reentries (e : FallbackEnv) (s : D3D12Renderer) :
    ((RenderFallback e s).2).reentries = s.reentries := by
  have h0 := @WaitForGPU_reentries
  simp only [D3D12Renderer.reentries] at h0
  unfold RenderFallback
  simp only [D3D12Renderer.reentries, log_eq, throwHR_snd, throwTool_snd, apply_ite Prod.snd,
    apply_ite D3D12Renderer.trace,
    apply_ite (List.count (Event.Log "Device recovered, retrying render\n")),
    List.count_append, set_proj, emit_proj, put_ptr_proj, put_selectedAdapter_proj,
    put_m_constantBufferSize_proj, put_m_frameIndex_proj, put_m_fenceValue_proj,
    put_m_rtvDescriptorSize_proj, put_m_featureLevel_proj, put_m_time_proj,
    put_m_recoveryCount_proj, put_m_fallbackMode_proj, put_config_proj, put_SCREEN_WIDTH_proj,
    put_SCREEN_HEIGHT_proj, put_uploadBufferWidth_proj, put_uploadData_proj,
    put_screenTextureData_proj, put_mappedConstants_proj, h0]
  simp

/-! ## Messages of the exceptions thrown by the creation steps -/

theorem what_threw (m : String) : (Outcome.threw m).what = m := rfl

theorem what_ret (b : Bool) : (Outcome.ret b).what = "" := rfl

theorem what_fault : Outcome.fault.what = "" := rfl

theorem getSwapChainBuffers_what (e : CreateEnv) (n i : Nat) (s : D3D12Renderer) :
    ((getSwapChainBuffers e n i s).1.what = "Device recovered, retrying render\n") = False := by
  induction n generalizing i s with
  | zero => unfold getSwapChainBuffers; simp only [what_ret, String.reduceEq]
  | succ n ih =>
    unfold getSwapChainBuffers
    simp only [apply_ite Prod.fst, apply_ite Outcome.what,
      apply_ite (fun m : String => m = "Device recovered, retrying render\n"), throwHR_fst,
      throwTool_fst, what_threw, what_ret, what_fault, String.reduceEq, ih]
    simp only [ite_self]

theorem createCommandAllocators_what (e : CreateEnv) (n i : Nat) (s : D3D12Renderer) :
    ((createCommandAllocators e n i s).1.what = "Device recovered, retrying render\n") = False := by
  induction n generalizing i s with
  | zero => unfold createCommandAllocators; simp only [what_ret, String.reduceEq]
  | succ n ih =>
    unfold createCommandAllocators
    simp only [apply_ite Prod.fst, apply_ite Outcome.what,
      apply_ite (fun m : String => m = "Device recovered, retrying render\n"), throwHR_fst,
      throwTool_fst, what_threw, what_ret, what_fault, String.reduceEq, ih]
    simp only [ite_self]

theorem createConstantBuffers_what (e : ResourcesEnv) (n i : Nat) (s : D3D12Renderer) :
    ((createConstantBuffers e n i s).1.what = "Device recovered, retrying render\n") = False := by
  induction n generalizing i s with
  | zero => unfold createConstantBuffers; simp only [what_ret, String.reduceEq]
  | succ n ih =>
    unfold createConstantBuffers
    simp only [apply_ite Prod.fst, apply_ite Outcome.what,
      apply_ite (fun m : String => m = "Device recovered, retrying render\n"), throwHR_fst,
      throwTool_fst, what_threw, what_ret, what_fault, String.reduceEq, ih]
    simp only [ite_self]

theorem createResourcesTail_what (e : ResourcesEnv) (s : D3D12Renderer) :
    ((createResourcesTail e s).1.what = "Device recovered, retrying render\n") = False := by
  unfold createResourcesTail
  simp only [apply_ite Prod.fst, apply_ite Outcome.what,
    apply_ite (fun m : String => m = "Device recovered, retrying render\n"), throwHR_fst,
    throwTool_fst, what_threw, what_ret, what_fault, String.reduceEq, createConstantBuffers_what]
  simp only [ite_self]

theorem CreateResources_what (e : ResourcesEnv) (s : D3D12Renderer) :
    ((CreateResources e s).1.what = "Device recovered, retrying render\n") = False := by
  unfold CreateResources
  simp only [apply_ite Prod.fst, apply_ite Outcome.what,
    apply_ite (fun m : String => m = "Device recovered, retrying render\n"), throwHR_fst,
    throwTool_fst, what_threw, what_ret, what_fault, String.reduceEq, createResourcesTail_what]
  simp only [ite_self]

theorem createComputePipeline_what (e : PipelinesEnv) (s : D3D12Renderer) :
    ((createComputePipeline e s).1.what = "Device recovered, retrying render\n") = False := by
  unfold createComputePipeline
  simp only [apply_ite Prod.fst, apply_ite Outcome.what,
    apply_ite (fun m : String => m = "Device recovered, retrying render\n"), throwHR_fst,
    throwTool_fst, what_threw, what_ret, what_fault, String.reduceEq]
  simp only [ite_self]

theorem CreatePipelines_what (e : PipelinesEnv) (s : D3D12Renderer) :
    ((CreatePipelines e s).1.what = "Device recovered, retrying render\n") = False := by
  unfold CreatePipelines
  simp only [apply_ite Prod.fst, apply_ite Outcome.what,
    apply_ite (fun m : String => m = "Device recovered, retrying render\n"), throwHR_fst,
    throwTool_fst, what_threw, what_ret, what_fault, String.reduceEq, createComputePipeline_what]
  simp only [ite_self]

theorem CreateDeviceAndResources_what (e : CreateEnv) (s : D3D12Renderer) :
    ((CreateDeviceAndResources e s).1.what = "Device recovered, retrying render\n") = False := by
  unfold CreateDeviceAndResources
  simp only [apply_ite Prod.fst, apply_ite Outcome.what,
    apply_ite (fun m : String => m = "Device recovered, retrying render\n"), throwHR_fst,
    throwTool_fst, what_threw, what_ret, what_fault, String.reduceEq,
    getSwapChainBuffers_what, createCommandAllocators_what, CreateResources_what, CreatePipelines_what]
  simp only [ite_self]

/-! ## C27: re-entries of `Render` -/

theorem submitFrame_reentries (e : PassEnv) (s : D3D12Renderer) :
    ((submitFrame e s).2).reentries = s.reentries := by
  have h0 := @afterValidate_reentries
  have h1 := @RenderFallback_reentries
  have h2 := @dispatchCompute_reentries
  simp only [D3D12Renderer.reentries] at h0 h1 h2
  unfold submitFrame
  simp only [D3D12Renderer.reentries, log_eq, throwHR_snd, throwTool_snd, apply_ite Prod.snd,
    apply_ite D3D12Renderer.trace,
    apply_ite (List.count (Event.Log "Device recovered, retrying render\n")),
    List.count_append, set_proj, emit_proj, put_ptr_proj, put_selectedAdapter_proj,
    put_m_constantBufferSize_proj, put_m_frameIndex_proj, put_m_fenceValue_proj,
    put_m_rtvDescriptorSize_proj, put_m_featureLevel_proj, put_m_time_proj,
    put_m_recoveryCount_proj, put_m_fallbackMode_proj, put_config_proj, put_SCREEN_WIDTH_proj,
    put_SCREEN_HEIGHT_proj, put_uploadBufferWidth_proj, put_uploadData_proj,
    put_screenTextureData_proj, put_mappedConstants_proj, dispatchCompute_proj,
    writeConstants_proj, h0, h1, h2]
  simp

/-- The line `RecoverDevice` logs for a caught exception is not the line that
precedes a re-entry of `Render`. -/
theorem recovery_failed_ne (w : String) :
    ("Recovery failed: " ++ w ++ "\n" = "Device recovered, retrying render\n") = False := by
  apply eq_false
  intro h
  have h2 := congrArg (fun t : String => t.data.head?) h
  simp only [String.data_append, List.cons_append, List.head?_cons, Option.some.injEq] at h2
  exact absurd h2 (by decide)

theorem count_recovery_failed (w : String) :
    List.count (Event.Log "Device recovered, retrying render\n")
      [Event.Log ("Recovery failed: " ++ w ++ "\n")] = 0 := by
  rw [List.count_eq_zero]
  intro h
  rw [List.mem_singleton, Event.Log.injEq] at h
  exact (recovery_failed_ne w).mp h.symm

theorem RecoverDevice_reentries (e : CreateEnv) (s : D3D12Renderer) :
    (RecoverDevice e s).2.reentries = s.reentries := by
  have h0 := Cleanup_reentries
  have h1 := CreateDeviceAndResources_reentries
  simp only [D3D12Renderer.reentries] at h0 h1
  unfold RecoverDevice
  simp only [D3D12Renderer.reentries, log_eq, throwHR_snd, throwTool_snd, apply_ite Prod.snd,
    apply_ite D3D12Renderer.trace,
    apply_ite (List.count (Event.Log "Device recovered, retrying render\n")),
    List.count_append, set_proj, emit_proj, put_ptr_proj, put_selectedAdapter_proj,
    put_m_constantBufferSize_proj, put_m_frameIndex_proj, put_m_fenceValue_proj,
    put_m_rtvDescriptorSize_proj, put_m_featureLevel_proj, put_m_time_proj,
    put_m_recoveryCount_proj, put_m_fallbackMode_proj, put_config_proj, put_SCREEN_WIDTH_proj,
    put_SCREEN_HEIGHT_proj, put_uploadBufferWidth_proj, put_uploadData_proj,
    put_screenTextureData_proj, put_mappedConstants_proj, h0, h1, gt_iff_lt,
    count_recovery_failed]
  simp

theorem count_log_of_ne (m : String)
    (h : (m = "Device recovered, retrying render\n") = False) :
    List.count (Event.Log "Device recovered, retrying render\n") [Event.Log m] = 0 := by
  rw [List.count_eq_zero]
  intro h2
  rw [List.mem_singleton, Event.Log.injEq] at h2
  exact h.mp h2.symm

theorem reentries_foldl_emit_Log (l : List AdapterDesc) (s : D3D12Renderer) :
    (l.foldl (fun s _ => s.emit (Event.Log "Adapter skipped: insufficient feature level\n"))
      s).reentries = s.reentries := by
  induction l generalizing s with
  | nil => rfl
  | cons a l ih =>
    rw [List.foldl_cons, ih]
    simp [D3D12Renderer.reentries]

theorem SelectAdapter_reentries (e : InitEnv) (s : D3D12Renderer) :
    (SelectAdapter e s).2.reentries = s.reentries := by
  have h := reentries_foldl_emit_Log
    (e.adapters.filter fun a => !a.software && (featureRank a).isNone) s
  simp only [D3D12Renderer.reentries] at h
  unfold SelectAdapter
  split
  · simp [D3D12Renderer.reentries]
  · split <;> simp [D3D12Renderer.reentries, h]

theorem Initialize_reentries (e : InitEnv) (s : D3D12Renderer) :
    (Initialize e s).2.reentries = s.reentries := by
  have h0 := SelectAdapter_reentries
  have h1 := CreateDeviceAndResources_reentries
  simp only [D3D12Renderer.reentries] at h0 h1
  unfold Initialize
  simp only []
  cases e.createDXGIFactory2
  · simp [D3D12Renderer.reentries, throwHR, Outcome.isThrew, Outcome.what]
  · generalize hS : SelectAdapter e _ = sa
    have hsa : List.count (Event.Log "Device recovered, retrying render\n") sa.2.trace =
        List.count (Event.Log "Device recovered, retrying render\n") s.trace := by
      rw [← hS, h0]
      simp
    cases sa.1
    · simp only [Bool.not_false, if_true, D3D12Renderer.reentries, log_eq, throwTool_fst,
        throwTool_snd, Outcome.isThrew, what_threw, List.count_append, emit_proj, hsa]
      simp [Outcome.what, hsa]
    · simp only [Bool.not_true, Bool.false_eq_true, if_false, D3D12Renderer.reentries,
        log_eq, apply_ite Prod.snd, apply_ite D3D12Renderer.trace,
        apply_ite (List.count (Event.Log "Device recovered, retrying render\n")),
        List.count_append, set_proj, emit_proj, put_ptr_proj, put_selectedAdapter_proj,
        put_m_constantBufferSize_proj, put_m_frameIndex_proj, put_m_fenceValue_proj,
        put_m_rtvDescriptorSize_proj, put_m_featureLevel_proj, put_m_time_proj,
        put_m_recoveryCount_proj, put_m_fallbackMode_proj, put_config_proj,
        put_SCREEN_WIDTH_proj, put_SCREEN_HEIGHT_proj, put_uploadBufferWidth_proj,
        put_uploadData_proj, put_screenTextureData_proj, put_mappedConstants_proj, h1, hsa,
        count_log_of_ne _ (CreateDeviceAndResources_what e.create _)]
      simp

theorem log_reentries (s : D3D12Renderer) (m : String)
    (h : (m = "Device recovered, retrying render\n") = False) :
    (s.log m).reentries = s.reentries := by
  simp only [D3D12Renderer.reentries, log_eq, emit_proj, List.count_append,
    count_log_of_ne m h, Nat.add_zero]

/-- One call of `Render` adds at most as many re-entries as the attempt counter
has increments left below its maximum. -/
theorem Render_reentries (env : Nat → PassEnv) (s : D3D12Renderer) :
    (Render env s).2.reentries + (MAX_RECOVERY_ATTEMPTS - (Render env s).2.m_recoveryCount) ≤
      s.reentries + (MAX_RECOVERY_ATTEMPTS - s.m_recoveryCount) := by
  refine Render_invariant
    (fun t => t.reentries + (MAX_RECOVERY_ATTEMPTS - t.m_recoveryCount) ≤
      s.reentries + (MAX_RECOVERY_ATTEMPTS - s.m_recoveryCount)) ?_ ?_ ?_ ?_ ?_ ?_ env s
    (Nat.le_refl _)
  · intro e u hu
    rw [submitFrame_reentries, submitFrame_m_recoveryCount]
    exact hu
  · intro u hu
    rw [log_reentries _ _ (by simp only [String.reduceEq]), WaitForGPU_reentries]
    simp only [log_eq, emit_proj, WaitForGPU_proj]
    exact hu
  · intro u hu
    rw [log_reentries _ _ (by simp only [String.reduceEq])]
    simp only [log_eq, emit_proj]
    exact hu
  · intro e u hu
    rw [RecoverDevice_reentries, RecoverDevice_m_recoveryCount]
    omega
  · intro e u hu hr
    have hc := (RecoverDevice_true e u hr).1
    simp only [D3D12Renderer.reentries, log_eq, emit_proj, List.count_append,
      List.count_singleton, beq_self_eq_true, if_true, RecoverDevice_m_recoveryCount]
    have hre := RecoverDevice_reentries e u
    simp only [D3D12Renderer.reentries] at hre hu
    omega
  · intro e f u hu _
    rw [RenderFallback_reentries, RenderFallback_m_recoveryCount]
    simp only [D3D12Renderer.reentries, log_eq, emit_proj, put_m_fallbackMode_proj,
      List.count_append,
      count_log_of_ne "Recovery failed, switching to fallback\n" (by simp only [String.reduceEq]),
      Nat.add_zero, RecoverDevice_m_recoveryCount]
    have hre := RecoverDevice_reentries e u
    simp only [D3D12Renderer.reentries] at hre hu
    omega

theorem step_reentries (op : Op) (s : D3D12Renderer) :
    (step s op).reentries + (MAX_RECOVERY_ATTEMPTS - (step s op).m_recoveryCount) ≤
      s.reentries + (MAX_RECOVERY_ATTEMPTS - s.m_recoveryCount) := by
  cases op with
  | Initialize e =>
    simp only [step]
    rw [Initialize_reentries, Initialize_m_recoveryCount]
  | CaptureDesktop e =>
    simp only [step]
    rw [CaptureDesktop_reentries, CaptureDesktop_m_recoveryCount]
  | Render env => exact Render_reentries env s
  | RenderFallback e =>
    simp only [step]
    rw [RenderFallback_reentries, RenderFallback_m_recoveryCount]
  | RecoverDevice e =>
    simp only [step]
    rw [RecoverDevice_reentries, RecoverDevice_m_recoveryCount]
    omega
  | Cleanup p =>
    simp only [step]
    rw [Cleanup_reentries, Cleanup_m_recoveryCount]

theorem run_reentries (ops : List Op) (s : D3D12Renderer) :
    (run ops s).reentries + (MAX_RECOVERY_ATTEMPTS - (run ops s).m_recoveryCount) ≤
      s.reentries + (MAX_RECOVERY_ATTEMPTS - s.m_recoveryCount) := by
  induction ops generalizing s with
  | nil => exact Nat.le_refl _
  | cons o ops ih => exact Nat.le_trans (ih (step s o)) (step_reentries o s)

/-- C27: `Render` is a total function that satisfies the recursive equation of
the source, one pass through the body whose re-entry is `Render` again; the
result is the one computed with at most `MAX_RECOVERY_ATTEMPTS` re-entries
allowed, so a call nests at most `MAX_RECOVERY_ATTEMPTS + 1` deep; a re-entry
follows a `RecoverDevice` that returned true, after which the attempt counter
is one higher and at most `MAX_RECOVERY_ATTEMPTS`; one call adds at most
`MAX_RECOVERY_ATTEMPTS - m_recoveryCount` re-entries to the record; and after
every sequence of operations on a newly constructed renderer at most
`MAX_RECOVERY_ATTEMPTS` re-entries are on record. -/
theorem C27_render_reentries_bounded (env : Nat → PassEnv) (s : D3D12Renderer) (ops : List Op)
    (d c : Bool) (retry : D3D12Renderer → Outcome × D3D12Renderer) :
    Render env s = renderPass (Render fun k => env (k + 1)) (env 0) s ∧
    Render env s = RenderAux MAX_RECOVERY_ATTEMPTS env s ∧
    recoverAndRetry retry (env 0) s =
      (if (RecoverDevice (env 0).recover s).1 = Outcome.ret true then
        retry ((RecoverDevice (env 0).recover s).2.log "Device recovered, retrying render\n")
      else recoverAndRetry (fun t => (Outcome.fault, t)) (env 0) s) ∧
    ((RecoverDevice (env 0).recover s).1 = Outcome.ret true →
      (RecoverDevice (env 0).recover s).2.m_recoveryCount = s.m_recoveryCount + 1 ∧
      (RecoverDevice (env 0).recover s).2.m_recoveryCount ≤ MAX_RECOVERY_ATTEMPTS) ∧
    (Render env s).2.reentries ≤
      s.reentries + (MAX_RECOVERY_ATTEMPTS - s.m_recoveryCount) ∧
    (run ops (D3D12Renderer.ctor d c)).reentries ≤ MAX_RECOVERY_ATTEMPTS := by
  refine ⟨Render_eq env s, ?_, ?_, fun h => ?_, ?_, ?_⟩
  · unfold Render
    exact (RenderAux_fuel MAX_RECOVERY_ATTEMPTS env s (Nat.sub_le _ _)).symm
  · unfold recoverAndRetry
    simp only []
    split_ifs <;> rfl
  · have h1 := (RecoverDevice_true (env 0).recover s h).1
    rw [RecoverDevice_m_recoveryCount]
    exact ⟨rfl, h1⟩
  · have := Render_reentries env s
    omega
  · have := run_reentries ops (D3D12Renderer.ctor d c)
    have h0 : (D3D12Renderer.ctor d c).reentries = 0 := rfl
    have h1 : (D3D12Renderer.ctor d c).m_recoveryCount = 0 := rfl
    rw [h0, h1] at this
    omega

/-- C27 on the healthy renderer when `Present` reports the device removed in
every pass: the first recovery returns true with the counter at 1, and the
call of `Render` records three re-entries, the most the bound allows. -/
theorem C27_render_reentries_bounded_witness :
    (RecoverDevice (alwaysRemoved 0).recover healthy).1 = Outcome.ret true ∧
    ((RecoverDevice (alwaysRemoved 0).recover healthy).2.m_recoveryCount =
        healthy.m_recoveryCount + 1 ∧
      (RecoverDevice (alwaysRemoved 0).recover healthy).2.m_recoveryCount
        ≤ MAX_RECOVERY_ATTEMPTS) ∧
    (Render alwaysRemoved healthy).2.reentries = 3 ∧
    (Render alwaysRemoved healthy).2.reentries ≤
      healthy.reentries + (MAX_RECOVERY_ATTEMPTS - healthy.m_recoveryCount) := by
  have h : (RecoverDevice (alwaysRemoved 0).recover healthy).1 = Outcome.ret true := by
    set_option maxRecDepth 100000 in
    with_unfolding_all decide
  have h3 : (Render alwaysRemoved healthy).2.reentries = 3 := by
    set_option maxRecDepth 100000 in
    with_unfolding_all decide
  exact ⟨h,
    (C27_render_reentries_bounded alwaysRemoved healthy [] false false
      (fun t => (Outcome.fault, t))).2.2.2.1 h, h3,
    (C27_render_reentries_bounded alwaysRemoved healthy [] false false
      (fun t => (Outcome.fault, t))).2.2.2.2.1⟩

/-! ## C26: the slots of a validated renderer -/

theorem slotsExist_congr {s t : D3D12Renderer} (h : t.ptr = s.ptr)
    (hs : s.ptr Handle.m_graphicsPso = true → s.slotsExist) :
    t.ptr Handle.m_graphicsPso = true → t.slotsExist := by
  unfold D3D12Renderer.slotsExist at hs ⊢
  rw [h]
  exact hs

/-- Started without a graphics pipeline state, `CreateDeviceAndResources`
leaves one only together with the resources of every slot. -/
theorem CreateDeviceAndResources_slots (e : CreateEnv) (s : D3D12Renderer)
    (h0 : s.ptr Handle.m_graphicsPso = false) :
    (CreateDeviceAndResources e s).2.ptr Handle.m_graphicsPso = true →
      (CreateDeviceAndResources e s).2.slotsExist := by
  intro h j hj
  exact CreateDeviceAndResources_true e s (CreateDeviceAndResources_graphicsPso e s h0 h) j hj

theorem SelectAdapter_ptr_of_ne (e : InitEnv) (s : D3D12Renderer) (k : Handle)
    (hk : k ≠ Handle.m_adapter) : (SelectAdapter e s).2.ptr k = s.ptr k := by
  have hf := foldl_emit_ptr (Event.Log "Adapter skipped: insufficient feature level\n")
    (e.adapters.filter fun a => !a.software && (featureRank a).isNone) s
  unfold SelectAdapter
  split
  · simp only [log_eq, emit_proj]
  · split <;> simp only [log_eq, emit_proj, set_proj, put_selectedAdapter_proj, hk, if_false,
      hf.1]

theorem Initialize_slots (e : InitEnv) (s : D3D12Renderer)
    (h0 : s.ptr Handle.m_graphicsPso = false) :
    (Initialize e s).2.ptr Handle.m_graphicsPso = true → (Initialize e s).2.slotsExist := by
  unfold Initialize
  simp only []
  cases e.createDXGIFactory2
  · intro h
    simp only [Bool.not_false, if_true, throwHR_fst, throwHR_snd, Outcome.isThrew, log_eq,
      emit_proj, set_proj, reduceCtorEq, if_false, h0, Bool.false_eq_true] at h
  · generalize hS : SelectAdapter e _ = sa
    have hsa : sa.2.ptr Handle.m_graphicsPso = false := by
      rw [← hS, SelectAdapter_ptr_of_ne _ _ _ (by simp)]
      simp only [log_eq, emit_proj, set_proj, reduceCtorEq, if_false, h0]
    cases sa.1
    · intro h
      simp only [Bool.not_false, Bool.not_true, if_true, throwTool_fst, throwTool_snd,
        Outcome.isThrew, log_eq, emit_proj, hsa, Bool.false_eq_true, if_false] at h
    · simp only [Bool.not_true, Bool.false_eq_true, if_false]
      have hc := CreateDeviceAndResources_slots e.create sa.2 hsa
      split_ifs
      · exact slotsExist_congr (by simp only [log_eq, emit_proj]) hc
      · exact hc

theorem RecoverDevice_slots (e : CreateEnv) (s : D3D12Renderer)
    (hs : s.ptr Handle.m_graphicsPso = true → s.slotsExist) :
    (RecoverDevice e s).2.ptr Handle.m_graphicsPso = true → (RecoverDevice e s).2.slotsExist := by
  rcases Nat.lt_or_ge s.m_recoveryCount MAX_RECOVERY_ATTEMPTS with hlt | hge
  · have hn : ¬ (s.m_recoveryCount + 1 > MAX_RECOVERY_ATTEMPTS) := by omega
    unfold RecoverDevice
    simp only [log_eq, emit_proj, put_m_recoveryCount_proj, hn, if_false]
    generalize hS : (((Cleanup true _).set Handle.m_factory _).set Handle.m_adapter _).set
      Handle.m_hwnd _ = S
    have hS0 : S.ptr Handle.m_graphicsPso = false := by
      rw [← hS]
      simp only [set_proj, reduceCtorEq, if_false, Cleanup_ptr]
      rfl
    by_cases hc : (!S.ptr Handle.m_factory || !S.ptr Handle.m_adapter || !S.ptr Handle.m_hwnd)
        = true
    · rw [if_pos hc]
      intro h
      simp only [log_eq, emit_proj, set_proj, reduceCtorEq, if_false, hS0,
        Bool.false_eq_true] at h
    · rw [if_neg hc]
      have hc2 := CreateDeviceAndResources_slots e S hS0
      generalize CreateDeviceAndResources e S = r at hc2 ⊢
      split_ifs <;>
        first
          | exact hc2
          | exact slotsExist_congr (by simp only [log_eq, emit_proj, put_config_proj]) hc2
  · rw [RecoverDevice_capped e s hge]
    exact slotsExist_congr
      (by simp only [log_eq, emit_proj, put_m_recoveryCount_proj, put_m_fallbackMode_proj]) hs

/-- After any sequence of operations other than `Initialize`, a renderer that
had a graphics pipeline state only together with the resources of every slot
still has. -/
theorem run_slots (ops : List Op) (hops : ∀ o ∈ ops, o.isInitialize = false)
    (s : D3D12Renderer) (hs : s.ptr Handle.m_graphicsPso = true → s.slotsExist) :
    (run ops s).ptr Handle.m_graphicsPso = true → (run ops s).slotsExist := by
  have hFb : ∀ (e : FallbackEnv) (t : D3D12Renderer),
      (t.ptr Handle.m_graphicsPso = true → t.slotsExist) →
      ((RenderFallback e t).2.ptr Handle.m_graphicsPso = true →
        (RenderFallback e t).2.slotsExist) :=
    fun e t ht => slotsExist_congr (RenderFallback_ptr e t) ht
  refine run_invariant (fun t => t.ptr Handle.m_graphicsPso = true → t.slotsExist) ?_ ?_ hFb
    RecoverDevice_slots ?_ ops hops s hs
  · exact fun e t ht => slotsExist_congr (CaptureDesktop_ptr e t) ht
  · intro env t ht
    refine Render_invariant (fun t => t.ptr Handle.m_graphicsPso = true → t.slotsExist)
      ?_ ?_ ?_ RecoverDevice_slots ?_ ?_ env t ht
    · exact fun e u hu => slotsExist_congr (submitFrame_ptr e u) hu
    · exact fun u hu => slotsExist_congr (by simp only [log_eq, emit_proj, WaitForGPU_proj]) hu
    · exact fun u hu => slotsExist_congr (by simp only [log_eq, emit_proj]) hu
    · exact fun e u hu _ =>
        slotsExist_congr (by simp only [log_eq, emit_proj]) (RecoverDevice_slots e u hu)
    · intro e f u hu _
      refine slotsExist_congr (RenderFallback_ptr f _) ?_
      exact slotsExist_congr (by simp only [log_eq, emit_proj, put_m_fallbackMode_proj])
        (RecoverDevice_slots e u hu)
  · intro p t _ h
    rw [Cleanup_ptr] at h
    exact absurd h (by simp [cleanupPtr])

/-- C26, amended: in every state reached from a newly constructed renderer by
one `Initialize` call followed by any sequence of `RecoverDevice`, `Cleanup`,
`CaptureDesktop`, `Render` and `RenderFallback` calls, with any platform
results, if `ValidateResources` holds and the reported back buffer index `i`
is below `FRAME_COUNT`, then the command allocator, the render target, the
constant buffer and the mapped pointer of slot `i` are non-null, and the pass
of `Render` that records commands for the slot dereferences no null pointer. -/
theorem C26_validated_slot_exists (e0 : InitEnv) (d c : Bool) (ops : List Op)
    (hops : ∀ o ∈ ops, o.isInitialize = false) (e : PassEnv)
    (hv : ValidateResources (run ops (Initialize e0 (D3D12Renderer.ctor d c)).2) = true)
    (hi : e.backBufferIndex % UINT_SIZE < FRAME_COUNT) :
    (run ops (Initialize e0 (D3D12Renderer.ctor d c)).2).ptr
        (Handle.m_commandAllocators (e.backBufferIndex % UINT_SIZE)) = true ∧
    (run ops (Initialize e0 (D3D12Renderer.ctor d c)).2).ptr
        (Handle.m_renderTargets (e.backBufferIndex % UINT_SIZE)) = true ∧
    (run ops (Initialize e0 (D3D12Renderer.ctor d c)).2).ptr
        (Handle.m_constantBuffers (e.backBufferIndex % UINT_SIZE)) = true ∧
    (run ops (Initialize e0 (D3D12Renderer.ctor d c)).2).ptr
        (Handle.m_mappedConstantData (e.backBufferIndex % UINT_SIZE)) = true ∧
    (submitFrame e (run ops (Initialize e0 (D3D12Renderer.ctor d c)).2)).1
      ≠ some Outcome.fault := by
  have hgp : (run ops (Initialize e0 (D3D12Renderer.ctor d c)).2).ptr Handle.m_graphicsPso
      = true := by
    simp only [ValidateResources, Bool.and_eq_true] at hv
    exact hv.1.1.1.1.1.1.2
  have hsl := run_slots ops hops _ (Initialize_slots e0 (D3D12Renderer.ctor d c) rfl) hgp
    _ hi
  refine ⟨hsl.2.1, hsl.1, hsl.2.2.1, hsl.2.2.2, ?_⟩
  generalize run ops (Initialize e0 (D3D12Renderer.ctor d c)).2 = s at hv hsl
  have hi2 : ¬ e.backBufferIndex % UINT_SIZE ≥ FRAME_COUNT := by omega
  unfold submitFrame
  simp only [afterValidate_of_valid s hv, hv, log_eq, emit_proj, put_m_frameIndex_proj,
    put_m_time_proj, dispatchCompute_proj, writeConstants_proj, hi2, hsl.1, hsl.2.1, hsl.2.2.1,
    hsl.2.2.2, Bool.not_true, Bool.or_false, Bool.and_false, decide_False, if_false,
    Bool.false_eq_true, throwHR_fst]
  split_ifs <;> simp

/-- C26 on the healthy renderer after a capture and a successful recovery:
validation holds and the reported back buffer is slot 1, whose four resources
exist. -/
theorem C26_validated_slot_exists_witness :
    (∀ o ∈ [Op.CaptureDesktop okCapture, Op.RecoverDevice okCreate], o.isInitialize = false) ∧
    ValidateResources (run [Op.CaptureDesktop okCapture, Op.RecoverDevice okCreate]
      (Initialize okInit (D3D12Renderer.ctor false false)).2) = true ∧
    (passOnSlot1 0).backBufferIndex % UINT_SIZE < FRAME_COUNT ∧
    (run [Op.CaptureDesktop okCapture, Op.RecoverDevice okCreate]
      (Initialize okInit (D3D12Renderer.ctor false false)).2).ptr
        (Handle.m_constantBuffers ((passOnSlot1 0).backBufferIndex % UINT_SIZE)) = true ∧
    (run [Op.CaptureDesktop okCapture, Op.RecoverDevice okCreate]
      (Initialize okInit (D3D12Renderer.ctor false false)).2).ptr
        (Handle.m_mappedConstantData ((passOnSlot1 0).backBufferIndex % UINT_SIZE)) = true := by
  have hops : ∀ o ∈ [Op.CaptureDesktop okCapture, Op.RecoverDevice okCreate],
      o.isInitialize = false := by
    intro o ho
    simp only [List.mem_cons, List.mem_singleton, List.mem_nil_iff, or_false] at ho
    rcases ho with rfl | rfl <;> rfl
  have hv : ValidateResources (run [Op.CaptureDesktop okCapture, Op.RecoverDevice okCreate]
      (Initialize okInit (D3D12Renderer.ctor false false)).2) = true := by
    set_option maxRecDepth 100000 in
    with_unfolding_all decide
  have hi : (passOnSlot1 0).backBufferIndex % UINT_SIZE < FRAME_COUNT := by decide
  have h := C26_validated_slot_exists okInit false false
    [Op.CaptureDesktop okCapture, Op.RecoverDevice okCreate] hops (passOnSlot1 0) hv hi
  exact ⟨hops, hv, hi, h.2.2.1, h.2.2.2.1⟩

/-- C26 as stated fails when `Initialize` is called a second time.  After a
successful `Initialize`, a second `Initialize` in which the creation of the
constant buffer of slot 1 fails leaves that buffer null, while the vertex
buffer and the graphics pipeline state of the first call are still there:
`ValidateResources` holds, the command allocator and the render target of
slot 1 exist, and the pass of `Render` for back buffer 1 goes on to
dereference the null `m_constantBuffers[1]`. -/
theorem C26_second_initialize_counterexample :
    reinitialized = run [Op.Initialize okInit, Op.Initialize slot1BufferFailsInit]
      (D3D12Renderer.ctor false false) ∧
    ValidateResources reinitialized = true ∧
    (passOnSlot1 0).backBufferIndex % UINT_SIZE = 1 ∧ 1 < FRAME_COUNT ∧
    reinitialized.ptr (Handle.m_commandAllocators 1) = true ∧
    reinitialized.ptr (Handle.m_renderTargets 1) = true ∧
    reinitialized.ptr (Handle.m_constantBuffers 1) = false ∧
    (submitFrame (passOnSlot1 0) reinitialized).1 = some Outcome.fault ∧
    (Render passOnSlot1 reinitialized).1 = Outcome.fault := by
  refine ⟨rfl, ?_, by decide, by decide, ?_, ?_, ?_, ?_, ?_⟩ <;>
    (set_option maxRecDepth 100000 in with_unfolding_all decide)

/-! ## C20: the compute pass and the disparity texture -/

theorem CreateDeviceAndResources_disparityTexture (e : CreateEnv) (s : D3D12Renderer) :
    (CreateDeviceAndResources e s).2.ptr Handle.m_disparityTexture =
      s.ptr Handle.m_disparityTexture := by
  have h3 := fun t => CreateResources_ptr e.resources t Handle.m_disparityTexture
    (by simp) (by simp) (by simp) (by simp) (by simp) (by simp) (by simp) (by simp) (by simp)
  have h4 := fun t => CreatePipelines_ptr e.pipelines t Handle.m_disparityTexture
    (by simp) (by simp) (by simp) (by simp)
  unfold CreateDeviceAndResources
  simp only [log_eq, throwHR_snd, throwTool_snd, apply_ite Prod.snd,
    apply_ite D3D12Renderer.ptr, ite_apply, set_proj, emit_proj, put_m_featureLevel_proj,
    put_m_rtvDescriptorSize_proj,
    getSwapChainBuffers_ptr e _ _ _ Handle.m_disparityTexture (by simp),
    createCommandAllocators_ptr e _ _ _ Handle.m_disparityTexture (by simp), h3, h4,
    reduceCtorEq, if_false]
  simp only [ite_self]

theorem Initialize_disparityTexture (e : InitEnv) (s : D3D12Renderer) :
    (Initialize e s).2.ptr Handle.m_disparityTexture = s.ptr Handle.m_disparityTexture := by
  unfold Initialize
  simp only [log_eq, throwHR_snd, throwTool_snd, apply_ite Prod.snd,
    apply_ite D3D12Renderer.ptr, ite_apply, set_proj, emit_proj,
    CreateDeviceAndResources_disparityTexture,
    SelectAdapter_ptr_of_ne e _ Handle.m_disparityTexture (by simp), reduceCtorEq, if_false]
  simp only [ite_self]

theorem RecoverDevice_disparityTexture (e : CreateEnv) (s : D3D12Renderer)
    (h : s.ptr Handle.m_disparityTexture = false) :
    (RecoverDevice e s).2.ptr Handle.m_disparityTexture = false := by
  unfold RecoverDevice
  simp only [log_eq, apply_ite Prod.snd, apply_ite D3D12Renderer.ptr, ite_apply, set_proj,
    emit_proj, put_m_recoveryCount_proj, put_m_fallbackMode_proj, put_config_proj,
    CreateDeviceAndResources_disparityTexture, Cleanup_ptr, reduceCtorEq, if_false, h]
  simp only [cleanupPtr, ite_self]

/-- No operation of the renderer writes a non-null `m_disparityTexture`: a
null one stays null through every sequence of operations. -/
theorem run_disparityTexture (ops : List Op) (s : D3D12Renderer)
    (h : s.ptr Handle.m_disparityTexture = false) :
    (run ops s).ptr Handle.m_disparityTexture = false := by
  induction ops generalizing s with
  | nil => exact h
  | cons o ops ih =>
    show (run ops (step s o)).ptr Handle.m_disparityTexture = false
    apply ih
    cases o with
    | Initialize e => exact (Initialize_disparityTexture e s).trans h
    | CaptureDesktop e => show (CaptureDesktop e s).2.ptr _ = false; rw [CaptureDesktop_ptr]; exact h
    | Render env =>
      exact Render_invariant (fun t => t.ptr Handle.m_disparityTexture = false)
        (fun e t ht => by
          show (submitFrame e t).2.ptr Handle.m_disparityTexture = false
          rw [submitFrame_ptr]; exact ht)
        (fun t ht => by
          show ((WaitForGPU t).log _).ptr Handle.m_disparityTexture = false
          simp only [log_eq, emit_proj, WaitForGPU_proj]; exact ht)
        (fun t ht => by
          show (t.log _).ptr Handle.m_disparityTexture = false
          simp only [log_eq, emit_proj]; exact ht)
        (fun e t ht => RecoverDevice_disparityTexture e t ht)
        (fun e t ht _ => by
          show ((RecoverDevice e t).2.log _).ptr Handle.m_disparityTexture = false
          simp only [log_eq, emit_proj]; exact RecoverDevice_disparityTexture e t ht)
        (fun e f t ht _ => by
          show (RenderFallback f _).2.ptr Handle.m_disparityTexture = false
          rw [RenderFallback_ptr]
          simp only [log_eq, emit_proj, put_m_fallbackMode_proj]
          exact RecoverDevice_disparityTexture e t ht)
        env s h
    | RenderFallback e => show (RenderFallback e s).2.ptr _ = false; rw [RenderFallback_ptr]; exact h
    | RecoverDevice e => exact RecoverDevice_disparityTexture e s h
    | Cleanup p => show (Cleanup p s).ptr _ = false; rw [Cleanup_ptr]; rfl

theorem computeEnabled_of_no_disparityTexture (s : D3D12Renderer)
    (h : s.ptr Handle.m_disparityTexture = false) : computeEnabled s = false := by
  simp [computeEnabled, h]

theorem RenderFallback_count (ev : Event) (hev : ∀ m, ev ≠ Event.Log m)
    (h1 : ev ≠ Event.WaitForGPU) (h2 : ev ≠ Event.ClearRenderTargetView ClearColor.solidFallback)
    (h3 : ev ≠ Event.ExecuteCommandLists) (h4 : ev ≠ Event.Present) (e : FallbackEnv)
    (s : D3D12Renderer) :
    (RenderFallback e s).2.trace.count ev = s.trace.count ev := by
  have h0 := WaitForGPU_count ev h1 (hev _) (hev _)
  unfold RenderFallback
  simp only [log_eq, throwHR_snd, apply_ite Prod.snd, apply_ite D3D12Renderer.trace,
    apply_ite (List.count ev), emit_proj, put_m_frameIndex_proj, h0, List.count_append,
    List.count_cons, List.count_nil, beq_iff_eq, (fun m => Ne.symm (hev m)), h2.symm, h3.symm,
    h4.symm, if_false, Nat.add_zero]
  simp only [ite_self]

/-- A pass of `Render` on a renderer whose `m_disparityTexture` is null
records no dispatch. -/
theorem submitFrame_count_Dispatch (e : PassEnv) (s : D3D12Renderer) (x y : Nat)
    (h : s.ptr Handle.m_disparityTexture = false) :
    (submitFrame e s).2.trace.count (Event.Dispatch x y) =
      s.trace.count (Event.Dispatch x y) := by
  have hfb := RenderFallback_count (Event.Dispatch x y) (fun _ => Event.noConfusion)
    Event.noConfusion Event.noConfusion Event.noConfusion Event.noConfusion
  have hav := afterValidate_count (Event.Dispatch x y) (fun _ => Event.noConfusion) s
  have hce : ∀ t : D3D12Renderer, t.ptr = s.ptr → dispatchCompute t = t := by
    intro t ht
    unfold dispatchCompute
    rw [if_neg]
    rw [computeEnabled_of_no_disparityTexture t (by rw [ht]; exact h)]
    exact Bool.false_ne_true
  have hce2 := hce (((afterValidate s).emit (Event.Log "Rendering frame...\n")).put_m_frameIndex
    (e.backBufferIndex % UINT_SIZE))
    (by simp only [emit_proj, put_m_frameIndex_proj, afterValidate_proj])
  unfold submitFrame
  simp only [log_eq, throwHR_snd, apply_ite Prod.snd, apply_ite D3D12Renderer.trace,
    apply_ite (List.count (Event.Dispatch x y)), emit_proj, put_m_frameIndex_proj,
    put_m_time_proj, afterValidate_proj, writeConstants_proj, hce2, hfb, hav, List.count_append, List.count_cons, List.count_nil, beq_iff_eq, reduceCtorEq,
    if_false, Nat.add_zero]
  simp only [ite_self]

set_option maxRecDepth 100000 in
/-- C20, the compute pass the code misses.  On the renderer a successful
`Initialize` leaves, the compute pipeline exists and the effect is enabled, yet
`Render` returns true having recorded the clear and the draw only: the guard
of the block also asks for `m_disparityTexture`, and that member is null.  No
operation creates it: a null `m_disparityTexture` stays null through every
sequence of operations with any platform results, from construction on and
after any `Cleanup`; and a pass of `Render` on a renderer whose
`m_disparityTexture` is null records no dispatch. -/
theorem C20_compute_pass_missed :
    (healthy.ptr Handle.m_computePso = true ∧
      healthy.config.enable_volumetric_fog = 1 ∧
      healthy.ptr Handle.m_disparityTexture = false ∧
      (Render (fun _ => passWith PresentResult.ok) healthy).1 = Outcome.ret true ∧
      (Render (fun _ => passWith PresentResult.ok) healthy).2.trace.drop healthy.trace.length =
        [Event.Log "Rendering frame...\n", Event.ClearRenderTargetView ClearColor.effects,
          Event.DrawInstanced, Event.ExecuteCommandLists, Event.Present, Event.WaitForGPU,
          Event.Log "Frame rendered successfully\n"]) ∧
    (∀ (c : Bool) (ops : List Op),
      (run ops (D3D12Renderer.ctor false c)).ptr Handle.m_disparityTexture = false ∧
      computeEnabled (run ops (D3D12Renderer.ctor false c)) = false) ∧
    (∀ (p : Bool) (s : D3D12Renderer) (ops : List Op),
      (run ops (Cleanup p s)).ptr Handle.m_disparityTexture = false ∧
      computeEnabled (run ops (Cleanup p s)) = false) ∧
    (∀ (c : Bool) (ops : List Op) (e : PassEnv) (x y : Nat),
      (submitFrame e (run ops (D3D12Renderer.ctor false c))).2.trace.count (Event.Dispatch x y) =
        (run ops (D3D12Renderer.ctor false c)).trace.count (Event.Dispatch x y)) ∧
    (∀ (p : Bool) (s : D3D12Renderer) (ops : List Op) (e : PassEnv) (x y : Nat),
      (submitFrame e (run ops (Cleanup p s))).2.trace.count (Event.Dispatch x y) =
        (run ops (Cleanup p s)).trace.count (Event.Dispatch x y)) := by
  have h1 : ∀ (c : Bool) (ops : List Op),
      (run ops (D3D12Renderer.ctor false c)).ptr Handle.m_disparityTexture = false :=
    fun c ops => run_disparityTexture ops _ rfl
  have h2 : ∀ (p : Bool) (s : D3D12Renderer) (ops : List Op),
      (run ops (Cleanup p s)).ptr Handle.m_disparityTexture = false :=
    fun p s ops => run_disparityTexture ops _ (by rw [Cleanup_ptr]; rfl)
  refine ⟨by with_unfolding_all decide,
    fun c ops => ⟨h1 c ops, computeEnabled_of_no_disparityTexture _ (h1 c ops)⟩,
    fun p s ops => ⟨h2 p s ops, computeEnabled_of_no_disparityTexture _ (h2 p s ops)⟩,
    fun c ops e x y => submitFrame_count_Dispatch e _ x y (h1 c ops),
    fun p s ops e x y => submitFrame_count_Dispatch e _ x y (h2 p s ops)⟩

/-! ## C24: a failed `Initialize` and the `Cleanup` that follows -/

theorem WaitForGPU_cleanups (s : D3D12Renderer) (p : Bool) :
    (WaitForGPU s).cleanups p = s.cleanups p :=
  WaitForGPU_count (Event.Cleanup p) Event.noConfusion Event.noConfusion Event.noConfusion s

theorem getSwapChainBuffers_cleanups (e : CreateEnv) (n i : Nat) (s : D3D12Renderer) (p : Bool) :
    ((getSwapChainBuffers e n i s).2).cleanups p = s.cleanups p := by
  induction n generalizing i s with
  | zero => unfold getSwapChainBuffers; rfl
  | succ n ih =>
    simp only [D3D12Renderer.cleanups] at ih
    unfold getSwapChainBuffers
    simp only [D3D12Renderer.cleanups, log_eq, throwHR_snd, throwTool_snd, apply_ite Prod.snd,
      apply_ite D3D12Renderer.trace, apply_ite (List.count (Event.Cleanup p)),
      List.count_append, set_proj, emit_proj, put_m_constantBufferSize_proj,
      put_m_rtvDescriptorSize_proj, put_m_featureLevel_proj, put_SCREEN_WIDTH_proj,
      put_SCREEN_HEIGHT_proj, put_uploadBufferWidth_proj, put_uploadData_proj,
      put_screenTextureData_proj, put_mappedConstants_proj, put_selectedAdapter_proj, ih]
    simp

theorem createCommandAllocators_cleanups (e : CreateEnv) (n i : Nat) (s : D3D12Renderer) (p : Bool) :
    ((createCommandAllocators e n i s).2).cleanups p = s.cleanups p := by
  induction n generalizing i s with
  | zero => unfold createCommandAllocators; rfl
  | succ n ih =>
    simp only [D3D12Renderer.cleanups] at ih
    unfold createCommandAllocators
    simp only [D3D12Renderer.cleanups, log_eq, throwHR_snd, throwTool_snd, apply_ite Prod.snd,
      apply_ite D3D12Renderer.trace, apply_ite (List.count (Event.Cleanup p)),
      List.count_append, set_proj, emit_proj, put_m_constantBufferSize_proj,
      put_m_rtvDescriptorSize_proj, put_m_featureLevel_proj, put_SCREEN_WIDTH_proj,
      put_SCREEN_HEIGHT_proj, put_uploadBufferWidth_proj, put_uploadData_proj,
      put_screenTextureData_proj, put_mappedConstants_proj, put_selectedAdapter_proj, ih]
    simp

theorem createConstantBuffers_cleanups (e : ResourcesEnv) (n i : Nat) (s : D3D12Renderer) (p : Bool) :
    ((createConstantBuffers e n i s).2).cleanups p = s.cleanups p := by
  induction n generalizing i s with
  | zero => unfold createConstantBuffers; rfl
  | succ n ih =>
    simp only [D3D12Renderer.cleanups] at ih
    unfold createConstantBuffers
    simp only [D3D12Renderer.cleanups, log_eq, throwHR_snd, throwTool_snd, apply_ite Prod.snd,
      apply_ite D3D12Renderer.trace, apply_ite (List.count (Event.Cleanup p)),
      List.count_append, set_proj, emit_proj, put_m_constantBufferSize_proj,
      put_m_rtvDescriptorSize_proj, put_m_featureLevel_proj, put_SCREEN_WIDTH_proj,
      put_SCREEN_HEIGHT_proj, put_uploadBufferWidth_proj, put_uploadData_proj,
      put_screenTextureData_proj, put_mappedConstants_proj, put_selectedAdapter_proj, ih]
    simp

theorem createResourcesTail_cleanups (e : ResourcesEnv) (s : D3D12Renderer) (p : Bool) :
    ((createResourcesTail e s).2).cleanups p = s.cleanups p := by
  have h0 := @createConstantBuffers_cleanups
  simp only [D3D12Renderer.cleanups] at h0
  unfold createResourcesTail
  simp only [D3D12Renderer.cleanups, log_eq, throwHR_snd, throwTool_snd, apply_ite Prod.snd,
    apply_ite D3D12Renderer.trace, apply_ite (List.count (Event.Cleanup p)),
    List.count_append, set_proj, emit_proj, put_m_constantBufferSize_proj,
    put_m_rtvDescriptorSize_proj, put_m_featureLevel_proj, put_SCREEN_WIDTH_proj,
    put_SCREEN_HEIGHT_proj, put_uploadBufferWidth_proj, put_uploadData_proj,
    put_screenTextureData_proj, put_mappedConstants_proj, put_selectedAdapter_proj, h0]
  simp

theorem CreateResources_cleanups (e : ResourcesEnv) (s : D3D12Renderer) (p : Bool) :
    ((CreateResources e s).2).cleanups p = s.cleanups p := by
  have h0 := @createResourcesTail_cleanups
  have h1 := @WaitForGPU_cleanups
  simp only [D3D12Renderer.cleanups] at h0 h1
  unfold CreateResources
  simp only [D3D12Renderer.cleanups, log_eq, throwHR_snd, throwTool_snd, apply_ite Prod.snd,
    apply_ite D3D12Renderer.trace, apply_ite (List.count (Event.Cleanup p)),
    List.count_append, set_proj, emit_proj, put_m_constantBufferSize_proj,
    put_m_rtvDescriptorSize_proj, put_m_featureLevel_proj, put_SCREEN_WIDTH_proj,
    put_SCREEN_HEIGHT_proj, put_uploadBufferWidth_proj, put_uploadData_proj,
    put_screenTextureData_proj, put_mappedConstants_proj, put_selectedAdapter_proj, h0, h1]
  simp

theorem createComputePipeline_cleanups (e : PipelinesEnv) (s : D3D12Renderer) (p : Bool) :
    ((createComputePipeline e s).2).cleanups p = s.cleanups p := by
  unfold createComputePipeline
  simp only [D3D12Renderer.cleanups, log_eq, throwHR_snd, throwTool_snd, apply_ite Prod.snd,
    apply_ite D3D12Renderer.trace, apply_ite (List.count (Event.Cleanup p)),
    List.count_append, set_proj, emit_proj, put_m_constantBufferSize_proj,
    put_m_rtvDescriptorSize_proj, put_m_featureLevel_proj, put_SCREEN_WIDTH_proj,
    put_SCREEN_HEIGHT_proj, put_uploadBufferWidth_proj, put_uploadData_proj,
    put_screenTextureData_proj, put_mappedConstants_proj, put_selectedAdapter_proj]
  simp

theorem CreatePipelines_cleanups (e : PipelinesEnv) (s : D3D12Renderer) (p : Bool) :
    ((CreatePipelines e s).2).cleanups p = s.cleanups p := by
  have h0 := @createComputePipeline_cleanups
  simp only [D3D12Renderer.cleanups] at h0
  unfold CreatePipelines
  simp only [D3D12Renderer.cleanups, log_eq, throwHR_snd, throwTool_snd, apply_ite Prod.snd,
    apply_ite D3D12Renderer.trace, apply_ite (List.count (Event.Cleanup p)),
    List.count_append, set_proj, emit_proj, put_m_constantBufferSize_proj,
    put_m_rtvDescriptorSize_proj, put_m_featureLevel_proj, put_SCREEN_WIDTH_proj,
    put_SCREEN_HEIGHT_proj, put_uploadBufferWidth_proj, put_uploadData_proj,
    put_screenTextureData_proj, put_mappedConstants_proj, put_selectedAdapter_proj, h0]
  simp

theorem CreateDeviceAndResources_cleanups (e : CreateEnv) (s : D3D12Renderer) (p : Bool) :
    ((CreateDeviceAndResources e s).2).cleanups p = s.cleanups p := by
  have h0 := @getSwapChainBuffers_cleanups
  have h1 := @createCommandAllocators_cleanups
  have h2 := @CreateResources_cleanups
  have h3 := @CreatePipelines_cleanups
  simp only [D3D12Renderer.cleanups] at h0 h1 h2 h3
  unfold CreateDeviceAndResources
  simp only [D3D12Renderer.cleanups, log_eq, throwHR_snd, throwTool_snd, apply_ite Prod.snd,
    apply_ite D3D12Renderer.trace, apply_ite (List.count (Event.Cleanup p)),
    List.count_append, set_proj, emit_proj, put_m_constantBufferSize_proj,
    put_m_rtvDescriptorSize_proj, put_m_featureLevel_proj, put_SCREEN_WIDTH_proj,
    put_SCREEN_HEIGHT_proj, put_uploadBufferWidth_proj, put_uploadData_proj,
    put_screenTextureData_proj, put_mappedConstants_proj, put_selectedAdapter_proj, h0, h1, h2, h3]
  simp

theorem cleanups_foldl_emit_Log (l : List AdapterDesc) (s : D3D12Renderer) (p : Bool) :
    (l.foldl (fun s _ => s.emit (Event.Log "Adapter skipped: insufficient feature level\n"))
      s).cleanups p = s.cleanups p := by
  induction l generalizing s with
  | nil => rfl
  | cons a l ih =>
    rw [List.foldl_cons, ih]
    simp [D3D12Renderer.cleanups]

theorem SelectAdapter_cleanups (e : InitEnv) (s : D3D12Renderer) (p : Bool) :
    (SelectAdapter e s).2.cleanups p = s.cleanups p := by
  have h := cleanups_foldl_emit_Log
    (e.adapters.filter fun a => !a.software && (featureRank a).isNone) s p
  simp only [D3D12Renderer.cleanups] at h
  unfold SelectAdapter
  split
  · simp [D3D12Renderer.cleanups]
  · split <;> simp [D3D12Renderer.cleanups, h]

/-- The call `Initialize` calls no `Cleanup`. -/
theorem Initialize_cleanups (e : InitEnv) (s : D3D12Renderer) (p : Bool) :
    (Initialize e s).2.cleanups p = s.cleanups p := by
  have h0 := fun t => SelectAdapter_cleanups e t p
  have h1 := fun t => CreateDeviceAndResources_cleanups e.create t p
  simp only [D3D12Renderer.cleanups] at h0 h1
  unfold Initialize
  simp only [D3D12Renderer.cleanups, log_eq, throwHR_snd, throwTool_snd, apply_ite Prod.snd,
    apply_ite D3D12Renderer.trace, apply_ite (List.count (Event.Cleanup p)),
    List.count_append, set_proj, emit_proj, h0, h1]
  simp

/-- The call `Initialize` lets no exception out. -/
theorem Initialize_isThrew (e : InitEnv) (s : D3D12Renderer) :
    (Initialize e s).1.isThrew = false := by
  unfold Initialize
  simp only []
  generalize (if (!e.createDXGIFactory2) = true then _ else _ : Outcome × D3D12Renderer) = r
  by_cases h : r.1.isThrew = true
  · rw [if_pos h]
    rfl
  · rw [if_neg h]
    simpa using h

theorem getSwapChainBuffers_fst_true (e : CreateEnv) (n i : Nat) (s : D3D12Renderer)
    (h : (getSwapChainBuffers e n i s).1 = Outcome.ret true) (j : Nat) (h1 : i ≤ j)
    (h2 : j < i + n) : e.getBuffer j = true := by
  induction n generalizing i s with
  | zero => omega
  | succ n ih =>
    unfold getSwapChainBuffers at h
    simp only [] at h
    by_cases hc : (!e.getBuffer i) = true
    · rw [if_pos hc] at h
      exact Outcome.noConfusion h
    · rw [if_neg hc] at h
      rcases Nat.eq_or_lt_of_le h1 with rfl | hlt
      · simpa using hc
      · exact ih _ _ h hlt (by omega)

theorem createCommandAllocators_fst_true (e : CreateEnv) (n i : Nat) (s : D3D12Renderer)
    (h : (createCommandAllocators e n i s).1 = Outcome.ret true) (j : Nat) (h1 : i ≤ j)
    (h2 : j < i + n) : e.createCommandAllocator j = true := by
  induction n generalizing i s with
  | zero => omega
  | succ n ih =>
    unfold createCommandAllocators at h
    simp only [] at h
    by_cases hc : (!e.createCommandAllocator i) = true
    · rw [if_pos hc] at h
      exact Outcome.noConfusion h
    · rw [if_neg hc] at h
      rcases Nat.eq_or_lt_of_le h1 with rfl | hlt
      · simpa using hc
      · exact ih _ _ h hlt (by omega)

theorem createConstantBuffers_fst_true (e : ResourcesEnv) (n i : Nat) (s : D3D12Renderer)
    (h : (createConstantBuffers e n i s).1 = Outcome.ret true) (j : Nat) (h1 : i ≤ j)
    (h2 : j < i + n) : e.createConstantBuffer j = true ∧ e.mapConstantBuffer j = true := by
  induction n generalizing i s with
  | zero => omega
  | succ n ih =>
    unfold createConstantBuffers at h
    simp only [] at h
    by_cases hc : (!e.createConstantBuffer i) = true
    · rw [if_pos hc] at h
      exact Outcome.noConfusion h
    · rw [if_neg hc] at h
      by_cases hm : (!e.mapConstantBuffer i) = true
      · rw [if_pos hm] at h
        exact Outcome.noConfusion h
      · rw [if_neg hm] at h
        rcases Nat.eq_or_lt_of_le h1 with rfl | hlt
        · exact ⟨by simpa using hc, by simpa using hm⟩
        · exact ih _ _ h hlt (by omega)

theorem getSwapChainBuffers_ne_fault (e : CreateEnv) (n i : Nat) (s : D3D12Renderer) :
    (getSwapChainBuffers e n i s).1 ≠ Outcome.fault := by
  induction n generalizing i s with
  | zero => unfold getSwapChainBuffers; exact Outcome.noConfusion
  | succ n ih =>
    unfold getSwapChainBuffers
    simp only []
    split_ifs
    · exact Outcome.noConfusion
    · exact ih _ _

theorem createCommandAllocators_ne_fault (e : CreateEnv) (n i : Nat) (s : D3D12Renderer) :
    (createCommandAllocators e n i s).1 ≠ Outcome.fault := by
  induction n generalizing i s with
  | zero => unfold createCommandAllocators; exact Outcome.noConfusion
  | succ n ih =>
    unfold createCommandAllocators
    simp only []
    split_ifs
    · exact Outcome.noConfusion
    · exact ih _ _

theorem createConstantBuffers_ne_fault (e : ResourcesEnv) (n i : Nat) (s : D3D12Renderer) :
    (createConstantBuffers e n i s).1 ≠ Outcome.fault := by
  induction n generalizing i s with
  | zero => unfold createConstantBuffers; exact Outcome.noConfusion
  | succ n ih =>
    unfold createConstantBuffers
    simp only []
    split_ifs
    · exact Outcome.noConfusion
    · exact Outcome.noConfusion
    · exact ih _ _

/-- What a successful `createResourcesTail` shows of the platform: every
constant buffer was created and mapped, and so was the vertex buffer. -/
theorem createResourcesTail_fst_true (e : ResourcesEnv) (s : D3D12Renderer)
    (h : (createResourcesTail e s).1 = Outcome.ret true) :
    (∀ j, j < FRAME_COUNT → e.createConstantBuffer j = true ∧ e.mapConstantBuffer j = true) ∧
    e.createVertexBuffer = true ∧ e.mapVertexBuffer = true := by
  unfold createResourcesTail at h
  simp only [] at h
  generalize hg : createConstantBuffers e FRAME_COUNT 0 _ = r at h
  by_cases hc : r.1 ≠ Outcome.ret true
  · rw [if_pos hc] at h
    exact absurd h hc
  rw [if_neg hc] at h
  by_cases hv : (!e.createVertexBuffer) = true
  · rw [if_pos hv] at h
    exact Outcome.noConfusion h
  rw [if_neg hv] at h
  by_cases hm : (!e.mapVertexBuffer) = true
  · rw [if_pos hm] at h
    exact Outcome.noConfusion h
  refine ⟨fun j hj => ?_, by simpa using hv, by simpa using hm⟩
  have hr : r.1 = Outcome.ret true := not_not.mp hc
  rw [← hg] at hr
  exact createConstantBuffers_fst_true e _ _ _ hr j (Nat.zero_le _) (by omega)

theorem createResourcesTail_ne_fault (e : ResourcesEnv) (s : D3D12Renderer) :
    (createResourcesTail e s).1 ≠ Outcome.fault := by
  unfold createResourcesTail
  simp only []
  generalize hg : createConstantBuffers e FRAME_COUNT 0 _ = r
  have hr : r.1 ≠ Outcome.fault := by
    rw [← hg]
    exact createConstantBuffers_ne_fault _ _ _ _
  split_ifs
  · exact hr
  · exact Outcome.noConfusion
  · exact Outcome.noConfusion
  · exact Outcome.noConfusion

/-- What a successful `CreateResources` shows of the platform. -/
theorem CreateResources_fst_true (e : ResourcesEnv) (s : D3D12Renderer)
    (h : (CreateResources e s).1 = Outcome.ret true) :
    e.createScreenTexture = true ∧ e.d3d11CreateDevice = true ∧ e.createDXGIFactory1 = true ∧
    e.enumAdapters = true ∧ e.enumOutputs = true ∧ e.createUploadBuffer = true ∧
    (∀ j, j < FRAME_COUNT → e.createConstantBuffer j = true ∧ e.mapConstantBuffer j = true) ∧
    e.createVertexBuffer = true ∧ e.mapVertexBuffer = true := by
  unfold CreateResources at h
  simp only [] at h
  by_cases hc : (!s.ptr Handle.m_device) = true
  · rw [if_pos hc] at h
    exact Bool.noConfusion (Outcome.ret.inj h)
  rw [if_neg hc] at h
  clear hc
  by_cases c1 : (!e.createScreenTexture) = true
  · rw [if_pos c1] at h
    exact Outcome.noConfusion h
  rw [if_neg c1] at h
  by_cases c2 : (!e.d3d11CreateDevice) = true
  · rw [if_pos c2] at h
    exact Bool.noConfusion (Outcome.ret.inj h)
  rw [if_neg c2] at h
  by_cases c3 : (!e.createDXGIFactory1) = true
  · rw [if_pos c3] at h
    exact Outcome.noConfusion h
  rw [if_neg c3] at h
  by_cases c4 : (!e.enumAdapters) = true
  · rw [if_pos c4] at h
    exact Outcome.noConfusion h
  rw [if_neg c4] at h
  by_cases c5 : (!e.enumOutputs) = true
  · rw [if_pos c5] at h
    exact Outcome.noConfusion h
  rw [if_neg c5] at h
  by_cases hq : (!e.queryOutput1) = true
  · rw [if_pos hq] at h
    by_cases c6 : (!e.createUploadBuffer) = true
    · rw [if_pos c6] at h
      exact Outcome.noConfusion h
    rw [if_neg c6] at h
    by_cases hc : (!e.mapUploadBuffer) = true
    · rw [if_pos hc] at h
      exact Outcome.noConfusion h
    rw [if_neg hc] at h
    clear hc
    by_cases hc : (!e.resetCommandList) = true
    · rw [if_pos hc] at h
      exact Outcome.noConfusion h
    rw [if_neg hc] at h
    clear hc
    by_cases hc : (!e.closeCommandList) = true
    · rw [if_pos hc] at h
      exact Outcome.noConfusion h
    rw [if_neg hc] at h
    clear hc
    have ht := createResourcesTail_fst_true e _ h
    exact ⟨by simpa using c1, by simpa using c2, by simpa using c3, by simpa using c4,
      by simpa using c5, by simpa using c6, ht⟩
  · rw [if_neg hq] at h
    by_cases hc : (!e.createStagingTexture) = true
    · rw [if_pos hc] at h
      exact Outcome.noConfusion h
    rw [if_neg hc] at h
    clear hc
    by_cases c6 : (!e.createUploadBuffer) = true
    · rw [if_pos c6] at h
      exact Outcome.noConfusion h
    rw [if_neg c6] at h
    have ht := createResourcesTail_fst_true e _ h
    exact ⟨by simpa using c1, by simpa using c2, by simpa using c3, by simpa using c4,
      by simpa using c5, by simpa using c6, ht⟩

/-- The call `CreateResources` runs into undefined behaviour only through its
two unguarded calls, `adapter->EnumOutputs` and `output->QueryInterface`, when
`EnumAdapters` or `EnumOutputs` stored nothing. -/
theorem CreateResources_fst_fault (e : ResourcesEnv) (s : D3D12Renderer)
    (h : (CreateResources e s).1 = Outcome.fault) :
    e.enumAdapters = false ∨ e.enumOutputs = false := by
  have ht := createResourcesTail_ne_fault e
  unfold CreateResources at h
  simp only [] at h
  by_cases hc : (!s.ptr Handle.m_device) = true
  · rw [if_pos hc] at h
    exact Outcome.noConfusion h
  rw [if_neg hc] at h
  clear hc
  by_cases c1 : (!e.createScreenTexture) = true
  · rw [if_pos c1] at h
    exact Outcome.noConfusion h
  rw [if_neg c1] at h
  by_cases c2 : (!e.d3d11CreateDevice) = true
  · rw [if_pos c2] at h
    exact Outcome.noConfusion h
  rw [if_neg c2] at h
  by_cases c3 : (!e.createDXGIFactory1) = true
  · rw [if_pos c3] at h
    exact Outcome.noConfusion h
  rw [if_neg c3] at h
  by_cases c4 : (!e.enumAdapters) = true
  · exact Or.inl (by simpa using c4)
  rw [if_neg c4] at h
  by_cases c5 : (!e.enumOutputs) = true
  · exact Or.inr (by simpa using c5)
  rw [if_neg c5] at h
  by_cases hq : (!e.queryOutput1) = true
  · rw [if_pos hq] at h
    by_cases c6 : (!e.createUploadBuffer) = true
    · rw [if_pos c6] at h
      exact Outcome.noConfusion h
    rw [if_neg c6] at h
    by_cases hc : (!e.mapUploadBuffer) = true
    · rw [if_pos hc] at h
      exact Outcome.noConfusion h
    rw [if_neg hc] at h
    clear hc
    by_cases hc : (!e.resetCommandList) = true
    · rw [if_pos hc] at h
      exact Outcome.noConfusion h
    rw [if_neg hc] at h
    clear hc
    by_cases hc : (!e.closeCommandList) = true
    · rw [if_pos hc] at h
      exact Outcome.noConfusion h
    rw [if_neg hc] at h
    clear hc
    exact absurd h (ht _)
  · rw [if_neg hq] at h
    by_cases hc : (!e.createStagingTexture) = true
    · rw [if_pos hc] at h
      exact Outcome.noConfusion h
    rw [if_neg hc] at h
    clear hc
    by_cases c6 : (!e.createUploadBuffer) = true
    · rw [if_pos c6] at h
      exact Outcome.noConfusion h
    rw [if_neg c6] at h
    exact absurd h (ht _)

theorem CreatePipelines_ne_fault (e : PipelinesEnv) (s : D3D12Renderer) :
    (CreatePipelines e s).1 ≠ Outcome.fault := by
  unfold CreatePipelines
  simp only [apply_ite Prod.fst, throwHR_fst, createComputePipeline_fst]
  cases s.ptr Handle.m_device
  · simp
  cases e.serializeRootSignature
  · simp
  cases e.createRootSignature
  · simp
  cases e.serializeComputeRootSignature
  · simp
  cases e.createComputeRootSignature
  · simp
  by_cases hk : e.readFogCompute = true ∧ e.compileFogCompute = true ∧
      e.createComputePipelineState = false
  · simp [hk]
  rw [if_neg hk]
  cases e.readVertexShader
  · simp
  cases e.readPixelShader
  · simp
  cases e.compileVertexShader
  · simp
  cases e.compilePixelShader
  · simp
  cases e.createGraphicsPipelineState
  · simp
  simp

/-- What a successful `CreateDeviceAndResources` shows of the platform: every
core creation step succeeded. -/
theorem CreateDeviceAndResources_fst_true (e : CreateEnv) (s : D3D12Renderer)
    (h : (CreateDeviceAndResources e s).1 = Outcome.ret true) :
    true ∈ e.createDevice.take 4 ∧ e.createCommandQueue = true ∧
    e.createSwapChainForHwnd = true ∧ e.swapChainQueryInterface = true ∧
    e.createRtvHeap = true ∧ e.createSrvHeap = true ∧ e.createSamplerHeap = true ∧
    (∀ j, j < FRAME_COUNT → e.getBuffer j = true ∧ e.createCommandAllocator j = true) ∧
    e.createCommandList = true ∧ e.closeCommandList = true ∧ e.createFence = true ∧
    e.createEvent = true ∧
    (e.resources.createScreenTexture = true ∧ e.resources.d3d11CreateDevice = true ∧
      e.resources.createDXGIFactory1 = true ∧ e.resources.enumAdapters = true ∧
      e.resources.enumOutputs = true ∧ e.resources.createUploadBuffer = true ∧
      (∀ j, j < FRAME_COUNT →
        e.resources.createConstantBuffer j = true ∧ e.resources.mapConstantBuffer j = true) ∧
      e.resources.createVertexBuffer = true ∧ e.resources.mapVertexBuffer = true) ∧
    (e.pipelines.serializeRootSignature = true ∧ e.pipelines.createRootSignature = true ∧
      e.pipelines.readVertexShader = true ∧ e.pipelines.readPixelShader = true ∧
      e.pipelines.compileVertexShader = true ∧ e.pipelines.compilePixelShader = true ∧
      e.pipelines.createGraphicsPipelineState = true) := by
  unfold CreateDeviceAndResources at h
  simp only [apply_ite Prod.fst, throwHR_fst, throwTool_fst] at h
  generalize hg1 : getSwapChainBuffers e FRAME_COUNT 0 _ = r1 at h
  generalize hg2 : createCommandAllocators e FRAME_COUNT 0 _ = r2 at h
  generalize hg3 : CreateResources e.resources _ = r3 at h
  generalize hS0 : (ite (List.indexOf true (List.take 4 e.createDevice) <
    (List.take 4 e.createDevice).length) _ _ : D3D12Renderer) = S0 at h
  generalize hg4 : CreatePipelines e.pipelines r3.2 = r4 at h
  by_cases d1 : (!S0.ptr Handle.m_device) = true
  · rw [if_pos d1] at h
    exact Outcome.noConfusion h
  rw [if_neg d1] at h
  by_cases d2 : (!e.createCommandQueue) = true
  · rw [if_pos d2] at h
    exact Outcome.noConfusion h
  rw [if_neg d2] at h
  by_cases d3 : (!e.createSwapChainForHwnd) = true
  · rw [if_pos d3] at h
    exact Outcome.noConfusion h
  rw [if_neg d3] at h
  by_cases d4 : (!e.swapChainQueryInterface) = true
  · rw [if_pos d4] at h
    exact Outcome.noConfusion h
  rw [if_neg d4] at h
  by_cases d5 : (!e.createRtvHeap) = true
  · rw [if_pos d5] at h
    exact Outcome.noConfusion h
  rw [if_neg d5] at h
  by_cases d6 : (!e.createSrvHeap) = true
  · rw [if_pos d6] at h
    exact Outcome.noConfusion h
  rw [if_neg d6] at h
  by_cases d7 : (!e.createSamplerHeap) = true
  · rw [if_pos d7] at h
    exact Outcome.noConfusion h
  rw [if_neg d7] at h
  by_cases c1 : r1.1 ≠ Outcome.ret true
  · rw [if_pos c1] at h
    exact absurd h c1
  rw [if_neg c1] at h
  by_cases c2 : r2.1 ≠ Outcome.ret true
  · rw [if_pos c2] at h
    exact absurd h c2
  rw [if_neg c2] at h
  by_cases d8 : (!e.createCommandList) = true
  · rw [if_pos d8] at h
    exact Outcome.noConfusion h
  rw [if_neg d8] at h
  by_cases d9 : (!e.closeCommandList) = true
  · rw [if_pos d9] at h
    exact Outcome.noConfusion h
  rw [if_neg d9] at h
  by_cases d10 : (!e.createFence) = true
  · rw [if_pos d10] at h
    exact Outcome.noConfusion h
  rw [if_neg d10] at h
  by_cases d11 : (!e.createEvent) = true
  · rw [if_pos d11] at h
    exact Outcome.noConfusion h
  rw [if_neg d11] at h
  by_cases c3 : r3.1 = Outcome.ret false
  · rw [if_pos c3] at h
    exact Bool.noConfusion (Outcome.ret.inj h)
  rw [if_neg c3] at h
  by_cases c4 : r3.1 ≠ Outcome.ret true
  · rw [if_pos c4] at h
    exact absurd h c4
  rw [if_neg c4] at h
  by_cases c5 : r4.1 = Outcome.ret false
  · rw [if_pos c5] at h
    exact Bool.noConfusion (Outcome.ret.inj h)
  rw [if_neg c5] at h
  by_cases c6 : r4.1 ≠ Outcome.ret true
  · rw [if_pos c6] at h
    exact absurd h c6
  have hr1 : r1.1 = Outcome.ret true := not_not.mp c1
  have hr2 : r2.1 = Outcome.ret true := not_not.mp c2
  have hr3 : r3.1 = Outcome.ret true := not_not.mp c4
  have hr4 : r4.1 = Outcome.ret true := not_not.mp c6
  rw [← hg1] at hr1
  rw [← hg2] at hr2
  rw [← hg3] at hr3
  rw [← hg4] at hr4
  have hp := (CreatePipelines_fst_true _ _).1 hr4
  have hdev : true ∈ e.createDevice.take 4 := by
    rw [← List.indexOf_lt_length]
    by_contra hl
    rw [if_neg hl] at hS0
    rw [← hS0] at d1
    simp only [set_proj, if_true, Bool.not_false, not_true_eq_false] at d1
  exact ⟨hdev, by simpa using d2, by simpa using d3, by simpa using d4, by simpa using d5,
    by simpa using d6, by simpa using d7,
    fun j hj => ⟨getSwapChainBuffers_fst_true e _ _ _ hr1 j (Nat.zero_le _) (by omega),
      createCommandAllocators_fst_true e _ _ _ hr2 j (Nat.zero_le _) (by omega)⟩,
    by simpa using d8, by simpa using d9, by simpa using d10, by simpa using d11,
    CreateResources_fst_true _ _ hr3,
    ⟨hp.2.1, hp.2.2.1, hp.2.2.2.2.2.2.1, hp.2.2.2.2.2.2.2.1, hp.2.2.2.2.2.2.2.2.1,
      hp.2.2.2.2.2.2.2.2.2.1, hp.2.2.2.2.2.2.2.2.2.2⟩⟩

/-- The call `CreateDeviceAndResources` runs into undefined behaviour only
through the two unguarded calls of `CreateResources`. -/
theorem CreateDeviceAndResources_fst_fault (e : CreateEnv) (s : D3D12Renderer)
    (h : (CreateDeviceAndResources e s).1 = Outcome.fault) :
    e.resources.enumAdapters = false ∨ e.resources.enumOutputs = false := by
  unfold CreateDeviceAndResources at h
  simp only [apply_ite Prod.fst, throwHR_fst, throwTool_fst] at h
  generalize hg1 : getSwapChainBuffers e FRAME_COUNT 0 _ = r1 at h
  generalize hg2 : createCommandAllocators e FRAME_COUNT 0 _ = r2 at h
  generalize hg3 : CreateResources e.resources _ = r3 at h
  generalize hS0 : (ite (List.indexOf true (List.take 4 e.createDevice) <
    (List.take 4 e.createDevice).length) _ _ : D3D12Renderer) = S0 at h
  generalize hg4 : CreatePipelines e.pipelines r3.2 = r4 at h
  by_cases d1 : (!S0.ptr Handle.m_device) = true
  · rw [if_pos d1] at h
    exact Outcome.noConfusion h
  rw [if_neg d1] at h
  by_cases d2 : (!e.createCommandQueue) = true
  · rw [if_pos d2] at h
    exact Outcome.noConfusion h
  rw [if_neg d2] at h
  by_cases d3 : (!e.createSwapChainForHwnd) = true
  · rw [if_pos d3] at h
    exact Outcome.noConfusion h
  rw [if_neg d3] at h
  by_cases d4 : (!e.swapChainQueryInterface) = true
  · rw [if_pos d4] at h
    exact Outcome.noConfusion h
  rw [if_neg d4] at h
  by_cases d5 : (!e.createRtvHeap) = true
  · rw [if_pos d5] at h
    exact Outcome.noConfusion h
  rw [if_neg d5] at h
  by_cases d6 : (!e.createSrvHeap) = true
  · rw [if_pos d6] at h
    exact Outcome.noConfusion h
  rw [if_neg d6] at h
  by_cases d7 : (!e.createSamplerHeap) = true
  · rw [if_pos d7] at h
    exact Outcome.noConfusion h
  rw [if_neg d7] at h
  have n1 : r1.1 ≠ Outcome.fault := by
    rw [← hg1]
    exact getSwapChainBuffers_ne_fault _ _ _ _
  have n2 : r2.1 ≠ Outcome.fault := by
    rw [← hg2]
    exact createCommandAllocators_ne_fault _ _ _ _
  have n4 : r4.1 ≠ Outcome.fault := by
    rw [← hg4]
    exact CreatePipelines_ne_fault _ _
  by_cases c1 : r1.1 ≠ Outcome.ret true
  · rw [if_pos c1] at h
    exact absurd h n1
  rw [if_neg c1] at h
  by_cases c2 : r2.1 ≠ Outcome.ret true
  · rw [if_pos c2] at h
    exact absurd h n2
  rw [if_neg c2] at h
  by_cases d8 : (!e.createCommandList) = true
  · rw [if_pos d8] at h
    exact Outcome.noConfusion h
  rw [if_neg d8] at h
  by_cases d9 : (!e.closeCommandList) = true
  · rw [if_pos d9] at h
    exact Outcome.noConfusion h
  rw [if_neg d9] at h
  by_cases d10 : (!e.createFence) = true
  · rw [if_pos d10] at h
    exact Outcome.noConfusion h
  rw [if_neg d10] at h
  by_cases d11 : (!e.createEvent) = true
  · rw [if_pos d11] at h
    exact Outcome.noConfusion h
  rw [if_neg d11] at h
  by_cases c3 : r3.1 = Outcome.ret false
  · rw [if_pos c3] at h
    exact Outcome.noConfusion h
  rw [if_neg c3] at h
  by_cases c4 : r3.1 ≠ Outcome.ret true
  · rw [if_pos c4] at h
    rw [← hg3] at h
    exact CreateResources_fst_fault _ _ h
  rw [if_neg c4] at h
  by_cases c5 : r4.1 = Outcome.ret false
  · rw [if_pos c5] at h
    exact Outcome.noConfusion h
  rw [if_neg c5] at h
  by_cases c6 : r4.1 ≠ Outcome.ret true
  · rw [if_pos c6] at h
    exact absurd h n4
  rw [if_neg c6] at h
  exact Outcome.noConfusion h

/-- What a successful `Initialize` shows of the platform: the factory was
created, an adapter was selected or the override was set, and every core
creation step of `CreateDeviceAndResources` succeeded. -/
theorem Initialize_fst_true (e : InitEnv) (s : D3D12Renderer)
    (h : (Initialize e s).1 = Outcome.ret true) :
    e.createDXGIFactory2 = true ∧ (SelectAdapter e s).1 = true ∧
    (CreateDeviceAndResources e.create (SelectAdapter e
      (((s.set Handle.m_hwnd e.hwnd).log "Initializing D3D12Renderer...\n").set
        Handle.m_factory e.createDXGIFactory2)).2).1 = Outcome.ret true := by
  unfold Initialize at h
  simp only [] at h
  by_cases c1 : (!e.createDXGIFactory2) = true
  · rw [if_pos c1] at h
    simp [throwHR, Outcome.isThrew] at h
  rw [if_neg c1] at h
  by_cases c2 : (!(SelectAdapter e (((s.set Handle.m_hwnd e.hwnd).log
      "Initializing D3D12Renderer...\n").set Handle.m_factory e.createDXGIFactory2)).1) = true
  · rw [if_pos c2] at h
    simp [throwTool, Outcome.isThrew] at h
  rw [if_neg c2] at h
  generalize hr : CreateDeviceAndResources e.create _ = r at h ⊢
  by_cases c3 : r.1.isThrew = true
  · rw [if_pos c3] at h
    exact Bool.noConfusion (Outcome.ret.inj h)
  rw [if_neg c3] at h
  refine ⟨by simpa using c1, ?_, h⟩
  rw [SelectAdapter_fst_state e s]
  simpa using c2

/-- The call `Initialize` runs into undefined behaviour only through the two
unguarded calls of `CreateResources`. -/
theorem Initialize_fst_fault (e : InitEnv) (s : D3D12Renderer)
    (h : (Initialize e s).1 = Outcome.fault) :
    e.create.resources.enumAdapters = false ∨ e.create.resources.enumOutputs = false := by
  unfold Initialize at h
  simp only [] at h
  by_cases c1 : (!e.createDXGIFactory2) = true
  · rw [if_pos c1] at h
    simp [throwHR, Outcome.isThrew] at h
  rw [if_neg c1] at h
  by_cases c2 : (!(SelectAdapter e (((s.set Handle.m_hwnd e.hwnd).log
      "Initializing D3D12Renderer...\n").set Handle.m_factory e.createDXGIFactory2)).1) = true
  · rw [if_pos c2] at h
    simp [throwTool, Outcome.isThrew] at h
  rw [if_neg c2] at h
  generalize hr : CreateDeviceAndResources e.create _ = r at h
  by_cases c3 : r.1.isThrew = true
  · rw [if_pos c3] at h
    exact Outcome.noConfusion h
  rw [if_neg c3] at h
  rw [← hr] at h
  exact CreateDeviceAndResources_fst_fault _ _ h

/-- C24, amended: `Initialize` lets no exception out: it returns true, returns
false, or runs into the undefined behaviour of the two unguarded calls of
`CreateResources`.  It returns true only when every core creation step
succeeded (factory, adapter selection, device, queue, swap chain, heaps,
buffers and allocators of every slot, command list, fence and event, the
resources, the graphics pipeline), so a failing step makes it return false.
It calls no `Cleanup`: what was created stays in place when it returns.  The
`Cleanup()` that follows (the destructor's, the application's) leaves every
resource handle null other than `m_d3d11Device` and `m_d3d11Context`, which
keep their values. -/
theorem C24_failed_initialize_released_by_cleanup (e : InitEnv) (s : D3D12Renderer) :
    ((Initialize e s).1 = Outcome.ret true ∨ (Initialize e s).1 = Outcome.ret false ∨
      (Initialize e s).1 = Outcome.fault) ∧
    ((Initialize e s).1 = Outcome.ret true →
      e.createDXGIFactory2 = true ∧ (SelectAdapter e s).1 = true ∧
      true ∈ e.create.createDevice.take 4 ∧ e.create.createCommandQueue = true ∧
      e.create.createSwapChainForHwnd = true ∧ e.create.swapChainQueryInterface = true ∧
      e.create.createRtvHeap = true ∧ e.create.createSrvHeap = true ∧
      e.create.createSamplerHeap = true ∧
      (∀ j, j < FRAME_COUNT →
        e.create.getBuffer j = true ∧ e.create.createCommandAllocator j = true) ∧
      e.create.createCommandList = true ∧ e.create.closeCommandList = true ∧
      e.create.createFence = true ∧ e.create.createEvent = true ∧
      (e.create.resources.createScreenTexture = true ∧
        e.create.resources.d3d11CreateDevice = true ∧
        e.create.resources.createDXGIFactory1 = true ∧
        e.create.resources.enumAdapters = true ∧ e.create.resources.enumOutputs = true ∧
        e.create.resources.createUploadBuffer = true ∧
        (∀ j, j < FRAME_COUNT → e.create.resources.createConstantBuffer j = true ∧
          e.create.resources.mapConstantBuffer j = true) ∧
        e.create.resources.createVertexBuffer = true ∧
        e.create.resources.mapVertexBuffer = true) ∧
      (e.create.pipelines.serializeRootSignature = true ∧
        e.create.pipelines.createRootSignature = true ∧
        e.create.pipelines.readVertexShader = true ∧
        e.create.pipelines.readPixelShader = true ∧
        e.create.pipelines.compileVertexShader = true ∧
        e.create.pipelines.compilePixelShader = true ∧
        e.create.pipelines.createGraphicsPipelineState = true)) ∧
    ((Initialize e s).1 = Outcome.fault →
      e.create.resources.enumAdapters = false ∨ e.create.resources.enumOutputs = false) ∧
    (∀ p, (Initialize e s).2.trace.count (Event.Cleanup p) = s.trace.count (Event.Cleanup p)) ∧
    ((Cleanup false (Initialize e s).2).ptr Handle.m_adapter = false ∧
      (Cleanup false (Initialize e s).2).ptr Handle.m_factory = false ∧
      (Cleanup false (Initialize e s).2).ptr Handle.m_hwnd = false ∧
      (Cleanup false (Initialize e s).2).ptr Handle.m_device = false ∧
      (Cleanup false (Initialize e s).2).ptr Handle.m_commandQueue = false ∧
      (Cleanup false (Initialize e s).2).ptr Handle.m_swapChain = false ∧
      (Cleanup false (Initialize e s).2).ptr Handle.m_rtvHeap = false ∧
      (Cleanup false (Initialize e s).2).ptr Handle.m_srvHeap = false ∧
      (Cleanup false (Initialize e s).2).ptr Handle.m_samplerHeap = false ∧
      (Cleanup false (Initialize e s).2).ptr Handle.m_commandList = false ∧
      (Cleanup false (Initialize e s).2).ptr Handle.m_screenTexture = false ∧
      (Cleanup false (Initialize e s).2).ptr Handle.m_depthTexture = false ∧
      (Cleanup false (Initialize e s).2).ptr Handle.m_vertexBuffer = false ∧
      (Cleanup false (Initialize e s).2).ptr Handle.m_d3d11Duplication = false ∧
      (Cleanup false (Initialize e s).2).ptr Handle.m_d3d11StagingTexture = false ∧
      (Cleanup false (Initialize e s).2).ptr Handle.m_d3d12UploadBuffer = false ∧
      (Cleanup false (Initialize e s).2).ptr Handle.m_rootSignature = false ∧
      (Cleanup false (Initialize e s).2).ptr Handle.m_computePso = false ∧
      (Cleanup false (Initialize e s).2).ptr Handle.m_graphicsPso = false ∧
      (Cleanup false (Initialize e s).2).ptr Handle.m_disparityTexture = false ∧
      (Cleanup false (Initialize e s).2).ptr Handle.m_computeRootSignature = false ∧
      (Cleanup false (Initialize e s).2).ptr Handle.m_fence = false ∧
      (Cleanup false (Initialize e s).2).ptr Handle.m_fenceEvent = false) ∧
    (∀ i, i < FRAME_COUNT →
      (Cleanup false (Initialize e s).2).ptr (Handle.m_renderTargets i) = false ∧
      (Cleanup false (Initialize e s).2).ptr (Handle.m_commandAllocators i) = false ∧
      (Cleanup false (Initialize e s).2).ptr (Handle.m_constantBuffers i) = false) ∧
    (Cleanup false (Initialize e s).2).ptr Handle.m_d3d11Device =
      (Initialize e s).2.ptr Handle.m_d3d11Device ∧
    (Cleanup false (Initialize e s).2).ptr Handle.m_d3d11Context =
      (Initialize e s).2.ptr Handle.m_d3d11Context := by
  refine ⟨?_, fun h => ?_, Initialize_fst_fault e s, fun p => Initialize_cleanups e s p, ?_,
    fun i hi => ?_, ?_, ?_⟩
  · have h := Initialize_isThrew e s
    generalize (Initialize e s).1 = o at h
    cases o with
    | ret b => cases b <;> simp
    | threw m => exact absurd h (by simp [Outcome.isThrew])
    | fault => simp
  · obtain ⟨h1, h2, h3⟩ := Initialize_fst_true e s h
    exact ⟨h1, h2, CreateDeviceAndResources_fst_true _ _ h3⟩
  · rw [Cleanup_ptr]
    exact ⟨rfl, rfl, rfl, rfl, rfl, rfl, rfl, rfl, rfl, rfl, rfl, rfl, rfl, rfl, rfl, rfl, rfl,
      rfl, rfl, rfl, rfl, rfl, rfl⟩
  · rw [Cleanup_ptr]
    simp only [cleanupPtr, hi, if_true, and_self]
  · rw [Cleanup_ptr]
    rfl
  · rw [Cleanup_ptr]
    rfl

set_option maxRecDepth 100000 in
/-- C24 at work.  On a newly constructed renderer, an `Initialize` in which
`CreateCommandQueue` fails returns false with the device still in place and no
`Cleanup` recorded, and the `Cleanup()` that follows nulls the factory, the
adapter and the device; a successful `Initialize` shows that the queue and
the graphics pipeline state were created. -/
theorem C24_failed_initialize_released_by_cleanup_witness :
    queueFailsInit.create.createCommandQueue = false ∧
    (Initialize queueFailsInit (D3D12Renderer.ctor false false)).1 = Outcome.ret false ∧
    (Initialize queueFailsInit (D3D12Renderer.ctor false false)).2.ptr Handle.m_device = true ∧
    (Initialize queueFailsInit (D3D12Renderer.ctor false false)).2.trace.count
      (Event.Cleanup false) = 0 ∧
    (Cleanup false (Initialize queueFailsInit (D3D12Renderer.ctor false false)).2).ptr
      Handle.m_factory = false ∧
    (Cleanup false (Initialize queueFailsInit (D3D12Renderer.ctor false false)).2).ptr
      Handle.m_adapter = false ∧
    (Cleanup false (Initialize queueFailsInit (D3D12Renderer.ctor false false)).2).ptr
      Handle.m_device = false ∧
    (Initialize okInit (D3D12Renderer.ctor false false)).1 = Outcome.ret true ∧
    okInit.create.createCommandQueue = true ∧
    okInit.create.pipelines.createGraphicsPipelineState = true :=
  have h := C24_failed_initialize_released_by_cleanup queueFailsInit
    (D3D12Renderer.ctor false false)
  have hok : (Initialize okInit (D3D12Renderer.ctor false false)).1 = Outcome.ret true := by
    with_unfolding_all decide
  have h2 := (C24_failed_initialize_released_by_cleanup okInit
    (D3D12Renderer.ctor false false)).2.1 hok
  ⟨rfl, by with_unfolding_all decide, by with_unfolding_all decide,
    (h.2.2.2.1 false).trans rfl, h.2.2.2.2.1.2.1, h.2.2.2.2.1.1, h.2.2.2.2.1.2.2.2.1, hok,
    h2.2.2.2.1, h2.2.2.2.2.2.2.2.2.2.2.2.2.2.2.2.2.2.2.2.2.2⟩

/-! ## The slot index through the operations -/

theorem Cleanup_m_frameIndex (p : Bool) (s : D3D12Renderer) :
    (Cleanup p s).m_frameIndex = s.m_frameIndex := by
  unfold Cleanup
  simp only [log_eq, throwHR_snd, throwTool_snd, apply_ite Prod.snd,
    apply_ite D3D12Renderer.m_frameIndex, set_proj, emit_proj, put_ptr_proj,
    put_selectedAdapter_proj, put_m_constantBufferSize_proj, put_m_fenceValue_proj,
    put_m_rtvDescriptorSize_proj, put_m_featureLevel_proj, put_m_time_proj,
    put_m_recoveryCount_proj, put_m_fallbackMode_proj, put_config_proj, put_SCREEN_WIDTH_proj,
    put_SCREEN_HEIGHT_proj, put_uploadBufferWidth_proj, put_uploadData_proj,
    put_screenTextureData_proj, put_mappedConstants_proj, WaitForGPU_proj,
    afterValidate_proj]
  simp only [ite_self]

theorem getSwapChainBuffers_m_frameIndex (e : CreateEnv) (n i : Nat) (s : D3D12Renderer) :
    ((getSwapChainBuffers e n i s).2).m_frameIndex = s.m_frameIndex := by
  induction n generalizing i s with
  | zero => unfold getSwapChainBuffers; rfl
  | succ n ih =>
    unfold getSwapChainBuffers
    simp only [log_eq, throwHR_snd, throwTool_snd, apply_ite Prod.snd,
      apply_ite D3D12Renderer.m_frameIndex, set_proj, emit_proj, put_ptr_proj,
      put_selectedAdapter_proj, put_m_constantBufferSize_proj, put_m_fenceValue_proj,
      put_m_rtvDescriptorSize_proj, put_m_featureLevel_proj, put_m_time_proj,
      put_m_recoveryCount_proj, put_m_fallbackMode_proj, put_config_proj, put_SCREEN_WIDTH_proj,
      put_SCREEN_HEIGHT_proj, put_uploadBufferWidth_proj, put_uploadData_proj,
      put_screenTextureData_proj, put_mappedConstants_proj, WaitForGPU_proj,
      afterValidate_proj, ih]
    simp only [ite_self]

theorem createCommandAllocators_m_frameIndex (e : CreateEnv) (n i : Nat) (s : D3D12Renderer) :
    ((createCommandAllocators e n i s).2).m_frameIndex = s.m_frameIndex := by
  induction n generalizing i s with
  | zero => unfold createCommandAllocators; rfl
  | succ n ih =>
    unfold createCommandAllocators
    simp only [log_eq, throwHR_snd, throwTool_snd, apply_ite Prod.snd,
      apply_ite D3D12Renderer.m_frameIndex, set_proj, emit_proj, put_ptr_proj,
      put_selectedAdapter_proj, put_m_constantBufferSize_proj, put_m_fenceValue_proj,
      put_m_rtvDescriptorSize_proj, put_m_featureLevel_proj, put_m_time_proj,
      put_m_recoveryCount_proj, put_m_fallbackMode_proj, put_config_proj, put_SCREEN_WIDTH_proj,
      put_SCREEN_HEIGHT_proj, put_uploadBufferWidth_proj, put_uploadData_proj,
      put_screenTextureData_proj, put_mappedConstants_proj, WaitForGPU_proj,
      afterValidate_proj, ih]
    simp only [ite_self]

theorem createConstantBuffers_m_frameIndex (e : ResourcesEnv) (n i : Nat) (s : D3D12Renderer) :
    ((createConstantBuffers e n i s).2).m_frameIndex = s.m_frameIndex := by
  induction n generalizing i s with
  | zero => unfold createConstantBuffers; rfl
  | succ n ih =>
    unfold createConstantBuffers
    simp only [log_eq, throwHR_snd, throwTool_snd, apply_ite Prod.snd,
      apply_ite D3D12Renderer.m_frameIndex, set_proj, emit_proj, put_ptr_proj,
      put_selectedAdapter_proj, put_m_constantBufferSize_proj, put_m_fenceValue_proj,
      put_m_rtvDescriptorSize_proj, put_m_featureLevel_proj, put_m_time_proj,
      put_m_recoveryCount_proj, put_m_fallbackMode_proj, put_config_proj, put_SCREEN_WIDTH_proj,
      put_SCREEN_HEIGHT_proj, put_uploadBufferWidth_proj, put_uploadData_proj,
      put_screenTextureData_proj, put_mappedConstants_proj, WaitForGPU_proj,
      afterValidate_proj, ih]
    simp only [ite_self]

theorem createResourcesTail_m_frameIndex (e : ResourcesEnv) (s : D3D12Renderer) :
    ((createResourcesTail e s).2).m_frameIndex = s.m_frameIndex := by
  unfold createResourcesTail
  simp only [log_eq, throwHR_snd, throwTool_snd, apply_ite Prod.snd,
    apply_ite D3D12Renderer.m_frameIndex, set_proj, emit_proj, put_ptr_proj,
    put_selectedAdapter_proj, put_m_constantBufferSize_proj, put_m_fenceValue_proj,
    put_m_rtvDescriptorSize_proj, put_m_featureLevel_proj, put_m_time_proj,
    put_m_recoveryCount_proj, put_m_fallbackMode_proj, put_config_proj, put_SCREEN_WIDTH_proj,
    put_SCREEN_HEIGHT_proj, put_uploadBufferWidth_proj, put_uploadData_proj,
    put_screenTextureData_proj, put_mappedConstants_proj, WaitForGPU_proj,
    afterValidate_proj, createConstantBuffers_m_frameIndex]
  simp only [ite_self]

theorem CreateResources_m_frameIndex (e : ResourcesEnv) (s : D3D12Renderer) :
    ((CreateResources e s).2).m_frameIndex = s.m_frameIndex := by
  unfold CreateResources
  simp only [log_eq, throwHR_snd, throwTool_snd, apply_ite Prod.snd,
    apply_ite D3D12Renderer.m_frameIndex, set_proj, emit_proj, put_ptr_proj,
    put_selectedAdapter_proj, put_m_constantBufferSize_proj, put_m_fenceValue_proj,
    put_m_rtvDescriptorSize_proj, put_m_featureLevel_proj, put_m_time_proj,
    put_m_recoveryCount_proj, put_m_fallbackMode_proj, put_config_proj, put_SCREEN_WIDTH_proj,
    put_SCREEN_HEIGHT_proj, put_uploadBufferWidth_proj, put_uploadData_proj,
    put_screenTextureData_proj, put_mappedConstants_proj, WaitForGPU_proj,
    afterValidate_proj, createResourcesTail_m_frameIndex]
  simp only [ite_self]

theorem createComputePipeline_m_frameIndex (e : PipelinesEnv) (s : D3D12Renderer) :
    ((createComputePipeline e s).2).m_frameIndex = s.m_frameIndex := by
  unfold createComputePipeline
  simp only [log_eq, throwHR_snd, throwTool_snd, apply_ite Prod.snd,
    apply_ite D3D12Renderer.m_frameIndex, set_proj, emit_proj, put_ptr_proj,
    put_selectedAdapter_proj, put_m_constantBufferSize_proj, put_m_fenceValue_proj,
    put_m_rtvDescriptorSize_proj, put_m_featureLevel_proj, put_m_time_proj,
    put_m_recoveryCount_proj, put_m_fallbackMode_proj, put_config_proj, put_SCREEN_WIDTH_proj,
    put_SCREEN_HEIGHT_proj, put_uploadBufferWidth_proj, put_uploadData_proj,
    put_screenTextureData_proj, put_mappedConstants_proj, WaitForGPU_proj,
    afterValidate_proj]
  simp only [ite_self]

theorem CreatePipelines_m_frameIndex (e : PipelinesEnv) (s : D3D12Renderer) :
    ((CreatePipelines e s).2).m_frameIndex = s.m_frameIndex := by
  unfold CreatePipelines
  simp only [log_eq, throwHR_snd, throwTool_snd, apply_ite Prod.snd,
    apply_ite D3D12Renderer.m_frameIndex, set_proj, emit_proj, put_ptr_proj,
    put_selectedAdapter_proj, put_m_constantBufferSize_proj, put_m_fenceValue_proj,
    put_m_rtvDescriptorSize_proj, put_m_featureLevel_proj, put_m_time_proj,
    put_m_recoveryCount_proj, put_m_fallbackMode_proj, put_config_proj, put_SCREEN_WIDTH_proj,
    put_SCREEN_HEIGHT_proj, put_uploadBufferWidth_proj, put_uploadData_proj,
    put_screenTextureData_proj, put_mappedConstants_proj, WaitForGPU_proj,
    afterValidate_proj, createComputePipeline_m_frameIndex]
  simp only [ite_self]

theorem CreateDeviceAndResources_m_frameIndex (e : CreateEnv) (s : D3D12Renderer) :
    ((CreateDeviceAndResources e s).2).m_frameIndex = s.m_frameIndex := by
  unfold CreateDeviceAndResources
  simp only [log_eq, throwHR_snd, throwTool_snd, apply_ite Prod.snd,
    apply_ite D3D12Renderer.m_frameIndex, set_proj, emit_proj, put_ptr_proj,
    put_selectedAdapter_proj, put_m_constantBufferSize_proj, put_m_fenceValue_proj,
    put_m_rtvDescriptorSize_proj, put_m_featureLevel_proj, put_m_time_proj,
    put_m_recoveryCount_proj, put_m_fallbackMode_proj, put_config_proj, put_SCREEN_WIDTH_proj,
    put_SCREEN_HEIGHT_proj, put_uploadBufferWidth_proj, put_uploadData_proj,
    put_screenTextureData_proj, put_mappedConstants_proj, WaitForGPU_proj,
    afterValidate_proj, getSwapChainBuffers_m_frameIndex, createCommandAllocators_m_frameIndex, CreateResources_m_frameIndex, CreatePipelines_m_frameIndex]
  simp only [ite_self]

theorem RecoverDevice_m_frameIndex (e : CreateEnv) (s : D3D12Renderer) :
    ((RecoverDevice e s).2).m_frameIndex = s.m_frameIndex := by
  unfold RecoverDevice
  simp only [log_eq, throwHR_snd, throwTool_snd, apply_ite Prod.snd,
    apply_ite D3D12Renderer.m_frameIndex, set_proj, emit_proj, put_ptr_proj,
    put_selectedAdapter_proj, put_m_constantBufferSize_proj, put_m_fenceValue_proj,
    put_m_rtvDescriptorSize_proj, put_m_featureLevel_proj, put_m_time_proj,
    put_m_recoveryCount_proj, put_m_fallbackMode_proj, put_config_proj, put_SCREEN_WIDTH_proj,
    put_SCREEN_HEIGHT_proj, put_uploadBufferWidth_proj, put_uploadData_proj,
    put_screenTextureData_proj, put_mappedConstants_proj, WaitForGPU_proj,
    afterValidate_proj, Cleanup_m_frameIndex, CreateDeviceAndResources_m_frameIndex]
  simp only [ite_self]

theorem CaptureDesktop_m_frameIndex (e : CaptureEnv) (s : D3D12Renderer) :
    ((CaptureDesktop e s).2).m_frameIndex = s.m_frameIndex := by
  unfold CaptureDesktop
  simp only [log_eq, throwHR_snd, throwTool_snd, apply_ite Prod.snd,
    apply_ite D3D12Renderer.m_frameIndex, set_proj, emit_proj, put_ptr_proj,
    put_selectedAdapter_proj, put_m_constantBufferSize_proj, put_m_fenceValue_proj,
    put_m_rtvDescriptorSize_proj, put_m_featureLevel_proj, put_m_time_proj,
    put_m_recoveryCount_proj, put_m_fallbackMode_proj, put_config_proj, put_SCREEN_WIDTH_proj,
    put_SCREEN_HEIGHT_proj, put_uploadBufferWidth_proj, put_uploadData_proj,
    put_screenTextureData_proj, put_mappedConstants_proj, WaitForGPU_proj,
    afterValidate_proj]
  simp only [ite_self]

theorem foldl_emit_m_frameIndex (ev : Event) (l : List AdapterDesc) (s : D3D12Renderer) :
    (l.foldl (fun s _ => s.emit ev) s).m_frameIndex = s.m_frameIndex := by
  induction l generalizing s with
  | nil => rfl
  | cons a t ih =>
    simp only [List.foldl_cons]
    rw [ih]
    simp only [emit_proj]

theorem SelectAdapter_m_frameIndex (e : InitEnv) (s : D3D12Renderer) :
    (SelectAdapter e s).2.m_frameIndex = s.m_frameIndex := by
  have h := foldl_emit_m_frameIndex (Event.Log "Adapter skipped: insufficient feature level\n")
    (e.adapters.filter fun a => !a.software && (featureRank a).isNone) s
  unfold SelectAdapter
  split
  · simp only [log_eq, emit_proj]
  · split <;> simp only [log_eq, emit_proj, set_proj, put_selectedAdapter_proj, h]

theorem Initialize_m_frameIndex (e : InitEnv) (s : D3D12Renderer) :
    (Initialize e s).2.m_frameIndex = s.m_frameIndex := by
  unfold Initialize
  simp only [log_eq, throwHR_snd, throwTool_snd, apply_ite Prod.snd,
    apply_ite D3D12Renderer.m_frameIndex, set_proj, emit_proj, SelectAdapter_m_frameIndex,
    CreateDeviceAndResources_m_frameIndex]
  simp only [ite_self]

/-- The slot index `RenderFallback` leaves: the reported back buffer index,
or the old one when it returns before asking for it. -/
theorem RenderFallback_m_frameIndex (e : FallbackEnv) (s : D3D12Renderer) :
    (RenderFallback e s).2.m_frameIndex = s.m_frameIndex ∨
      (RenderFallback e s).2.m_frameIndex = e.backBufferIndex % UINT_SIZE := by
  unfold RenderFallback
  simp only [log_eq, throwHR_snd, apply_ite Prod.snd, apply_ite D3D12Renderer.m_frameIndex,
    emit_proj, put_m_frameIndex_proj, WaitForGPU_proj]
  simp only [ite_self]
  split_ifs
  · exact Or.inl rfl
  · exact Or.inr rfl

/-- The slot index a pass of `Render` leaves: the old one, the index reported
to the pass, or the index reported to the `RenderFallback` call it makes. -/
theorem submitFrame_m_frameIndex (e : PassEnv) (s : D3D12Renderer) :
    (submitFrame e s).2.m_frameIndex = s.m_frameIndex ∨
      (submitFrame e s).2.m_frameIndex = e.backBufferIndex % UINT_SIZE ∨
      (submitFrame e s).2.m_frameIndex = e.fallback.backBufferIndex % UINT_SIZE := by
  have hfb := RenderFallback_m_frameIndex e.fallback
    ((afterValidate s).emit (Event.Log "Render failed: Invalid resources\n"))
  simp only [emit_proj, afterValidate_proj] at hfb
  unfold submitFrame
  simp only [log_eq, throwHR_snd, apply_ite Prod.snd, apply_ite D3D12Renderer.m_frameIndex,
    emit_proj, put_m_frameIndex_proj, put_m_time_proj, afterValidate_proj,
    dispatchCompute_proj, writeConstants_proj]
  simp only [ite_self]
  split_ifs
  · rcases hfb with h | h
    · exact Or.inl h
    · exact Or.inr (Or.inr h)
  · exact Or.inl rfl
  · exact Or.inr (Or.inl rfl)

theorem recoverAndRetry_m_frameIndex (retry : D3D12Renderer → Outcome × D3D12Renderer)
    (hretry : ∀ t, t.m_frameIndex < FRAME_COUNT → (retry t).2.m_frameIndex < FRAME_COUNT)
    (e : PassEnv) (he : e.indexInRange) (s : D3D12Renderer) (hs : s.m_frameIndex < FRAME_COUNT) :
    (recoverAndRetry retry e s).2.m_frameIndex < FRAME_COUNT := by
  have hr := RecoverDevice_m_frameIndex e.recover s
  unfold recoverAndRetry
  simp only []
  split_ifs
  · apply hretry
    simp only [log_eq, emit_proj, hr]
    exact hs
  · rcases RenderFallback_m_frameIndex e.fallback
      (((RecoverDevice e.recover s).2.log
        "Recovery failed, switching to fallback\n").put_m_fallbackMode true) with h | h
    · rw [h]
      simp only [log_eq, emit_proj, put_m_fallbackMode_proj, hr]
      exact hs
    · rw [h]
      exact he.2
  · rw [hr]
    exact hs

theorem renderPass_m_frameIndex (retry : D3D12Renderer → Outcome × D3D12Renderer)
    (hretry : ∀ t, t.m_frameIndex < FRAME_COUNT → (retry t).2.m_frameIndex < FRAME_COUNT)
    (e : PassEnv) (he : e.indexInRange) (s : D3D12Renderer) (hs : s.m_frameIndex < FRAME_COUNT) :
    (renderPass retry e s).2.m_frameIndex < FRAME_COUNT := by
  have hsub : (submitFrame e s).2.m_frameIndex < FRAME_COUNT := by
    rcases submitFrame_m_frameIndex e s with h | h | h
    · rw [h]; exact hs
    · rw [h]; exact he.1
    · rw [h]; exact he.2
  unfold renderPass
  simp only []
  split_ifs
  · exact hsub
  · simp only [log_eq, emit_proj, WaitForGPU_proj]
    exact hsub
  · exact recoverAndRetry_m_frameIndex retry hretry e he _ hsub
  · simp only [log_eq, emit_proj]
    exact hsub

/-- A call of `Render` to which the swap chain reports indices below
`FRAME_COUNT` leaves `m_frameIndex` below `FRAME_COUNT`. -/
theorem Render_m_frameIndex (env : Nat → PassEnv) (henv : ∀ k, (env k).indexInRange)
    (s : D3D12Renderer) (hs : s.m_frameIndex < FRAME_COUNT) :
    (Render env s).2.m_frameIndex < FRAME_COUNT := by
  have aux : ∀ (n : Nat) (env : Nat → PassEnv), (∀ k, (env k).indexInRange) →
      ∀ s : D3D12Renderer, s.m_frameIndex < FRAME_COUNT →
      (RenderAux n env s).2.m_frameIndex < FRAME_COUNT := by
    intro n
    induction n with
    | zero =>
      intro env henv s hs
      unfold RenderAux
      exact renderPass_m_frameIndex _ (fun t ht => ht) _ (henv 0) _ hs
    | succ n ih =>
      intro env henv s hs
      unfold RenderAux
      exact renderPass_m_frameIndex _ (fun t ht => ih _ (fun k => henv (k + 1)) t ht) _
        (henv 0) _ hs
  unfold Render
  exact aux _ env henv s hs

/-- While the swap chain reports indices below `FRAME_COUNT`, `m_frameIndex`
stays below `FRAME_COUNT` through every sequence of operations. -/
theorem run_m_frameIndex (ops : List Op) (hops : ∀ o ∈ ops, o.indexInRange)
    (s : D3D12Renderer) (hs : s.m_frameIndex < FRAME_COUNT) :
    (run ops s).m_frameIndex < FRAME_COUNT := by
  induction ops generalizing s with
  | nil => exact hs
  | cons o ops ih =>
    have ho := hops o (List.mem_cons_self _ _)
    show (run ops (step s o)).m_frameIndex < FRAME_COUNT
    apply ih (fun o1 h1 => hops o1 (List.mem_cons_of_mem _ h1))
    cases o with
    | Initialize e =>
      show (Initialize e s).2.m_frameIndex < FRAME_COUNT
      rw [Initialize_m_frameIndex]; exact hs
    | CaptureDesktop e =>
      show (CaptureDesktop e s).2.m_frameIndex < FRAME_COUNT
      rw [CaptureDesktop_m_frameIndex]; exact hs
    | Render env => exact Render_m_frameIndex env ho s hs
    | RenderFallback e =>
      show (RenderFallback e s).2.m_frameIndex < FRAME_COUNT
      rcases RenderFallback_m_frameIndex e s with h | h
      · rw [h]; exact hs
      · rw [h]; exact ho
    | RecoverDevice e =>
      show (RecoverDevice e s).2.m_frameIndex < FRAME_COUNT
      rw [RecoverDevice_m_frameIndex]; exact hs
    | Cleanup p =>
      show (Cleanup p s).m_frameIndex < FRAME_COUNT
      rw [Cleanup_m_frameIndex]; exact hs

/-- A pass of `Render` on valid resources to which the swap chain reports an
index of `FRAME_COUNT` or more stores the index, logs and returns false,
before any access to a per-slot array. -/
theorem submitFrame_of_bad_index (e : PassEnv) (s : D3D12Renderer)
    (hv : ValidateResources s = true) (hi : FRAME_COUNT ≤ e.backBufferIndex % UINT_SIZE) :
    submitFrame e s =
      (some (Outcome.ret false),
        ((s.log "Rendering frame...\n").put_m_frameIndex (e.backBufferIndex % UINT_SIZE)).log
          "Invalid frame index or resources\n") := by
  unfold submitFrame
  simp only [afterValidate_of_valid s hv, hv, log_eq, emit_proj, put_m_frameIndex_proj,
    ge_iff_le, hi, decide_True, Bool.true_or, Bool.not_true, Bool.false_eq_true, if_false,
    if_true]

/-- A pass of `Render` that gets as far as `Present` has a slot index below
`FRAME_COUNT`. -/
theorem submitFrame_none_index (e : PassEnv) (s : D3D12Renderer)
    (h : (submitFrame e s).1 = none) : (submitFrame e s).2.m_frameIndex < FRAME_COUNT := by
  by_cases hv : ValidateResources s = true
  · by_cases hi : FRAME_COUNT ≤ e.backBufferIndex % UINT_SIZE
    · rw [submitFrame_of_bad_index e s hv hi] at h
      cases h
    · have hi2 : ¬ e.backBufferIndex % UINT_SIZE ≥ FRAME_COUNT := hi
      unfold submitFrame
      simp only [afterValidate_of_valid s hv, hv, log_eq, throwHR_snd, apply_ite Prod.snd,
        apply_ite D3D12Renderer.m_frameIndex, emit_proj, put_m_frameIndex_proj,
        put_m_time_proj, dispatchCompute_proj, writeConstants_proj, Bool.not_true,
        Bool.false_eq_true, if_false]
      simp only [ite_self]
      omega
  · have hv2 : ValidateResources s = false := by simpa using hv
    unfold submitFrame at h
    simp only [hv2, Bool.not_false, if_true] at h
    split_ifs at h

/-- The per-slot access of `RenderFallback` is out of range only when the
reported index is; with an index in range the call faults only on a null
allocator. -/
theorem RenderFallback_fst_fault (e : FallbackEnv) (s : D3D12Renderer)
    (hi : e.backBufferIndex % UINT_SIZE < FRAME_COUNT)
    (h : (RenderFallback e s).1 = Outcome.fault) :
    s.ptr (Handle.m_commandAllocators (e.backBufferIndex % UINT_SIZE)) = false := by
  have hi2 : ¬ e.backBufferIndex % UINT_SIZE ≥ FRAME_COUNT := by omega
  unfold RenderFallback at h
  simp only [log_eq, throwHR_fst, apply_ite Prod.fst, emit_proj, put_m_frameIndex_proj, hi2,
    if_false] at h
  by_cases hc : s.ptr (Handle.m_commandAllocators (e.backBufferIndex % UINT_SIZE)) = true
  · rw [hc] at h
    simp only [Bool.not_true, Bool.false_eq_true, if_false] at h
    split_ifs at h
  · simpa using hc

/-- The per-slot access of `CaptureDesktop` is the only source of undefined
behaviour in it, and it is in range when `m_frameIndex` is. -/
theorem CaptureDesktop_fst_fault (e : CaptureEnv) (s : D3D12Renderer)
    (h : (CaptureDesktop e s).1 = Outcome.fault) : FRAME_COUNT ≤ s.m_frameIndex := by
  have hf := congrArg (fun t => t.1) (CaptureDesktop_frames e s)
  simp only [] at hf
  rw [h] at hf
  simp only [apply_ite (fun t : Outcome × Nat × Nat => t.1)] at hf
  split_ifs at hf with h1 h2 h3 h4
  exact h4

/-! ## C28: the slot index when the reported index is in range -/

/-- C28, amended. On the renderer reached from construction by any operations
to which the swap chain reported back buffer indices below `FRAME_COUNT`,
`m_frameIndex` is below `FRAME_COUNT`; `CaptureDesktop`, which indexes with the
stored value, then makes no out-of-range access and leaves the index;
`RenderFallback` and `Render`, given indices below `FRAME_COUNT` again, leave
`m_frameIndex` below `FRAME_COUNT`, and `RenderFallback` is undefined only on a
null allocator of the reported slot. For every 32-bit value only `Render`
checks: a pass on valid resources that is given an index of `FRAME_COUNT` or
more stores it, logs and returns false with nothing recorded on the command
list, and a pass that reaches `Present` has an index below `FRAME_COUNT`. -/
theorem C28_slot_index_in_range (d c : Bool) (ops : List Op)
    (hops : ∀ o ∈ ops, o.indexInRange) :
    (run ops (D3D12Renderer.ctor d c)).m_frameIndex < FRAME_COUNT ∧
    (∀ e : CaptureEnv,
      (CaptureDesktop e (run ops (D3D12Renderer.ctor d c))).1 ≠ Outcome.fault ∧
      (CaptureDesktop e (run ops (D3D12Renderer.ctor d c))).2.m_frameIndex =
        (run ops (D3D12Renderer.ctor d c)).m_frameIndex) ∧
    (∀ e : FallbackEnv, e.backBufferIndex % UINT_SIZE < FRAME_COUNT →
      (RenderFallback e (run ops (D3D12Renderer.ctor d c))).2.m_frameIndex < FRAME_COUNT ∧
      ((RenderFallback e (run ops (D3D12Renderer.ctor d c))).1 = Outcome.fault →
        (run ops (D3D12Renderer.ctor d c)).ptr
          (Handle.m_commandAllocators (e.backBufferIndex % UINT_SIZE)) = false)) ∧
    (∀ env : Nat → PassEnv, (∀ k, (env k).indexInRange) →
      (Render env (run ops (D3D12Renderer.ctor d c))).2.m_frameIndex < FRAME_COUNT) ∧
    (∀ (e : PassEnv) (s : D3D12Renderer), ValidateResources s = true →
      FRAME_COUNT ≤ e.backBufferIndex % UINT_SIZE →
      submitFrame e s =
        (some (Outcome.ret false),
          ((s.log "Rendering frame...\n").put_m_frameIndex (e.backBufferIndex % UINT_SIZE)).log
            "Invalid frame index or resources\n")) ∧
    (∀ (e : PassEnv) (s : D3D12Renderer), (submitFrame e s).1 = none →
      (submitFrame e s).2.m_frameIndex < FRAME_COUNT) := by
  have h0 : (D3D12Renderer.ctor d c).m_frameIndex < FRAME_COUNT := by
    unfold D3D12Renderer.ctor
    exact Nat.succ_pos 2
  have hr := run_m_frameIndex ops hops _ h0
  refine ⟨hr, fun e => ⟨fun hf => ?_, CaptureDesktop_m_frameIndex e _⟩, fun e he => ⟨?_, ?_⟩,
    fun env henv => Render_m_frameIndex env henv _ hr, submitFrame_of_bad_index,
    submitFrame_none_index⟩
  · exact absurd hr (Nat.not_lt.mpr (CaptureDesktop_fst_fault e _ hf))
  · rcases RenderFallback_m_frameIndex e (run ops (D3D12Renderer.ctor d c)) with h | h
    · rw [h]; exact hr
    · rw [h]; exact he
  · exact RenderFallback_fst_fault e _ he

theorem C28_slot_index_in_range_witness :
    (∀ o ∈ sessionOps, o.indexInRange) ∧
    (run sessionOps (D3D12Renderer.ctor false false)).m_frameIndex = 0 ∧
    (run [Op.Initialize okInit, Op.CaptureDesktop okCapture, Op.Render passOnSlot1]
      (D3D12Renderer.ctor false false)).m_frameIndex = 1 ∧
    (CaptureDesktop okCapture (run sessionOps (D3D12Renderer.ctor false false))).1
      = Outcome.ret true ∧
    (run sessionOps (D3D12Renderer.ctor false false)).m_frameIndex < FRAME_COUNT ∧
    (CaptureDesktop okCapture (run sessionOps (D3D12Renderer.ctor false false))).1
      ≠ Outcome.fault := by
  have hops : ∀ o ∈ sessionOps, o.indexInRange := by
    intro o ho
    unfold sessionOps at ho
    simp only [List.mem_cons, List.mem_singleton, List.not_mem_nil, or_false] at ho
    rcases ho with rfl | rfl | rfl | rfl | rfl
    · exact True.intro
    · exact True.intro
    · intro k
      show (1 % UINT_SIZE < FRAME_COUNT) ∧ (okFallback.backBufferIndex % UINT_SIZE < FRAME_COUNT)
      exact ⟨by decide, by decide⟩
    · show okFallback.backBufferIndex % UINT_SIZE < FRAME_COUNT
      decide
    · exact True.intro
  have h := C28_slot_index_in_range false false sessionOps hops
  refine ⟨hops, ?_, ?_, ?_, h.1, (h.2.1 okCapture).1⟩
  · set_option maxRecDepth 100000 in
    with_unfolding_all decide
  · set_option maxRecDepth 100000 in
    with_unfolding_all decide
  · set_option maxRecDepth 100000 in
    with_unfolding_all decide

end Main
